import Mathlib

/-!
# Avatar data stream codec (`AvatarDataStream.hpp`)

A shallow embedding of `AvatarDataStream<Derived>::toByteArray` and
`AvatarDataStream<Derived>::parseDataFromBuffer` and of the helpers they use, followed by
theorems about the snapshot codec.

Conventions of the embedding.

* A byte is a natural number below 256, a buffer is a `List Nat`.
* A `float` is kept as its 32-bit IEEE-754 pattern (a natural number below `2 ^ 32`); `memcpy` of a
  float writes the four little-endian bytes of the pattern.
* `destinationBuffer` and `sourceBuffer` are kept as offsets from the start of the buffer.
* Functions that the sources call but that live in other libraries (`GLMHelpers`, `AudioHelpers`,
  `glm`) are fields of the structure `Extern`; a packer returns the bytes it writes as one
  little-endian number.
* The nullable out-parameters `sentJointDataOut` and `outboundDataRateOut` of `toByteArray` are
  taken to be null, and the inbound rate meters of `parseDataFromBuffer` are left out: they are
  write-only counters.
-/

namespace AvatarDataStream

/-! ## Bytes and floats -/

/-- The `n` little-endian bytes of `x` (what `memcpy` writes for an `n`-byte integer). -/
def leBytes : Nat → Nat → List Nat
  | 0, _ => []
  | n + 1, x => (x % 256) :: leBytes n (x / 256)

/-- The number whose little-endian bytes are `bs` (what `memcpy` reads back). -/
def fromLE : List Nat → Nat
  | [] => 0
  | b :: bs => b + 256 * fromLE bs

/-- The bytes `[pos, pos + n)` of a buffer; a read that runs past the end yields what is there. -/
def readBytes (buf : List Nat) (pos n : Nat) : List Nat :=
  (buf.drop pos).take n

/-- The byte at `pos` (`*sourceBuffer`); zero past the end. -/
def readByte (buf : List Nat) (pos : Nat) : Nat :=
  buf.getD pos 0

/-- Three floats. -/
structure Vec3 where
  x : Nat
  y : Nat
  z : Nat
deriving DecidableEq, Repr, Inhabited

/-- A quaternion of four floats. -/
structure Quat where
  x : Nat
  y : Nat
  z : Nat
  w : Nat
deriving DecidableEq, Repr, Inhabited

/-- The twelve bytes of three floats. -/
def Vec3.bytes (v : Vec3) : List Nat :=
  leBytes 4 v.x ++ leBytes 4 v.y ++ leBytes 4 v.z

/-- Three floats read at `pos`. -/
def readVec3 (buf : List Nat) (pos : Nat) : Vec3 :=
  { x := fromLE (readBytes buf pos 4)
    y := fromLE (readBytes buf (pos + 4) 4)
    z := fromLE (readBytes buf (pos + 8) 4) }

/-- The sixteen bytes of four floats in the order `a, b, c, d`. -/
def floats4 (a b c d : Nat) : List Nat :=
  leBytes 4 a ++ leBytes 4 b ++ leBytes 4 c ++ leBytes 4 d

/-- IEEE-754 single precision: the value is a NaN (`value != value`). -/
def isNaN (f : Nat) : Bool :=
  decide ((f / 2 ^ 23) % 256 = 255 ∧ f % 2 ^ 23 ≠ 0)

/-- The function `fabsf`: clear the sign bit. -/
def fabsf (f : Nat) : Nat :=
  f % 2 ^ 31

/-- IEEE-754 comparison `a < b` on 32-bit patterns. -/
def floatLess (a b : Nat) : Bool :=
  if isNaN a || isNaN b then false
  else
    let ma := a % 2 ^ 31
    let mb := b % 2 ^ 31
    let sa := (a / 2 ^ 31) % 2
    let sb := (b / 2 ^ 31) % 2
    if sa = 0 then
      if sb = 0 then decide (ma < mb) else false
    else
      if sb = 0 then decide (ma ≠ 0 ∨ mb ≠ 0) else decide (mb < ma)

/-- IEEE-754 comparison `a == b` on 32-bit patterns. -/
def floatEq (a b : Nat) : Bool :=
  if isNaN a || isNaN b then false
  else decide (a % 2 ^ 32 = b % 2 ^ 32 ∨ (a % 2 ^ 31 = 0 ∧ b % 2 ^ 31 = 0))

/-- The function `glm::max(x, y)`, that is `(x < y) ? y : x`. -/
def glmMax (x y : Nat) : Nat :=
  if floatLess x y then y else x

/-- Component-wise `a != b` of `glm::quat`. -/
def quatNe (a b : Quat) : Bool :=
  !(floatEq a.x b.x && floatEq a.y b.y && floatEq a.z b.z && floatEq a.w b.w)

/-- Component-wise `a != b` of `glm::vec3`. -/
def vec3Ne (a b : Vec3) : Bool :=
  !(floatEq a.x b.x && floatEq a.y b.y && floatEq a.z b.z)

/-- The pattern of the literal `0.001f`. -/
def FLOAT_0_001 : Nat := 0x3A83126F

/-- The pattern of `AUDIO_LOUDNESS_SCALE = 1024.0f`. -/
def AUDIO_LOUDNESS_SCALE : Nat := 0x44800000

/-- The constant `TRANSLATION_COMPRESSION_RADIX`. -/
def TRANSLATION_COMPRESSION_RADIX : Nat := 14

/-- The constant `HAND_CONTROLLER_COMPRESSION_RADIX`. -/
def HAND_CONTROLLER_COMPRESSION_RADIX : Nat := 12

/-- The constant `SENSOR_TO_WORLD_SCALE_RADIX`. -/
def SENSOR_TO_WORLD_SCALE_RADIX : Nat := 10

/-- Modelled from the spec: `BITS_IN_BYTE` of `NumericalConstants.h`. -/
def BITS_IN_BYTE : Nat := 8

/-- Modelled from the spec: `NUM_BYTES_RFC4122_UUID` of `UUID.h`, the 16 bytes of a session id. -/
def NUM_BYTES_RFC4122_UUID : Nat := 16

/-! ## What the sources use from other libraries -/

/-- The quantizers, float arithmetic and tuning constants that `AvatarDataStream.hpp` uses but
does not define. A packer yields the bytes it writes, read as one little-endian number; an
unpacker takes the bytes it reads in the same form. -/
structure Extern where
  packOrientationQuatToSixBytes : Quat → Nat
  unpackOrientationQuatFromSixBytes : Nat → Quat
  packFloatVec3ToSignedTwoByteFixed : Vec3 → Nat → Nat
  unpackFloatVec3FromSignedTwoByteFixed : Nat → Nat → Vec3
  packFloatRatioToTwoByte : Nat → Nat
  unpackFloatRatioFromTwoByte : Nat → Nat
  packFloatGainToByte : Nat → Nat
  unpackFloatGainFromByte : Nat → Nat
  packFloatScalarToSignedTwoByteFixed : Nat → Nat → Nat
  unpackFloatScalarFromSignedTwoByteFixed : Nat → Nat → Nat
  fdiv : Nat → Nat → Nat
  fmul : Nat → Nat → Nat
  dot : Quat → Quat → Nat
  distance : Vec3 → Vec3 → Nat
  AVATAR_MIN_ROTATION_DOT : Nat
  ROTATION_CHANGE_2D : Nat
  ROTATION_CHANGE_4D : Nat
  ROTATION_CHANGE_6D : Nat
  ROTATION_CHANGE_15D : Nat
  ROTATION_CHANGE_179D : Nat
  AVATAR_DISTANCE_LEVEL_1 : Nat
  AVATAR_DISTANCE_LEVEL_2 : Nat
  AVATAR_DISTANCE_LEVEL_3 : Nat
  AVATAR_DISTANCE_LEVEL_4 : Nat
  AVATAR_DISTANCE_LEVEL_5 : Nat
  AVATAR_MIN_TRANSLATION : Nat

/-- Division of a vector by a float, `v / s`. -/
def Extern.vecDiv (X : Extern) (v : Vec3) (s : Nat) : Vec3 :=
  { x := X.fdiv v.x s, y := X.fdiv v.y s, z := X.fdiv v.z s }

/-- Multiplication of a vector by a float, `v *= s`. -/
def Extern.vecMul (X : Extern) (v : Vec3) (s : Nat) : Vec3 :=
  { x := X.fmul v.x s, y := X.fmul v.y s, z := X.fmul v.z s }

/-! ## Packet flags and section sizes (`AvatarDataPacket`) -/

/-! The `PACKET_HAS_*` bits of `AvatarDataPacket::HasFlags` are declared in the header
`AvatarDataStream.h`; bit `k` is the `k`-th row of the table of section 3 of the spec. -/

/-- Modelled from the spec: the mask bit of GLOBAL_POS, row 1 of the table of section 3
(header `AvatarDataStream.h`). -/
def PACKET_HAS_AVATAR_GLOBAL_POSITION : Nat := 1 <<< 0

/-- Modelled from the spec: the mask bit of BOUNDING_BOX, row 2 of the table of section 3
(header `AvatarDataStream.h`). -/
def PACKET_HAS_AVATAR_BOUNDING_BOX : Nat := 1 <<< 1

/-- Modelled from the spec: the mask bit of ORIENTATION, row 3 of the table of section 3
(header `AvatarDataStream.h`). -/
def PACKET_HAS_AVATAR_ORIENTATION : Nat := 1 <<< 2

/-- Modelled from the spec: the mask bit of SCALE, row 4 of the table of section 3
(header `AvatarDataStream.h`). -/
def PACKET_HAS_AVATAR_SCALE : Nat := 1 <<< 3

/-- Modelled from the spec: the mask bit of LOOK_AT, row 5 of the table of section 3
(header `AvatarDataStream.h`). -/
def PACKET_HAS_LOOK_AT_POSITION : Nat := 1 <<< 4

/-- Modelled from the spec: the mask bit of AUDIO_LOUDNESS, row 6 of the table of section 3
(header `AvatarDataStream.h`). -/
def PACKET_HAS_AUDIO_LOUDNESS : Nat := 1 <<< 5

/-- Modelled from the spec: the mask bit of SENSOR_TO_WORLD, row 7 of the table of section 3
(header `AvatarDataStream.h`). -/
def PACKET_HAS_SENSOR_TO_WORLD_MATRIX : Nat := 1 <<< 6

/-- Modelled from the spec: the mask bit of ADDITIONAL_FLAGS, row 8 of the table of section 3
(header `AvatarDataStream.h`). -/
def PACKET_HAS_ADDITIONAL_FLAGS : Nat := 1 <<< 7

/-- Modelled from the spec: the mask bit of PARENT_INFO, row 9 of the table of section 3
(header `AvatarDataStream.h`). -/
def PACKET_HAS_PARENT_INFO : Nat := 1 <<< 8

/-- Modelled from the spec: the mask bit of LOCAL_POS, row 10 of the table of section 3
(header `AvatarDataStream.h`). -/
def PACKET_HAS_AVATAR_LOCAL_POSITION : Nat := 1 <<< 9

/-- Modelled from the spec: the mask bit of HAND_CONTROLLERS, row 11 of the table of section 3
(header `AvatarDataStream.h`). -/
def PACKET_HAS_HAND_CONTROLLERS : Nat := 1 <<< 10

/-- Modelled from the spec: the mask bit of FACE_TRACKER, row 12 of the table of section 3
(header `AvatarDataStream.h`). -/
def PACKET_HAS_FACE_TRACKER_INFO : Nat := 1 <<< 11

/-- Modelled from the spec: the mask bit of JOINT_DATA, row 13 of the table of section 3
(header `AvatarDataStream.h`). -/
def PACKET_HAS_JOINT_DATA : Nat := 1 <<< 12

/-- Modelled from the spec: the mask bit of JOINT_DEFAULT_POSE_FLAGS, row 14 of the table of section 3
(header `AvatarDataStream.h`). -/
def PACKET_HAS_JOINT_DEFAULT_POSE_FLAGS : Nat := 1 <<< 13

/-- Modelled from the spec: the mask bit of GRAB_JOINTS, row 15 of the table of section 3
(header `AvatarDataStream.h`). -/
def PACKET_HAS_GRAB_JOINTS : Nat := 1 <<< 14

/-! The wire sizes are `sizeof` of the packed structs of the header `AvatarDataStream.h`. -/

/-- Modelled from the spec: the wire size of GLOBAL_POS in the table of section 3 (a `sizeof` of the
header `AvatarDataStream.h`). -/
def AVATAR_GLOBAL_POSITION_SIZE : Nat := 12

/-- Modelled from the spec: the wire size of BOUNDING_BOX in the table of section 3 (a `sizeof` of the
header `AvatarDataStream.h`). -/
def AVATAR_BOUNDING_BOX_SIZE : Nat := 24

/-- Modelled from the spec: the wire size of ORIENTATION in the table of section 3 (a `sizeof` of the
header `AvatarDataStream.h`). -/
def AVATAR_ORIENTATION_SIZE : Nat := 6

/-- Modelled from the spec: the wire size of SCALE in the table of section 3 (a `sizeof` of the
header `AvatarDataStream.h`). -/
def AVATAR_SCALE_SIZE : Nat := 2

/-- Modelled from the spec: the wire size of LOOK_AT in the table of section 3 (a `sizeof` of the
header `AvatarDataStream.h`). -/
def LOOK_AT_POSITION_SIZE : Nat := 12

/-- Modelled from the spec: the wire size of AUDIO_LOUDNESS in the table of section 3 (a `sizeof` of the
header `AvatarDataStream.h`). -/
def AUDIO_LOUDNESS_SIZE : Nat := 1

/-- Modelled from the spec: the wire size of SENSOR_TO_WORLD in the table of section 3 (a `sizeof` of the
header `AvatarDataStream.h`). -/
def SENSOR_TO_WORLD_SIZE : Nat := 20

/-- Modelled from the spec: the wire size of ADDITIONAL_FLAGS in the table of section 3 (a `sizeof` of the
header `AvatarDataStream.h`). -/
def ADDITIONAL_FLAGS_SIZE : Nat := 2

/-- Modelled from the spec: the wire size of PARENT_INFO in the table of section 3 (a `sizeof` of the
header `AvatarDataStream.h`). -/
def PARENT_INFO_SIZE : Nat := 18

/-- Modelled from the spec: the wire size of LOCAL_POS in the table of section 3 (a `sizeof` of the
header `AvatarDataStream.h`). -/
def AVATAR_LOCAL_POSITION_SIZE : Nat := 12

/-- Modelled from the spec: the wire size of HAND_CONTROLLERS in the table of section 3 (a `sizeof` of the
header `AvatarDataStream.h`). -/
def HAND_CONTROLLERS_SIZE : Nat := 24

/-- Modelled from the spec: the wire size of GRAB_JOINTS in the table of section 3 (a `sizeof` of the
header `AvatarDataStream.h`). -/
def FAR_GRAB_JOINTS_SIZE : Nat := 84

/-- Modelled from the spec: `sizeof(AvatarDataPacket::SixByteQuat)`, a quaternion in 6 bytes. -/
def SIX_BYTE_QUAT_SIZE : Nat := 6

/-- Modelled from the spec: the size of the 16-bit mask `AvatarDataPacket::HasFlags`. -/
def HEADER_SIZE : Nat := 2

/-- Modelled from the spec: `sizeof(AvatarDataPacket::FaceTrackerInfo)`, a struct of the header
`AvatarDataStream.h`. The encoder fills four floats and the one-byte coefficient count, which
section 3 lists as the blendshape header; packed, that is 17 bytes. -/
def FACE_TRACKER_INFO_SIZE : Nat := 17

/-- Modelled from the spec: `AvatarDataPacket::MIN_BULK_PACKET_SIZE` of the header
`AvatarDataStream.h`, the 16-byte session id plus the 2-byte mask. -/
def MIN_BULK_PACKET_SIZE : Nat := NUM_BYTES_RFC4122_UUID + HEADER_SIZE

/-- Modelled from the spec: `calcBitVectorSize` of `BitVectorHelpers.h`; a bit-vector of `n` bits
takes `⌈n/8⌉` bytes. -/
def calcBitVectorSize (numBits : Nat) : Nat :=
  (numBits + 7) / 8

/-- Modelled from the spec: `AvatarDataPacket::MAX_CONSTANT_HEADER_SIZE` of the header
`AvatarDataStream.h`: the mask and every fixed-size section. -/
def MAX_CONSTANT_HEADER_SIZE : Nat :=
  HEADER_SIZE + AVATAR_GLOBAL_POSITION_SIZE + AVATAR_BOUNDING_BOX_SIZE + AVATAR_ORIENTATION_SIZE +
    AVATAR_SCALE_SIZE + LOOK_AT_POSITION_SIZE + AUDIO_LOUDNESS_SIZE + SENSOR_TO_WORLD_SIZE +
    ADDITIONAL_FLAGS_SIZE + PARENT_INFO_SIZE + AVATAR_LOCAL_POSITION_SIZE + HAND_CONTROLLERS_SIZE

/-- Modelled from the spec: `AvatarDataPacket::maxFaceTrackerInfoSize`, the blendshape header and
`N` floats. -/
def maxFaceTrackerInfoSize (numBlendshapeCoefficients : Nat) : Nat :=
  FACE_TRACKER_INFO_SIZE + numBlendshapeCoefficients * 4

/-- Modelled from the spec: `AvatarDataPacket::maxJointDataSize`, the joint section of 4.4 with
every rotation and every translation present. -/
def maxJointDataSize (numJoints : Nat) : Nat :=
  1 + calcBitVectorSize numJoints + numJoints * 6 + calcBitVectorSize numJoints + 4 + numJoints * 6

/-- Modelled from the spec: `AvatarDataPacket::minJointDataSize`. The call site says "room for the
most minimal section, i.e. no translations or rotations": the count byte, the two validity vectors
and the scale float. -/
def minJointDataSize (numJoints : Nat) : Nat :=
  1 + calcBitVectorSize numJoints + calcBitVectorSize numJoints + 4

/-- Modelled from the spec: `AvatarDataPacket::maxJointDefaultPoseFlagsSize`, the count byte and
two bit-vectors. -/
def maxJointDefaultPoseFlagsSize (numJoints : Nat) : Nat :=
  1 + 2 * calcBitVectorSize numJoints

/-! ## The avatar state read by the encoder (the `*Out` getters of `Derived`) -/

/-- One joint (`JointData`). -/
structure JointData where
  rotation : Quat
  translation : Vec3
  rotationIsDefaultPose : Bool
  translationIsDefaultPose : Bool
deriving DecidableEq, Repr, Inhabited

/-- The value of `getAdditionalFlagsOut` and the argument of `setAdditionalFlagsIn`. -/
structure AdditionalFlags where
  keyState : Nat
  handState : Nat
  headHasScriptedBlendshapes : Bool
  headHasProceduralEyeMovement : Bool
  headHasAudioEnabledFaceMovement : Bool
  headHasProceduralEyeFaceMovement : Bool
  headHasProceduralBlinkFaceMovement : Bool
  collideWithOtherAvatars : Bool
  hasPriority : Bool
deriving DecidableEq, Repr, Inhabited

/-- One hand controller (`HandControllerVantage`). -/
structure HandControllerVantage where
  orientation : Quat
  position : Vec3
deriving DecidableEq, Repr, Inhabited

/-- The three far-grab poses (`AvatarDataPacket::FarGrabJoints`), 21 floats. -/
structure FarGrabJoints where
  leftFarGrabPosition : Vec3
  leftFarGrabRotation : Quat
  rightFarGrabPosition : Vec3
  rightFarGrabRotation : Quat
  mouseFarGrabPosition : Vec3
  mouseFarGrabRotation : Quat
deriving DecidableEq, Repr, Inhabited

/-- The value of `getFaceTrackerInfoOut`. -/
structure FaceTrackerInfo where
  leftEyeBlink : Nat
  rightEyeBlink : Nat
  averageLoudness : Nat
  browAudioLift : Nat
  blendshapeCoefficients : List Nat
deriving DecidableEq, Repr, Inhabited

/-- The value of `getSensorToWorldMatrixOut`. -/
structure SensorToWorld where
  translation : Vec3
  rotation : Quat
  scale : Vec3
deriving DecidableEq, Repr, Inhabited

/-- The state that the encoder reads through the `*Out` getters of the derived class. -/
structure Avatar where
  sessionUUID : Nat
  globalPosition : Vec3
  avatarDimensions : Vec3
  boundOriginOffset : Vec3
  orientation : Quat
  scale : Nat
  lookAtPosition : Vec3
  audioLoudness : Nat
  sensorToWorldMatrix : SensorToWorld
  additionalFlags : AdditionalFlags
  parentUUID : Nat
  parentJointIndex : Nat
  localPosition : Vec3
  leftHand : HandControllerVantage
  rightHand : HandControllerVantage
  faceTracker : FaceTrackerInfo
  jointData : List JointData
  farGrabJoints : FarGrabJoints
deriving Repr, Inhabited

/-- The getter `getJointDataSizeOut`. -/
def Avatar.getJointDataSizeOut (A : Avatar) : Nat :=
  A.jointData.length

/-- The getter `getJointDataOut(i)`. -/
def Avatar.getJointDataOut (A : Avatar) (i : Nat) : JointData :=
  A.jointData.getD i default

/-- The continuation record `AvatarDataPacket::SendStatus`. -/
structure SendStatus where
  itemFlags : Nat
  sendUUID : Bool
  rotationsSent : Nat
  translationsSent : Nat
deriving DecidableEq, Repr, Inhabited

/-- The detail levels `AvatarDataDetail`. -/
inductive AvatarDataDetail where
  | NoData
  | PALMinimum
  | MinimumData
  | CullSmallData
  | SendAllData
deriving DecidableEq, Repr, Inhabited

/-! ## Bit helpers -/

/-- Modelled from the spec: `setSemiNibbleAt` of `SharedUtil.h` on a 16-bit word; section 3
numbers the bits of the flag word from the least significant one. -/
def setSemiNibbleAt (word bitIndex value : Nat) : Nat :=
  (word ||| (value <<< bitIndex)) % 65536

/-- Modelled from the spec: `getSemiNibbleAt` of `SharedUtil.h`, the two bits at `bitIndex`. -/
def getSemiNibbleAt (word bitIndex : Nat) : Nat :=
  (word >>> bitIndex) &&& 3

/-- Modelled from the spec: `setAtBit16` of `SharedUtil.h`. -/
def setAtBit16 (word atBit : Nat) : Nat :=
  (word ||| (1 <<< atBit)) % 65536

/-- Modelled from the spec: `oneAtBit16` of `SharedUtil.h`. -/
def oneAtBit16 (word atBit : Nat) : Bool :=
  decide ((word >>> atBit) &&& 1 ≠ 0)

/-- Modelled from the spec: bit 0 of the ADDITIONAL_FLAGS word (header `AvatarDataStream.h`). -/
def KEY_STATE_START_BIT : Nat := 0

/-- Modelled from the spec: bit 2 of the ADDITIONAL_FLAGS word (header `AvatarDataStream.h`). -/
def HAND_STATE_START_BIT : Nat := 2

/-- Modelled from the spec: bit 4 of the ADDITIONAL_FLAGS word (header `AvatarDataStream.h`). -/
def HAS_SCRIPTED_BLENDSHAPES : Nat := 4

/-- Modelled from the spec: bit 5 of the ADDITIONAL_FLAGS word (header `AvatarDataStream.h`). -/
def HAS_PROCEDURAL_EYE_MOVEMENT : Nat := 5

/-- Modelled from the spec: bit 6 of the ADDITIONAL_FLAGS word (header `AvatarDataStream.h`). -/
def HAS_REFERENTIAL : Nat := 6

/-- Modelled from the spec: bit 7 of the ADDITIONAL_FLAGS word (header `AvatarDataStream.h`). -/
def HAND_STATE_FINGER_POINTING_BIT : Nat := 7

/-- Modelled from the spec: bit 8 of the ADDITIONAL_FLAGS word (header `AvatarDataStream.h`). -/
def AUDIO_ENABLED_FACE_MOVEMENT : Nat := 8

/-- Modelled from the spec: bit 9 of the ADDITIONAL_FLAGS word (header `AvatarDataStream.h`). -/
def PROCEDURAL_EYE_FACE_MOVEMENT : Nat := 9

/-- Modelled from the spec: bit 10 of the ADDITIONAL_FLAGS word (header `AvatarDataStream.h`). -/
def PROCEDURAL_BLINK_FACE_MOVEMENT : Nat := 10

/-- Modelled from the spec: bit 11 of the ADDITIONAL_FLAGS word (header `AvatarDataStream.h`). -/
def COLLIDE_WITH_OTHER_AVATARS : Nat := 11

/-- Modelled from the spec: bit 12 of the ADDITIONAL_FLAGS word (header `AvatarDataStream.h`). -/
def HAS_HERO_PRIORITY : Nat := 12

/-- Modelled from the spec: `IS_FINGER_POINTING_FLAG` (header `AvatarDataStream.h`), bit 2 of the
hand state. -/
def IS_FINGER_POINTING_FLAG : Nat := 4

/-- Modelled from the spec: one byte of `writeBitVector` (`BitVectorHelpers.h`): bit `b` of byte
`k` is the predicate at index `8 k + b`, least significant bit first. -/
def bitVectorByte (numBits : Nat) (f : Nat → Bool) (k : Nat) : Nat :=
  (List.range 8).foldl
    (fun acc b => if k * 8 + b < numBits ∧ f (k * 8 + b) = true then acc ||| (1 <<< b) else acc) 0

/-- Modelled from the spec: `writeBitVector` of `BitVectorHelpers.h`: `⌈numBits/8⌉` bytes. -/
def writeBitVector (numBits : Nat) (f : Nat → Bool) : List Nat :=
  (List.range (calcBitVectorSize numBits)).map (bitVectorByte numBits f)

/-- Bit `i` of a bit-vector that starts at `pos`: byte `i / 8`, bit `i % 8`. -/
def bitAt (buf : List Nat) (pos i : Nat) : Bool :=
  (readByte buf (pos + i / BITS_IN_BYTE)).testBit (i % BITS_IN_BYTE)

/-- The statement `validityPosition[i / BITS_IN_BYTE] |= 1 << (i % BITS_IN_BYTE)`. -/
def setValidityBit (validity : List Nat) (i : Nat) : List Nat :=
  validity.set (i / BITS_IN_BYTE)
    ((validity.getD (i / BITS_IN_BYTE) 0 ||| (1 <<< (i % BITS_IN_BYTE))) % 256)

/-- The bytes of a run of floats (`memcpy` of a float array). -/
def floatsBytes : List Nat → List Nat
  | [] => []
  | f :: fs => leBytes 4 f ++ floatsBytes fs

/-! ## The encoder `toByteArray` -/

/-- The function `getDistanceBasedMinRotationDOT`. -/
def getDistanceBasedMinRotationDOT (X : Extern) (A : Avatar) (viewerPosition : Vec3) : Nat :=
  let distance := X.distance A.globalPosition viewerPosition
  if floatLess distance X.AVATAR_DISTANCE_LEVEL_1 then X.AVATAR_MIN_ROTATION_DOT
  else if floatLess distance X.AVATAR_DISTANCE_LEVEL_2 then X.ROTATION_CHANGE_2D
  else if floatLess distance X.AVATAR_DISTANCE_LEVEL_3 then X.ROTATION_CHANGE_4D
  else if floatLess distance X.AVATAR_DISTANCE_LEVEL_4 then X.ROTATION_CHANGE_6D
  else if floatLess distance X.AVATAR_DISTANCE_LEVEL_5 then X.ROTATION_CHANGE_15D
  else X.ROTATION_CHANGE_179D

/-- The function `getDistanceBasedMinTranslationDistance`. -/
def getDistanceBasedMinTranslationDistance (X : Extern) (_viewerPosition : Vec3) : Nat :=
  X.AVATAR_MIN_TRANSLATION

/-- The space test `(packetEnd - destinationBuffer) >= (ptrdiff_t)(space)`. -/
def hasSpace (packetEnd dest space : Nat) : Bool :=
  decide ((space : Int) ≤ (packetEnd : Int) - (dest : Int))

/-- The bytes written after the mask slot and the mask built so far. -/
structure Enc where
  body : List Nat
  includedFlags : Nat
deriving DecidableEq, Repr, Inhabited

/-- The macro `IF_AVATAR_SPACE(flag, space) { ... }` for a block that writes `content`: `start` is
the offset just after the mask slot, so `destinationBuffer` is `start + body.length`. -/
def ifAvatarSpace (wantedFlags packetEnd start flag space : Nat) (content : List Nat)
    (e : Enc) : Enc :=
  if (wantedFlags &&& flag ≠ 0) ∧ hasSpace packetEnd (start + e.body.length) space = true then
    { body := e.body ++ content, includedFlags := e.includedFlags ||| flag }
  else e

/-- The bytes of `toRfc4122()` of the session id. -/
def sessionUUIDBytes (A : Avatar) : List Nat :=
  leBytes NUM_BYTES_RFC4122_UUID A.sessionUUID

/-- The block of PACKET_HAS_AVATAR_GLOBAL_POSITION. -/
def globalPositionBytes (A : Avatar) : List Nat :=
  A.globalPosition.bytes

/-- The block of PACKET_HAS_AVATAR_BOUNDING_BOX. -/
def boundingBoxBytes (A : Avatar) : List Nat :=
  A.avatarDimensions.bytes ++ A.boundOriginOffset.bytes

/-- The block of PACKET_HAS_AVATAR_ORIENTATION. -/
def orientationBytes (X : Extern) (A : Avatar) : List Nat :=
  leBytes 6 (X.packOrientationQuatToSixBytes A.orientation)

/-- The block of PACKET_HAS_AVATAR_SCALE. -/
def scaleBytes (X : Extern) (A : Avatar) : List Nat :=
  leBytes 2 (X.packFloatRatioToTwoByte A.scale)

/-- The block of PACKET_HAS_LOOK_AT_POSITION. -/
def lookAtPositionBytes (A : Avatar) : List Nat :=
  A.lookAtPosition.bytes

/-- The block of PACKET_HAS_AUDIO_LOUDNESS. -/
def audioLoudnessBytes (X : Extern) (A : Avatar) : List Nat :=
  leBytes 1 (X.packFloatGainToByte (X.fdiv A.audioLoudness AUDIO_LOUDNESS_SCALE))

/-- The block of PACKET_HAS_SENSOR_TO_WORLD_MATRIX. Modelled from the spec: the field order of
the struct `SensorToWorldMatrix` (header `AvatarDataStream.h`) is that of the table of section 3,
translation, quaternion, scale. -/
def sensorToWorldBytes (X : Extern) (A : Avatar) : List Nat :=
  A.sensorToWorldMatrix.translation.bytes ++
    leBytes 6 (X.packOrientationQuatToSixBytes A.sensorToWorldMatrix.rotation) ++
    leBytes 2 (X.packFloatScalarToSignedTwoByteFixed A.sensorToWorldMatrix.scale.x
      SENSOR_TO_WORLD_SCALE_RADIX)

/-- The 16-bit word built in the block of PACKET_HAS_ADDITIONAL_FLAGS. -/
def additionalFlagsWord (A : Avatar) : Nat :=
  let f := A.additionalFlags
  let flags := setSemiNibbleAt 0 KEY_STATE_START_BIT f.keyState
  let isFingerPointing := decide ((f.handState % 256) &&& IS_FINGER_POINTING_FLAG ≠ 0)
  let flags := setSemiNibbleAt flags HAND_STATE_START_BIT
    ((f.handState % 256) &&& (255 ^^^ IS_FINGER_POINTING_FLAG))
  let flags := if isFingerPointing then setAtBit16 flags HAND_STATE_FINGER_POINTING_BIT else flags
  let flags := if f.headHasScriptedBlendshapes then setAtBit16 flags HAS_SCRIPTED_BLENDSHAPES
    else flags
  let flags := if f.headHasProceduralEyeMovement then setAtBit16 flags HAS_PROCEDURAL_EYE_MOVEMENT
    else flags
  let parentIsNull := decide (A.parentUUID % 2 ^ 128 = 0)
  let flags := if !parentIsNull then setAtBit16 flags HAS_REFERENTIAL else flags
  let flags := if f.headHasAudioEnabledFaceMovement then
    setAtBit16 flags AUDIO_ENABLED_FACE_MOVEMENT else flags
  let flags := if f.headHasProceduralEyeFaceMovement then
    setAtBit16 flags PROCEDURAL_EYE_FACE_MOVEMENT else flags
  let flags := if f.headHasProceduralBlinkFaceMovement then
    setAtBit16 flags PROCEDURAL_BLINK_FACE_MOVEMENT else flags
  let flags := if f.collideWithOtherAvatars then setAtBit16 flags COLLIDE_WITH_OTHER_AVATARS
    else flags
  let flags := if f.hasPriority then setAtBit16 flags HAS_HERO_PRIORITY else flags
  flags

/-- The block of PACKET_HAS_ADDITIONAL_FLAGS. -/
def additionalFlagsBytes (A : Avatar) : List Nat :=
  leBytes 2 (additionalFlagsWord A)

/-- The block of PACKET_HAS_PARENT_INFO: the parent id and the 16-bit joint index. -/
def parentInfoBytes (A : Avatar) : List Nat :=
  leBytes 16 A.parentUUID ++ leBytes 2 A.parentJointIndex

/-- The block of PACKET_HAS_AVATAR_LOCAL_POSITION. -/
def localPositionBytes (A : Avatar) : List Nat :=
  A.localPosition.bytes

/-- One hand of the block of PACKET_HAS_HAND_CONTROLLERS. -/
def handControllerBytes (X : Extern) (h : HandControllerVantage) : List Nat :=
  leBytes 6 (X.packOrientationQuatToSixBytes h.orientation) ++
    leBytes 6 (X.packFloatVec3ToSignedTwoByteFixed h.position HAND_CONTROLLER_COMPRESSION_RADIX)

/-- The block of PACKET_HAS_HAND_CONTROLLERS. -/
def handControllersBytes (X : Extern) (A : Avatar) : List Nat :=
  handControllerBytes X A.leftHand ++ handControllerBytes X A.rightHand

/-- The block of PACKET_HAS_FACE_TRACKER_INFO: four floats, the count byte, the coefficients. -/
def faceTrackerBytes (A : Avatar) : List Nat :=
  floats4 A.faceTracker.leftEyeBlink A.faceTracker.rightEyeBlink A.faceTracker.averageLoudness
      A.faceTracker.browAudioLift ++
    [A.faceTracker.blendshapeCoefficients.length % 256] ++
    floatsBytes A.faceTracker.blendshapeCoefficients

/-- The space asked for the block of PACKET_HAS_FACE_TRACKER_INFO. -/
def faceTrackerSpace (A : Avatar) : Nat :=
  FACE_TRACKER_INFO_SIZE + A.faceTracker.blendshapeCoefficients.length * 4

/-- The twelve position-independent blocks that precede the joint data, in source order, each with
its flag, the space its `IF_AVATAR_SPACE` asks for, and the bytes its body writes. -/
def leadingSections (X : Extern) (A : Avatar) : List (Nat × Nat × List Nat) :=
  [ (PACKET_HAS_AVATAR_GLOBAL_POSITION, AVATAR_GLOBAL_POSITION_SIZE, globalPositionBytes A),
    (PACKET_HAS_AVATAR_BOUNDING_BOX, AVATAR_BOUNDING_BOX_SIZE, boundingBoxBytes A),
    (PACKET_HAS_AVATAR_ORIENTATION, SIX_BYTE_QUAT_SIZE, orientationBytes X A),
    (PACKET_HAS_AVATAR_SCALE, AVATAR_SCALE_SIZE, scaleBytes X A),
    (PACKET_HAS_LOOK_AT_POSITION, LOOK_AT_POSITION_SIZE, lookAtPositionBytes A),
    (PACKET_HAS_AUDIO_LOUDNESS, AUDIO_LOUDNESS_SIZE, audioLoudnessBytes X A),
    (PACKET_HAS_SENSOR_TO_WORLD_MATRIX, SENSOR_TO_WORLD_SIZE, sensorToWorldBytes X A),
    (PACKET_HAS_ADDITIONAL_FLAGS, ADDITIONAL_FLAGS_SIZE, additionalFlagsBytes A),
    (PACKET_HAS_PARENT_INFO, PARENT_INFO_SIZE, parentInfoBytes A),
    (PACKET_HAS_AVATAR_LOCAL_POSITION, AVATAR_LOCAL_POSITION_SIZE, localPositionBytes A),
    (PACKET_HAS_HAND_CONTROLLERS, HAND_CONTROLLERS_SIZE, handControllersBytes X A),
    (PACKET_HAS_FACE_TRACKER_INFO, faceTrackerSpace A, faceTrackerBytes A) ]

/-- The run of `IF_AVATAR_SPACE` blocks over a list of sections, one after the other. -/
def encodeSections (wantedFlags packetEnd start : Nat) :
    List (Nat × Nat × List Nat) → Enc → Enc
  | [], e => e
  | s :: rest, e =>
    encodeSections wantedFlags packetEnd start rest
      (ifAvatarSpace wantedFlags packetEnd start s.1 s.2.1 s.2.2 e)

/-- The loop that computes `maxTranslationDimension` over the joints `i, i + 1, ...`; `fuel` is
the number of joints left, `numJoints - i`. -/
def maxTranslationDimensionLoop (A : Avatar) : Nat → Nat → Nat → Nat
  | 0, _, m => m
  | fuel + 1, i, m =>
    let data := A.getJointDataOut i
    if !data.translationIsDefaultPose then
      let m := glmMax (fabsf data.translation.x) m
      let m := glmMax (fabsf data.translation.y) m
      let m := glmMax (fabsf data.translation.z) m
      maxTranslationDimensionLoop A fuel (i + 1) m
    else
      maxTranslationDimensionLoop A fuel (i + 1) m

/-- The state of a joint loop: the loop index, the validity vector written in place, the bytes
appended after it, and the indices of the joints whose value was packed. -/
structure JointLoop where
  i : Nat
  validity : List Nat
  out : List Nat
  written : List Nat
deriving DecidableEq, Repr, Inhabited

/-- The test under which the rotation of a joint that is reached with enough space is packed. -/
def sendRotation (X : Extern) (sendAll cullSmallChanges : Bool) (minRotationDOT : Nat)
    (last data : JointData) : Bool :=
  !data.rotationIsDefaultPose &&
    (sendAll || last.rotationIsDefaultPose ||
      (!cullSmallChanges && quatNe last.rotation data.rotation) ||
      (cullSmallChanges && floatLess (fabsf (X.dot last.rotation data.rotation)) minRotationDOT))

/-- The test under which the translation of a joint that is reached with enough space is
packed. -/
def sendTranslation (X : Extern) (sendAll cullSmallChanges : Bool) (minTranslation : Nat)
    (last data : JointData) : Bool :=
  !data.translationIsDefaultPose &&
    (sendAll || last.translationIsDefaultPose ||
      (!cullSmallChanges && vec3Ne last.translation data.translation) ||
      (cullSmallChanges &&
        floatLess minTranslation (X.distance data.translation last.translation)))

/-- The rotation loop `for (; i < numJoints; ++i)`; `fuel` is `numJoints - i`, `base` the offset
of the first byte after the validity vector, so `destinationBuffer` is `base + out.length`. -/
def rotationLoop (X : Extern) (A : Avatar) (lastSentJointData : List JointData)
    (sendAll cullSmallChanges : Bool) (minRotationDOT packetEnd minSizeForJoint base : Nat) :
    Nat → JointLoop → JointLoop
  | 0, s => s
  | fuel + 1, s =>
    if hasSpace packetEnd (base + s.out.length) minSizeForJoint = true then
      let data := A.getJointDataOut s.i
      let last := lastSentJointData.getD s.i default
      if sendRotation X sendAll cullSmallChanges minRotationDOT last data = true then
        rotationLoop X A lastSentJointData sendAll cullSmallChanges minRotationDOT packetEnd
          minSizeForJoint base fuel
          { i := s.i + 1
            validity := setValidityBit s.validity s.i
            out := s.out ++ leBytes 6 (X.packOrientationQuatToSixBytes data.rotation)
            written := s.written ++ [s.i] }
      else
        rotationLoop X A lastSentJointData sendAll cullSmallChanges minRotationDOT packetEnd
          minSizeForJoint base fuel { s with i := s.i + 1 }
    else s

/-- The translation loop `for (; i < numJoints; ++i)`; `fuel` is `numJoints - i`, `base` the
offset of the first byte after the scale float. -/
def translationLoop (X : Extern) (A : Avatar) (lastSentJointData : List JointData)
    (sendAll cullSmallChanges : Bool)
    (minTranslation maxTranslationDimension packetEnd minSizeForJoint base : Nat) :
    Nat → JointLoop → JointLoop
  | 0, s => s
  | fuel + 1, s =>
    if hasSpace packetEnd (base + s.out.length) minSizeForJoint = true then
      let data := A.getJointDataOut s.i
      let last := lastSentJointData.getD s.i default
      if sendTranslation X sendAll cullSmallChanges minTranslation last data = true then
        translationLoop X A lastSentJointData sendAll cullSmallChanges minTranslation
          maxTranslationDimension packetEnd minSizeForJoint base fuel
          { i := s.i + 1
            validity := setValidityBit s.validity s.i
            out := s.out ++ leBytes 6 (X.packFloatVec3ToSignedTwoByteFixed
              (X.vecDiv data.translation maxTranslationDimension) TRANSLATION_COMPRESSION_RADIX)
            written := s.written ++ [s.i] }
      else
        translationLoop X A lastSentJointData sendAll cullSmallChanges minTranslation
          maxTranslationDimension packetEnd minSizeForJoint base fuel { s with i := s.i + 1 }
    else s

/-- What the inner block of the joint data section produces. -/
structure JointSection where
  bytes : List Nat
  rotationsSent : Nat
  translationsSent : Nat
  rotationsWritten : List Nat
  translationsWritten : List Nat
  rotationValidity : List Nat
  rotationBlock : List Nat
  translationValidity : List Nat
  maxTranslationDimension : Nat
  translationBlock : List Nat
deriving DecidableEq, Repr, Inhabited

/-- The local `minSizeForJoint`: a packed quaternion, the following validity vector and the
scale float. -/
def minSizeForJoint (numJoints : Nat) : Nat :=
  SIX_BYTE_QUAT_SIZE + calcBitVectorSize numJoints + 4

/-- The local `minRotationDOT`. -/
def minRotationDOTFor (X : Extern) (A : Avatar) (distanceAdjust cullSmallChanges : Bool)
    (viewerPosition : Vec3) : Nat :=
  if distanceAdjust && cullSmallChanges then getDistanceBasedMinRotationDOT X A viewerPosition
  else X.AVATAR_MIN_ROTATION_DOT

/-- The local `minTranslation`. -/
def minTranslationFor (X : Extern) (distanceAdjust cullSmallChanges : Bool)
    (viewerPosition : Vec3) : Nat :=
  if distanceAdjust && cullSmallChanges then
    getDistanceBasedMinTranslationDistance X viewerPosition
  else X.AVATAR_MIN_TRANSLATION

/-- The local `maxTranslationDimension`, computed over the joints from
`sendStatus.translationsSent` on, starting from `0.001f`. -/
def maxTranslationDimensionFor (A : Avatar) (translationsSent numJoints : Nat) : Nat :=
  maxTranslationDimensionLoop A (numJoints - translationsSent) translationsSent FLOAT_0_001

/-- The rotation part of the joint data section entered at offset `dest`: the count byte and the
zeroed validity vector take `1 + jointBitVectorSize` bytes, then the loop runs from
`sendStatus.rotationsSent`. -/
def rotationPass (X : Extern) (A : Avatar) (lastSentJointData : List JointData)
    (rotationsSent : Nat) (sendAll cullSmallChanges distanceAdjust : Bool)
    (viewerPosition : Vec3) (packetEnd numJoints dest : Nat) : JointLoop :=
  rotationLoop X A lastSentJointData sendAll cullSmallChanges
    (minRotationDOTFor X A distanceAdjust cullSmallChanges viewerPosition) packetEnd
    (minSizeForJoint numJoints) (dest + 1 + calcBitVectorSize numJoints)
    (numJoints - rotationsSent)
    { i := rotationsSent, validity := List.replicate (calcBitVectorSize numJoints) 0, out := [],
      written := [] }

/-- The translation part of the joint data section, entered with `destinationBuffer` at offset
`dest`: the zeroed validity vector and the scale float take `jointBitVectorSize + 4` bytes, then
the loop runs from `sendStatus.translationsSent`. -/
def translationPass (X : Extern) (A : Avatar) (lastSentJointData : List JointData)
    (translationsSent : Nat) (sendAll cullSmallChanges distanceAdjust : Bool)
    (viewerPosition : Vec3) (packetEnd numJoints dest : Nat) : JointLoop :=
  translationLoop X A lastSentJointData sendAll cullSmallChanges
    (minTranslationFor X distanceAdjust cullSmallChanges viewerPosition)
    (maxTranslationDimensionFor A translationsSent numJoints) packetEnd
    (minSizeForJoint numJoints) (dest + calcBitVectorSize numJoints + 4)
    (numJoints - translationsSent)
    { i := translationsSent, validity := List.replicate (calcBitVectorSize numJoints) 0,
      out := [], written := [] }

/-- The inner block of `IF_AVATAR_SPACE(PACKET_HAS_JOINT_DATA, ...)`, entered with
`destinationBuffer` at offset `dest`. -/
def jointDataSection (X : Extern) (A : Avatar) (lastSentJointData : List JointData)
    (rotationsSent translationsSent : Nat) (sendAll cullSmallChanges distanceAdjust : Bool)
    (viewerPosition : Vec3) (packetEnd numJoints dest : Nat) : JointSection :=
  let rot := rotationPass X A lastSentJointData rotationsSent sendAll cullSmallChanges
    distanceAdjust viewerPosition packetEnd numJoints dest
  let tr := translationPass X A lastSentJointData translationsSent sendAll cullSmallChanges
    distanceAdjust viewerPosition packetEnd numJoints
    (dest + 1 + calcBitVectorSize numJoints + rot.out.length)
  { bytes := [numJoints % 256] ++ rot.validity ++ rot.out ++ tr.validity ++
      leBytes 4 (maxTranslationDimensionFor A translationsSent numJoints) ++ tr.out
    rotationsSent := rot.i
    translationsSent := tr.i
    rotationsWritten := rot.written
    translationsWritten := tr.written
    rotationValidity := rot.validity
    rotationBlock := rot.out
    translationValidity := tr.validity
    maxTranslationDimension := maxTranslationDimensionFor A translationsSent numJoints
    translationBlock := tr.out }

/-- The 84 bytes of `AvatarDataPacket::FarGrabJoints`: for the left, right and mouse pose three
floats of position and four of rotation. -/
def farGrabJointsBytes (g : FarGrabJoints) : List Nat :=
  g.leftFarGrabPosition.bytes ++
    floats4 g.leftFarGrabRotation.w g.leftFarGrabRotation.x g.leftFarGrabRotation.y
      g.leftFarGrabRotation.z ++
    g.rightFarGrabPosition.bytes ++
    floats4 g.rightFarGrabRotation.w g.rightFarGrabRotation.x g.rightFarGrabRotation.y
      g.rightFarGrabRotation.z ++
    g.mouseFarGrabPosition.bytes ++
    floats4 g.mouseFarGrabRotation.w g.mouseFarGrabRotation.x g.mouseFarGrabRotation.y
      g.mouseFarGrabRotation.z

/-- The state after the block `IF_AVATAR_SPACE(PACKET_HAS_JOINT_DATA, ...)`. -/
structure JointStep where
  enc : Enc
  rotationsSent : Nat
  translationsSent : Nat
  extraReturnedFlags : Nat
  joints : Option JointSection
deriving DecidableEq, Repr, Inhabited

/-- The block `IF_AVATAR_SPACE(PACKET_HAS_JOINT_DATA, minJointDataSize(numJoints))` with the
nested block of PACKET_HAS_GRAB_JOINTS. -/
def jointDataStep (X : Extern) (A : Avatar) (lastSentJointData : List JointData)
    (rotationsSent translationsSent : Nat) (sendAll cullSmallChanges distanceAdjust : Bool)
    (viewerPosition : Vec3) (wantedFlags packetEnd start numJoints : Nat) (e : Enc) : JointStep :=
  if (wantedFlags &&& PACKET_HAS_JOINT_DATA ≠ 0) ∧
      hasSpace packetEnd (start + e.body.length) (minJointDataSize numJoints) = true then
    let js := jointDataSection X A lastSentJointData rotationsSent translationsSent sendAll
      cullSmallChanges distanceAdjust viewerPosition packetEnd numJoints (start + e.body.length)
    let e1 : Enc :=
      { body := e.body ++ js.bytes, includedFlags := e.includedFlags ||| PACKET_HAS_JOINT_DATA }
    let e2 := ifAvatarSpace wantedFlags packetEnd start PACKET_HAS_GRAB_JOINTS FAR_GRAB_JOINTS_SIZE
      (farGrabJointsBytes A.farGrabJoints) e1
    { enc := e2
      rotationsSent := js.rotationsSent
      translationsSent := js.translationsSent
      extraReturnedFlags :=
        if js.rotationsSent ≠ numJoints ∨ js.translationsSent ≠ numJoints then
          PACKET_HAS_JOINT_DATA
        else 0
      joints := some js }
  else
    { enc := e, rotationsSent := rotationsSent, translationsSent := translationsSent,
      extraReturnedFlags := 0, joints := none }

/-- The block of PACKET_HAS_JOINT_DEFAULT_POSE_FLAGS: the count byte and the two bit-vectors. -/
def jointDefaultPoseFlagsBytes (A : Avatar) (numJoints : Nat) : List Nat :=
  [numJoints % 256] ++
    writeBitVector numJoints (fun i => (A.getJointDataOut i).rotationIsDefaultPose) ++
    writeBitVector numJoints (fun i => (A.getJointDataOut i).translationIsDefaultPose)

/-- The size `byteArraySize` of the buffer that `toByteArray` allocates. -/
def byteArraySize (A : Avatar) : Nat :=
  MAX_CONSTANT_HEADER_SIZE + NUM_BYTES_RFC4122_UUID +
    maxFaceTrackerInfoSize A.faceTracker.blendshapeCoefficients.length +
    maxJointDataSize A.getJointDataSizeOut +
    maxJointDefaultPoseFlagsSize A.getJointDataSizeOut +
    FAR_GRAB_JOINTS_SIZE

/-- The local `wantedFlags` after the branch `if (sendStatus.itemFlags == 0)`: a new avatar takes
`itemFlagsInit` (a 16-bit parameter, so reduced modulo `2 ^ 16`), a continuing one takes the flags
left over, with PACKET_HAS_JOINT_DATA forced on when PACKET_HAS_GRAB_JOINTS is among them. -/
def wantedFlagsFor (itemFlagsInit : Nat) (sendStatus : SendStatus) : Nat :=
  if sendStatus.itemFlags = 0 then itemFlagsInit % 65536
  else if sendStatus.itemFlags &&& PACKET_HAS_GRAB_JOINTS ≠ 0 then
    sendStatus.itemFlags ||| PACKET_HAS_JOINT_DATA
  else sendStatus.itemFlags

/-- The field `sendStatus.rotationsSent` after the branch `if (sendStatus.itemFlags == 0)`. -/
def rotationsSentFor (sendStatus : SendStatus) : Nat :=
  if sendStatus.itemFlags = 0 then 0 else sendStatus.rotationsSent

/-- The field `sendStatus.translationsSent` after the branch `if (sendStatus.itemFlags == 0)`. -/
def translationsSentFor (sendStatus : SendStatus) : Nat :=
  if sendStatus.itemFlags = 0 then 0 else sendStatus.translationsSent

/-- The local `numJoints`: the joint count when joint data or default-pose flags are wanted. -/
def numJointsFor (A : Avatar) (wantedFlags : Nat) : Nat :=
  if wantedFlags &&& (PACKET_HAS_JOINT_DATA ||| PACKET_HAS_JOINT_DEFAULT_POSE_FLAGS) ≠ 0 then
    A.getJointDataSizeOut
  else 0

/-- The local `packetEnd`, as an offset: `maxDataSize`, or `byteArraySize` when that is zero. -/
def packetEndFor (A : Avatar) (maxDataSize : Nat) : Nat :=
  if maxDataSize = 0 then byteArraySize A else maxDataSize

/-- The bytes written before the mask slot: the session id when `sendStatus.sendUUID`. -/
def uuidBytesFor (A : Avatar) (sendStatus : SendStatus) : List Nat :=
  if sendStatus.sendUUID then sessionUUIDBytes A else []

/-- The offset of `destinationBuffer` just after the mask slot. -/
def startFor (A : Avatar) (sendStatus : SendStatus) : Nat :=
  (uuidBytesFor A sendStatus).length + HEADER_SIZE

/-- The state after the twelve blocks that precede the joint data, run from an empty body. -/
def leadingEnc (X : Extern) (A : Avatar) (wantedFlags packetEnd start : Nat) : Enc :=
  encodeSections wantedFlags packetEnd start (leadingSections X A)
    { body := [], includedFlags := 0 }

/-- All the `IF_AVATAR_SPACE` blocks of `toByteArray`, from PACKET_HAS_AVATAR_GLOBAL_POSITION to
PACKET_HAS_JOINT_DEFAULT_POSE_FLAGS, run from an empty body. -/
def encodeBlocks (X : Extern) (A : Avatar) (lastSentJointData : List JointData)
    (rotationsSent translationsSent : Nat) (sendAll cullSmallChanges distanceAdjust : Bool)
    (viewerPosition : Vec3) (wantedFlags packetEnd start : Nat) : JointStep :=
  let e := leadingEnc X A wantedFlags packetEnd start
  let numJoints := numJointsFor A wantedFlags
  let jointBitVectorSize := calcBitVectorSize numJoints
  let j := jointDataStep X A lastSentJointData rotationsSent translationsSent sendAll
    cullSmallChanges distanceAdjust viewerPosition wantedFlags packetEnd start numJoints e
  { j with
    enc := ifAvatarSpace wantedFlags packetEnd start PACKET_HAS_JOINT_DEFAULT_POSE_FLAGS
      (1 + 2 * jointBitVectorSize) (jointDefaultPoseFlagsBytes A numJoints) j.enc }

/-- The blocks of `toByteArray` run with the locals that the call sets up from its arguments. -/
def encodeBlocksFor (X : Extern) (A : Avatar) (itemFlagsInit : Nat)
    (dataDetail : AvatarDataDetail) (lastSentJointData : List JointData)
    (sendStatus : SendStatus) (distanceAdjust : Bool) (viewerPosition : Vec3)
    (maxDataSize : Nat) : JointStep :=
  encodeBlocks X A lastSentJointData (rotationsSentFor sendStatus)
    (translationsSentFor sendStatus) (decide (dataDetail = AvatarDataDetail.SendAllData))
    (decide (dataDetail = AvatarDataDetail.CullSmallData)) distanceAdjust viewerPosition
    (wantedFlagsFor itemFlagsInit sendStatus) (packetEndFor A maxDataSize)
    (startFor A sendStatus)

/-- What a call of `toByteArray` yields: the returned buffer, the updated `sendStatus`, and the
values of the locals `wantedFlags`, `includedFlags`, `extraReturnedFlags`, `numJoints` and
`packetEnd` at the end of the call, with the joint section when one was written. -/
structure Encoded where
  bytes : List Nat
  sendStatus : SendStatus
  wantedFlags : Nat
  includedFlags : Nat
  extraReturnedFlags : Nat
  numJoints : Nat
  packetEnd : Nat
  joints : Option JointSection
deriving DecidableEq, Repr, Inhabited

/-- The function `toByteArray(itemFlagsInit, dataDetail, lastSentJointData, sendStatus,
distanceAdjust, viewerPosition, sentJointDataOut, maxDataSize, outboundDataRateOut)`; `none` is
a call that ends in `abort()`. -/
def toByteArray (X : Extern) (A : Avatar) (itemFlagsInit : Nat) (dataDetail : AvatarDataDetail)
    (lastSentJointData : List JointData) (sendStatus : SendStatus) (distanceAdjust : Bool)
    (viewerPosition : Vec3) (maxDataSize : Nat) : Option Encoded :=
  if ¬ (maxDataSize = 0 ∨ MIN_BULK_PACKET_SIZE ≤ maxDataSize) then none
  else if dataDetail = AvatarDataDetail.NoData then
    some
      { bytes := uuidBytesFor A sendStatus ++ leBytes HEADER_SIZE 0
        sendStatus := { sendStatus with itemFlags := 0 }
        wantedFlags := 0
        includedFlags := 0
        extraReturnedFlags := 0
        numJoints := 0
        packetEnd := maxDataSize
        joints := none }
  else
    let wantedFlags := wantedFlagsFor itemFlagsInit sendStatus
    let j := encodeBlocksFor X A itemFlagsInit dataDetail lastSentJointData sendStatus
      distanceAdjust viewerPosition maxDataSize
    let itemFlags :=
      ((wantedFlags &&& (j.enc.includedFlags ^^^ 65535)) ||| j.extraReturnedFlags) % 65536
    let avatarDataSize := startFor A sendStatus + j.enc.body.length
    if byteArraySize A < avatarDataSize then none
    else
      some
        { bytes := uuidBytesFor A sendStatus ++ leBytes HEADER_SIZE j.enc.includedFlags ++
            j.enc.body
          sendStatus :=
            { itemFlags := itemFlags
              sendUUID := sendStatus.sendUUID
              rotationsSent := j.rotationsSent
              translationsSent := j.translationsSent }
          wantedFlags := wantedFlags
          includedFlags := j.enc.includedFlags
          extraReturnedFlags := j.extraReturnedFlags
          numJoints := numJointsFor A wantedFlags
          packetEnd := packetEndFor A maxDataSize
          joints := j.joints }

/-! ## The decoder `parseDataFromBuffer` -/

/-- The names that `packetReadCheck` is called with. -/
inductive FieldName where
  | AvatarGlobalPosition
  | AvatarBoundingBox
  | AvatarOrientation
  | AvatarScale
  | LookAtPosition
  | AudioLoudness
  | SensorToWorldMatrix
  | AdditionalFlags
  | ParentInfo
  | AvatarLocalPosition
  | FaceTrackerInfo
  | FaceTrackerCoefficients
  | NumJoints
  | JointRotationValidityBits
  | JointRotations
  | JointTranslationValidityBits
  | JointMaxTranslationDimension
  | JointTranslation
  | FarGrabJoints
  | JointDefaultPoseFlagsNumJoints
  | JointDefaultPoseFlagsRotationFlags
  | JointDefaultPoseFlagsTranslationFlags
deriving DecidableEq, Repr, Inhabited

/-- The messages that `onParseError` is called with. -/
inductive ParseErrorReason where
  | scaleNaN
  | lookAtPositionNaN
  | audioLoudnessNaN
  | positionNaN
deriving DecidableEq, Repr, Inhabited

/-- A call that the decoder makes into the derived class: a state sink or an error callback. -/
inductive Event where
  | setGlobalPositionIn (globalPosition : Vec3)
  | setBoundingBoxIn (avatarDimensions boundOriginOffset : Vec3)
  | setOrientationIn (orientation : Quat)
  | setScaleIn (scale : Nat)
  | setLookAtPositionIn (lookAtPosition : Vec3)
  | setAudioLoudnessIn (audioLoudness : Nat)
  | setSensorToWorldMatrixIn (matrix : SensorToWorld)
  | setAdditionalFlagsIn (flags : AdditionalFlags)
  | setParentInfoIn (parentUUID parentJointIndex : Nat)
  | setLocalPositionIn (localPosition : Vec3)
  | setHandControllersIn (left right : HandControllerVantage)
  | setFaceTrackerInfoIn (info : FaceTrackerInfo)
  | setJointDataSizeIn (numJoints : Nat)
  | setJointDataRotationIn (index : Nat) (rotation : Quat)
  | setJointDataRotationDefaultIn (index : Nat) (value : Bool)
  | setJointDataPositionIn (index : Nat) (translation : Vec3)
  | setJointDataPositionDefaultIn (index : Nat) (value : Bool)
  | setFarGrabJointsIn (farGrabJoints : FarGrabJoints)
  | onPacketTooSmallError (name : FieldName) (needed available : Int)
  | onParseError (reason : ParseErrorReason)
deriving DecidableEq, Repr, Inhabited

/-- The decoder state: the offset of `sourceBuffer` and the calls made so far, in order. -/
structure Dec where
  pos : Nat
  events : List Event
deriving DecidableEq, Repr, Inhabited

/-- Append one call to the trace. -/
def Dec.call (d : Dec) (e : Event) : Dec :=
  { d with events := d.events ++ [e] }

/-- Advance `sourceBuffer` by `n` bytes. -/
def Dec.advance (d : Dec) (n : Nat) : Dec :=
  { d with pos := d.pos + n }

/-- The test `HAS_FLAG(B, F)`, that is `(B & F) == F`. -/
def hasFlag (b f : Nat) : Bool :=
  decide (b &&& f = f)

/-- The lambda `packetReadCheck(name, sizeToRead)`: `Except.error` is the path on which it
returns false and the caller returns `buffer.size()`. -/
def packetReadCheck (buf : List Nat) (name : FieldName) (sizeToRead : Nat) (d : Dec) :
    Except Dec Dec :=
  if (buf.length : Int) - (d.pos : Int) < (sizeToRead : Int) then
    Except.error (d.call (Event.onPacketTooSmallError name sizeToRead
      ((buf.length : Int) - (d.pos : Int))))
  else Except.ok d

/-- The block `if (hasAvatarGlobalPosition)`. -/
def parseGlobalPosition (buf : List Nat) (d : Dec) : Except Dec Dec := do
  let d ← packetReadCheck buf FieldName.AvatarGlobalPosition AVATAR_GLOBAL_POSITION_SIZE d
  pure ((d.call (Event.setGlobalPositionIn (readVec3 buf d.pos))).advance
    AVATAR_GLOBAL_POSITION_SIZE)

/-- The block `if (hasAvatarBoundingBox)`. -/
def parseBoundingBox (buf : List Nat) (d : Dec) : Except Dec Dec := do
  let d ← packetReadCheck buf FieldName.AvatarBoundingBox AVATAR_BOUNDING_BOX_SIZE d
  pure ((d.call (Event.setBoundingBoxIn (readVec3 buf d.pos) (readVec3 buf (d.pos + 12)))).advance
    AVATAR_BOUNDING_BOX_SIZE)

/-- The block `if (hasAvatarOrientation)`. -/
def parseOrientation (X : Extern) (buf : List Nat) (d : Dec) : Except Dec Dec := do
  let d ← packetReadCheck buf FieldName.AvatarOrientation AVATAR_ORIENTATION_SIZE d
  let newOrientation := X.unpackOrientationQuatFromSixBytes (fromLE (readBytes buf d.pos 6))
  pure ((d.advance 6).call (Event.setOrientationIn newOrientation))

/-- The block `if (hasAvatarScale)`. -/
def parseScale (X : Extern) (buf : List Nat) (d : Dec) : Except Dec Dec := do
  let d ← packetReadCheck buf FieldName.AvatarScale AVATAR_SCALE_SIZE d
  let scale := X.unpackFloatRatioFromTwoByte (fromLE (readBytes buf d.pos 2))
  if isNaN scale = true then
    Except.error (d.call (Event.onParseError ParseErrorReason.scaleNaN))
  else
    pure ((d.call (Event.setScaleIn scale)).advance AVATAR_SCALE_SIZE)

/-- The test `std::any_of(data, data + 3, isNaN)`. -/
def anyNaN (v : Vec3) : Bool :=
  isNaN v.x || isNaN v.y || isNaN v.z

/-- The block `if (hasLookAtPosition)`. -/
def parseLookAtPosition (buf : List Nat) (d : Dec) : Except Dec Dec := do
  let d ← packetReadCheck buf FieldName.LookAtPosition LOOK_AT_POSITION_SIZE d
  let data := readVec3 buf d.pos
  if anyNaN data = true then
    Except.error (d.call (Event.onParseError ParseErrorReason.lookAtPositionNaN))
  else
    pure ((d.call (Event.setLookAtPositionIn data)).advance LOOK_AT_POSITION_SIZE)

/-- The block `if (hasAudioLoudness)`. -/
def parseAudioLoudness (X : Extern) (buf : List Nat) (d : Dec) : Except Dec Dec := do
  let d ← packetReadCheck buf FieldName.AudioLoudness AUDIO_LOUDNESS_SIZE d
  let audioLoudness :=
    X.fmul (X.unpackFloatGainFromByte (fromLE (readBytes buf d.pos 1))) AUDIO_LOUDNESS_SCALE
  let d := d.advance AUDIO_LOUDNESS_SIZE
  if isNaN audioLoudness = true then
    Except.error (d.call (Event.onParseError ParseErrorReason.audioLoudnessNaN))
  else
    pure (d.call (Event.setAudioLoudnessIn audioLoudness))

/-- The block `if (hasSensorToWorldMatrix)`; the field order is that of `sensorToWorldBytes`. -/
def parseSensorToWorldMatrix (X : Extern) (buf : List Nat) (d : Dec) : Except Dec Dec := do
  let d ← packetReadCheck buf FieldName.SensorToWorldMatrix SENSOR_TO_WORLD_SIZE d
  let sensorToWorldQuat :=
    X.unpackOrientationQuatFromSixBytes (fromLE (readBytes buf (d.pos + 12) 6))
  let sensorToWorldScale :=
    X.unpackFloatScalarFromSignedTwoByteFixed (fromLE (readBytes buf (d.pos + 18) 2))
      SENSOR_TO_WORLD_SCALE_RADIX
  let sensorToWorldTrans := readVec3 buf d.pos
  pure ((d.call (Event.setSensorToWorldMatrixIn
    { translation := sensorToWorldTrans
      rotation := sensorToWorldQuat
      scale := { x := sensorToWorldScale, y := sensorToWorldScale, z := sensorToWorldScale } })).advance
    SENSOR_TO_WORLD_SIZE)

/-- The value handed to `setAdditionalFlagsIn` for the 16-bit word `bitItems`. -/
def unpackAdditionalFlags (bitItems : Nat) : AdditionalFlags :=
  let newHandState := getSemiNibbleAt bitItems HAND_STATE_START_BIT +
    (if oneAtBit16 bitItems HAND_STATE_FINGER_POINTING_BIT then IS_FINGER_POINTING_FLAG else 0)
  { keyState := getSemiNibbleAt bitItems KEY_STATE_START_BIT
    handState := newHandState % 256
    headHasScriptedBlendshapes := oneAtBit16 bitItems HAS_SCRIPTED_BLENDSHAPES
    headHasProceduralEyeMovement := oneAtBit16 bitItems HAS_PROCEDURAL_EYE_MOVEMENT
    headHasAudioEnabledFaceMovement := oneAtBit16 bitItems AUDIO_ENABLED_FACE_MOVEMENT
    headHasProceduralEyeFaceMovement := oneAtBit16 bitItems PROCEDURAL_EYE_FACE_MOVEMENT
    headHasProceduralBlinkFaceMovement := oneAtBit16 bitItems PROCEDURAL_BLINK_FACE_MOVEMENT
    collideWithOtherAvatars := oneAtBit16 bitItems COLLIDE_WITH_OTHER_AVATARS
    hasPriority := oneAtBit16 bitItems HAS_HERO_PRIORITY }

/-- The block `if (hasAdditionalFlags)`. -/
def parseAdditionalFlags (buf : List Nat) (d : Dec) : Except Dec Dec := do
  let d ← packetReadCheck buf FieldName.AdditionalFlags ADDITIONAL_FLAGS_SIZE d
  let bitItems := fromLE (readBytes buf d.pos 2)
  pure ((d.call (Event.setAdditionalFlagsIn (unpackAdditionalFlags bitItems))).advance
    ADDITIONAL_FLAGS_SIZE)

/-- The block `if (hasParentInfo)`. -/
def parseParentInfo (buf : List Nat) (d : Dec) : Except Dec Dec := do
  let d ← packetReadCheck buf FieldName.ParentInfo PARENT_INFO_SIZE d
  pure ((d.advance PARENT_INFO_SIZE).call (Event.setParentInfoIn
    (fromLE (readBytes buf d.pos 16)) (fromLE (readBytes buf (d.pos + 16) 2))))

/-- The block `if (hasAvatarLocalPosition)`. -/
def parseLocalPosition (buf : List Nat) (d : Dec) : Except Dec Dec := do
  let d ← packetReadCheck buf FieldName.AvatarLocalPosition AVATAR_LOCAL_POSITION_SIZE d
  let data := readVec3 buf d.pos
  if anyNaN data = true then
    Except.error (d.call (Event.onParseError ParseErrorReason.positionNaN))
  else
    pure ((d.call (Event.setLocalPositionIn data)).advance AVATAR_LOCAL_POSITION_SIZE)

/-- The function `unpackHandController`, reading at offset `pos`; it advances by 12 bytes. -/
def unpackHandController (X : Extern) (buf : List Nat) (pos : Nat) : HandControllerVantage :=
  { orientation := X.unpackOrientationQuatFromSixBytes (fromLE (readBytes buf pos 6))
    position := X.unpackFloatVec3FromSignedTwoByteFixed (fromLE (readBytes buf (pos + 6) 6))
      HAND_CONTROLLER_COMPRESSION_RADIX }

/-- The block `if (hasHandControllers)`: it has no `packetReadCheck`. -/
def parseHandControllers (X : Extern) (buf : List Nat) (d : Dec) : Except Dec Dec :=
  pure ((d.advance 24).call (Event.setHandControllersIn
    (unpackHandController X buf d.pos) (unpackHandController X buf (d.pos + 12))))

/-- The floats of a run of `n` floats that starts at `pos`. -/
def readFloats (buf : List Nat) (pos n : Nat) : List Nat :=
  (List.range n).map (fun k => fromLE (readBytes buf (pos + 4 * k) 4))

/-- The block `if (hasFaceTrackerInfo)`. -/
def parseFaceTrackerInfo (buf : List Nat) (d : Dec) : Except Dec Dec := do
  let d ← packetReadCheck buf FieldName.FaceTrackerInfo FACE_TRACKER_INFO_SIZE d
  let p := d.pos
  let numBlendshapeCoefficients := readByte buf (p + 16)
  let d := d.advance FACE_TRACKER_INFO_SIZE
  let coefficientsSize := 4 * numBlendshapeCoefficients
  let d ← packetReadCheck buf FieldName.FaceTrackerCoefficients coefficientsSize d
  pure ((d.call (Event.setFaceTrackerInfoIn
    { leftEyeBlink := fromLE (readBytes buf p 4)
      rightEyeBlink := fromLE (readBytes buf (p + 4) 4)
      averageLoudness := fromLE (readBytes buf (p + 8) 4)
      browAudioLift := fromLE (readBytes buf (p + 12) 4)
      blendshapeCoefficients := readFloats buf d.pos numBlendshapeCoefficients })).advance
    coefficientsSize)

/-- The validity bits of the joints `0 .. numJoints - 1` of a bit-vector that starts at `pos`, as
the loops `for (int i = 0; i < numJoints; i++)` over `validity` and `validityBit` read them. -/
def readValidity (buf : List Nat) (pos numJoints : Nat) : List Bool :=
  (List.range numJoints).map (fun i => bitAt buf pos i)

/-- The loop that unpacks the valid rotations; the joint index of the head of the list is `i`. -/
def readRotations (X : Extern) (buf : List Nat) : List Bool → Nat → Dec → Dec
  | [], _, d => d
  | valid :: rest, i, d =>
    if valid = true then
      let rotation := X.unpackOrientationQuatFromSixBytes (fromLE (readBytes buf d.pos 6))
      readRotations X buf rest (i + 1)
        (((d.advance 6).call (Event.setJointDataRotationIn i rotation)).call
          (Event.setJointDataRotationDefaultIn i false))
    else readRotations X buf rest (i + 1) d

/-- The loop that unpacks the valid translations; the joint index of the head of the list is
`i`. -/
def readTranslations (X : Extern) (buf : List Nat) (maxTranslationDimension : Nat) :
    List Bool → Nat → Dec → Dec
  | [], _, d => d
  | valid :: rest, i, d =>
    if valid = true then
      let translation := X.vecMul
        (X.unpackFloatVec3FromSignedTwoByteFixed (fromLE (readBytes buf d.pos 6))
          TRANSLATION_COMPRESSION_RADIX) maxTranslationDimension
      readTranslations X buf maxTranslationDimension rest (i + 1)
        (((d.advance 6).call (Event.setJointDataPositionIn i translation)).call
          (Event.setJointDataPositionDefaultIn i false))
    else readTranslations X buf maxTranslationDimension rest (i + 1) d

/-- The 21 floats of `AvatarDataPacket::FarGrabJoints` read at `pos`. -/
def readFarGrabJoints (buf : List Nat) (pos : Nat) : FarGrabJoints :=
  let f := fun k => fromLE (readBytes buf (pos + 4 * k) 4)
  { leftFarGrabPosition := { x := f 0, y := f 1, z := f 2 }
    leftFarGrabRotation := { w := f 3, x := f 4, y := f 5, z := f 6 }
    rightFarGrabPosition := { x := f 7, y := f 8, z := f 9 }
    rightFarGrabRotation := { w := f 10, x := f 11, y := f 12, z := f 13 }
    mouseFarGrabPosition := { x := f 14, y := f 15, z := f 16 }
    mouseFarGrabRotation := { w := f 17, x := f 18, y := f 19, z := f 20 } }

/-- The nested block `if (hasGrabJoints)`. -/
def parseGrabJoints (buf : List Nat) (d : Dec) : Except Dec Dec := do
  let d ← packetReadCheck buf FieldName.FarGrabJoints FAR_GRAB_JOINTS_SIZE d
  pure ((d.call (Event.setFarGrabJointsIn (readFarGrabJoints buf d.pos))).advance
    FAR_GRAB_JOINTS_SIZE)

/-- The block `if (hasJointData)`, with the nested block `if (hasGrabJoints)`. -/
def parseJointData (X : Extern) (buf : List Nat) (hasGrabJoints : Bool) (d : Dec) :
    Except Dec Dec := do
  let d ← packetReadCheck buf FieldName.NumJoints 1 d
  let numJoints := readByte buf d.pos
  let d := d.advance 1
  let bytesOfValidity := (numJoints + (BITS_IN_BYTE - 1)) / BITS_IN_BYTE
  let d ← packetReadCheck buf FieldName.JointRotationValidityBits bytesOfValidity d
  let validRotations := readValidity buf d.pos numJoints
  let numValidJointRotations := validRotations.count true
  let d := d.advance (calcBitVectorSize numJoints)
  let d := d.call (Event.setJointDataSizeIn numJoints)
  let d ← packetReadCheck buf FieldName.JointRotations (numValidJointRotations * 6) d
  let d := readRotations X buf validRotations 0 d
  let d ← packetReadCheck buf FieldName.JointTranslationValidityBits bytesOfValidity d
  let validTranslations := readValidity buf d.pos numJoints
  let numValidJointTranslations := validTranslations.count true
  let d := d.advance (calcBitVectorSize numJoints)
  let d ← packetReadCheck buf FieldName.JointMaxTranslationDimension 4 d
  let maxTranslationDimension := fromLE (readBytes buf d.pos 4)
  let d := d.advance 4
  let d ← packetReadCheck buf FieldName.JointTranslation (numValidJointTranslations * 6) d
  let d := readTranslations X buf maxTranslationDimension validTranslations 0 d
  if hasGrabJoints = true then parseGrabJoints buf d else pure d

/-- Modelled from the spec: the calls of `readBitVector` (`BitVectorHelpers.h`): the callback is
called for every index below `numBits` with the bit at that index. -/
def readBitVector (buf : List Nat) (pos numBits : Nat) (f : Nat → Bool → Event) : List Event :=
  (List.range numBits).map (fun i => f i (bitAt buf pos i))

/-- The block `if (hasJointDefaultPoseFlags)`. -/
def parseJointDefaultPoseFlags (buf : List Nat) (d : Dec) : Except Dec Dec := do
  let d ← packetReadCheck buf FieldName.JointDefaultPoseFlagsNumJoints 1 d
  let numJoints := readByte buf d.pos
  let d := d.advance 1
  let d := d.call (Event.setJointDataSizeIn numJoints)
  let bitVectorSize := calcBitVectorSize numJoints
  let d ← packetReadCheck buf FieldName.JointDefaultPoseFlagsRotationFlags bitVectorSize d
  let d : Dec :=
    { pos := d.pos + bitVectorSize
      events := d.events ++ readBitVector buf d.pos numJoints Event.setJointDataRotationDefaultIn }
  let d ← packetReadCheck buf FieldName.JointDefaultPoseFlagsTranslationFlags bitVectorSize d
  pure
    { pos := d.pos + bitVectorSize
      events := d.events ++ readBitVector buf d.pos numJoints Event.setJointDataPositionDefaultIn }

/-- Run the block `f` when the packet has the flag `flag`. -/
def whenFlag (packetStateFlags flag : Nat) (f : Dec → Except Dec Dec) (d : Dec) :
    Except Dec Dec :=
  if hasFlag packetStateFlags flag = true then f d else pure d

/-- The blocks of `parseDataFromBuffer` that follow the read of the mask, in source order. -/
def parseBlocks (X : Extern) (buf : List Nat) (packetStateFlags : Nat) :
    List (Dec → Except Dec Dec) :=
  [ whenFlag packetStateFlags PACKET_HAS_AVATAR_GLOBAL_POSITION (parseGlobalPosition buf),
    whenFlag packetStateFlags PACKET_HAS_AVATAR_BOUNDING_BOX (parseBoundingBox buf),
    whenFlag packetStateFlags PACKET_HAS_AVATAR_ORIENTATION (parseOrientation X buf),
    whenFlag packetStateFlags PACKET_HAS_AVATAR_SCALE (parseScale X buf),
    whenFlag packetStateFlags PACKET_HAS_LOOK_AT_POSITION (parseLookAtPosition buf),
    whenFlag packetStateFlags PACKET_HAS_AUDIO_LOUDNESS (parseAudioLoudness X buf),
    whenFlag packetStateFlags PACKET_HAS_SENSOR_TO_WORLD_MATRIX (parseSensorToWorldMatrix X buf),
    whenFlag packetStateFlags PACKET_HAS_ADDITIONAL_FLAGS (parseAdditionalFlags buf),
    whenFlag packetStateFlags PACKET_HAS_PARENT_INFO (parseParentInfo buf),
    whenFlag packetStateFlags PACKET_HAS_AVATAR_LOCAL_POSITION (parseLocalPosition buf),
    whenFlag packetStateFlags PACKET_HAS_HAND_CONTROLLERS (parseHandControllers X buf),
    whenFlag packetStateFlags PACKET_HAS_FACE_TRACKER_INFO (parseFaceTrackerInfo buf),
    whenFlag packetStateFlags PACKET_HAS_JOINT_DATA
      (parseJointData X buf (hasFlag packetStateFlags PACKET_HAS_GRAB_JOINTS)),
    whenFlag packetStateFlags PACKET_HAS_JOINT_DEFAULT_POSE_FLAGS
      (parseJointDefaultPoseFlags buf) ]

/-- Run blocks one after the other; a block that returns early ends the run. -/
def runBlocks : List (Dec → Except Dec Dec) → Dec → Except Dec Dec
  | [], d => Except.ok d
  | f :: rest, d =>
    match f d with
    | Except.ok d1 => runBlocks rest d1
    | Except.error d1 => Except.error d1

/-- The mask that `parseDataFromBuffer` reads from the first two bytes. -/
def packetStateFlags (buf : List Nat) : Nat :=
  fromLE (readBytes buf 0 HEADER_SIZE)

/-- The body of `parseDataFromBuffer` up to its last statement; `Except.error` is a
`return buffer.size()` in the middle. -/
def parseSections (X : Extern) (buf : List Nat) : Except Dec Dec :=
  runBlocks (parseBlocks X buf (packetStateFlags buf)) { pos := HEADER_SIZE, events := [] }

/-- What a call of `parseDataFromBuffer` yields: the calls it made, in order, and the value it
returns. -/
structure Parsed where
  events : List Event
  result : Nat
deriving DecidableEq, Repr, Inhabited

/-- The function `parseDataFromBuffer(buffer)`. -/
def parseDataFromBuffer (X : Extern) (buf : List Nat) : Parsed :=
  match parseSections X buf with
  | Except.ok d => { events := d.events, result := d.pos }
  | Except.error d => { events := d.events, result := buf.length }

/-! ## Sample data -/

/-- A sample instance of the external functions: toy quantizers that keep the low 16 bits of each
component, toy arithmetic, and zero thresholds. -/
def sampleExtern : Extern :=
  { packOrientationQuatToSixBytes := fun q =>
      q.x % 65536 + 65536 * (q.y % 65536) + 65536 * 65536 * (q.z % 65536)
    unpackOrientationQuatFromSixBytes := fun n =>
      { x := n % 65536, y := n / 65536 % 65536, z := n / (65536 * 65536) % 65536, w := 0 }
    packFloatVec3ToSignedTwoByteFixed := fun v _ =>
      v.x % 65536 + 65536 * (v.y % 65536) + 65536 * 65536 * (v.z % 65536)
    unpackFloatVec3FromSignedTwoByteFixed := fun n _ =>
      { x := n % 65536, y := n / 65536 % 65536, z := n / (65536 * 65536) % 65536 }
    packFloatRatioToTwoByte := fun f => f % 65536
    unpackFloatRatioFromTwoByte := fun n => n
    packFloatGainToByte := fun f => f % 256
    unpackFloatGainFromByte := fun n => n
    packFloatScalarToSignedTwoByteFixed := fun f _ => f % 65536
    unpackFloatScalarFromSignedTwoByteFixed := fun n _ => n
    fdiv := fun a _ => a
    fmul := fun a _ => a
    dot := fun _ _ => 0
    distance := fun _ _ => 0
    AVATAR_MIN_ROTATION_DOT := 0
    ROTATION_CHANGE_2D := 0
    ROTATION_CHANGE_4D := 0
    ROTATION_CHANGE_6D := 0
    ROTATION_CHANGE_15D := 0
    ROTATION_CHANGE_179D := 0
    AVATAR_DISTANCE_LEVEL_1 := 0
    AVATAR_DISTANCE_LEVEL_2 := 0
    AVATAR_DISTANCE_LEVEL_3 := 0
    AVATAR_DISTANCE_LEVEL_4 := 0
    AVATAR_DISTANCE_LEVEL_5 := 0
    AVATAR_MIN_TRANSLATION := 0 }

/-- A sample joint whose rotation and translation are not the default pose. -/
def sampleJoint : JointData :=
  { rotation := { x := 1, y := 2, z := 3, w := 4 }
    translation := { x := 5, y := 6, z := 7 }
    rotationIsDefaultPose := false
    translationIsDefaultPose := false }

/-- A sample avatar with `n` joints, session id `01 02 .. 10` and global position
`(1.5, -2.25, 3.0)`. -/
def sampleAvatar (n : Nat) : Avatar :=
  { sessionUUID := 0x100F0E0D0C0B0A090807060504030201
    globalPosition := { x := 0x3FC00000, y := 0xC0100000, z := 0x40400000 }
    avatarDimensions := default
    boundOriginOffset := default
    orientation := default
    scale := 0
    lookAtPosition := default
    audioLoudness := 0
    sensorToWorldMatrix := default
    additionalFlags := default
    parentUUID := 0
    parentJointIndex := 0
    localPosition := default
    leftHand := default
    rightHand := default
    faceTracker := default
    jointData := List.replicate n sampleJoint
    farGrabJoints := default }

/-- A fresh send status: nothing left over, no session id. -/
def freshStatus : SendStatus :=
  { itemFlags := 0, sendUUID := false, rotationsSent := 0, translationsSent := 0 }

/-! ## Notions used to state the theorems -/

/-- The wire sizes of the eleven fixed-size sections, in the order of their mask bits. -/
def fixedSectionSizes : List Nat :=
  [AVATAR_GLOBAL_POSITION_SIZE, AVATAR_BOUNDING_BOX_SIZE, AVATAR_ORIENTATION_SIZE,
    AVATAR_SCALE_SIZE, LOOK_AT_POSITION_SIZE, AUDIO_LOUDNESS_SIZE, SENSOR_TO_WORLD_SIZE,
    ADDITIONAL_FLAGS_SIZE, PARENT_INFO_SIZE, AVATAR_LOCAL_POSITION_SIZE, HAND_CONTROLLERS_SIZE]

/-- The bytes taken by those of the first `k` sections of `sizes` whose bit is in `mask`, the
first section having bit `b`. -/
def sectionsOffset (mask : Nat) : List Nat → Nat → Nat → Nat
  | [], _, _ => 0
  | _ :: _, _, 0 => 0
  | size :: rest, b, k + 1 =>
    (if mask.testBit b = true then size else 0) + sectionsOffset mask rest (b + 1) k

/-- The joint data block is entered from the state `e`: its flag is wanted and the most minimal
section fits. -/
def jointEntered (w pe st n : Nat) (e : Enc) : Prop :=
  w.testBit 12 = true ∧ hasSpace pe (st + e.body.length) (minJointDataSize n) = true

/-- The common shape of the rotation loop and the translation loop: joint `i` is packed with
`pack i` when it is reached with `m` bytes of space and `send i` holds. -/
def jointLoop (send : Nat → Bool) (pack : Nat → List Nat) (pe m base : Nat) :
    Nat → JointLoop → JointLoop
  | 0, s => s
  | fuel + 1, s =>
    if hasSpace pe (base + s.out.length) m = true then
      if send s.i = true then
        jointLoop send pack pe m base fuel
          { i := s.i + 1
            validity := setValidityBit s.validity s.i
            out := s.out ++ pack s.i
            written := s.written ++ [s.i] }
      else jointLoop send pack pe m base fuel { s with i := s.i + 1 }
    else s

/-- The packed values of a list of joints, one after the other. -/
def packAll (pack : Nat → List Nat) : List Nat → List Nat
  | [] => []
  | i :: rest => pack i ++ packAll pack rest

/-- The number of bits set among the low eight bits of a byte. -/
def byteCount (b : Nat) : Nat :=
  ((List.range 8).filter (fun k => b.testBit k)).length

/-- The number of bits set in a bit-vector of bytes. -/
def popCount (bytes : List Nat) : Nat :=
  (bytes.map byteCount).sum

/-- Bit `i` of a validity vector: byte `i / 8`, bit `i % 8`, least significant bit first. -/
def validityBit (validity : List Nat) (i : Nat) : Bool :=
  (validity.getD (i / 8) 0).testBit (i % 8)

/-- The rotation test of the loop, as a function of the joint index. -/
def rotationSend (X : Extern) (A : Avatar) (last : List JointData) (sa cull da : Bool)
    (v : Vec3) (i : Nat) : Bool :=
  sendRotation X sa cull (minRotationDOTFor X A da cull v) (last.getD i default)
    (A.getJointDataOut i)

/-- The translation test of the loop, as a function of the joint index. -/
def translationSend (X : Extern) (A : Avatar) (last : List JointData) (sa cull da : Bool)
    (v : Vec3) (i : Nat) : Bool :=
  sendTranslation X sa cull (minTranslationFor X da cull v) (last.getD i default)
    (A.getJointDataOut i)

/-- The six bytes of the rotation of joint `i`. -/
def rotationBytes (X : Extern) (A : Avatar) (i : Nat) : List Nat :=
  leBytes 6 (X.packOrientationQuatToSixBytes (A.getJointDataOut i).rotation)

/-- The six bytes of the translation of joint `i`, scaled by `maxTranslationDimension`. -/
def translationBytes (X : Extern) (A : Avatar) (maxTranslationDimension : Nat) (i : Nat) :
    List Nat :=
  leBytes 6 (X.packFloatVec3ToSignedTwoByteFixed
    (X.vecDiv (A.getJointDataOut i).translation maxTranslationDimension)
    TRANSLATION_COMPRESSION_RADIX)

/-- The sections of a list carry the bits `b, b + 1, ...` in order. -/
def flagsFrom : Nat → List (Nat × Nat × List Nat) → Prop
  | _, [] => True
  | b, s :: rest => s.1 = 1 <<< b ∧ flagsFrom (b + 1) rest

/-- The bytes of the grab joints block, when it is in the packet. -/
def grabPart (A : Avatar) (mask : Nat) : List Nat :=
  if mask.testBit 14 = true then farGrabJointsBytes A.farGrabJoints else []

/-- The bytes of the default pose flags block, when it is in the packet. -/
def defaultPosePart (A : Avatar) (mask numJoints : Nat) : List Nat :=
  if mask.testBit 13 = true then jointDefaultPoseFlagsBytes A numJoints else []

/-- A send status that continues a packet: the grab joints are left over, ten rotations are
sent. -/
def resumedStatus : SendStatus :=
  { itemFlags := 0x4000, sendUUID := false, rotationsSent := 10, translationsSent := 0 }

/-- The sections whose block starts with a single `packetReadCheck`: the index of the block (which
is also the bit of the section), the name given to the check and the number of bytes asked. -/
def checkedSections : List (Nat × FieldName × Nat) :=
  [ (0, FieldName.AvatarGlobalPosition, AVATAR_GLOBAL_POSITION_SIZE),
    (1, FieldName.AvatarBoundingBox, AVATAR_BOUNDING_BOX_SIZE),
    (2, FieldName.AvatarOrientation, AVATAR_ORIENTATION_SIZE),
    (3, FieldName.AvatarScale, AVATAR_SCALE_SIZE),
    (4, FieldName.LookAtPosition, LOOK_AT_POSITION_SIZE),
    (5, FieldName.AudioLoudness, AUDIO_LOUDNESS_SIZE),
    (6, FieldName.SensorToWorldMatrix, SENSOR_TO_WORLD_SIZE),
    (7, FieldName.AdditionalFlags, ADDITIONAL_FLAGS_SIZE),
    (8, FieldName.ParentInfo, PARENT_INFO_SIZE),
    (9, FieldName.AvatarLocalPosition, AVATAR_LOCAL_POSITION_SIZE),
    (11, FieldName.FaceTrackerInfo, FACE_TRACKER_INFO_SIZE) ]

/-- The decoder reaches block `k` in the state `d`: the blocks before it ran without an early
return. -/
def reachesBlock (X : Extern) (buf : List Nat) (k : Nat) (d : Dec) : Prop :=
  runBlocks ((parseBlocks X buf (packetStateFlags buf)).take k)
    { pos := HEADER_SIZE, events := [] } = Except.ok d

/-- The outcome of a block that is checked piece by piece: either it ends inside the buffer, or
it returns early and its last call reports the shortage; the calls made before are kept. -/
def PiecewiseChecked (buf : List Nat) (d : Dec) (r : Except Dec Dec) : Prop :=
  (∃ d1, r = Except.ok d1 ∧ d1.pos ≤ buf.length ∧ ∃ evs, d1.events = d.events ++ evs) ∨
  (∃ e evs name needed available, r = Except.error e ∧
    e.events = d.events ++ evs ++ [Event.onPacketTooSmallError name needed available])

/-- A call with the values handed over erased: what remains is which sink or error callback was
called and, for a joint sink, for which joint. -/
def Event.shape : Event → Event
  | Event.setGlobalPositionIn _ => Event.setGlobalPositionIn default
  | Event.setBoundingBoxIn _ _ => Event.setBoundingBoxIn default default
  | Event.setOrientationIn _ => Event.setOrientationIn default
  | Event.setScaleIn _ => Event.setScaleIn 0
  | Event.setLookAtPositionIn _ => Event.setLookAtPositionIn default
  | Event.setAudioLoudnessIn _ => Event.setAudioLoudnessIn 0
  | Event.setSensorToWorldMatrixIn _ => Event.setSensorToWorldMatrixIn default
  | Event.setAdditionalFlagsIn _ => Event.setAdditionalFlagsIn default
  | Event.setParentInfoIn _ _ => Event.setParentInfoIn 0 0
  | Event.setLocalPositionIn _ => Event.setLocalPositionIn default
  | Event.setHandControllersIn _ _ => Event.setHandControllersIn default default
  | Event.setFaceTrackerInfoIn _ => Event.setFaceTrackerInfoIn default
  | Event.setJointDataSizeIn n => Event.setJointDataSizeIn n
  | Event.setJointDataRotationIn i _ => Event.setJointDataRotationIn i default
  | Event.setJointDataRotationDefaultIn i _ => Event.setJointDataRotationDefaultIn i false
  | Event.setJointDataPositionIn i _ => Event.setJointDataPositionIn i default
  | Event.setJointDataPositionDefaultIn i _ => Event.setJointDataPositionDefaultIn i false
  | Event.setFarGrabJointsIn _ => Event.setFarGrabJointsIn default
  | Event.onPacketTooSmallError name needed available =>
    Event.onPacketTooSmallError name needed available
  | Event.onParseError reason => Event.onParseError reason

/-- A decoder block, as a function of the buffer, reads the bytes `S` wherever they stand in a
buffer: started at their first byte it ends just after their last one, returns no error, and the
calls it makes have the shapes `E`. -/
def SegOk (f : List Nat → Dec → Except Dec Dec) (S : List Nat) (E : List Event) : Prop :=
  ∀ (pre post : List Nat) (evs0 : List Event), ∃ E1 : List Event,
    E1.map Event.shape = E ∧
    f (pre ++ S ++ post) { pos := pre.length, events := evs0 } =
      Except.ok { pos := pre.length + S.length, events := evs0 ++ E1 }

/-- The avatar state is NaN-free for the decoder: the look-at position and the local position
hold no NaN, and the scale and the audio loudness come back from their quantizers as numbers. -/
def NaNFree (X : Extern) (A : Avatar) : Prop :=
  isNaN (X.unpackFloatRatioFromTwoByte (X.packFloatRatioToTwoByte A.scale % 65536)) = false ∧
  anyNaN A.lookAtPosition = false ∧
  isNaN (X.fmul (X.unpackFloatGainFromByte
    (X.packFloatGainToByte (X.fdiv A.audioLoudness AUDIO_LOUDNESS_SCALE) % 256))
    AUDIO_LOUDNESS_SCALE) = false ∧
  anyNaN A.localPosition = false

/-- The shapes of the calls of the rotation loop for the joints of a list. -/
def rotationCalls (joints : List Nat) : List Event :=
  joints.flatMap (fun i =>
    [Event.setJointDataRotationIn i default, Event.setJointDataRotationDefaultIn i false])

/-- The shapes of the calls of the translation loop for the joints of a list. -/
def translationCalls (joints : List Nat) : List Event :=
  joints.flatMap (fun i =>
    [Event.setJointDataPositionIn i default, Event.setJointDataPositionDefaultIn i false])

/-- The shapes of the calls of the default pose flags block for `numJoints` joints. -/
def defaultPoseCalls (numJoints : Nat) : List Event :=
  [Event.setJointDataSizeIn numJoints] ++
    (List.range numJoints).map (fun i => Event.setJointDataRotationDefaultIn i false) ++
    (List.range numJoints).map (fun i => Event.setJointDataPositionDefaultIn i false)

/-- The bytes of those sections of a list whose bit is in `mask`, in order, the first section
having bit `b`. -/
def sectionsBody (mask : Nat) : List (Nat × Nat × List Nat) → Nat → List Nat
  | [], _ => []
  | s :: rest, b => (if mask.testBit b = true then s.2.2 else []) ++ sectionsBody mask rest (b + 1)

/-- The rotations written by a call of the encoder: those of its joint data section, none when
the packet has no such section. -/
def rotationsWrittenOf (joints : Option JointSection) : List Nat :=
  match joints with
  | some js => js.rotationsWritten
  | none => []

/-- The translations written by a call of the encoder: those of its joint data section, none when
the packet has no such section. -/
def translationsWrittenOf (joints : Option JointSection) : List Nat :=
  match joints with
  | some js => js.translationsWritten
  | none => []

/-- The calls that a packet with the mask `mask` asks of the decoder, values erased: one sink per
section of the mask, in the order of the bits; for the joint data the joint count, then for each
joint whose rotation was written its rotation and the clearing of its default flag, the same for
the translations, then the far-grab sink when bit 14 is set; for the default pose flags the joint
count and the two flags of each joint. -/
def expectedCalls (mask numJoints : Nat) (rotations translations : List Nat) : List Event :=
  (if mask.testBit 0 = true then [Event.setGlobalPositionIn default] else []) ++
  (if mask.testBit 1 = true then [Event.setBoundingBoxIn default default] else []) ++
  (if mask.testBit 2 = true then [Event.setOrientationIn default] else []) ++
  (if mask.testBit 3 = true then [Event.setScaleIn 0] else []) ++
  (if mask.testBit 4 = true then [Event.setLookAtPositionIn default] else []) ++
  (if mask.testBit 5 = true then [Event.setAudioLoudnessIn 0] else []) ++
  (if mask.testBit 6 = true then [Event.setSensorToWorldMatrixIn default] else []) ++
  (if mask.testBit 7 = true then [Event.setAdditionalFlagsIn default] else []) ++
  (if mask.testBit 8 = true then [Event.setParentInfoIn 0 0] else []) ++
  (if mask.testBit 9 = true then [Event.setLocalPositionIn default] else []) ++
  (if mask.testBit 10 = true then [Event.setHandControllersIn default default] else []) ++
  (if mask.testBit 11 = true then [Event.setFaceTrackerInfoIn default] else []) ++
  (if mask.testBit 12 = true then
    [Event.setJointDataSizeIn numJoints] ++ rotationCalls rotations ++
      translationCalls translations ++
      (if mask.testBit 14 = true then [Event.setFarGrabJointsIn default] else [])
  else []) ++
  (if mask.testBit 13 = true then defaultPoseCalls numJoints else [])

/-- The section whose sink a call is, for the sinks that belong to one section only: bits 0 to 11
and bit 14. -/
def Event.sinkOf : Event → Option Nat
  | Event.setGlobalPositionIn _ => some 0
  | Event.setBoundingBoxIn _ _ => some 1
  | Event.setOrientationIn _ => some 2
  | Event.setScaleIn _ => some 3
  | Event.setLookAtPositionIn _ => some 4
  | Event.setAudioLoudnessIn _ => some 5
  | Event.setSensorToWorldMatrixIn _ => some 6
  | Event.setAdditionalFlagsIn _ => some 7
  | Event.setParentInfoIn _ _ => some 8
  | Event.setLocalPositionIn _ => some 9
  | Event.setHandControllersIn _ _ => some 10
  | Event.setFaceTrackerInfoIn _ => some 11
  | Event.setFarGrabJointsIn _ => some 14
  | _ => none

/-- The call is one of the two error callbacks. -/
def Event.isError : Event → Bool
  | Event.onPacketTooSmallError _ _ _ => true
  | Event.onParseError _ => true
  | _ => false

/-- The joint count of a call of `setJointDataSizeIn`, the sink that the joint data section and
the default pose flags section share. -/
def Event.jointCount : Event → Option Nat
  | Event.setJointDataSizeIn n => some n
  | _ => none

/-- The joint of a call of `setJointDataRotationIn`. -/
def Event.rotationJoint : Event → Option Nat
  | Event.setJointDataRotationIn i _ => some i
  | _ => none

/-- The joint of a call of `setJointDataPositionIn`. -/
def Event.positionJoint : Event → Option Nat
  | Event.setJointDataPositionIn i _ => some i
  | _ => none

/-- The room that a packet must have after its mask for every block to fit when it comes first:
the face tracker block, the smallest joint data section followed by the far-grab block, and the
smallest joint data section followed by one joint with the space that the loops ask for. -/
def largestNeed (A : Avatar) : Nat :=
  max (faceTrackerSpace A)
    (max (minJointDataSize A.getJointDataSizeOut + FAR_GRAB_JOINTS_SIZE)
      (minJointDataSize A.getJointDataSizeOut + minSizeForJoint A.getJointDataSizeOut))

/-- The number of bits set among the 16 bits of a mask. -/
def setBits (w : Nat) : Nat :=
  ((List.range 16).map (fun k => if w.testBit k = true then 1 else 0)).sum

/-- A wanted set with PACKET_HAS_JOINT_DATA added when PACKET_HAS_GRAB_JOINTS is in it, as a
continuing call does. -/
def closeFlags (w : Nat) : Nat :=
  w ||| (if w.testBit 14 = true then 1 <<< 12 else 0)

/-- A bound on the number of calls of `toByteArray` that are still needed after the one that
starts from the status `s`: the sections still wanted, the joints whose rotation and translation
are still to be visited, and one call when PACKET_HAS_GRAB_JOINTS is wanted without
PACKET_HAS_JOINT_DATA. -/
def callsLeft (A : Avatar) (itemFlagsInit : Nat) (s : SendStatus) : Nat :=
  setBits (closeFlags (wantedFlagsFor itemFlagsInit s)) +
    (A.getJointDataSizeOut - rotationsSentFor s) +
    (A.getJointDataSizeOut - translationsSentFor s) +
    (if (wantedFlagsFor itemFlagsInit s).testBit 14 = true ∧
        (wantedFlagsFor itemFlagsInit s).testBit 12 = false then 1 else 0)

/-- The loop of a sender that drains an avatar: call `toByteArray` with the status returned by
the previous call, the avatar unchanged, until the returned `itemFlags` is 0, at most `fuel`
times. The value is the list of what the calls returned; `none` when a call aborts or when `fuel`
calls do not reach 0. -/
def encodeUntilDone (X : Extern) (A : Avatar) (itemFlagsInit : Nat)
    (dataDetail : AvatarDataDetail) (lastSentJointData : List JointData) (distanceAdjust : Bool)
    (viewerPosition : Vec3) (maxDataSize : Nat) : Nat → SendStatus → Option (List Encoded)
  | 0, _ => none
  | fuel + 1, s =>
    match toByteArray X A itemFlagsInit dataDetail lastSentJointData s distanceAdjust
        viewerPosition maxDataSize with
    | none => none
    | some r =>
      if r.sendStatus.itemFlags = 0 then some [r]
      else
        (encodeUntilDone X A itemFlagsInit dataDetail lastSentJointData distanceAdjust
          viewerPosition maxDataSize fuel r.sendStatus).map (fun rs => r :: rs)

/-- A send status that never drains in a packet of 25 bytes: the bounding box is left over. -/
def stuckStatus : SendStatus :=
  { itemFlags := 2, sendUUID := false, rotationsSent := 0, translationsSent := 0 }

/-- The bytes of the joint data section of a packet, in the order in which they are written: the
joint count, the rotation validity vector, the rotation block, the translation validity vector,
the scale float, the translation block; nothing when the packet has no such section. -/
def jointPart (A : Avatar) (joints : Option JointSection) : List Nat :=
  match joints with
  | some js =>
    [A.getJointDataSizeOut % 256] ++ js.rotationValidity ++ js.rotationBlock ++
      js.translationValidity ++ leBytes 4 js.maxTranslationDimension ++ js.translationBlock
  | none => []

/-- The bytes of one section in a packet with the included mask `mask`: its bytes when its bit is
in the mask, nothing otherwise. -/
def presentSection (mask bit : Nat) (bytes : List Nat) : List Nat :=
  if mask.testBit bit = true then bytes else []

/-- The twelve sections from the global position to the face tracker, in the order in which the
encoder writes them. -/
def leadingPart (X : Extern) (A : Avatar) (mask : Nat) : List Nat :=
  presentSection mask 0 (globalPositionBytes A) ++
    (presentSection mask 1 (boundingBoxBytes A) ++
    (presentSection mask 2 (orientationBytes X A) ++
    (presentSection mask 3 (scaleBytes X A) ++
    (presentSection mask 4 (lookAtPositionBytes A) ++
    (presentSection mask 5 (audioLoudnessBytes X A) ++
    (presentSection mask 6 (sensorToWorldBytes X A) ++
    (presentSection mask 7 (additionalFlagsBytes A) ++
    (presentSection mask 8 (parentInfoBytes A) ++
    (presentSection mask 9 (localPositionBytes A) ++
    (presentSection mask 10 (handControllersBytes X A) ++
    presentSection mask 11 (faceTrackerBytes A)))))))))))

/-- The sections of a packet in the order in which the encoder writes them: the far-grab joints
come right after the joint data, before the default pose flags. -/
def wireOrder (X : Extern) (A : Avatar) (mask : Nat) (joints : Option JointSection) : List Nat :=
  leadingPart X A mask ++ jointPart A joints ++ grabPart A mask ++
    defaultPosePart A mask A.getJointDataSizeOut

/-- The sections of a packet in the order of the table of sections: the default pose flags come
before the far-grab joints. -/
def tableOrder (X : Extern) (A : Avatar) (mask : Nat) (joints : Option JointSection) : List Nat :=
  leadingPart X A mask ++ jointPart A joints ++ defaultPosePart A mask A.getJointDataSizeOut ++
    grabPart A mask

/-- An avatar with one joint and a left far-grab position of (1.0, 0, 0). -/
def grabAvatar : Avatar :=
  { sampleAvatar 1 with
    farGrabJoints := { (default : FarGrabJoints) with
      leftFarGrabPosition := { x := 0x3F800000, y := 0, z := 0 } } }

/-- The additional flags with the key state `k`, the hand state `h` and the seven booleans. -/
def flagsOf (k h : Nat) (b1 b2 b3 b4 b5 b6 b7 : Bool) : AdditionalFlags :=
  { keyState := k
    handState := h
    headHasScriptedBlendshapes := b1
    headHasProceduralEyeMovement := b2
    headHasAudioEnabledFaceMovement := b3
    headHasProceduralEyeFaceMovement := b4
    headHasProceduralBlinkFaceMovement := b5
    collideWithOtherAvatars := b6
    hasPriority := b7 }

/-- An avatar with given additional flags, with or without a parent. -/
def flagsAvatar (f : AdditionalFlags) (hasParent : Bool) : Avatar :=
  { sampleAvatar 0 with additionalFlags := f, parentUUID := if hasParent then 1 else 0 }

/-- IEEE-754 comparison `a <= b` on 32-bit patterns. -/
def floatLeq (a b : Nat) : Bool :=
  floatLess a b || floatEq a b

/-- The translations that the encoder may scale have no NaN component: those of the joints that
are not in the default pose. -/
def TranslationsNaNFree (A : Avatar) : Prop :=
  ∀ i, (A.getJointDataOut i).translationIsDefaultPose = false →
    anyNaN (A.getJointDataOut i).translation = false

/-- An avatar with one joint whose translation is (5.0, NaN, 0.0). -/
def nanJointAvatar : Avatar :=
  { sampleAvatar 0 with
    jointData := [{ sampleJoint with translation := { x := 0x40A00000, y := 0x7FC00000, z := 0 } }] }

/-- Two buffers have the same first `n` bytes. -/
def Agree (n : Nat) (buf b2 : List Nat) : Prop :=
  n ≤ buf.length ∧ n ≤ b2.length ∧ b2.take n = buf.take n

/-- Block `k` of the decoder, counted from the global position (0) to the default pose flags
(13), on the buffer `buf`. -/
def blockAt (X : Extern) (buf : List Nat) (k : Nat) : Dec → Except Dec Dec :=
  (parseBlocks X buf (packetStateFlags buf)).getD k (fun d => Except.ok d)

/-- The wire size of a joint data section that starts at `pos`, as laid out in the buffer: the
count byte, two validity vectors of `⌈J/8⌉` bytes, the scale float, six bytes for every valid
rotation and translation, and the 84 bytes of the far-grab joints when their bit is set. -/
def jointDataWireSize (buf : List Nat) (pos : Nat) (grab : Bool) : Nat :=
  let numJoints := readByte buf pos
  let vectorSize := calcBitVectorSize numJoints
  let rotations := (readValidity buf (pos + 1) numJoints).count true
  let translations :=
    (readValidity buf (pos + 1 + vectorSize + 6 * rotations) numJoints).count true
  1 + 2 * vectorSize + 4 + 6 * (rotations + translations) +
    (if grab = true then FAR_GRAB_JOINTS_SIZE else 0)

/-- The wire size of section `k` when it starts at `pos`, as laid out in the buffer. -/
def wireSizeAt (buf : List Nat) (k pos : Nat) : Nat :=
  if k < 11 then fixedSectionSizes.getD k 0
  else if k = 11 then FACE_TRACKER_INFO_SIZE + 4 * readByte buf (pos + 16)
  else if k = 12 then jointDataWireSize buf pos ((packetStateFlags buf).testBit 14)
  else if k = 13 then 1 + 2 * calcBitVectorSize (readByte buf pos)
  else 0

/-- The NaN check of section `k` fires on the bytes at `pos`: the scale, the look-at position,
the audio loudness and the local position have one. -/
def nanAt (X : Extern) (buf : List Nat) (k pos : Nat) : Bool :=
  if k = 3 then isNaN (X.unpackFloatRatioFromTwoByte (fromLE (readBytes buf pos 2)))
  else if k = 4 then anyNaN (readVec3 buf pos)
  else if k = 5 then
    isNaN (X.fmul (X.unpackFloatGainFromByte (fromLE (readBytes buf pos 1))) AUDIO_LOUDNESS_SCALE)
  else if k = 9 then anyNaN (readVec3 buf pos)
  else false

/-- The offset after the flagged sections among `fuel` sections from section `k` on, the first
of them starting at `pos`. -/
def wireWalk (buf : List Nat) : Nat → Nat → Nat → Nat
  | 0, _, pos => pos
  | fuel + 1, k, pos =>
    wireWalk buf fuel (k + 1)
      (if (packetStateFlags buf).testBit k = true then pos + wireSizeAt buf k pos else pos)

/-- Some NaN check fires among the flagged sections walked by `wireWalk`. -/
def nanWalk (X : Extern) (buf : List Nat) : Nat → Nat → Nat → Bool
  | 0, _, _ => false
  | fuel + 1, k, pos =>
    ((packetStateFlags buf).testBit k && nanAt X buf k pos) ||
      nanWalk X buf fuel (k + 1)
        (if (packetStateFlags buf).testBit k = true then pos + wireSizeAt buf k pos else pos)

/-- The offset after the last flagged section of a buffer: 2 for the mask plus the wire sizes of
the flagged sections. -/
def wireEnd (buf : List Nat) : Nat :=
  wireWalk buf 14 0 HEADER_SIZE

/-- No call of a list is an error callback. -/
def NoErrors (E : List Event) : Prop :=
  ∀ e ∈ E, Event.isError e = false

/-- A complete packet followed by two more bytes: the mask `00 70` flags the joint data, the
default pose flags and the far-grab joints; the joint data section holds one joint with a valid
rotation and a valid translation. -/
def trailingPacket : List Nat :=
  [0, 112, 1, 1, 1, 0, 2, 0, 3, 0, 1, 111, 18, 131, 58, 5, 0, 6, 0, 7, 0] ++
    ([0, 0, 128, 63] ++ List.replicate 80 0) ++ [1, 0, 0] ++ [7, 7]

/-- The place of a 32-bit pattern that is no NaN in the order of the floats: the magnitude, with
the sign of the float; both zeros have the place 0. -/
def floatKey (f : Nat) : Int :=
  if (f / 2 ^ 31) % 2 = 0 then ((f % 2 ^ 31 : Nat) : Int) else -((f % 2 ^ 31 : Nat) : Int)

/-- A sample instance of the external functions for the distance thresholds: the thresholds
0.9999999, cos 2°, cos 4°, cos 6°, cos 15°, cos 179° and the levels 12.5, 16.6, 25, 50 and 200
metres; the distance of two points is taken to be the first coordinate of the first one. -/
def thresholdExtern : Extern :=
  { sampleExtern with
    distance := fun a _ => a.x
    AVATAR_MIN_ROTATION_DOT := 0x3F7FFFFE
    ROTATION_CHANGE_2D := 0x3F7FF605
    ROTATION_CHANGE_4D := 0x3F7FD814
    ROTATION_CHANGE_6D := 0x3F7FA62F
    ROTATION_CHANGE_15D := 0x3F7DCF55
    ROTATION_CHANGE_179D := 0x3C0EF9B8
    AVATAR_DISTANCE_LEVEL_1 := 0x41480000
    AVATAR_DISTANCE_LEVEL_2 := 0x4184CCCD
    AVATAR_DISTANCE_LEVEL_3 := 0x41C80000
    AVATAR_DISTANCE_LEVEL_4 := 0x42480000
    AVATAR_DISTANCE_LEVEL_5 := 0x43480000 }

/-- The sample avatar at the global position `(x, 0, 0)`. -/
def avatarAt (x : Nat) : Avatar :=
  { sampleAvatar 0 with globalPosition := { x := x, y := 0, z := 0 } }

/-- A fresh send status that asks for the session id. -/
def uuidStatus : SendStatus :=
  { itemFlags := 0, sendUUID := true, rotationsSent := 0, translationsSent := 0 }

/-- The statement `if (jointDataSize > _lastSentJointData.size()) _lastSentJointData.resize(...)`:
the entries added are default-constructed. -/
def resizeLastSent (lastSentJointData : List JointData) (jointDataSize : Nat) : List JointData :=
  if jointDataSize > lastSentJointData.length then
    lastSentJointData ++ List.replicate (jointDataSize - lastSentJointData.length) default
  else lastSentJointData

/-- One turn of the first loop of `doneEncoding`, for the joint `i`. -/
def commitRotation (X : Extern) (A : Avatar) (cullSmallChanges : Bool)
    (lastSentJointData : List JointData) (i : Nat) : List JointData :=
  let data := A.getJointDataOut i
  let last := lastSentJointData.getD i default
  if quatNe last.rotation data.rotation = true then
    if (!cullSmallChanges ||
        floatLeq (fabsf (X.dot data.rotation last.rotation)) X.AVATAR_MIN_ROTATION_DOT) = true then
      if (!data.rotationIsDefaultPose) = true then
        lastSentJointData.set i { last with rotation := data.rotation }
      else lastSentJointData
    else lastSentJointData
  else lastSentJointData

/-- One turn of the second loop of `doneEncoding`, for the joint `i`. -/
def commitTranslation (X : Extern) (A : Avatar) (cullSmallChanges : Bool)
    (lastSentJointData : List JointData) (i : Nat) : List JointData :=
  let data := A.getJointDataOut i
  let last := lastSentJointData.getD i default
  if vec3Ne last.translation data.translation = true then
    if (!cullSmallChanges ||
        floatLess X.AVATAR_MIN_TRANSLATION (X.distance data.translation last.translation)) = true
    then
      if (!data.translationIsDefaultPose) = true then
        lastSentJointData.set i { last with translation := data.translation }
      else lastSentJointData
    else lastSentJointData
  else lastSentJointData

/-- The function `doneEncoding(cullSmallChanges, sendStatus)`: the member `_lastSentJointData`
after the call. -/
def doneEncoding (X : Extern) (A : Avatar) (cullSmallChanges : Bool) (sendStatus : SendStatus)
    (lastSentJointData : List JointData) : List JointData :=
  let resized := resizeLastSent lastSentJointData A.getJointDataSizeOut
  let rotated := (List.range sendStatus.rotationsSent).foldl
    (commitRotation X A cullSmallChanges) resized
  (List.range sendStatus.translationsSent).foldl (commitTranslation X A cullSmallChanges) rotated

/-- A sample instance of the external functions for the commit: `AVATAR_MIN_ROTATION_DOT` is
0.9999999 and the dot product of two quaternions is taken to be the `w` of the one when the `w`
of the other is 1.0, which is what `glm::dot` gives for (0, 0, 0, 1) and (0, 0, 0, w). -/
def edgeExtern : Extern :=
  { sampleExtern with
    dot := fun a b => if a.w = 0x3F800000 then b.w else if b.w = 0x3F800000 then a.w else 0
    AVATAR_MIN_ROTATION_DOT := 0x3F7FFFFE }

/-- A joint last sent with the rotation (0, 0, 0, 1). -/
def edgeLastJoint : JointData :=
  { rotation := { x := 0, y := 0, z := 0, w := 0x3F800000 }
    translation := { x := 0, y := 0, z := 0 }
    rotationIsDefaultPose := false
    translationIsDefaultPose := false }

/-- The same joint with the current rotation (0, 0, 0, 0.9999999). -/
def edgeJoint : JointData :=
  { edgeLastJoint with rotation := { x := 0, y := 0, z := 0, w := 0x3F7FFFFE } }

/-- An avatar whose one joint is `edgeJoint`. -/
def edgeAvatar : Avatar :=
  { sampleAvatar 0 with jointData := [edgeJoint] }

/-- The send status after one rotation and one translation were passed. -/
def oneJointStatus : SendStatus :=
  { itemFlags := 0, sendUUID := false, rotationsSent := 1, translationsSent := 1 }

/-- The record `AvatarDataPacket::Identity` as `processAvatarIdentity` reads it from the packet;
the attachments and the names are kept as the bytes of their encoding. -/
structure Identity where
  attachmentData : List Nat
  displayName : List Nat
  sessionDisplayName : List Nat
  identityFlags : Nat
deriving DecidableEq, Repr, Inhabited

/-- What `processAvatarIdentity` uses of the class `udt::SequenceNumber`, which is declared
outside the sources: the constructor from the number read, `n - 1` and `a > b`. -/
structure SequenceNumberOps where
  ofType : Nat → Nat
  minusOne : Nat → Nat
  greater : Nat → Nat → Bool

/-- The identity state of an avatar: the member `_hasProcessedFirstIdentity` and what the getters
`getIdentitySequenceNumberOut` and `getIdentityDataOut` of the derived class return, that is what
`setIdentitySequenceNumberIn` and `setIdentityDataIn` stored last. -/
structure IdentityState where
  hasProcessedFirstIdentity : Bool
  identitySequenceNumber : Nat
  identityData : Identity
deriving DecidableEq, Repr, Inhabited

/-- What `processAvatarIdentity` reads from `packetStream`. -/
structure IdentityPacket where
  avatarSessionID : Nat
  sequenceNumber : Nat
  identity : Identity
deriving DecidableEq, Repr, Inhabited

/-- The state after `processAvatarIdentity` and the values of its two reference parameters. -/
structure IdentityResult where
  state : IdentityState
  identityChanged : Bool
  displayNameChanged : Bool
deriving DecidableEq, Repr, Inhabited

/-- The function `processAvatarIdentity(packetStream, identityChanged, displayNameChanged)`; the
two flags are reference parameters and enter with the values that the caller gave them. -/
def processAvatarIdentity (Q : SequenceNumberOps) (st : IdentityState) (packet : IdentityPacket)
    (identityChanged displayNameChanged : Bool) : IdentityResult :=
  let incomingSequenceNumber := Q.ofType packet.sequenceNumber
  let st : IdentityState :=
    if !st.hasProcessedFirstIdentity then
      { st with identitySequenceNumber := Q.minusOne incomingSequenceNumber
                hasProcessedFirstIdentity := true }
    else st
  let identity := packet.identity
  let currentIdentitySequenceNumber := st.identitySequenceNumber
  if Q.greater incomingSequenceNumber currentIdentitySequenceNumber = true then
    let current := st.identityData
    { state := { st with identitySequenceNumber := incomingSequenceNumber
                         identityData := identity }
      identityChanged := decide (identity ≠ current)
      displayNameChanged := decide (identity.displayName ≠ current.displayName) }
  else
    { state := st, identityChanged := identityChanged, displayNameChanged := displayNameChanged }

/-- Sequence numbers compared as plain numbers. -/
def plainSequence : SequenceNumberOps :=
  { ofType := fun n => n, minusOne := fun n => n - 1, greater := fun a b => decide (a > b) }

/-- An identity packet with the sequence number `n` and the display name `name`. -/
def identityPacket (n : Nat) (name : List Nat) : IdentityPacket :=
  { avatarSessionID := 1
    sequenceNumber := n
    identity := { attachmentData := [], displayName := name, sessionDisplayName := [],
                  identityFlags := 0 } }

/-- The identity state after a first identity packet with the sequence number 5. -/
def stateAfterFive : IdentityState :=
  (processAvatarIdentity plainSequence default (identityPacket 5 [65]) false false).state

/-- The trait types `AvatarTraits::TraitType` that the sources name. -/
inductive TraitType where
  | SkeletonModelURL
  | SkeletonData
  | AvatarEntity
  | Grab
deriving DecidableEq, Repr, Inhabited

/-- A call into the client traits handler: `markInstancedTraitUpdated(AvatarEntity, id)` or
`markInstancedTraitDeleted(AvatarEntity, id)`. -/
inductive TraitMark where
  | updated (id : Nat)
  | deleted (id : Nat)
deriving DecidableEq, Repr, Inhabited

/-- The members that the entity and grab functions use: the maps `_packedAvatarEntityData` and
`_avatarGrabData` as lists of (id, payload), the set `_avatarEntityRemoved`, the two changed
flags, whether `getClientTraitsHandler()` returns a handler, and the calls made into it so far. -/
structure TraitState where
  packedAvatarEntityData : List (Nat × List Nat)
  avatarEntityRemoved : List Nat
  avatarEntityDataChanged : Bool
  avatarGrabData : List (Nat × List Nat)
  avatarGrabDataChanged : Bool
  hasClientTraitsHandler : Bool
  marks : List TraitMark
deriving DecidableEq, Repr, Inhabited

/-- The statement `itr.value() = data` on the entry found for `id`. -/
def mapReplace (m : List (Nat × List Nat)) (id : Nat) (data : List Nat) : List (Nat × List Nat) :=
  m.map (fun e => if e.1 = id then (id, data) else e)

/-- The call `map.insert(id, data)` for an id that the map does not hold. -/
def mapInsert (m : List (Nat × List Nat)) (id : Nat) (data : List Nat) : List (Nat × List Nat) :=
  m ++ [(id, data)]

/-- The map after `map.remove(id)`. -/
def mapRemove (m : List (Nat × List Nat)) (id : Nat) : List (Nat × List Nat) :=
  m.filter (fun e => decide (e.1 ≠ id))

/-- The function `storeAvatarEntityDataPayload(entityID, data)`. -/
def storeAvatarEntityDataPayload (MAX_NUM_AVATAR_ENTITIES : Nat) (s : TraitState)
    (entityID : Nat) (data : List Nat) : TraitState :=
  let stored :=
    match s.packedAvatarEntityData.lookup entityID with
    | none =>
      if s.packedAvatarEntityData.length < MAX_NUM_AVATAR_ENTITIES then
        (mapInsert s.packedAvatarEntityData entityID data, true)
      else (s.packedAvatarEntityData, false)
    | some _ => (mapReplace s.packedAvatarEntityData entityID data, true)
  if stored.2 = true then
    { s with
      packedAvatarEntityData := stored.1
      avatarEntityDataChanged := true
      marks :=
        if s.hasClientTraitsHandler = true then s.marks ++ [TraitMark.updated entityID]
        else s.marks }
  else { s with packedAvatarEntityData := stored.1 }

/-- The function `packAvatarEntityTraitInstance(traitInstanceID)`. -/
def packAvatarEntityTraitInstance (s : TraitState) (traitInstanceID : Nat) : List Nat :=
  match s.packedAvatarEntityData.lookup traitInstanceID with
  | some entityBinaryData => entityBinaryData
  | none => []

/-- The function `packGrabTraitInstance(traitInstanceID)`. -/
def packGrabTraitInstance (s : TraitState) (traitInstanceID : Nat) : List Nat :=
  match s.avatarGrabData.lookup traitInstanceID with
  | some grabBinaryData => grabBinaryData
  | none => []

/-- The function `packTraitInstance(traitType, traitInstanceID)`. -/
def packTraitInstance (s : TraitState) (traitType : TraitType) (traitInstanceID : Nat) :
    List Nat :=
  if traitType = TraitType.AvatarEntity then packAvatarEntityTraitInstance s traitInstanceID
  else if traitType = TraitType.Grab then packGrabTraitInstance s traitInstanceID
  else []

/-- The function `insertRemovedEntityID(entityID)`. -/
def insertRemovedEntityID (s : TraitState) (entityID : Nat) : TraitState :=
  { s with
    avatarEntityRemoved :=
      if entityID ∈ s.avatarEntityRemoved then s.avatarEntityRemoved
      else s.avatarEntityRemoved ++ [entityID]
    avatarEntityDataChanged := true }

/-- The function `clearAvatarEntityInternal(entityID)`. -/
def clearAvatarEntityInternal (s : TraitState) (entityID : Nat) : TraitState :=
  let removedEntity := (s.packedAvatarEntityData.lookup entityID).isSome
  let s1 := { s with packedAvatarEntityData := mapRemove s.packedAvatarEntityData entityID }
  let s2 := insertRemovedEntityID s1 entityID
  if (removedEntity && s2.hasClientTraitsHandler) = true then
    { s2 with marks := s2.marks ++ [TraitMark.deleted entityID] }
  else s2

/-- The function `getAndClearRecentlyRemovedIDs()`: the set returned and the state after. -/
def getAndClearRecentlyRemovedIDs (s : TraitState) : List Nat × TraitState :=
  (s.avatarEntityRemoved, { s with avatarEntityRemoved := [] })

/-- The function `updateAvatarGrabData(grabID, grabData)`: the value returned and the state
after. -/
def updateAvatarGrabData (MAX_NUM_AVATAR_GRABS : Nat) (s : TraitState) (grabID : Nat)
    (grabData : List Nat) : Bool × TraitState :=
  match s.avatarGrabData.lookup grabID with
  | none =>
    if s.avatarGrabData.length < MAX_NUM_AVATAR_GRABS then
      (true, { s with avatarGrabData := mapInsert s.avatarGrabData grabID grabData
                      avatarGrabDataChanged := true })
    else (false, s)
  | some value =>
    if value ≠ grabData then
      (true, { s with avatarGrabData := mapReplace s.avatarGrabData grabID grabData
                      avatarGrabDataChanged := true })
    else (false, s)

/-- A state with a client traits handler that holds the entity 7 and the grab 7, both with the
payload `01 02`, and nothing marked. -/
def oneEntityState : TraitState :=
  { packedAvatarEntityData := [(7, [1, 2])]
    avatarEntityRemoved := []
    avatarEntityDataChanged := false
    avatarGrabData := [(7, [1, 2])]
    avatarGrabDataChanged := false
    hasClientTraitsHandler := true
    marks := [] }

/-- The instance id that a call into the client traits handler names. -/
def TraitMark.instanceID : TraitMark → Nat
  | TraitMark.updated id => id
  | TraitMark.deleted id => id

/-- The last call into the client traits handler that names the instance `id`, if any. -/
def lastMarkFor (marks : List TraitMark) (id : Nat) : Option TraitMark :=
  (marks.filter (fun m => decide (m.instanceID = id))).getLast?

/-- A state like `oneEntityState` but of an avatar without a client traits handler. -/
def noHandlerState : TraitState :=
  { oneEntityState with hasClientTraitsHandler := false }

/-- An identity state that holds the sequence number 10 and has not processed an identity yet. -/
def unprocessedTen : IdentityState :=
  { hasProcessedFirstIdentity := false
    identitySequenceNumber := 10
    identityData := (identityPacket 10 [65]).identity }

/-- A send status that continues the joint data and the far-grab joints with both cursors at 5. -/
def beyondStatus : SendStatus :=
  { itemFlags := 0x5000, sendUUID := false, rotationsSent := 5, translationsSent := 5 }

/-- What the skeleton functions use from outside the sources: the two enumerators of
`AvatarSkeletonTrait::BoneType` that `unpackSkeletonData` names, and of `QString` the functions
`toUtf8`, `fromUtf8` and `QStringRef(&table, start, length).toString()`. A `QString` is the list
of its UTF-16 code units. -/
structure SkeletonExtern where
  SkeletonRoot : Int
  NonSkeletonRoot : Int
  toUtf8 : List Nat → List Nat
  fromUtf8 : List Nat → List Nat
  subString : List Nat → Int → Int → List Nat

/-- One joint of a skeleton, `AvatarSkeletonTrait::UnpackedJointData`: what `getSkeletonDataOut`
returns and `setSkeletonDataIn` takes. -/
structure UnpackedJointData where
  stringStart : Int
  stringLength : Int
  boneType : Int
  defaultTranslation : Vec3
  defaultRotation : Quat
  defaultScale : Nat
  jointIndex : Int
  parentIndex : Int
  jointName : List Nat
deriving DecidableEq, Repr, Inhabited

/-- Modelled from the spec: the packed struct `AvatarSkeletonTrait::Header`, declared outside the
sources; the skeleton encoding of the spec gives it as `max_scale_dimension: f32,
max_translation_dimension: f32, num_joints: u8, string_table_length: u16`. -/
structure SkeletonHeader where
  maxScaleDimension : Nat
  maxTranslationDimension : Nat
  numJoints : Nat
  stringTableLength : Nat
deriving DecidableEq, Repr, Inhabited

/-- Modelled from the spec: `sizeof(AvatarSkeletonTrait::Header)`, the widths of its fields. -/
def SKELETON_HEADER_SIZE : Nat := 4 + 4 + 1 + 2

/-- Modelled from the spec: the bytes of a header, its fields in the order of the spec. -/
def SkeletonHeader.bytes (h : SkeletonHeader) : List Nat :=
  leBytes 4 h.maxScaleDimension ++ leBytes 4 h.maxTranslationDimension ++
    leBytes 1 h.numJoints ++ leBytes 2 h.stringTableLength

/-- Modelled from the spec: the header that `reinterpret_cast<const Header*>` finds in the bytes
`h`. -/
def readSkeletonHeader (h : List Nat) : SkeletonHeader :=
  { maxScaleDimension := fromLE (readBytes h 0 4)
    maxTranslationDimension := fromLE (readBytes h 4 4)
    numJoints := fromLE (readBytes h 8 1)
    stringTableLength := fromLE (readBytes h 9 2) }

/-- Modelled from the spec: the packed struct `AvatarSkeletonTrait::JointData`, declared outside
the sources; the skeleton encoding of the spec gives it as `bone_type: u8, parent_index: u8,
default_translation: 6 bytes, default_rotation: 6 bytes, default_scale: 2 bytes,
joint_index: u16, string_start: u16, string_length: u8`. The packed values are kept as the
number that their bytes spell. -/
structure SkeletonJointRecord where
  boneType : Nat
  parentIndex : Nat
  defaultTranslation : Nat
  defaultRotation : Nat
  defaultScale : Nat
  jointIndex : Nat
  stringStart : Nat
  stringLength : Nat
deriving DecidableEq, Repr, Inhabited

/-- Modelled from the spec: `sizeof(AvatarSkeletonTrait::JointData)`, the widths of the fields
that the spec lists (the spec also writes `num_joints × 20`, one byte less than these widths). -/
def SKELETON_JOINT_SIZE : Nat := 1 + 1 + 6 + 6 + 2 + 2 + 2 + 1

/-- Modelled from the spec: the bytes of a joint record, its fields in the order of the spec. -/
def SkeletonJointRecord.bytes (r : SkeletonJointRecord) : List Nat :=
  leBytes 1 r.boneType ++ leBytes 1 r.parentIndex ++ leBytes 6 r.defaultTranslation ++
    leBytes 6 r.defaultRotation ++ leBytes 2 r.defaultScale ++ leBytes 2 r.jointIndex ++
    leBytes 2 r.stringStart ++ leBytes 1 r.stringLength

/-- Modelled from the spec: the joint record that `reinterpret_cast<const JointData*>` finds in
the bytes `r`. -/
def readSkeletonJoint (r : List Nat) : SkeletonJointRecord :=
  { boneType := fromLE (readBytes r 0 1)
    parentIndex := fromLE (readBytes r 1 1)
    defaultTranslation := fromLE (readBytes r 2 6)
    defaultRotation := fromLE (readBytes r 8 6)
    defaultScale := fromLE (readBytes r 14 2)
    jointIndex := fromLE (readBytes r 16 2)
    stringStart := fromLE (readBytes r 18 2)
    stringLength := fromLE (readBytes r 20 1) }

/-- The function `std::max(a, b)` on floats, that is `(a < b) ? b : a`. -/
def stdMax (a b : Nat) : Nat :=
  if floatLess a b then b else a

/-- One turn of the first loop of `packSkeletonData`, which adds the joint to the header. -/
def packSkeletonHeaderStep (header : SkeletonHeader) (joint : UnpackedJointData) :
    SkeletonHeader :=
  { header with
    stringTableLength := (header.stringTableLength + joint.jointName.length % 65536) % 65536
    maxTranslationDimension :=
      stdMax header.maxTranslationDimension
        (stdMax (stdMax joint.defaultTranslation.x joint.defaultTranslation.y)
          joint.defaultTranslation.z)
    maxScaleDimension := stdMax header.maxScaleDimension joint.defaultScale }

/-- The header that `packSkeletonData` builds: the maxima start from `0.0f`, `numJoints` is the
joint count as a `uint8_t`. -/
def packSkeletonHeader (avatarSkeletonData : List UnpackedJointData) : SkeletonHeader :=
  avatarSkeletonData.foldl packSkeletonHeaderStep
    { maxScaleDimension := 0
      maxTranslationDimension := 0
      numJoints := avatarSkeletonData.length % 256
      stringTableLength := 0 }

/-- The record `jdata` that the second loop of `packSkeletonData` builds for the joint `i`. -/
def packSkeletonJoint (X : Extern) (header : SkeletonHeader) (i : Nat)
    (joint : UnpackedJointData) : SkeletonJointRecord :=
  { boneType := (joint.boneType % 256).toNat
    parentIndex := (joint.parentIndex % 256).toNat
    defaultScale :=
      X.packFloatRatioToTwoByte (X.fdiv joint.defaultScale header.maxScaleDimension)
    defaultRotation := X.packOrientationQuatToSixBytes joint.defaultRotation
    defaultTranslation :=
      X.packFloatVec3ToSignedTwoByteFixed
        (X.vecDiv joint.defaultTranslation header.maxTranslationDimension)
        TRANSLATION_COMPRESSION_RADIX
    jointIndex := i % 65536
    stringStart := (joint.stringStart % 65536).toNat
    stringLength := (joint.stringLength % 256).toNat }

/-- The bytes that the second loop of `packSkeletonData` writes for the joints `i, i + 1, ...`. -/
def packSkeletonRecords (X : Extern) (header : SkeletonHeader) :
    Nat → List UnpackedJointData → List Nat
  | _, [] => []
  | i, joint :: rest =>
    (packSkeletonJoint X header i joint).bytes ++ packSkeletonRecords X header (i + 1) rest

/-- The string `stringTable` that the second loop of `packSkeletonData` builds. -/
def skeletonStringTable (avatarSkeletonData : List UnpackedJointData) : List Nat :=
  (avatarSkeletonData.map (fun joint => joint.jointName)).flatten

/-- The bytes that `packSkeletonData` writes from `startPosition` on: the header, the joint
records and `header.stringTableLength` bytes of the string table in UTF-8. -/
def packSkeletonBytes (X : Extern) (S : SkeletonExtern)
    (avatarSkeletonData : List UnpackedJointData) : List Nat :=
  (packSkeletonHeader avatarSkeletonData).bytes ++
    packSkeletonRecords X (packSkeletonHeader avatarSkeletonData) 0 avatarSkeletonData ++
    (S.toUtf8 (skeletonStringTable avatarSkeletonData)).take
      (packSkeletonHeader avatarSkeletonData).stringTableLength

/-- The function `packSkeletonData()`; `none` is a call in which a `memcpy` writes past the end
of the array of `byteArraySize` bytes, or reads past the end of the UTF-8 bytes of the string
table. -/
def packSkeletonData (X : Extern) (S : SkeletonExtern)
    (avatarSkeletonData : List UnpackedJointData) : Option (List Nat) :=
  let header := packSkeletonHeader avatarSkeletonData
  let byteArraySize :=
    SKELETON_HEADER_SIZE + header.numJoints * SKELETON_JOINT_SIZE + header.stringTableLength
  if byteArraySize <
      SKELETON_HEADER_SIZE + avatarSkeletonData.length * SKELETON_JOINT_SIZE +
        header.stringTableLength then none
  else if (S.toUtf8 (skeletonStringTable avatarSkeletonData)).length < header.stringTableLength
    then none
  else some (packSkeletonBytes X S avatarSkeletonData)

/-- A read through a pointer into the received bytes that `unpackSkeletonData` makes outside
them: `size` bytes at `offset` of a buffer of `bufferSize` bytes. -/
inductive SkeletonFault where
  | readOutside (offset size bufferSize : Nat)
deriving DecidableEq, Repr, Inhabited

/-- A read of `size` bytes at `offset`: nothing in `unpackSkeletonData` tests it, and it is a
fault when it does not lie inside `data`. -/
def readInside (data : List Nat) (offset size : Nat) : Except SkeletonFault Unit :=
  if offset + size ≤ data.length then Except.ok ()
  else Except.error (SkeletonFault.readOutside offset size data.length)

/-- The joint `uJointData` that the first loop of `unpackSkeletonData` builds from the record `i`;
its name is set by the second loop. -/
def unpackSkeletonJoint (X : Extern) (S : SkeletonExtern) (header : SkeletonHeader)
    (data : List Nat) (i : Nat) : UnpackedJointData :=
  let jointData :=
    readSkeletonJoint (readBytes data (SKELETON_HEADER_SIZE + i * SKELETON_JOINT_SIZE)
      SKELETON_JOINT_SIZE)
  let boneType : Int := jointData.boneType
  { boneType := boneType
    jointIndex := i
    stringLength := jointData.stringLength
    stringStart := jointData.stringStart
    parentIndex :=
      if boneType = S.SkeletonRoot ∨ boneType = S.NonSkeletonRoot then -1
      else jointData.parentIndex
    defaultRotation := X.unpackOrientationQuatFromSixBytes jointData.defaultRotation
    defaultTranslation :=
      X.vecMul
        (X.unpackFloatVec3FromSignedTwoByteFixed jointData.defaultTranslation
          TRANSLATION_COMPRESSION_RADIX)
        header.maxTranslationDimension
    defaultScale :=
      X.fmul (X.unpackFloatRatioFromTwoByte jointData.defaultScale) header.maxScaleDimension
    jointName := [] }

/-- The first loop of `unpackSkeletonData`, `for (uint8_t i = 0; i < header->numJoints; i++)`;
`fuel` is `numJoints - i`. -/
def unpackSkeletonJoints (X : Extern) (S : SkeletonExtern) (header : SkeletonHeader)
    (data : List Nat) : Nat → Nat → List UnpackedJointData →
    Except SkeletonFault (List UnpackedJointData)
  | 0, _, joints => Except.ok joints
  | fuel + 1, i, joints =>
    match readInside data (SKELETON_HEADER_SIZE + i * SKELETON_JOINT_SIZE) SKELETON_JOINT_SIZE with
    | Except.error fault => Except.error fault
    | Except.ok _ =>
      unpackSkeletonJoints X S header data fuel (i + 1)
        (joints ++ [unpackSkeletonJoint X S header data i])

/-- The function `unpackSkeletonData(data)`: the skeleton handed to `setSkeletonDataIn`, or the
first read that lies outside `data`. The header is read through the pointer `header`, whose last
field ends at `sizeof(Header)`. -/
def unpackSkeletonData (X : Extern) (S : SkeletonExtern) (data : List Nat) :
    Except SkeletonFault (List UnpackedJointData) :=
  match readInside data 0 SKELETON_HEADER_SIZE with
  | Except.error fault => Except.error fault
  | Except.ok _ =>
    let header := readSkeletonHeader (readBytes data 0 SKELETON_HEADER_SIZE)
    match unpackSkeletonJoints X S header data header.numJoints 0 [] with
    | Except.error fault => Except.error fault
    | Except.ok joints =>
      match readInside data (SKELETON_HEADER_SIZE + header.numJoints * SKELETON_JOINT_SIZE)
          header.stringTableLength with
      | Except.error fault => Except.error fault
      | Except.ok _ =>
        let table := S.fromUtf8
          (readBytes data (SKELETON_HEADER_SIZE + header.numJoints * SKELETON_JOINT_SIZE)
            header.stringTableLength)
        Except.ok
          (joints.map (fun joint =>
            { joint with jointName := S.subString table joint.stringStart joint.stringLength }))

/-- A sample instance of what the skeleton functions use: the enumerators 0 and 2, names of one
byte per code unit, and `QStringRef` as the slice that lies inside the string. -/
def sampleSkeletonExtern : SkeletonExtern :=
  { SkeletonRoot := 0
    NonSkeletonRoot := 2
    toUtf8 := fun s => s
    fromUtf8 := fun b => b
    subString := fun s start length => (s.drop start.toNat).take length.toNat }

/-- A skeleton joint with the given bone type, parent, default translation and name, the default
scale 1.0 and the start of its name in the string table. -/
def skeletonJoint (boneType parentIndex : Int) (translation : Vec3) (stringStart : Nat)
    (name : List Nat) : UnpackedJointData :=
  { stringStart := stringStart
    stringLength := name.length
    boneType := boneType
    defaultTranslation := translation
    defaultRotation := { x := 0, y := 0, z := 0, w := 0x3F800000 }
    defaultScale := 0x3F800000
    jointIndex := 0
    parentIndex := parentIndex
    jointName := name }

/-- A skeleton of two joints: the root `Hips` at the origin and its child `Head` at
(0, 0.5, 0). -/
def sampleSkeleton : List UnpackedJointData :=
  [ skeletonJoint 0 (-1) { x := 0, y := 0, z := 0 } 0 [72, 105, 112, 115],
    { skeletonJoint 1 0 { x := 0, y := 0x3F000000, z := 0 } 4 [72, 101, 97, 100] with
      jointIndex := 1 } ]

/-- A skeleton of 256 joints: a root and 255 children of the joint 0. -/
def bigSkeleton : List UnpackedJointData :=
  skeletonJoint 0 (-1) { x := 0, y := 0, z := 0 } 0 [] ::
    List.replicate 255 (skeletonJoint 1 0 { x := 0, y := 0, z := 0 } 0 [])

/-- A skeleton of one joint whose bone type, 256, does not fit a byte; it is not a root and has
the parent index 0. -/
def oddSkeleton : List UnpackedJointData :=
  [skeletonJoint 256 0 { x := 0, y := 0, z := 0 } 0 []]

/-- A skeleton of one joint, the root `Hips` at the origin. -/
def rootOnlySkeleton : List UnpackedJointData :=
  [skeletonJoint 0 (-1) { x := 0, y := 0, z := 0 } 0 [72, 105, 112, 115]]

/-- A skeleton of one joint with the default translation (1.0, -3.0, 0.0). -/
def lopsidedSkeleton : List UnpackedJointData :=
  [skeletonJoint 0 (-1) { x := 0x3F800000, y := 0xC0400000, z := 0 } 0 [72, 105, 112, 115]]

/-- An avatar whose one joint has the translation (1.0, -3.0, 0.0). -/
def lopsidedAvatar : Avatar :=
  { sampleAvatar 0 with
    jointData := [{ sampleJoint with translation := { x := 0x3F800000, y := 0xC0400000, z := 0 } }] }

/-- An avatar whose one joint has the translation (0.0, 0.0, 0.0). -/
def originAvatar : Avatar :=
  { sampleAvatar 0 with
    jointData := [{ sampleJoint with translation := { x := 0, y := 0, z := 0 } }] }

/-- A buffer of a skeleton header alone that announces one joint: the maxima 1.0, `numJoints` 1
and a string table of no bytes. -/
def headerOnlyBuffer : List Nat :=
  [0, 0, 128, 63, 0, 0, 128, 63, 1, 0, 0]

/-- A buffer of a skeleton header alone that announces no joint and a string table of 5
bytes. -/
def tableMissingBuffer : List Nat :=
  [0, 0, 128, 63, 0, 0, 128, 63, 0, 5, 0]

@[simp] theorem leBytes_length (n x : Nat) : (leBytes n x).length = n := by
  induction n generalizing x with
  | zero => rfl
  | succ n ih => simp [leBytes, ih]

theorem fromLE_leBytes (n x : Nat) : fromLE (leBytes n x) = x % 256 ^ n := by
  induction n generalizing x with
  | zero => simp [leBytes, fromLE, Nat.mod_one]
  | succ n ih =>
    simp only [leBytes, fromLE, ih]
    rw [pow_succ, Nat.mul_comm (256 ^ n) 256, Nat.mod_mul]

theorem leBytes_lt (n x : Nat) : ∀ b ∈ leBytes n x, b < 256 := by
  induction n generalizing x with
  | zero => simp [leBytes]
  | succ n ih =>
    intro b hb
    simp only [leBytes, List.mem_cons] at hb
    rcases hb with h | h
    · subst h; exact Nat.mod_lt _ (by decide)
    · exact ih _ b h

@[simp] theorem Vec3.bytes_length (v : Vec3) : v.bytes.length = 12 := by
  simp [Vec3.bytes]

@[simp] theorem floats4_length (a b c d : Nat) : (floats4 a b c d).length = 16 := by
  simp [floats4]

@[simp] theorem floatsBytes_length (l : List Nat) : (floatsBytes l).length = l.length * 4 := by
  induction l with
  | nil => rfl
  | cons a l ih => simp [floatsBytes, ih]; omega

theorem and_flag_ne_zero (w k : Nat) : (w &&& (1 <<< k) ≠ 0) ↔ w.testBit k = true := by
  rw [Nat.one_shiftLeft]
  constructor
  · intro h
    by_contra hb
    apply h
    apply Nat.eq_of_testBit_eq
    intro i
    simp only [Nat.testBit_and, Nat.testBit_two_pow, Nat.zero_testBit]
    by_cases hik : k = i
    · subst hik; simp [hb]
    · simp [hik]
  · intro h hz
    have := congrArg (fun m => m.testBit k) hz
    simp [Nat.testBit_and, Nat.testBit_two_pow, h] at this

/-! ## The size of what the encoder writes -/





theorem hasSpace_iff (pe d sp : Nat) : hasSpace pe d sp = true ↔ d + sp ≤ pe := by
  simp only [hasSpace, decide_eq_true_eq]
  omega

/-- Every leading section writes exactly the space it asks for. -/
theorem leadingSections_length (X : Extern) (A : Avatar) :
    ∀ s ∈ leadingSections X A, s.2.2.length = s.2.1 := by
  intro s hs
  simp only [leadingSections, List.mem_cons, List.mem_singleton, List.not_mem_nil, or_false] at hs
  rcases hs with h | h | h | h | h | h | h | h | h | h | h | h <;> subst h <;>
    simp [globalPositionBytes, boundingBoxBytes, orientationBytes, scaleBytes, lookAtPositionBytes,
      audioLoudnessBytes, sensorToWorldBytes, additionalFlagsBytes, parentInfoBytes,
      localPositionBytes, handControllersBytes, handControllerBytes, faceTrackerBytes,
      faceTrackerSpace, AVATAR_GLOBAL_POSITION_SIZE, AVATAR_BOUNDING_BOX_SIZE, SIX_BYTE_QUAT_SIZE,
      AVATAR_SCALE_SIZE, LOOK_AT_POSITION_SIZE, AUDIO_LOUDNESS_SIZE, SENSOR_TO_WORLD_SIZE,
      ADDITIONAL_FLAGS_SIZE, PARENT_INFO_SIZE, AVATAR_LOCAL_POSITION_SIZE, HAND_CONTROLLERS_SIZE,
      FACE_TRACKER_INFO_SIZE]
  omega

theorem ifAvatarSpace_fits (w pe st flag sp : Nat) (content : List Nat) (e : Enc)
    (hlen : content.length ≤ sp) (h : st + e.body.length ≤ pe) :
    st + (ifAvatarSpace w pe st flag sp content e).body.length ≤ pe := by
  unfold ifAvatarSpace
  split
  · rename_i hc
    have := (hasSpace_iff _ _ _).1 hc.2
    simp only [List.length_append]
    omega
  · exact h

theorem ifAvatarSpace_length_le (w pe st flag sp : Nat) (content : List Nat) (e : Enc) :
    (ifAvatarSpace w pe st flag sp content e).body.length ≤ e.body.length + content.length := by
  unfold ifAvatarSpace
  split <;> simp

theorem encodeSections_fits (w pe st : Nat) (l : List (Nat × Nat × List Nat)) (e : Enc)
    (hlen : ∀ s ∈ l, s.2.2.length = s.2.1) (h : st + e.body.length ≤ pe) :
    st + (encodeSections w pe st l e).body.length ≤ pe := by
  induction l generalizing e with
  | nil => exact h
  | cons s l ih =>
    simp only [encodeSections]
    apply ih
    · intro t ht; exact hlen t (List.mem_cons_of_mem _ ht)
    · exact ifAvatarSpace_fits _ _ _ _ _ _ _ (le_of_eq (hlen s (List.mem_cons_self _ _))) h

theorem encodeSections_length_le (w pe st : Nat) (l : List (Nat × Nat × List Nat)) (e : Enc) :
    (encodeSections w pe st l e).body.length ≤ e.body.length + (l.map (fun s => s.2.2.length)).sum := by
  induction l generalizing e with
  | nil => simp [encodeSections]
  | cons s l ih =>
    simp only [encodeSections, List.map_cons, List.sum_cons]
    have h1 := ih (ifAvatarSpace w pe st s.1 s.2.1 s.2.2 e)
    have h2 := ifAvatarSpace_length_le w pe st s.1 s.2.1 s.2.2 e
    omega

theorem leadingSections_sum (X : Extern) (A : Avatar) :
    ((leadingSections X A).map (fun s => s.2.2.length)).sum =
      133 + faceTrackerSpace A := by
  simp [leadingSections, globalPositionBytes, boundingBoxBytes, orientationBytes, scaleBytes, lookAtPositionBytes,
      audioLoudnessBytes, sensorToWorldBytes, additionalFlagsBytes, parentInfoBytes,
      localPositionBytes, handControllersBytes, handControllerBytes, faceTrackerBytes,
      faceTrackerSpace, FACE_TRACKER_INFO_SIZE]
  omega

/-! joint loops -/

theorem rotationLoop_space (X : Extern) (A : Avatar) (last : List JointData) (sa cull : Bool)
    (dot pe m base c : Nat) (hm : 6 + c ≤ m) (fuel : Nat) (s : JointLoop)
    (h : base + s.out.length + c ≤ pe) :
    base + (rotationLoop X A last sa cull dot pe m base fuel s).out.length + c ≤ pe := by
  induction fuel generalizing s with
  | zero => simpa [rotationLoop] using h
  | succ n ih =>
    simp only [rotationLoop]
    split
    · rename_i hsp
      have hsp := (hasSpace_iff _ _ _).1 hsp
      split
      · apply ih; simp only [List.length_append, leBytes_length]; omega
      · apply ih; exact h
    · exact h

theorem translationLoop_space (X : Extern) (A : Avatar) (last : List JointData) (sa cull : Bool)
    (mt md pe m base c : Nat) (hm : 6 + c ≤ m) (fuel : Nat) (s : JointLoop)
    (h : base + s.out.length + c ≤ pe) :
    base + (translationLoop X A last sa cull mt md pe m base fuel s).out.length + c ≤ pe := by
  induction fuel generalizing s with
  | zero => simpa [translationLoop] using h
  | succ n ih =>
    simp only [translationLoop]
    split
    · rename_i hsp
      have hsp := (hasSpace_iff _ _ _).1 hsp
      split
      · apply ih; simp only [List.length_append, leBytes_length]; omega
      · apply ih; exact h
    · exact h

theorem rotationLoop_out_le (X : Extern) (A : Avatar) (last : List JointData) (sa cull : Bool)
    (dot pe m base : Nat) (fuel : Nat) (s : JointLoop) :
    (rotationLoop X A last sa cull dot pe m base fuel s).out.length ≤ s.out.length + 6 * fuel := by
  induction fuel generalizing s with
  | zero => simp [rotationLoop]
  | succ n ih =>
    simp only [rotationLoop]
    split
    · split
      · refine le_trans (ih _) ?_; simp only [List.length_append, leBytes_length]; omega
      · exact le_trans (ih _) (by simp only []; omega)
    · omega

theorem translationLoop_out_le (X : Extern) (A : Avatar) (last : List JointData) (sa cull : Bool)
    (mt md pe m base : Nat) (fuel : Nat) (s : JointLoop) :
    (translationLoop X A last sa cull mt md pe m base fuel s).out.length ≤ s.out.length + 6 * fuel := by
  induction fuel generalizing s with
  | zero => simp [translationLoop]
  | succ n ih =>
    simp only [translationLoop]
    split
    · split
      · refine le_trans (ih _) ?_; simp only [List.length_append, leBytes_length]; omega
      · exact le_trans (ih _) (by simp only []; omega)
    · omega

@[simp] theorem setValidityBit_length (v : List Nat) (i : Nat) :
    (setValidityBit v i).length = v.length := by
  simp [setValidityBit]

theorem rotationLoop_validity_length (X : Extern) (A : Avatar) (last : List JointData) (sa cull : Bool)
    (dot pe m base : Nat) (fuel : Nat) (s : JointLoop) :
    (rotationLoop X A last sa cull dot pe m base fuel s).validity.length = s.validity.length := by
  induction fuel generalizing s with
  | zero => simp [rotationLoop]
  | succ n ih =>
    simp only [rotationLoop]
    split
    · split
      · rw [ih]; simp
      · rw [ih]
    · rfl

theorem translationLoop_validity_length (X : Extern) (A : Avatar) (last : List JointData) (sa cull : Bool)
    (mt md pe m base : Nat) (fuel : Nat) (s : JointLoop) :
    (translationLoop X A last sa cull mt md pe m base fuel s).validity.length = s.validity.length := by
  induction fuel generalizing s with
  | zero => simp [translationLoop]
  | succ n ih =>
    simp only [translationLoop]
    split
    · split
      · rw [ih]; simp
      · rw [ih]
    · rfl

theorem rotationPass_validity_length (X : Extern) (A : Avatar) (last : List JointData) (r : Nat)
    (sa cull da : Bool) (v : Vec3) (pe n dest : Nat) :
    (rotationPass X A last r sa cull da v pe n dest).validity.length = calcBitVectorSize n := by
  simp [rotationPass, rotationLoop_validity_length]

theorem translationPass_validity_length (X : Extern) (A : Avatar) (last : List JointData)
    (t : Nat) (sa cull da : Bool) (v : Vec3) (pe n dest : Nat) :
    (translationPass X A last t sa cull da v pe n dest).validity.length = calcBitVectorSize n := by
  simp [translationPass, translationLoop_validity_length]

/-- The length of the joint section. -/
theorem jointDataSection_length (X : Extern) (A : Avatar) (last : List JointData) (r t : Nat)
    (sa cull da : Bool) (v : Vec3) (pe n dest : Nat) :
    (jointDataSection X A last r t sa cull da v pe n dest).bytes.length =
      1 + calcBitVectorSize n +
        (jointDataSection X A last r t sa cull da v pe n dest).rotationBlock.length +
        calcBitVectorSize n + 4 +
        (jointDataSection X A last r t sa cull da v pe n dest).translationBlock.length := by
  simp only [jointDataSection, List.length_append, List.length_singleton, leBytes_length,
    rotationPass_validity_length, translationPass_validity_length]

theorem jointDataSection_fits (X : Extern) (A : Avatar) (last : List JointData) (r t : Nat)
    (sa cull da : Bool) (v : Vec3) (pe n dest : Nat)
    (h : dest + minJointDataSize n ≤ pe) :
    dest + (jointDataSection X A last r t sa cull da v pe n dest).bytes.length ≤ pe := by
  rw [jointDataSection_length]
  simp only [jointDataSection, minJointDataSize] at *
  have h1 : dest + 1 + calcBitVectorSize n +
      (rotationPass X A last r sa cull da v pe n dest).out.length + (calcBitVectorSize n + 4) ≤ pe := by
    apply rotationLoop_space
    · simp [minSizeForJoint, SIX_BYTE_QUAT_SIZE]; omega
    · simp; omega
  have h2 : dest + 1 + calcBitVectorSize n +
      (rotationPass X A last r sa cull da v pe n dest).out.length + calcBitVectorSize n + 4 +
      (translationPass X A last t sa cull da v pe n (dest + 1 + calcBitVectorSize n +
      (rotationPass X A last r sa cull da v pe n dest).out.length)).out.length + 0 ≤ pe := by
    apply translationLoop_space
    · simp only [minSizeForJoint, SIX_BYTE_QUAT_SIZE]; omega
    · simp; omega
  omega

theorem jointDataSection_length_le (X : Extern) (A : Avatar) (last : List JointData) (r t : Nat)
    (sa cull da : Bool) (v : Vec3) (pe n dest : Nat) :
    (jointDataSection X A last r t sa cull da v pe n dest).bytes.length ≤ maxJointDataSize n := by
  rw [jointDataSection_length]
  simp only [jointDataSection, maxJointDataSize]
  have h1 : (rotationPass X A last r sa cull da v pe n dest).out.length ≤ 0 + 6 * (n - r) :=
    rotationLoop_out_le _ _ _ _ _ _ _ _ _ _ _
  have h2 : (translationPass X A last t sa cull da v pe n (dest + 1 + calcBitVectorSize n +
      (rotationPass X A last r sa cull da v pe n dest).out.length)).out.length ≤ 0 + 6 * (n - t) :=
    translationLoop_out_le _ _ _ _ _ _ _ _ _ _ _ _
  omega

theorem calcBitVectorSize_mono {a b : Nat} (h : a ≤ b) :
    calcBitVectorSize a ≤ calcBitVectorSize b := by
  unfold calcBitVectorSize
  exact Nat.div_le_div_right (by omega)

theorem numJointsFor_le (A : Avatar) (w : Nat) : numJointsFor A w ≤ A.getJointDataSizeOut := by
  unfold numJointsFor
  split <;> simp

theorem jointDataStep_fits (X : Extern) (A : Avatar) (last : List JointData) (r t : Nat)
    (sa cull da : Bool) (v : Vec3) (w pe st n : Nat) (e : Enc) (h : st + e.body.length ≤ pe) :
    st + (jointDataStep X A last r t sa cull da v w pe st n e).enc.body.length ≤ pe := by
  unfold jointDataStep
  split
  · rename_i hc
    have hsp := (hasSpace_iff _ _ _).1 hc.2
    apply ifAvatarSpace_fits
    · simp [farGrabJointsBytes, FAR_GRAB_JOINTS_SIZE]
    · have := jointDataSection_fits X A last r t sa cull da v pe n (st + e.body.length) hsp
      simp only [List.length_append]
      omega
  · exact h

theorem jointDataStep_length_le (X : Extern) (A : Avatar) (last : List JointData) (r t : Nat)
    (sa cull da : Bool) (v : Vec3) (w pe st n : Nat) (e : Enc) :
    (jointDataStep X A last r t sa cull da v w pe st n e).enc.body.length ≤
      e.body.length + maxJointDataSize n + FAR_GRAB_JOINTS_SIZE := by
  unfold jointDataStep
  split
  · refine le_trans (ifAvatarSpace_length_le _ _ _ _ _ _ _) ?_
    have := jointDataSection_length_le X A last r t sa cull da v pe n (st + e.body.length)
    simp only [List.length_append, farGrabJointsBytes, Vec3.bytes_length, floats4_length,
      FAR_GRAB_JOINTS_SIZE]
    omega
  · simp only []; omega

@[simp] theorem writeBitVector_length (n : Nat) (f : Nat → Bool) :
    (writeBitVector n f).length = calcBitVectorSize n := by
  simp [writeBitVector]

@[simp] theorem jointDefaultPoseFlagsBytes_length (A : Avatar) (n : Nat) :
    (jointDefaultPoseFlagsBytes A n).length = 1 + 2 * calcBitVectorSize n := by
  simp [jointDefaultPoseFlagsBytes]; omega

/-- Everything the blocks write lies before `packetEnd`. -/
theorem encodeBlocks_fits (X : Extern) (A : Avatar) (last : List JointData) (r t : Nat)
    (sa cull da : Bool) (v : Vec3) (w pe st : Nat) (h : st ≤ pe) :
    st + (encodeBlocks X A last r t sa cull da v w pe st).enc.body.length ≤ pe := by
  unfold encodeBlocks
  simp only []
  apply ifAvatarSpace_fits
  · simp
  · apply jointDataStep_fits
    unfold leadingEnc
    apply encodeSections_fits
    · exact leadingSections_length X A
    · simpa using h

/-- The blocks never write more than every section at its largest. -/
theorem encodeBlocks_length_le (X : Extern) (A : Avatar) (last : List JointData) (r t : Nat)
    (sa cull da : Bool) (v : Vec3) (w pe st : Nat) :
    (encodeBlocks X A last r t sa cull da v w pe st).enc.body.length ≤
      133 + faceTrackerSpace A + maxJointDataSize (numJointsFor A w) + FAR_GRAB_JOINTS_SIZE +
        (1 + 2 * calcBitVectorSize (numJointsFor A w)) := by
  unfold encodeBlocks
  simp only []
  refine le_trans (ifAvatarSpace_length_le _ _ _ _ _ _ _) ?_
  have h1 := jointDataStep_length_le X A last r t sa cull da v w pe st (numJointsFor A w)
    (leadingEnc X A w pe st)
  have h2 : (leadingEnc X A w pe st).body.length ≤ _ :=
    encodeSections_length_le w pe st (leadingSections X A) { body := [], includedFlags := 0 }
  rw [leadingSections_sum] at h2
  simp only [jointDefaultPoseFlagsBytes_length, List.length_nil] at *
  omega

theorem maxJointDataSize_mono {a b : Nat} (h : a ≤ b) : maxJointDataSize a ≤ maxJointDataSize b := by
  have := calcBitVectorSize_mono h
  unfold maxJointDataSize
  omega

theorem uuidBytesFor_length (A : Avatar) (s : SendStatus) :
    (uuidBytesFor A s).length = if s.sendUUID then 16 else 0 := by
  unfold uuidBytesFor
  split <;> simp [sessionUUIDBytes, NUM_BYTES_RFC4122_UUID]

theorem startFor_le (A : Avatar) (s : SendStatus) : startFor A s ≤ MIN_BULK_PACKET_SIZE := by
  simp only [startFor, uuidBytesFor_length, MIN_BULK_PACKET_SIZE, NUM_BYTES_RFC4122_UUID, HEADER_SIZE]
  split <;> omega

/-- The pre-allocated buffer holds every section at its largest: the post-hoc overflow test never
fires. -/
theorem encodeBlocks_le_byteArraySize (X : Extern) (A : Avatar) (last : List JointData) (r t : Nat)
    (sa cull da : Bool) (v : Vec3) (w pe : Nat) (s : SendStatus) :
    startFor A s + (encodeBlocks X A last r t sa cull da v w pe (startFor A s)).enc.body.length ≤
      byteArraySize A := by
  have h1 := encodeBlocks_length_le X A last r t sa cull da v w pe (startFor A s)
  have h2 := startFor_le A s
  have h3 := maxJointDataSize_mono (numJointsFor_le A w)
  have h4 := calcBitVectorSize_mono (numJointsFor_le A w)
  simp only [byteArraySize, MAX_CONSTANT_HEADER_SIZE, maxFaceTrackerInfoSize,
    maxJointDefaultPoseFlagsSize, faceTrackerSpace, MIN_BULK_PACKET_SIZE, NUM_BYTES_RFC4122_UUID,
    HEADER_SIZE, AVATAR_GLOBAL_POSITION_SIZE, AVATAR_BOUNDING_BOX_SIZE, AVATAR_ORIENTATION_SIZE,
    AVATAR_SCALE_SIZE, LOOK_AT_POSITION_SIZE, AUDIO_LOUDNESS_SIZE, SENSOR_TO_WORLD_SIZE,
    ADDITIONAL_FLAGS_SIZE, PARENT_INFO_SIZE, AVATAR_LOCAL_POSITION_SIZE, HAND_CONTROLLERS_SIZE,
     FAR_GRAB_JOINTS_SIZE] at *
  omega

theorem startFor_le_packetEndFor (A : Avatar) (s : SendStatus) (maxDataSize : Nat)
    (hmax : maxDataSize = 0 ∨ MIN_BULK_PACKET_SIZE ≤ maxDataSize) :
    startFor A s ≤ packetEndFor A maxDataSize := by
  have h2 := startFor_le A s
  unfold packetEndFor
  split
  · simp only [byteArraySize, MAX_CONSTANT_HEADER_SIZE, MIN_BULK_PACKET_SIZE, NUM_BYTES_RFC4122_UUID,
    HEADER_SIZE] at *
    omega
  · rcases hmax with h | h
    · contradiction
    · omega

/-- The shape of the result of `toByteArray` for a detail level other than `NoData` and an
admissible `maxDataSize`: the call returns, and its result is assembled from the blocks. -/
theorem toByteArray_eq (X : Extern) (A : Avatar) (itemFlagsInit : Nat)
    (dataDetail : AvatarDataDetail) (last : List JointData) (s : SendStatus) (da : Bool)
    (v : Vec3) (maxDataSize : Nat)
    (hmax : maxDataSize = 0 ∨ MIN_BULK_PACKET_SIZE ≤ maxDataSize)
    (hd : dataDetail ≠ AvatarDataDetail.NoData) :
    toByteArray X A itemFlagsInit dataDetail last s da v maxDataSize =
      some
        { bytes := uuidBytesFor A s ++
            leBytes HEADER_SIZE
              (encodeBlocksFor X A itemFlagsInit dataDetail last s da v maxDataSize).enc.includedFlags ++
            (encodeBlocksFor X A itemFlagsInit dataDetail last s da v maxDataSize).enc.body
          sendStatus :=
            { itemFlags :=
                ((wantedFlagsFor itemFlagsInit s &&&
                  ((encodeBlocksFor X A itemFlagsInit dataDetail last s da v
                    maxDataSize).enc.includedFlags ^^^ 65535)) |||
                  (encodeBlocksFor X A itemFlagsInit dataDetail last s da v
                    maxDataSize).extraReturnedFlags) % 65536
              sendUUID := s.sendUUID
              rotationsSent :=
                (encodeBlocksFor X A itemFlagsInit dataDetail last s da v maxDataSize).rotationsSent
              translationsSent :=
                (encodeBlocksFor X A itemFlagsInit dataDetail last s da v
                  maxDataSize).translationsSent }
          wantedFlags := wantedFlagsFor itemFlagsInit s
          includedFlags :=
            (encodeBlocksFor X A itemFlagsInit dataDetail last s da v maxDataSize).enc.includedFlags
          extraReturnedFlags :=
            (encodeBlocksFor X A itemFlagsInit dataDetail last s da v maxDataSize).extraReturnedFlags
          numJoints := numJointsFor A (wantedFlagsFor itemFlagsInit s)
          packetEnd := packetEndFor A maxDataSize
          joints := (encodeBlocksFor X A itemFlagsInit dataDetail last s da v maxDataSize).joints } := by
  have hov : startFor A s +
      (encodeBlocksFor X A itemFlagsInit dataDetail last s da v maxDataSize).enc.body.length ≤
        byteArraySize A := encodeBlocks_le_byteArraySize _ _ _ _ _ _ _ _ _ _ _ _
  unfold toByteArray
  rw [if_neg (not_not.2 hmax), if_neg hd]
  simp only []
  rw [if_neg (not_lt.2 hov)]

/-- The result of `toByteArray` for the detail level `NoData` and an admissible `maxDataSize`. -/
theorem toByteArray_noData (X : Extern) (A : Avatar) (itemFlagsInit : Nat)
    (last : List JointData) (s : SendStatus) (da : Bool) (v : Vec3) (maxDataSize : Nat)
    (hmax : maxDataSize = 0 ∨ MIN_BULK_PACKET_SIZE ≤ maxDataSize) :
    toByteArray X A itemFlagsInit AvatarDataDetail.NoData last s da v maxDataSize =
      some
        { bytes := uuidBytesFor A s ++ leBytes HEADER_SIZE 0
          sendStatus := { s with itemFlags := 0 }
          wantedFlags := 0
          includedFlags := 0
          extraReturnedFlags := 0
          numJoints := 0
          packetEnd := maxDataSize
          joints := none } := by
  unfold toByteArray
  rw [if_neg (not_not.2 hmax), if_pos rfl]

/-- C1. For every avatar state, every wanted-flag set, every detail level, every send status and
every `maxDataSize` that is at least `MIN_BULK_PACKET_SIZE`, `toByteArray` returns a buffer, and
that buffer is at most `maxDataSize` bytes long. -/
theorem C1_encoded_length_le_maxDataSize (X : Extern) (A : Avatar) (itemFlagsInit : Nat)
    (dataDetail : AvatarDataDetail) (lastSentJointData : List JointData)
    (sendStatus : SendStatus) (distanceAdjust : Bool) (viewerPosition : Vec3)
    (maxDataSize : Nat) (hmax : MIN_BULK_PACKET_SIZE ≤ maxDataSize) :
    ∃ r, toByteArray X A itemFlagsInit dataDetail lastSentJointData sendStatus distanceAdjust
        viewerPosition maxDataSize = some r ∧ r.bytes.length ≤ maxDataSize := by
  have hs := startFor_le A sendStatus
  by_cases hd : dataDetail = AvatarDataDetail.NoData
  · subst hd
    refine ⟨_, toByteArray_noData X A itemFlagsInit lastSentJointData sendStatus distanceAdjust
      viewerPosition maxDataSize (Or.inr hmax), ?_⟩
    simp only [List.length_append, leBytes_length, startFor] at *
    omega
  · refine ⟨_, toByteArray_eq X A itemFlagsInit dataDetail lastSentJointData sendStatus
      distanceAdjust viewerPosition maxDataSize (Or.inr hmax) hd, ?_⟩
    have hpe : packetEndFor A maxDataSize = maxDataSize := by
      unfold packetEndFor
      rw [if_neg]
      simp only [MIN_BULK_PACKET_SIZE, NUM_BYTES_RFC4122_UUID, HEADER_SIZE] at hmax
      omega
    have hfit : startFor A sendStatus +
        (encodeBlocksFor X A itemFlagsInit dataDetail lastSentJointData sendStatus distanceAdjust
          viewerPosition maxDataSize).enc.body.length ≤ packetEndFor A maxDataSize :=
      encodeBlocks_fits _ _ _ _ _ _ _ _ _ _ _ _ (startFor_le_packetEndFor A sendStatus maxDataSize (Or.inr hmax))
    simp only [List.length_append, leBytes_length, startFor] at *
    omega

theorem C1_witness :
    MIN_BULK_PACKET_SIZE ≤ 77 ∧
    ∃ r, toByteArray sampleExtern (sampleAvatar 40) 0x7FFF AvatarDataDetail.SendAllData []
        freshStatus false default 77 = some r ∧ r.bytes.length ≤ 77 :=
  ⟨by decide, C1_encoded_length_le_maxDataSize sampleExtern (sampleAvatar 40) 0x7FFF
    AvatarDataDetail.SendAllData [] freshStatus false default 77 (by decide)⟩

/-! ## The mask that the encoder builds -/

theorem flag_testBit (k j : Nat) : (1 <<< k).testBit j = decide (k = j) := by
  rw [Nat.one_shiftLeft, Nat.testBit_two_pow]

theorem flag_lt {k b : Nat} (h : k < b) : 1 <<< k < 2 ^ b := by
  rw [Nat.one_shiftLeft]
  exact Nat.pow_lt_pow_right (by decide) h

theorem testBit_false_of_lt {m b j : Nat} (h : m < 2 ^ b) (hj : b ≤ j) : m.testBit j = false := by
  apply Nat.testBit_lt_two_pow
  exact lt_of_lt_of_le h (Nat.pow_le_pow_right (by decide) hj)

/-- The mask after one `IF_AVATAR_SPACE` block. -/
theorem ifAvatarSpace_testBit (w pe st b sp : Nat) (content : List Nat) (e : Enc) (j : Nat) :
    (ifAvatarSpace w pe st (1 <<< b) sp content e).includedFlags.testBit j =
      (e.includedFlags.testBit j ||
        (decide (b = j) && w.testBit b && hasSpace pe (st + e.body.length) sp)) := by
  unfold ifAvatarSpace
  by_cases hw : w.testBit b = true
  · by_cases hs : hasSpace pe (st + e.body.length) sp = true
    · rw [if_pos ⟨(and_flag_ne_zero w b).2 hw, hs⟩]
      simp only [Nat.testBit_or, flag_testBit, hw, hs, Bool.and_true]
    · rw [if_neg (fun h => hs h.2)]
      simp [hs]
  · rw [if_neg (fun h => hw ((and_flag_ne_zero w b).1 h.1))]
    simp [hw]

/-- The body after one `IF_AVATAR_SPACE` block that writes as many bytes as it asks for. -/
theorem ifAvatarSpace_body_length (w pe st b sp : Nat) (content : List Nat) (e : Enc)
    (hlen : content.length = sp) :
    (ifAvatarSpace w pe st (1 <<< b) sp content e).body.length =
      e.body.length +
        (if w.testBit b = true ∧ hasSpace pe (st + e.body.length) sp = true then sp else 0) := by
  unfold ifAvatarSpace
  by_cases hw : w.testBit b = true
  · by_cases hs : hasSpace pe (st + e.body.length) sp = true
    · rw [if_pos ⟨(and_flag_ne_zero w b).2 hw, hs⟩, if_pos ⟨hw, hs⟩]
      simp [hlen]
    · rw [if_neg (fun h => hs h.2), if_neg (fun h => hs h.2)]
      rfl
  · rw [if_neg (fun h => hw ((and_flag_ne_zero w b).1 h.1)), if_neg (fun h => hw h.1)]
    rfl

theorem ifAvatarSpace_lt (w pe st b sp : Nat) (content : List Nat) (e : Enc) (c : Nat)
    (he : e.includedFlags < 2 ^ c) (hb : b < c) :
    (ifAvatarSpace w pe st (1 <<< b) sp content e).includedFlags < 2 ^ c := by
  unfold ifAvatarSpace
  split
  · exact Nat.or_lt_two_pow he (flag_lt hb)
  · exact he

theorem sectionsOffset_congr (m1 m2 : Nat) (sizes : List Nat) (b k : Nat)
    (h : ∀ j, b ≤ j → j < b + k → m1.testBit j = m2.testBit j) :
    sectionsOffset m1 sizes b k = sectionsOffset m2 sizes b k := by
  induction sizes generalizing b k with
  | nil => simp [sectionsOffset]
  | cons sz rest ih =>
    cases k with
    | zero => simp [sectionsOffset]
    | succ k =>
      simp only [sectionsOffset]
      rw [h b (le_refl _) (by omega), ih (b + 1) k (fun j h1 h2 => h j (by omega) (by omega))]

theorem sectionsOffset_append (m : Nat) (l1 l2 : List Nat) (b k : Nat) (hk : k ≤ l1.length) :
    sectionsOffset m (l1 ++ l2) b k = sectionsOffset m l1 b k := by
  induction l1 generalizing b k with
  | nil =>
    simp only [List.length_nil, Nat.le_zero] at hk
    subst hk
    cases l2 <;> simp [sectionsOffset]
  | cons sz rest ih =>
    cases k with
    | zero => simp [sectionsOffset]
    | succ k =>
      have := ih (b + 1) k (by simpa using hk)
      show (if m.testBit b = true then sz else 0) + sectionsOffset m (rest ++ l2) (b + 1) k = _
      rw [this]
      rfl

/-- What a run of `IF_AVATAR_SPACE` blocks does, for sections that carry the bits `b, b + 1, ...`
and write as many bytes as they ask for, from a state whose mask has no bit from `b` on. -/
theorem encodeSections_spec (w pe st : Nat) (l : List (Nat × Nat × List Nat)) (b : Nat) (e : Enc)
    (hflags : flagsFrom b l) (hlen : ∀ s ∈ l, s.2.2.length = s.2.1)
    (he : e.includedFlags < 2 ^ b) :
    (encodeSections w pe st l e).includedFlags < 2 ^ (b + l.length) ∧
    (∀ j, j < b →
      (encodeSections w pe st l e).includedFlags.testBit j = e.includedFlags.testBit j) ∧
    (encodeSections w pe st l e).body.length = e.body.length +
      sectionsOffset (encodeSections w pe st l e).includedFlags (l.map (fun s => s.2.1)) b
        l.length ∧
    (∀ k, k < l.length →
      ((encodeSections w pe st l e).includedFlags.testBit (b + k) = true ↔
        (w.testBit (b + k) = true ∧
          st + e.body.length +
            sectionsOffset (encodeSections w pe st l e).includedFlags (l.map (fun s => s.2.1)) b k
            + (l.map (fun s => s.2.1)).getD k 0 ≤ pe))) := by
  induction l generalizing b e with
  | nil =>
    refine ⟨by simpa using he, fun j _ => rfl, by simp [encodeSections, sectionsOffset], ?_⟩
    intro k hk
    simp at hk
  | cons s l ih =>
    obtain ⟨hs1, hrest⟩ := hflags
    have hlen0 : s.2.2.length = s.2.1 := hlen s (List.mem_cons_self _ _)
    have hlen' : ∀ t ∈ l, t.2.2.length = t.2.1 := fun t ht => hlen t (List.mem_cons_of_mem _ ht)
    have he1 : (ifAvatarSpace w pe st s.1 s.2.1 s.2.2 e).includedFlags < 2 ^ (b + 1) := by
      rw [hs1]
      exact ifAvatarSpace_lt w pe st b s.2.1 s.2.2 e (b + 1)
        (lt_of_lt_of_le he (Nat.pow_le_pow_right (by decide) (by omega))) (by omega)
    obtain ⟨h1, h2, h3, h4⟩ := ih (b + 1) (ifAvatarSpace w pe st s.1 s.2.1 s.2.2 e) hrest hlen' he1
    have heb : e.includedFlags.testBit b = false := testBit_false_of_lt he (le_refl _)
    have hbit : (encodeSections w pe st (s :: l) e).includedFlags.testBit b =
        (w.testBit b && hasSpace pe (st + e.body.length) s.2.1) := by
      simp only [encodeSections]
      rw [h2 b (by omega), hs1, ifAvatarSpace_testBit, heb]
      simp
    have hbody : (ifAvatarSpace w pe st s.1 s.2.1 s.2.2 e).body.length = e.body.length +
        (if (encodeSections w pe st (s :: l) e).includedFlags.testBit b = true then s.2.1
          else 0) := by
      rw [hs1, ifAvatarSpace_body_length _ _ _ _ _ _ _ hlen0, hbit]
      simp
    refine ⟨?_, ?_, ?_, ?_⟩
    · simp only [encodeSections, List.length_cons]
      rw [show b + (l.length + 1) = b + 1 + l.length by omega]
      exact h1
    · intro j hj
      simp only [encodeSections]
      rw [h2 j (by omega), hs1, ifAvatarSpace_testBit]
      have : decide (b = j) = false := by simp; omega
      simp [this]
    · simp only [encodeSections, List.map_cons, List.length_cons, sectionsOffset] at *
      rw [h3, hbody]
      omega
    · intro k hk
      cases k with
      | zero =>
        simp only [Nat.add_zero, List.map_cons, List.getD_cons_zero]
        rw [hbit]
        have : sectionsOffset (encodeSections w pe st (s :: l) e).includedFlags
            (s.2.1 :: l.map (fun s => s.2.1)) b 0 = 0 := by simp [sectionsOffset]
        rw [this]
        simp only [Bool.and_eq_true, hasSpace_iff]
        constructor
        · rintro ⟨h, h'⟩; exact ⟨h, by omega⟩
        · rintro ⟨h, h'⟩; exact ⟨h, by omega⟩
      | succ k =>
        have := h4 k (by simpa using hk)
        simp only [encodeSections, List.map_cons, List.getD_cons_succ, sectionsOffset] at *
        rw [show b + (k + 1) = b + 1 + k by omega, this, hbody]
        constructor
        · rintro ⟨h, h'⟩; exact ⟨h, by omega⟩
        · rintro ⟨h, h'⟩; exact ⟨h, by omega⟩

theorem leadingSections_flagsFrom (X : Extern) (A : Avatar) : flagsFrom 0 (leadingSections X A) := by
  simp [flagsFrom, leadingSections, PACKET_HAS_AVATAR_GLOBAL_POSITION,
    PACKET_HAS_AVATAR_BOUNDING_BOX, PACKET_HAS_AVATAR_ORIENTATION, PACKET_HAS_AVATAR_SCALE,
    PACKET_HAS_LOOK_AT_POSITION, PACKET_HAS_AUDIO_LOUDNESS, PACKET_HAS_SENSOR_TO_WORLD_MATRIX,
    PACKET_HAS_ADDITIONAL_FLAGS, PACKET_HAS_PARENT_INFO, PACKET_HAS_AVATAR_LOCAL_POSITION,
    PACKET_HAS_HAND_CONTROLLERS, PACKET_HAS_FACE_TRACKER_INFO]

instance (w pe st n : Nat) (e : Enc) : Decidable (jointEntered w pe st n e) := by
  unfold jointEntered; infer_instance

theorem jointDataStep_entered (X : Extern) (A : Avatar) (last : List JointData) (r t : Nat)
    (sa cull da : Bool) (v : Vec3) (w pe st n : Nat) (e : Enc) (h : jointEntered w pe st n e) :
    jointDataStep X A last r t sa cull da v w pe st n e =
      { enc := ifAvatarSpace w pe st (1 <<< 14) FAR_GRAB_JOINTS_SIZE
          (farGrabJointsBytes A.farGrabJoints)
          { body := e.body ++
              (jointDataSection X A last r t sa cull da v pe n (st + e.body.length)).bytes
            includedFlags := e.includedFlags ||| (1 <<< 12) }
        rotationsSent :=
          (jointDataSection X A last r t sa cull da v pe n (st + e.body.length)).rotationsSent
        translationsSent :=
          (jointDataSection X A last r t sa cull da v pe n (st + e.body.length)).translationsSent
        extraReturnedFlags :=
          if (jointDataSection X A last r t sa cull da v pe n (st + e.body.length)).rotationsSent
              ≠ n ∨
            (jointDataSection X A last r t sa cull da v pe n
              (st + e.body.length)).translationsSent ≠ n then 1 <<< 12 else 0
        joints := some (jointDataSection X A last r t sa cull da v pe n (st + e.body.length)) } := by
  unfold jointDataStep
  rw [if_pos ⟨(and_flag_ne_zero w 12).2 h.1, h.2⟩]
  rfl

theorem jointDataStep_not_entered (X : Extern) (A : Avatar) (last : List JointData) (r t : Nat)
    (sa cull da : Bool) (v : Vec3) (w pe st n : Nat) (e : Enc) (h : ¬ jointEntered w pe st n e) :
    jointDataStep X A last r t sa cull da v w pe st n e =
      { enc := e, rotationsSent := r, translationsSent := t, extraReturnedFlags := 0,
        joints := none } := by
  unfold jointDataStep
  rw [if_neg]
  rintro ⟨h1, h2⟩
  exact h ⟨(and_flag_ne_zero w 12).1 h1, h2⟩

/-- The mask after the joint data block. -/
theorem jointDataStep_testBit (X : Extern) (A : Avatar) (last : List JointData) (r t : Nat)
    (sa cull da : Bool) (v : Vec3) (w pe st n : Nat) (e : Enc) (j : Nat) :
    (jointDataStep X A last r t sa cull da v w pe st n e).enc.includedFlags.testBit j =
      (e.includedFlags.testBit j ||
        (decide (jointEntered w pe st n e) &&
          (decide (12 = j) ||
            (decide (14 = j) && w.testBit 14 &&
              hasSpace pe (st + (e.body ++ (jointDataSection X A last r t sa cull da v pe n
                (st + e.body.length)).bytes).length) FAR_GRAB_JOINTS_SIZE)))) := by
  by_cases h : jointEntered w pe st n e
  · rw [jointDataStep_entered _ _ _ _ _ _ _ _ _ _ _ _ _ _ h]
    simp only [ifAvatarSpace_testBit, Nat.testBit_or, flag_testBit, h, decide_True, Bool.true_and]
    cases e.includedFlags.testBit j <;> cases decide (12 = j) <;> simp
  · rw [jointDataStep_not_entered _ _ _ _ _ _ _ _ _ _ _ _ _ _ h]
    simp [h]

theorem jointDataStep_lt (X : Extern) (A : Avatar) (last : List JointData) (r t : Nat)
    (sa cull da : Bool) (v : Vec3) (w pe st n : Nat) (e : Enc) (he : e.includedFlags < 2 ^ 15) :
    (jointDataStep X A last r t sa cull da v w pe st n e).enc.includedFlags < 2 ^ 15 := by
  by_cases h : jointEntered w pe st n e
  · rw [jointDataStep_entered _ _ _ _ _ _ _ _ _ _ _ _ _ _ h]
    apply ifAvatarSpace_lt _ _ _ _ _ _ _ _ _ (by decide)
    exact Nat.or_lt_two_pow he (flag_lt (by decide))
  · rw [jointDataStep_not_entered _ _ _ _ _ _ _ _ _ _ _ _ _ _ h]
    exact he

theorem leadingEnc_spec (X : Extern) (A : Avatar) (w pe st : Nat) :
    (leadingEnc X A w pe st).includedFlags < 2 ^ 12 ∧
    (leadingEnc X A w pe st).body.length =
      sectionsOffset (leadingEnc X A w pe st).includedFlags
        ((leadingSections X A).map (fun s => s.2.1)) 0 12 ∧
    (∀ k, k < 12 →
      ((leadingEnc X A w pe st).includedFlags.testBit k = true ↔
        (w.testBit k = true ∧
          st + sectionsOffset (leadingEnc X A w pe st).includedFlags
            ((leadingSections X A).map (fun s => s.2.1)) 0 k
            + ((leadingSections X A).map (fun s => s.2.1)).getD k 0 ≤ pe))) := by
  have h := encodeSections_spec w pe st (leadingSections X A) 0 { body := [], includedFlags := 0 }
    (leadingSections_flagsFrom X A) (leadingSections_length X A) (by simp)
  have hl : (leadingSections X A).length = 12 := rfl
  rw [hl] at h
  obtain ⟨h1, -, h3, h4⟩ := h
  refine ⟨by simpa using h1, by simpa [leadingEnc] using h3, ?_⟩
  intro k hk
  have := h4 k hk
  simpa [leadingEnc] using this

/-- The mask bits of `encodeBlocks`. -/
theorem encodeBlocks_testBit (X : Extern) (A : Avatar) (last : List JointData) (r t : Nat)
    (sa cull da : Bool) (v : Vec3) (w pe st : Nat) (j : Nat) :
    (encodeBlocks X A last r t sa cull da v w pe st).enc.includedFlags.testBit j =
      ((leadingEnc X A w pe st).includedFlags.testBit j ||
        (decide (jointEntered w pe st (numJointsFor A w) (leadingEnc X A w pe st)) &&
          (decide (12 = j) ||
            (decide (14 = j) && w.testBit 14 &&
              hasSpace pe (st + ((leadingEnc X A w pe st).body ++
                (jointDataSection X A last r t sa cull da v pe (numJointsFor A w)
                  (st + (leadingEnc X A w pe st).body.length)).bytes).length)
                FAR_GRAB_JOINTS_SIZE))) ||
        (decide (13 = j) && w.testBit 13 &&
          hasSpace pe (st + (jointDataStep X A last r t sa cull da v w pe st (numJointsFor A w)
            (leadingEnc X A w pe st)).enc.body.length)
            (1 + 2 * calcBitVectorSize (numJointsFor A w)))) := by
  unfold encodeBlocks
  simp only []
  rw [show PACKET_HAS_JOINT_DEFAULT_POSE_FLAGS = 1 <<< 13 from rfl, ifAvatarSpace_testBit,
    jointDataStep_testBit]

theorem encodeBlocks_lt (X : Extern) (A : Avatar) (last : List JointData) (r t : Nat)
    (sa cull da : Bool) (v : Vec3) (w pe st : Nat) :
    (encodeBlocks X A last r t sa cull da v w pe st).enc.includedFlags < 2 ^ 15 := by
  unfold encodeBlocks
  simp only []
  apply ifAvatarSpace_lt _ _ _ 13 _ _ _ _ _ (by decide)
  apply jointDataStep_lt
  exact lt_of_lt_of_le (leadingEnc_spec X A w pe st).1 (by decide)

/-- No bit is ever included that is not wanted. -/
theorem encodeBlocks_subset (X : Extern) (A : Avatar) (last : List JointData) (r t : Nat)
    (sa cull da : Bool) (v : Vec3) (w pe st : Nat) (j : Nat)
    (h : (encodeBlocks X A last r t sa cull da v w pe st).enc.includedFlags.testBit j = true) :
    w.testBit j = true := by
  rw [encodeBlocks_testBit] at h
  simp only [Bool.or_eq_true, Bool.and_eq_true, decide_eq_true_eq] at h
  rcases h with (h | ⟨h1, h2⟩) | h
  · by_cases hj : j < 12
    · exact (((leadingEnc_spec X A w pe st).2.2 j hj).1 h).1
    · rw [testBit_false_of_lt (leadingEnc_spec X A w pe st).1 (by omega)] at h
      exact absurd h (by simp)
  · rcases h2 with h2 | h2
    · subst h2; exact h1.1
    · obtain ⟨⟨h3, h4⟩, -⟩ := h2
      subst h3; exact h4
  · obtain ⟨⟨h3, h4⟩, -⟩ := h
    subst h3; exact h4

/-- The bits below 12 are those set by the leading sections. -/
theorem encodeBlocks_testBit_low (X : Extern) (A : Avatar) (last : List JointData) (r t : Nat)
    (sa cull da : Bool) (v : Vec3) (w pe st : Nat) (j : Nat) (hj : j < 12) :
    (encodeBlocks X A last r t sa cull da v w pe st).enc.includedFlags.testBit j =
      (leadingEnc X A w pe st).includedFlags.testBit j := by
  rw [encodeBlocks_testBit]
  have h12 : decide (12 = j) = false := by simp; omega
  have h13 : decide (13 = j) = false := by simp; omega
  have h14 : decide (14 = j) = false := by simp; omega
  simp [h12, h13, h14]

/-- Bit 12 of the mask tells whether the joint data block was entered. -/
theorem encodeBlocks_testBit_joint (X : Extern) (A : Avatar) (last : List JointData) (r t : Nat)
    (sa cull da : Bool) (v : Vec3) (w pe st : Nat) :
    (encodeBlocks X A last r t sa cull da v w pe st).enc.includedFlags.testBit 12 =
      decide (jointEntered w pe st (numJointsFor A w) (leadingEnc X A w pe st)) := by
  rw [encodeBlocks_testBit, testBit_false_of_lt (leadingEnc_spec X A w pe st).1 (le_refl _)]
  simp

theorem numJointsFor_of_joint (A : Avatar) (w : Nat) (h : w.testBit 12 = true) :
    numJointsFor A w = A.getJointDataSizeOut := by
  unfold numJointsFor
  rw [if_pos]
  intro hz
  have := congrArg (fun m => m.testBit 12) hz
  simp only [Nat.testBit_and, Nat.testBit_or, PACKET_HAS_JOINT_DATA,
    PACKET_HAS_JOINT_DEFAULT_POSE_FLAGS, flag_testBit, h, Nat.zero_testBit] at this
  exact absurd this (by decide)

/-- The flag returned for joint data that is not complete. -/
theorem encodeBlocks_extra (X : Extern) (A : Avatar) (last : List JointData) (r t : Nat)
    (sa cull da : Bool) (v : Vec3) (w pe st : Nat) :
    (encodeBlocks X A last r t sa cull da v w pe st).extraReturnedFlags =
      if (encodeBlocks X A last r t sa cull da v w pe st).enc.includedFlags.testBit 12 = true ∧
          ((encodeBlocks X A last r t sa cull da v w pe st).rotationsSent ≠
              A.getJointDataSizeOut ∨
            (encodeBlocks X A last r t sa cull da v w pe st).translationsSent ≠
              A.getJointDataSizeOut) then
        PACKET_HAS_JOINT_DATA
      else 0 := by
  rw [encodeBlocks_testBit_joint]
  unfold encodeBlocks
  simp only []
  by_cases h : jointEntered w pe st (numJointsFor A w) (leadingEnc X A w pe st)
  · have hn := numJointsFor_of_joint A w h.1
    rw [hn] at h ⊢
    simp only [jointDataStep_entered X A last r t sa cull da v w pe st _ _ h,
      h, decide_True, true_and]
    rfl
  · simp only [jointDataStep_not_entered X A last r t sa cull da v w pe st (numJointsFor A w) _ h,
      h, decide_False, false_and, if_false]
    simp

/-! ## The returned flags and the fixed-size sections -/

theorem readBytes_append_mid (a b c : List Nat) :
    readBytes (a ++ b ++ c) a.length b.length = b := by
  simp [readBytes, List.append_assoc]

theorem wantedFlagsFor_lt (itemFlagsInit : Nat) (s : SendStatus) (hs : s.itemFlags < 65536) :
    wantedFlagsFor itemFlagsInit s < 2 ^ 16 := by
  unfold wantedFlagsFor
  split
  · exact Nat.mod_lt _ (by decide)
  · split
    · exact Nat.or_lt_two_pow hs (by decide)
    · exact hs

theorem startFor_sub (A : Avatar) (s : SendStatus) :
    startFor A s - HEADER_SIZE = (uuidBytesFor A s).length := by
  simp [startFor]

theorem testBit_65535 (k : Nat) : (65535 : Nat).testBit k = decide (k < 16) := by
  have : (65535 : Nat) = 2 ^ 16 - 1 := by norm_num
  rw [this, Nat.testBit_two_pow_sub_one]

/-- The mask that the packet carries is the encoder's `includedFlags`. -/
theorem mask_of_bytes (X : Extern) (A : Avatar) (itemFlagsInit : Nat)
    (dataDetail : AvatarDataDetail) (last : List JointData) (s : SendStatus) (da : Bool)
    (v : Vec3) (maxDataSize : Nat) :
    fromLE (readBytes
      (uuidBytesFor A s ++
        leBytes HEADER_SIZE
          (encodeBlocksFor X A itemFlagsInit dataDetail last s da v maxDataSize).enc.includedFlags ++
        (encodeBlocksFor X A itemFlagsInit dataDetail last s da v maxDataSize).enc.body)
      (startFor A s - HEADER_SIZE) HEADER_SIZE) =
    (encodeBlocksFor X A itemFlagsInit dataDetail last s da v maxDataSize).enc.includedFlags := by
  rw [startFor_sub]
  have h := readBytes_append_mid (uuidBytesFor A s)
    (leBytes HEADER_SIZE
      (encodeBlocksFor X A itemFlagsInit dataDetail last s da v maxDataSize).enc.includedFlags)
    (encodeBlocksFor X A itemFlagsInit dataDetail last s da v maxDataSize).enc.body
  rw [leBytes_length] at h
  rw [h, fromLE_leBytes]
  apply Nat.mod_eq_of_lt
  exact lt_of_lt_of_le (encodeBlocks_lt _ _ _ _ _ _ _ _ _ _ _ _) (by decide)

/-- The fields of the result of `toByteArray` for a detail level other than `NoData` and an
admissible `maxDataSize`. -/
theorem toByteArray_fields (X : Extern) (A : Avatar) (itemFlagsInit : Nat)
    (dataDetail : AvatarDataDetail) (last : List JointData) (s : SendStatus) (da : Bool)
    (v : Vec3) (maxDataSize : Nat)
    (hmax : maxDataSize = 0 ∨ MIN_BULK_PACKET_SIZE ≤ maxDataSize)
    (hd : dataDetail ≠ AvatarDataDetail.NoData) :
    ∃ r, toByteArray X A itemFlagsInit dataDetail last s da v maxDataSize = some r ∧
      r.bytes = uuidBytesFor A s ++
        leBytes HEADER_SIZE
          (encodeBlocksFor X A itemFlagsInit dataDetail last s da v maxDataSize).enc.includedFlags ++
        (encodeBlocksFor X A itemFlagsInit dataDetail last s da v maxDataSize).enc.body ∧
      r.sendStatus.itemFlags =
        ((wantedFlagsFor itemFlagsInit s &&&
          ((encodeBlocksFor X A itemFlagsInit dataDetail last s da v
            maxDataSize).enc.includedFlags ^^^ 65535)) |||
          (encodeBlocksFor X A itemFlagsInit dataDetail last s da v
            maxDataSize).extraReturnedFlags) % 65536 ∧
      r.sendStatus.sendUUID = s.sendUUID ∧
      r.sendStatus.rotationsSent =
        (encodeBlocksFor X A itemFlagsInit dataDetail last s da v maxDataSize).rotationsSent ∧
      r.sendStatus.translationsSent =
        (encodeBlocksFor X A itemFlagsInit dataDetail last s da v maxDataSize).translationsSent ∧
      r.wantedFlags = wantedFlagsFor itemFlagsInit s ∧
      r.includedFlags =
        (encodeBlocksFor X A itemFlagsInit dataDetail last s da v maxDataSize).enc.includedFlags ∧
      r.extraReturnedFlags =
        (encodeBlocksFor X A itemFlagsInit dataDetail last s da v maxDataSize).extraReturnedFlags ∧
      r.numJoints = numJointsFor A (wantedFlagsFor itemFlagsInit s) ∧
      r.packetEnd = packetEndFor A maxDataSize ∧
      r.joints = (encodeBlocksFor X A itemFlagsInit dataDetail last s da v maxDataSize).joints :=
  ⟨_, toByteArray_eq X A itemFlagsInit dataDetail last s da v maxDataSize hmax hd,
    rfl, rfl, rfl, rfl, rfl, rfl, rfl, rfl, rfl, rfl, rfl⟩

theorem residual_testBit (w inc extra k : Nat) :
    (((w &&& (inc ^^^ 65535)) ||| extra) % 65536).testBit k =
      (decide (k < 16) && ((w.testBit k && !inc.testBit k) || extra.testBit k)) := by
  rw [show (65536 : Nat) = 2 ^ 16 by norm_num, Nat.testBit_mod_two_pow]
  simp only [Nat.testBit_or, Nat.testBit_and, Nat.testBit_xor, testBit_65535]
  by_cases hk : k < 16
  · simp [hk]
  · simp [hk]

theorem encodeBlocks_extra_lt (X : Extern) (A : Avatar) (last : List JointData) (r t : Nat)
    (sa cull da : Bool) (v : Vec3) (w pe st : Nat) :
    (encodeBlocks X A last r t sa cull da v w pe st).extraReturnedFlags < 2 ^ 16 := by
  rw [encodeBlocks_extra]
  split <;> decide

/-- C2. After every encode with a detail level other than `NoData`, the returned
`sendStatus.itemFlags` is `(wanted & ~included) | extra`, where `included` is the mask carried by
the packet and `extra` is the PACKET_HAS_JOINT_DATA bit exactly when the joint data section is in
the packet and `rotationsSent` or `translationsSent` differs from the joint count, and 0
otherwise; so every wanted bit that is not in the mask is set in the returned flags. -/
theorem C2_residual_flags (X : Extern) (A : Avatar) (itemFlagsInit : Nat)
    (dataDetail : AvatarDataDetail) (lastSentJointData : List JointData)
    (sendStatus : SendStatus) (distanceAdjust : Bool) (viewerPosition : Vec3)
    (maxDataSize : Nat)
    (hmax : maxDataSize = 0 ∨ MIN_BULK_PACKET_SIZE ≤ maxDataSize)
    (hd : dataDetail ≠ AvatarDataDetail.NoData)
    (hs : sendStatus.itemFlags < 65536) :
    ∃ r, toByteArray X A itemFlagsInit dataDetail lastSentJointData sendStatus distanceAdjust
        viewerPosition maxDataSize = some r ∧
      r.wantedFlags = wantedFlagsFor itemFlagsInit sendStatus ∧
      r.includedFlags =
        fromLE (readBytes r.bytes (startFor A sendStatus - HEADER_SIZE) HEADER_SIZE) ∧
      r.extraReturnedFlags =
        (if r.includedFlags.testBit 12 = true ∧
            (r.sendStatus.rotationsSent ≠ A.getJointDataSizeOut ∨
              r.sendStatus.translationsSent ≠ A.getJointDataSizeOut) then
          PACKET_HAS_JOINT_DATA
        else 0) ∧
      r.sendStatus.itemFlags =
        (r.wantedFlags &&& (r.includedFlags ^^^ 65535)) ||| r.extraReturnedFlags ∧
      (∀ k, r.wantedFlags.testBit k = true → r.includedFlags.testBit k = false →
        r.sendStatus.itemFlags.testBit k = true) := by
  obtain ⟨r, hr, hb, hf, -, hrot, htr, hw, hi, he, -, -, -⟩ :=
    toByteArray_fields X A itemFlagsInit dataDetail lastSentJointData sendStatus
      distanceAdjust viewerPosition maxDataSize hmax hd
  have hwlt := wantedFlagsFor_lt itemFlagsInit sendStatus hs
  refine ⟨r, hr, hw, ?_, ?_, ?_, ?_⟩
  · rw [hi, hb]
    exact (mask_of_bytes _ _ _ _ _ _ _ _ _).symm
  · rw [he, hi, hrot, htr]
    exact encodeBlocks_extra _ _ _ _ _ _ _ _ _ _ _ _
  · rw [hf, hw, hi, he]
    apply Nat.mod_eq_of_lt
    apply Nat.or_lt_two_pow (n := 16)
    · exact lt_of_le_of_lt Nat.and_le_left hwlt
    · exact encodeBlocks_extra_lt _ _ _ _ _ _ _ _ _ _ _ _
  · intro k hk hik
    rw [hw] at hk
    rw [hi] at hik
    have hk16 : k < 16 := by
      by_contra hge
      rw [testBit_false_of_lt hwlt (by omega)] at hk
      exact absurd hk (by simp)
    rw [hf, residual_testBit]
    simp [hk, hik, hk16]

theorem C2_witness :
    ((77 : Nat) = 0 ∨ MIN_BULK_PACKET_SIZE ≤ 77) ∧
    AvatarDataDetail.SendAllData ≠ AvatarDataDetail.NoData ∧
    freshStatus.itemFlags < 65536 ∧
    ∃ r, toByteArray sampleExtern (sampleAvatar 40) 0x7FFF AvatarDataDetail.SendAllData []
        freshStatus false default 77 = some r ∧
      r.wantedFlags = wantedFlagsFor 0x7FFF freshStatus ∧
      r.includedFlags =
        fromLE (readBytes r.bytes (startFor (sampleAvatar 40) freshStatus - HEADER_SIZE)
          HEADER_SIZE) ∧
      r.extraReturnedFlags =
        (if r.includedFlags.testBit 12 = true ∧
            (r.sendStatus.rotationsSent ≠ (sampleAvatar 40).getJointDataSizeOut ∨
              r.sendStatus.translationsSent ≠ (sampleAvatar 40).getJointDataSizeOut) then
          PACKET_HAS_JOINT_DATA
        else 0) ∧
      r.sendStatus.itemFlags =
        (r.wantedFlags &&& (r.includedFlags ^^^ 65535)) ||| r.extraReturnedFlags ∧
      (∀ k, r.wantedFlags.testBit k = true → r.includedFlags.testBit k = false →
        r.sendStatus.itemFlags.testBit k = true) :=
  ⟨by decide, by decide, by decide,
    C2_residual_flags sampleExtern (sampleAvatar 40) 0x7FFF AvatarDataDetail.SendAllData []
      freshStatus false default 77 (by decide) (by decide) (by decide)⟩

/-- C3. For each of the eleven fixed-size sections, taken in the order of their mask bits, the
bit of the section is in the mask of the packet iff the bit is wanted and the section still fits
before `packetEnd` at the offset where it is reached, which is the offset of the first section
plus the wire sizes of the earlier sections that are in the mask; and no bit is in the mask that
is not wanted. -/
theorem C3_fixed_sections_included_iff (X : Extern) (A : Avatar) (itemFlagsInit : Nat)
    (dataDetail : AvatarDataDetail) (lastSentJointData : List JointData)
    (sendStatus : SendStatus) (distanceAdjust : Bool) (viewerPosition : Vec3)
    (maxDataSize : Nat)
    (hmax : maxDataSize = 0 ∨ MIN_BULK_PACKET_SIZE ≤ maxDataSize)
    (hd : dataDetail ≠ AvatarDataDetail.NoData) :
    ∃ r, toByteArray X A itemFlagsInit dataDetail lastSentJointData sendStatus distanceAdjust
        viewerPosition maxDataSize = some r ∧
      r.includedFlags =
        fromLE (readBytes r.bytes (startFor A sendStatus - HEADER_SIZE) HEADER_SIZE) ∧
      r.packetEnd = (if maxDataSize = 0 then byteArraySize A else maxDataSize) ∧
      fixedSectionSizes = [12, 24, 6, 2, 12, 1, 20, 2, 18, 12, 24] ∧
      (∀ k, k < 11 →
        (r.includedFlags.testBit k = true ↔
          (r.wantedFlags.testBit k = true ∧
            startFor A sendStatus + sectionsOffset r.includedFlags fixedSectionSizes 0 k +
              fixedSectionSizes.getD k 0 ≤ r.packetEnd))) ∧
      (∀ k, r.includedFlags.testBit k = true → r.wantedFlags.testBit k = true) := by
  obtain ⟨r, hr, hb, -, -, -, -, hw, hi, -, -, hpe, -⟩ :=
    toByteArray_fields X A itemFlagsInit dataDetail lastSentJointData sendStatus
      distanceAdjust viewerPosition maxDataSize hmax hd
  refine ⟨r, hr, ?_, by rw [hpe]; rfl, rfl, ?_, ?_⟩
  · rw [hi, hb]
    exact (mask_of_bytes _ _ _ _ _ _ _ _ _).symm
  · intro k hk
    rw [hi, hw, hpe]
    unfold encodeBlocksFor
    rw [encodeBlocks_testBit_low _ _ _ _ _ _ _ _ _ _ _ _ _ (by omega)]
    have hspec := (leadingEnc_spec X A (wantedFlagsFor itemFlagsInit sendStatus)
      (packetEndFor A maxDataSize) (startFor A sendStatus)).2.2 k (by omega)
    have hsizes : (leadingSections X A).map (fun s => s.2.1) =
        fixedSectionSizes ++ [faceTrackerSpace A] := rfl
    rw [hsizes, sectionsOffset_append _ _ _ _ _ (by simpa [fixedSectionSizes] using (by omega : k ≤ 11)),
      List.getD_append _ _ _ _ (by simpa [fixedSectionSizes] using hk)] at hspec
    rw [hspec]
    rw [sectionsOffset_congr _ (encodeBlocks X A lastSentJointData (rotationsSentFor sendStatus)
      (translationsSentFor sendStatus) (decide (dataDetail = AvatarDataDetail.SendAllData))
      (decide (dataDetail = AvatarDataDetail.CullSmallData)) distanceAdjust viewerPosition
      (wantedFlagsFor itemFlagsInit sendStatus) (packetEndFor A maxDataSize)
      (startFor A sendStatus)).enc.includedFlags]
    intro j _ hj
    exact (encodeBlocks_testBit_low _ _ _ _ _ _ _ _ _ _ _ _ _ (by omega)).symm
  · intro k hk
    rw [hi] at hk
    rw [hw]
    exact encodeBlocks_subset _ _ _ _ _ _ _ _ _ _ _ _ _ hk

theorem C3_witness :
    ((77 : Nat) = 0 ∨ MIN_BULK_PACKET_SIZE ≤ 77) ∧
    AvatarDataDetail.SendAllData ≠ AvatarDataDetail.NoData ∧
    ∃ r, toByteArray sampleExtern (sampleAvatar 40) 0x7FFF AvatarDataDetail.SendAllData []
        freshStatus false default 77 = some r ∧
      r.includedFlags =
        fromLE (readBytes r.bytes (startFor (sampleAvatar 40) freshStatus - HEADER_SIZE)
          HEADER_SIZE) ∧
      r.packetEnd = (if (77 : Nat) = 0 then byteArraySize (sampleAvatar 40) else 77) ∧
      fixedSectionSizes = [12, 24, 6, 2, 12, 1, 20, 2, 18, 12, 24] ∧
      (∀ k, k < 11 →
        (r.includedFlags.testBit k = true ↔
          (r.wantedFlags.testBit k = true ∧
            startFor (sampleAvatar 40) freshStatus +
                sectionsOffset r.includedFlags fixedSectionSizes 0 k +
              fixedSectionSizes.getD k 0 ≤ r.packetEnd))) ∧
      (∀ k, r.includedFlags.testBit k = true → r.wantedFlags.testBit k = true) :=
  ⟨by decide, by decide,
    C3_fixed_sections_included_iff sampleExtern (sampleAvatar 40) 0x7FFF
      AvatarDataDetail.SendAllData [] freshStatus false default 77 (by decide) (by decide)⟩

/-- C9. For the detail level `NoData`, whatever the initial flags and the incoming send status,
`toByteArray` returns the 16 bytes of the session id followed by the two bytes `00 00` when
`sendStatus.sendUUID` is set and just `00 00` otherwise, and the returned `itemFlags` is 0. -/
theorem C9_no_data (X : Extern) (A : Avatar) (itemFlagsInit : Nat)
    (lastSentJointData : List JointData) (sendStatus : SendStatus) (distanceAdjust : Bool)
    (viewerPosition : Vec3) (maxDataSize : Nat)
    (hmax : maxDataSize = 0 ∨ MIN_BULK_PACKET_SIZE ≤ maxDataSize) :
    ∃ r, toByteArray X A itemFlagsInit AvatarDataDetail.NoData lastSentJointData sendStatus
        distanceAdjust viewerPosition maxDataSize = some r ∧
      r.bytes = (if sendStatus.sendUUID = true then sessionUUIDBytes A ++ [0, 0] else [0, 0]) ∧
      (sessionUUIDBytes A).length = 16 ∧
      r.sendStatus.itemFlags = 0 := by
  refine ⟨_, toByteArray_noData X A itemFlagsInit lastSentJointData sendStatus distanceAdjust
    viewerPosition maxDataSize hmax, ?_, ?_, rfl⟩
  · simp only [uuidBytesFor]
    split <;> rfl
  · simp [sessionUUIDBytes, NUM_BYTES_RFC4122_UUID]

theorem C9_witness :
    ((18 : Nat) = 0 ∨ MIN_BULK_PACKET_SIZE ≤ 18) ∧
    ∃ r, toByteArray sampleExtern (sampleAvatar 0) 0x7FFF AvatarDataDetail.NoData []
        { freshStatus with sendUUID := true, itemFlags := 5 } false default 18 = some r ∧
      r.bytes = (if ({ freshStatus with sendUUID := true, itemFlags := 5 } : SendStatus).sendUUID
        = true then sessionUUIDBytes (sampleAvatar 0) ++ [0, 0] else [0, 0]) ∧
      (sessionUUIDBytes (sampleAvatar 0)).length = 16 ∧
      r.sendStatus.itemFlags = 0 :=
  ⟨by decide, C9_no_data sampleExtern (sampleAvatar 0) 0x7FFF []
    { freshStatus with sendUUID := true, itemFlags := 5 } false default 18 (by decide)⟩

/-! ## The joint loops -/

theorem rotationLoop_eq_jointLoop (X : Extern) (A : Avatar) (last : List JointData)
    (sa cull : Bool) (dot pe m base fuel : Nat) (s : JointLoop) :
    rotationLoop X A last sa cull dot pe m base fuel s =
      jointLoop (fun i => sendRotation X sa cull dot (last.getD i default) (A.getJointDataOut i))
        (fun i => leBytes 6 (X.packOrientationQuatToSixBytes (A.getJointDataOut i).rotation))
        pe m base fuel s := by
  induction fuel generalizing s with
  | zero => rfl
  | succ n ih =>
    simp only [rotationLoop, jointLoop]
    split
    · split
      · exact ih _
      · exact ih _
    · rfl

theorem translationLoop_eq_jointLoop (X : Extern) (A : Avatar) (last : List JointData)
    (sa cull : Bool) (mt md pe m base fuel : Nat) (s : JointLoop) :
    translationLoop X A last sa cull mt md pe m base fuel s =
      jointLoop (fun i => sendTranslation X sa cull mt (last.getD i default) (A.getJointDataOut i))
        (fun i => leBytes 6 (X.packFloatVec3ToSignedTwoByteFixed
          (X.vecDiv (A.getJointDataOut i).translation md) TRANSLATION_COMPRESSION_RADIX))
        pe m base fuel s := by
  induction fuel generalizing s with
  | zero => rfl
  | succ n ih =>
    simp only [translationLoop, jointLoop]
    split
    · split
      · exact ih _
      · exact ih _
    · rfl

theorem packAll_append (pack : Nat → List Nat) (a b : List Nat) :
    packAll pack (a ++ b) = packAll pack a ++ packAll pack b := by
  induction a with
  | nil => rfl
  | cons x a ih => simp [packAll, ih]

theorem packAll_length (pack : Nat → List Nat) (n : Nat) (h : ∀ i, (pack i).length = n)
    (l : List Nat) : (packAll pack l).length = n * l.length := by
  induction l with
  | nil => rfl
  | cons x l ih => simp [packAll, ih, h, Nat.mul_succ]; omega

/-- What a joint loop does: it moves the index from `s.i` to some `i'`, packs exactly the joints
in between for which `send` holds, in order, sets their validity bits, and stops either at the
end of its range or because the next joint does not fit. -/
theorem jointLoop_spec (send : Nat → Bool) (pack : Nat → List Nat) (pe m base : Nat)
    (fuel : Nat) (s : JointLoop) :
    s.i ≤ (jointLoop send pack pe m base fuel s).i ∧
    (jointLoop send pack pe m base fuel s).i ≤ s.i + fuel ∧
    (jointLoop send pack pe m base fuel s).written = s.written ++
      (List.range' s.i ((jointLoop send pack pe m base fuel s).i - s.i)).filter send ∧
    (jointLoop send pack pe m base fuel s).out = s.out ++ packAll pack
      ((List.range' s.i ((jointLoop send pack pe m base fuel s).i - s.i)).filter send) ∧
    (jointLoop send pack pe m base fuel s).validity =
      ((List.range' s.i ((jointLoop send pack pe m base fuel s).i - s.i)).filter send).foldl
        setValidityBit s.validity ∧
    ((jointLoop send pack pe m base fuel s).i = s.i + fuel ∨
      hasSpace pe (base + (jointLoop send pack pe m base fuel s).out.length) m = false) := by
  induction fuel generalizing s with
  | zero => simp [jointLoop, packAll]
  | succ n ih =>
    simp only [jointLoop]
    by_cases hsp : hasSpace pe (base + s.out.length) m = true
    · rw [if_pos hsp]
      by_cases hsend : send s.i = true
      · rw [if_pos hsend]
        obtain ⟨h1, h2, h3, h4, h5, h6⟩ := ih
          { i := s.i + 1, validity := setValidityBit s.validity s.i, out := s.out ++ pack s.i,
            written := s.written ++ [s.i] }
        simp only [] at h1 h2 h3 h4 h5 h6
        generalize jointLoop send pack pe m base n
          { i := s.i + 1, validity := setValidityBit s.validity s.i, out := s.out ++ pack s.i,
            written := s.written ++ [s.i] } = s' at *
        have hr : List.range' s.i (s'.i - s.i) = s.i :: List.range' (s.i + 1) (s'.i - (s.i + 1)) := by
          rw [show s'.i - s.i = (s'.i - (s.i + 1)) + 1 by omega, List.range'_succ]
        refine ⟨by omega, by omega, ?_, ?_, ?_, ?_⟩
        · rw [h3, hr, List.filter_cons_of_pos hsend]; simp
        · rw [h4, hr, List.filter_cons_of_pos hsend]; simp [packAll]
        · rw [h5, hr, List.filter_cons_of_pos hsend]; simp
        · rcases h6 with h6 | h6
          · left; omega
          · right; exact h6
      · rw [if_neg hsend]
        obtain ⟨h1, h2, h3, h4, h5, h6⟩ := ih { s with i := s.i + 1 }
        simp only [] at h1 h2 h3 h4 h5 h6
        generalize jointLoop send pack pe m base n { s with i := s.i + 1 } = s' at *
        have hr : List.range' s.i (s'.i - s.i) = s.i :: List.range' (s.i + 1) (s'.i - (s.i + 1)) := by
          rw [show s'.i - s.i = (s'.i - (s.i + 1)) + 1 by omega, List.range'_succ]
        refine ⟨by omega, by omega, ?_, ?_, ?_, ?_⟩
        · rw [h3, hr, List.filter_cons_of_neg hsend]
        · rw [h4, hr, List.filter_cons_of_neg hsend]
        · rw [h5, hr, List.filter_cons_of_neg hsend]
        · rcases h6 with h6 | h6
          · left; omega
          · right; exact h6
    · rw [if_neg hsp]
      refine ⟨le_refl _, by omega, by simp, by simp [packAll], by simp, Or.inr ?_⟩
      simpa using hsp

/-! ## Validity vectors -/

theorem div_mod_eq_iff (i j : Nat) : i = j ↔ (i / 8 = j / 8 ∧ i % 8 = j % 8) := by
  constructor
  · rintro rfl; exact ⟨rfl, rfl⟩
  · rintro ⟨h1, h2⟩
    have hi := Nat.div_add_mod i 8
    have hj := Nat.div_add_mod j 8
    omega

theorem validityBit_setValidityBit (v : List Nat) (i j : Nat) (hi : i / 8 < v.length) :
    validityBit (setValidityBit v i) j = (validityBit v j || decide (i = j)) := by
  unfold validityBit setValidityBit
  simp only [BITS_IN_BYTE]
  by_cases hq : i / 8 = j / 8
  · rw [← hq]
    have h1 : (v.set (i / 8) ((v.getD (i / 8) 0 ||| 1 <<< (i % 8)) % 256)).getD (i / 8) 0 =
        (v.getD (i / 8) 0 ||| 1 <<< (i % 8)) % 256 := by
      simp [List.getD_eq_getElem?_getD, List.getElem?_set, hi]
    rw [h1, show (256 : Nat) = 2 ^ 8 by norm_num, Nat.testBit_mod_two_pow, Nat.testBit_or,
      flag_testBit]
    have hj8 : j % 8 < 8 := Nat.mod_lt _ (by decide)
    have : decide (i = j) = decide (i % 8 = j % 8) := by
      rw [decide_eq_decide, div_mod_eq_iff i j]
      simp [hq]
    simp [hj8, this]
  · have h1 : (v.set (i / 8) ((v.getD (i / 8) 0 ||| 1 <<< (i % 8)) % 256)).getD (j / 8) 0 =
        v.getD (j / 8) 0 := by
      simp [List.getD_eq_getElem?_getD, List.getElem?_set, hq]
    have : decide (i = j) = false := by
      simp only [decide_eq_false_iff_not]
      intro h; subst h; exact hq rfl
    rw [h1, this]; simp

theorem validityBit_foldl (l : List Nat) (v : List Nat) (j : Nat)
    (hl : ∀ i ∈ l, i / 8 < v.length) :
    validityBit (l.foldl setValidityBit v) j = (validityBit v j || decide (j ∈ l)) := by
  induction l generalizing v with
  | nil => simp
  | cons a l ih =>
    simp only [List.foldl_cons]
    rw [ih (setValidityBit v a) (by intro i hi; simpa using hl i (List.mem_cons_of_mem _ hi)),
      validityBit_setValidityBit v a j (hl a (List.mem_cons_self _ _))]
    by_cases h1 : a = j
    · subst h1; simp
    · have : ¬ j = a := fun h => h1 h.symm
      simp [h1, this]

theorem validityBit_replicate (n j : Nat) : validityBit (List.replicate n 0) j = false := by
  unfold validityBit
  by_cases h : j / 8 < n
  · simp [List.getD_eq_getElem?_getD, List.getElem?_replicate, h]
  · simp [List.getD_eq_getElem?_getD, List.getElem?_replicate, h]

theorem popCount_cons (b : Nat) (v : List Nat) : popCount (b :: v) = byteCount b + popCount v := by
  simp [popCount, byteCount]

theorem filter_or_eq_length (l : List Nat) (p : Nat → Bool) (k : Nat) (hnd : l.Nodup)
    (hk : k ∈ l) (hp : p k = false) :
    (l.filter (fun j => p j || decide (j = k))).length = (l.filter p).length + 1 := by
  induction l with
  | nil => simp at hk
  | cons a l ih =>
    obtain ⟨ha, hnd'⟩ := List.nodup_cons.1 hnd
    by_cases hak : a = k
    · subst hak
      have hrest : l.filter (fun j => p j || decide (j = a)) = l.filter p := by
        apply List.filter_congr
        intro j hj
        have : j ≠ a := fun h => ha (h ▸ hj)
        simp [this]
      rw [List.filter_cons_of_pos (by simp), List.filter_cons_of_neg (by simp [hp]), hrest]
      simp
    · have hk' : k ∈ l := by
        rcases List.mem_cons.1 hk with h | h
        · exact absurd h.symm hak
        · exact h
      have := ih hnd' hk'
      by_cases hpa : p a = true
      · rw [List.filter_cons_of_pos (by simp [hpa]), List.filter_cons_of_pos hpa]
        simp [this]
      · rw [List.filter_cons_of_neg (by simp [hpa, hak]), List.filter_cons_of_neg hpa]
        exact this

theorem byteCount_set (b k : Nat) (hk : k < 8) (hb : b.testBit k = false) :
    byteCount ((b ||| (1 <<< k)) % 256) = byteCount b + 1 := by
  unfold byteCount
  have h : ∀ j ∈ List.range 8, (((b ||| (1 <<< k)) % 256).testBit j) =
      (b.testBit j || decide (j = k)) := by
    intro j hj
    have hj8 : j < 8 := List.mem_range.1 hj
    rw [show (256 : Nat) = 2 ^ 8 by norm_num, Nat.testBit_mod_two_pow, Nat.testBit_or,
      flag_testBit]
    have : decide (k = j) = decide (j = k) := by rw [decide_eq_decide]; exact eq_comm
    simp [hj8, this]
  rw [List.filter_congr h]
  exact filter_or_eq_length _ _ _ (List.nodup_range 8) (List.mem_range.2 hk) hb

theorem popCount_setValidityBit (v : List Nat) (i : Nat) (hi : i / 8 < v.length)
    (hb : validityBit v i = false) :
    popCount (setValidityBit v i) = popCount v + 1 := by
  unfold validityBit at hb
  unfold setValidityBit
  simp only [BITS_IN_BYTE]
  generalize i / 8 = q at hi hb
  have hk : i % 8 < 8 := Nat.mod_lt _ (by decide)
  generalize i % 8 = k at hb hk
  induction v generalizing q with
  | nil => simp at hi
  | cons a v ih =>
    cases q with
    | zero =>
      simp only [List.getD_cons_zero, List.set_cons_zero, popCount_cons] at *
      rw [byteCount_set a k hk hb]; omega
    | succ q =>
      simp only [List.getD_cons_succ, List.set_cons_succ, popCount_cons, List.length_cons] at *
      rw [ih q (by omega) hb]; omega

theorem popCount_replicate (n : Nat) : popCount (List.replicate n 0) = 0 := by
  induction n with
  | zero => rfl
  | succ n ih => rw [List.replicate_succ, popCount_cons, ih]; rfl

theorem popCount_foldl (l : List Nat) (v : List Nat) (hnd : l.Nodup)
    (hl : ∀ i ∈ l, i / 8 < v.length ∧ validityBit v i = false) :
    popCount (l.foldl setValidityBit v) = popCount v + l.length := by
  induction l generalizing v with
  | nil => simp
  | cons a l ih =>
    simp only [List.foldl_cons, List.length_cons]
    have ha := hl a (List.mem_cons_self _ _)
    rw [ih (setValidityBit v a) (List.nodup_cons.1 hnd).2, popCount_setValidityBit v a ha.1 ha.2]
    · omega
    · intro i hi
      have hi' := hl i (List.mem_cons_of_mem _ hi)
      refine ⟨by simpa using hi'.1, ?_⟩
      rw [validityBit_setValidityBit v a i ha.1, hi'.2]
      have : a ≠ i := by
        intro h; subst h; exact (List.nodup_cons.1 hnd).1 hi
      simp [this]

theorem div8_lt_calcBitVectorSize {i n : Nat} (h : i < n) : i / 8 < calcBitVectorSize n := by
  unfold calcBitVectorSize
  omega

theorem foldl_setValidityBit_length (l : List Nat) (v : List Nat) :
    (l.foldl setValidityBit v).length = v.length := by
  induction l generalizing v with
  | nil => rfl
  | cons a l ih => simp [ih]

/-- What a joint loop does when it is run from `r` over `n` joints with a zeroed validity
vector. -/
theorem jointLoop_pass_spec (send : Nat → Bool) (pack : Nat → List Nat) (pe m base n r : Nat)
    (hpack : ∀ i, (pack i).length = 6) :
    let p := jointLoop send pack pe m base (n - r)
      { i := r, validity := List.replicate (calcBitVectorSize n) 0, out := [], written := [] }
    r ≤ p.i ∧ p.i ≤ r + (n - r) ∧
    p.written = (List.range' r (p.i - r)).filter send ∧
    p.out = packAll pack p.written ∧
    (∀ j, validityBit p.validity j = decide (j ∈ p.written)) ∧
    popCount p.validity = p.written.length ∧
    p.out.length = 6 * p.written.length ∧
    p.validity.length = calcBitVectorSize n ∧
    (p.i = r + (n - r) ∨ hasSpace pe (base + p.out.length) m = false) := by
  intro p
  obtain ⟨h1, h2, h3, h4, h5, h6⟩ := jointLoop_spec send pack pe m base (n - r)
    { i := r, validity := List.replicate (calcBitVectorSize n) 0, out := [], written := [] }
  simp only [List.nil_append] at h1 h2 h3 h4 h5 h6
  have hmem : ∀ i ∈ (List.range' r (p.i - r)).filter send, i < n := by
    intro i hi
    have := (List.mem_filter.1 hi).1
    rw [List.mem_range'_1] at this
    have hp : p.i ≤ r + (n - r) := h2
    omega
  have hw : p.written = (List.range' r (p.i - r)).filter send := h3
  refine ⟨h1, h2, hw, by rw [hw]; exact h4, ?_, ?_, ?_, ?_, h6⟩
  · intro j
    rw [hw]
    show validityBit (jointLoop send pack pe m base (n - r) _).validity j = _
    rw [h5, validityBit_foldl _ _ _ (by
      intro i hi
      simpa using div8_lt_calcBitVectorSize (hmem i hi)), validityBit_replicate]
    simp
  · rw [hw]
    show popCount (jointLoop send pack pe m base (n - r) _).validity = _
    rw [h5, popCount_foldl _ _ ((List.nodup_range' r (p.i - r)).filter _) (by
      intro i hi
      exact ⟨by simpa using div8_lt_calcBitVectorSize (hmem i hi), validityBit_replicate _ _⟩),
      popCount_replicate]
    simp
  · show (jointLoop send pack pe m base (n - r) _).out.length = _
    rw [h4, packAll_length pack 6 hpack, ← hw]
  · show (jointLoop send pack pe m base (n - r) _).validity.length = _
    rw [h5, foldl_setValidityBit_length, List.length_replicate]

theorem rotationPass_eq (X : Extern) (A : Avatar) (last : List JointData) (r : Nat)
    (sa cull da : Bool) (v : Vec3) (pe n dest : Nat) :
    rotationPass X A last r sa cull da v pe n dest =
      jointLoop (rotationSend X A last sa cull da v) (rotationBytes X A) pe (minSizeForJoint n)
        (dest + 1 + calcBitVectorSize n) (n - r)
        { i := r, validity := List.replicate (calcBitVectorSize n) 0, out := [],
          written := [] } := by
  unfold rotationPass
  rw [rotationLoop_eq_jointLoop]
  rfl

theorem translationPass_eq (X : Extern) (A : Avatar) (last : List JointData) (t : Nat)
    (sa cull da : Bool) (v : Vec3) (pe n dest : Nat) :
    translationPass X A last t sa cull da v pe n dest =
      jointLoop (translationSend X A last sa cull da v)
        (translationBytes X A (maxTranslationDimensionFor A t n)) pe (minSizeForJoint n)
        (dest + calcBitVectorSize n + 4) (n - t)
        { i := t, validity := List.replicate (calcBitVectorSize n) 0, out := [],
          written := [] } := by
  unfold translationPass
  rw [translationLoop_eq_jointLoop]
  rfl

/-- What the rotation part of a joint data section does. -/
theorem rotationPass_spec (X : Extern) (A : Avatar) (last : List JointData) (r : Nat)
    (sa cull da : Bool) (v : Vec3) (pe n dest : Nat) :
    r ≤ (rotationPass X A last r sa cull da v pe n dest).i ∧
    (rotationPass X A last r sa cull da v pe n dest).i ≤ r + (n - r) ∧
    (rotationPass X A last r sa cull da v pe n dest).written =
      (List.range' r ((rotationPass X A last r sa cull da v pe n dest).i - r)).filter
        (rotationSend X A last sa cull da v) ∧
    (rotationPass X A last r sa cull da v pe n dest).out =
      packAll (rotationBytes X A) (rotationPass X A last r sa cull da v pe n dest).written ∧
    (∀ j, validityBit (rotationPass X A last r sa cull da v pe n dest).validity j =
      decide (j ∈ (rotationPass X A last r sa cull da v pe n dest).written)) ∧
    popCount (rotationPass X A last r sa cull da v pe n dest).validity =
      (rotationPass X A last r sa cull da v pe n dest).written.length ∧
    (rotationPass X A last r sa cull da v pe n dest).out.length =
      6 * (rotationPass X A last r sa cull da v pe n dest).written.length ∧
    (rotationPass X A last r sa cull da v pe n dest).validity.length = calcBitVectorSize n ∧
    ((rotationPass X A last r sa cull da v pe n dest).i = r + (n - r) ∨
      hasSpace pe (dest + 1 + calcBitVectorSize n +
        (rotationPass X A last r sa cull da v pe n dest).out.length) (minSizeForJoint n) =
          false) := by
  rw [rotationPass_eq]
  exact jointLoop_pass_spec _ _ _ _ _ _ _ (fun i => by simp [rotationBytes])

/-- What the translation part of a joint data section does. -/
theorem translationPass_spec (X : Extern) (A : Avatar) (last : List JointData) (t : Nat)
    (sa cull da : Bool) (v : Vec3) (pe n dest : Nat) :
    t ≤ (translationPass X A last t sa cull da v pe n dest).i ∧
    (translationPass X A last t sa cull da v pe n dest).i ≤ t + (n - t) ∧
    (translationPass X A last t sa cull da v pe n dest).written =
      (List.range' t ((translationPass X A last t sa cull da v pe n dest).i - t)).filter
        (translationSend X A last sa cull da v) ∧
    (translationPass X A last t sa cull da v pe n dest).out =
      packAll (translationBytes X A (maxTranslationDimensionFor A t n))
        (translationPass X A last t sa cull da v pe n dest).written ∧
    (∀ j, validityBit (translationPass X A last t sa cull da v pe n dest).validity j =
      decide (j ∈ (translationPass X A last t sa cull da v pe n dest).written)) ∧
    popCount (translationPass X A last t sa cull da v pe n dest).validity =
      (translationPass X A last t sa cull da v pe n dest).written.length ∧
    (translationPass X A last t sa cull da v pe n dest).out.length =
      6 * (translationPass X A last t sa cull da v pe n dest).written.length ∧
    (translationPass X A last t sa cull da v pe n dest).validity.length =
      calcBitVectorSize n ∧
    ((translationPass X A last t sa cull da v pe n dest).i = t + (n - t) ∨
      hasSpace pe (dest + calcBitVectorSize n + 4 +
        (translationPass X A last t sa cull da v pe n dest).out.length) (minSizeForJoint n) =
          false) := by
  rw [translationPass_eq]
  exact jointLoop_pass_spec _ _ _ _ _ _ _ (fun i => by simp [translationBytes])

/-! ## The body that the encoder writes -/

theorem ifAvatarSpace_eq (w pe st b sp : Nat) (content : List Nat) (e : Enc) :
    ifAvatarSpace w pe st (1 <<< b) sp content e =
      if w.testBit b = true ∧ hasSpace pe (st + e.body.length) sp = true then
        { body := e.body ++ content, includedFlags := e.includedFlags ||| (1 <<< b) }
      else e := by
  unfold ifAvatarSpace
  by_cases h : w.testBit b = true ∧ hasSpace pe (st + e.body.length) sp = true
  · rw [if_pos h, if_pos ⟨(and_flag_ne_zero w b).2 h.1, h.2⟩]
  · rw [if_neg h, if_neg (fun h' => h ⟨(and_flag_ne_zero w b).1 h'.1, h'.2⟩)]

/-- The joint section that `encodeBlocks` writes, when it writes one. -/
theorem encodeBlocks_joints (X : Extern) (A : Avatar) (last : List JointData) (r t : Nat)
    (sa cull da : Bool) (v : Vec3) (w pe st : Nat) :
    (encodeBlocks X A last r t sa cull da v w pe st).joints =
      if (encodeBlocks X A last r t sa cull da v w pe st).enc.includedFlags.testBit 12 = true then
        some (jointDataSection X A last r t sa cull da v pe A.getJointDataSizeOut
          (st + (leadingEnc X A w pe st).body.length))
      else none := by
  rw [encodeBlocks_testBit_joint]
  unfold encodeBlocks
  simp only []
  by_cases h : jointEntered w pe st (numJointsFor A w) (leadingEnc X A w pe st)
  · have hn := numJointsFor_of_joint A w h.1
    rw [hn] at h ⊢
    simp only [jointDataStep_entered X A last r t sa cull da v w pe st _ _ h, h, decide_True,
      if_true]
  · simp only [jointDataStep_not_entered X A last r t sa cull da v w pe st _ _ h, h,
      decide_False]
    simp

theorem encodeBlocks_rotationsSent (X : Extern) (A : Avatar) (last : List JointData) (r t : Nat)
    (sa cull da : Bool) (v : Vec3) (w pe st : Nat) :
    (encodeBlocks X A last r t sa cull da v w pe st).rotationsSent =
      if (encodeBlocks X A last r t sa cull da v w pe st).enc.includedFlags.testBit 12 = true then
        (jointDataSection X A last r t sa cull da v pe A.getJointDataSizeOut
          (st + (leadingEnc X A w pe st).body.length)).rotationsSent
      else r := by
  rw [encodeBlocks_testBit_joint]
  unfold encodeBlocks
  simp only []
  by_cases h : jointEntered w pe st (numJointsFor A w) (leadingEnc X A w pe st)
  · have hn := numJointsFor_of_joint A w h.1
    rw [hn] at h ⊢
    simp only [jointDataStep_entered X A last r t sa cull da v w pe st _ _ h, h, decide_True,
      if_true]
  · simp only [jointDataStep_not_entered X A last r t sa cull da v w pe st _ _ h, h,
      decide_False]
    simp

theorem encodeBlocks_translationsSent (X : Extern) (A : Avatar) (last : List JointData)
    (r t : Nat) (sa cull da : Bool) (v : Vec3) (w pe st : Nat) :
    (encodeBlocks X A last r t sa cull da v w pe st).translationsSent =
      if (encodeBlocks X A last r t sa cull da v w pe st).enc.includedFlags.testBit 12 = true then
        (jointDataSection X A last r t sa cull da v pe A.getJointDataSizeOut
          (st + (leadingEnc X A w pe st).body.length)).translationsSent
      else t := by
  rw [encodeBlocks_testBit_joint]
  unfold encodeBlocks
  simp only []
  by_cases h : jointEntered w pe st (numJointsFor A w) (leadingEnc X A w pe st)
  · have hn := numJointsFor_of_joint A w h.1
    rw [hn] at h ⊢
    simp only [jointDataStep_entered X A last r t sa cull da v w pe st _ _ h, h, decide_True,
      if_true]
  · simp only [jointDataStep_not_entered X A last r t sa cull da v w pe st _ _ h, h,
      decide_False]
    simp

/-- The body that `encodeBlocks` writes: the leading sections, then the joint section, the grab
joints and the default pose flags, each when its bit is in the mask. -/
theorem encodeBlocks_body (X : Extern) (A : Avatar) (last : List JointData) (r t : Nat)
    (sa cull da : Bool) (v : Vec3) (w pe st : Nat) :
    (encodeBlocks X A last r t sa cull da v w pe st).enc.body =
      (leadingEnc X A w pe st).body ++
        (if (encodeBlocks X A last r t sa cull da v w pe st).enc.includedFlags.testBit 12 = true
          then (jointDataSection X A last r t sa cull da v pe A.getJointDataSizeOut
            (st + (leadingEnc X A w pe st).body.length)).bytes
          else []) ++
        grabPart A (encodeBlocks X A last r t sa cull da v w pe st).enc.includedFlags ++
        defaultPosePart A (encodeBlocks X A last r t sa cull da v w pe st).enc.includedFlags
          (numJointsFor A w) := by
  have hlt := (leadingEnc_spec X A w pe st).1
  have h12 : (leadingEnc X A w pe st).includedFlags.testBit 12 = false :=
    testBit_false_of_lt hlt (by decide)
  have h13 : (leadingEnc X A w pe st).includedFlags.testBit 13 = false :=
    testBit_false_of_lt hlt (by decide)
  have h14 : (leadingEnc X A w pe st).includedFlags.testBit 14 = false :=
    testBit_false_of_lt hlt (by decide)
  unfold encodeBlocks grabPart defaultPosePart
  simp only []
  rw [show PACKET_HAS_JOINT_DEFAULT_POSE_FLAGS = 1 <<< 13 from rfl]
  by_cases h : jointEntered w pe st (numJointsFor A w) (leadingEnc X A w pe st)
  · have hn := numJointsFor_of_joint A w h.1
    rw [hn] at h ⊢
    simp only [jointDataStep_entered X A last r t sa cull da v w pe st _ _ h]
    simp only [ifAvatarSpace_eq]
    split <;> split <;>
      simp only [Nat.testBit_or, flag_testBit, h12, h13, h14, List.append_assoc,
        List.append_nil, List.nil_append, Bool.false_or, Bool.or_false, decide_True,
        decide_False, if_true, if_false, Nat.reduceEqDiff, Bool.true_or, Bool.or_true,
        Bool.false_eq_true]
  · simp only [jointDataStep_not_entered X A last r t sa cull da v w pe st _ _ h]
    simp only [ifAvatarSpace_eq]
    split <;>
      simp only [Nat.testBit_or, flag_testBit, h12, h13, h14, List.append_assoc,
        List.append_nil, List.nil_append, Bool.false_or, Bool.or_false, decide_True,
        decide_False, if_true, if_false, Nat.reduceEqDiff, Bool.true_or, Bool.or_true,
        Bool.false_eq_true]

/-! ## Joint data sections and the continuation cursors -/

/-- What a joint data section holds. -/
theorem jointDataSection_spec (X : Extern) (A : Avatar) (last : List JointData) (r t : Nat)
    (sa cull da : Bool) (v : Vec3) (pe n dest : Nat) :
    (jointDataSection X A last r t sa cull da v pe n dest).bytes =
      [n % 256] ++ (jointDataSection X A last r t sa cull da v pe n dest).rotationValidity ++
        (jointDataSection X A last r t sa cull da v pe n dest).rotationBlock ++
        (jointDataSection X A last r t sa cull da v pe n dest).translationValidity ++
        leBytes 4 (jointDataSection X A last r t sa cull da v pe n dest).maxTranslationDimension ++
        (jointDataSection X A last r t sa cull da v pe n dest).translationBlock ∧
    (jointDataSection X A last r t sa cull da v pe n dest).rotationValidity.length =
      calcBitVectorSize n ∧
    (jointDataSection X A last r t sa cull da v pe n dest).translationValidity.length =
      calcBitVectorSize n ∧
    (∀ i, validityBit (jointDataSection X A last r t sa cull da v pe n dest).rotationValidity i
        = true ↔ i ∈ (jointDataSection X A last r t sa cull da v pe n dest).rotationsWritten) ∧
    (jointDataSection X A last r t sa cull da v pe n dest).rotationBlock =
      packAll (rotationBytes X A)
        (jointDataSection X A last r t sa cull da v pe n dest).rotationsWritten ∧
    (jointDataSection X A last r t sa cull da v pe n dest).rotationBlock.length =
      6 * popCount (jointDataSection X A last r t sa cull da v pe n dest).rotationValidity ∧
    (∀ i, validityBit (jointDataSection X A last r t sa cull da v pe n dest).translationValidity
        i = true ↔
      i ∈ (jointDataSection X A last r t sa cull da v pe n dest).translationsWritten) ∧
    (jointDataSection X A last r t sa cull da v pe n dest).translationBlock =
      packAll (translationBytes X A
          (jointDataSection X A last r t sa cull da v pe n dest).maxTranslationDimension)
        (jointDataSection X A last r t sa cull da v pe n dest).translationsWritten ∧
    (jointDataSection X A last r t sa cull da v pe n dest).translationBlock.length =
      6 * popCount (jointDataSection X A last r t sa cull da v pe n dest).translationValidity := by
  obtain ⟨-, -, -, r4, r5, r6, r7, r8, -⟩ := rotationPass_spec X A last r sa cull da v pe n dest
  obtain ⟨-, -, -, t4, t5, t6, t7, t8, -⟩ := translationPass_spec X A last t sa cull da v pe n
    (dest + 1 + calcBitVectorSize n + (rotationPass X A last r sa cull da v pe n dest).out.length)
  simp only [jointDataSection]
  refine ⟨trivial, r8, t8, ?_, r4, ?_, ?_, t4, ?_⟩
  · intro i; rw [r5]; simp
  · rw [r6]; exact r7
  · intro i; rw [t5]; simp
  · rw [t6]; exact t7

/-- What a joint data section in a returned packet holds. -/
theorem toByteArray_joints_spec (X : Extern) (A : Avatar) (itemFlagsInit : Nat)
    (dataDetail : AvatarDataDetail) (lastSentJointData : List JointData)
    (sendStatus : SendStatus) (distanceAdjust : Bool) (viewerPosition : Vec3)
    (maxDataSize : Nat)
    (hmax : maxDataSize = 0 ∨ MIN_BULK_PACKET_SIZE ≤ maxDataSize)
    (hd : dataDetail ≠ AvatarDataDetail.NoData) :
    ∃ r, toByteArray X A itemFlagsInit dataDetail lastSentJointData sendStatus distanceAdjust
        viewerPosition maxDataSize = some r ∧
      r.joints.isSome = r.includedFlags.testBit 12 ∧
      ∀ js, r.joints = some js →
        (∃ pre post, r.bytes = pre ++
          ([A.getJointDataSizeOut % 256] ++ js.rotationValidity ++ js.rotationBlock ++
            js.translationValidity ++ leBytes 4 js.maxTranslationDimension ++
            js.translationBlock) ++ post) ∧
        js.rotationValidity.length = calcBitVectorSize A.getJointDataSizeOut ∧
        js.translationValidity.length = calcBitVectorSize A.getJointDataSizeOut ∧
        (∀ i, validityBit js.rotationValidity i = true ↔ i ∈ js.rotationsWritten) ∧
        js.rotationBlock = packAll (rotationBytes X A) js.rotationsWritten ∧
        js.rotationBlock.length = 6 * popCount js.rotationValidity ∧
        (∀ i, validityBit js.translationValidity i = true ↔ i ∈ js.translationsWritten) ∧
        js.translationBlock =
          packAll (translationBytes X A js.maxTranslationDimension) js.translationsWritten ∧
        js.translationBlock.length = 6 * popCount js.translationValidity := by
  obtain ⟨r, hr, hb, -, -, -, -, -, hi, -, -, -, hj⟩ :=
    toByteArray_fields X A itemFlagsInit dataDetail lastSentJointData sendStatus
      distanceAdjust viewerPosition maxDataSize hmax hd
  unfold encodeBlocksFor at hb hi hj
  rw [encodeBlocks_joints, ← hi] at hj
  refine ⟨r, hr, ?_, ?_⟩
  · rw [hj]; split <;> simp_all
  · intro js hjs
    rw [hj] at hjs
    by_cases h12 : r.includedFlags.testBit 12 = true
    · rw [if_pos h12] at hjs
      have hjs' := (Option.some.inj hjs).symm
      obtain ⟨s1, s2, s3, s4, s5, s6, s7, s8, s9⟩ := jointDataSection_spec X A
        lastSentJointData (rotationsSentFor sendStatus) (translationsSentFor sendStatus)
        (decide (dataDetail = AvatarDataDetail.SendAllData))
        (decide (dataDetail = AvatarDataDetail.CullSmallData)) distanceAdjust viewerPosition
        (packetEndFor A maxDataSize) A.getJointDataSizeOut
        (startFor A sendStatus + (leadingEnc X A (wantedFlagsFor itemFlagsInit sendStatus)
          (packetEndFor A maxDataSize) (startFor A sendStatus)).body.length)
      rw [← hjs'] at s1 s2 s3 s4 s5 s6 s7 s8 s9
      refine ⟨?_, s2, s3, s4, s5, s6, s7, s8, s9⟩
      rw [hb, encodeBlocks_body, ← hi, if_pos h12, ← hjs', s1]
      exact ⟨uuidBytesFor A sendStatus ++ leBytes HEADER_SIZE r.includedFlags ++
          (leadingEnc X A (wantedFlagsFor itemFlagsInit sendStatus)
            (packetEndFor A maxDataSize) (startFor A sendStatus)).body,
          grabPart A r.includedFlags ++ defaultPosePart A r.includedFlags
            (numJointsFor A (wantedFlagsFor itemFlagsInit sendStatus)),
          by simp only [List.append_assoc]⟩
    · rw [if_neg h12] at hjs
      exact absurd hjs (by simp)

/-- C7. In every emitted joint data section, bit `i` of the rotation validity vector (byte
`i / 8`, bit `i % 8`, least significant bit first) is set iff the 6-byte quaternion of joint `i`
was written, the rotation block is the packed quaternions of exactly these joints in order, and
so is `6 * popcount(validity vector)` bytes long; the same holds for the translation validity
vector and the translation block. The section lies in the packet as the count byte, the rotation
validity vector, the rotation block, the translation validity vector, the scale float and the
translation block. -/
theorem C7_validity_bits_match_blocks (X : Extern) (A : Avatar) (itemFlagsInit : Nat)
    (dataDetail : AvatarDataDetail) (lastSentJointData : List JointData)
    (sendStatus : SendStatus) (distanceAdjust : Bool) (viewerPosition : Vec3)
    (maxDataSize : Nat)
    (hmax : maxDataSize = 0 ∨ MIN_BULK_PACKET_SIZE ≤ maxDataSize)
    (hd : dataDetail ≠ AvatarDataDetail.NoData) :
    ∃ r, toByteArray X A itemFlagsInit dataDetail lastSentJointData sendStatus distanceAdjust
        viewerPosition maxDataSize = some r ∧
      r.joints.isSome = r.includedFlags.testBit 12 ∧
      ∀ js, r.joints = some js →
        (∃ pre post, r.bytes = pre ++
          ([A.getJointDataSizeOut % 256] ++ js.rotationValidity ++ js.rotationBlock ++
            js.translationValidity ++ leBytes 4 js.maxTranslationDimension ++
            js.translationBlock) ++ post) ∧
        js.rotationValidity.length = calcBitVectorSize A.getJointDataSizeOut ∧
        js.translationValidity.length = calcBitVectorSize A.getJointDataSizeOut ∧
        (∀ i, validityBit js.rotationValidity i = true ↔ i ∈ js.rotationsWritten) ∧
        js.rotationBlock = packAll (rotationBytes X A) js.rotationsWritten ∧
        js.rotationBlock.length = 6 * popCount js.rotationValidity ∧
        (∀ i, validityBit js.translationValidity i = true ↔ i ∈ js.translationsWritten) ∧
        js.translationBlock =
          packAll (translationBytes X A js.maxTranslationDimension) js.translationsWritten ∧
        js.translationBlock.length = 6 * popCount js.translationValidity :=
  toByteArray_joints_spec X A itemFlagsInit dataDetail lastSentJointData sendStatus distanceAdjust
    viewerPosition maxDataSize hmax hd

theorem C7_witness :
    ((77 : Nat) = 0 ∨ MIN_BULK_PACKET_SIZE ≤ 77) ∧
    AvatarDataDetail.SendAllData ≠ AvatarDataDetail.NoData ∧
    ∃ r, toByteArray sampleExtern (sampleAvatar 40) 0x1000 AvatarDataDetail.SendAllData []
        freshStatus false default 77 = some r ∧
      r.joints.isSome = r.includedFlags.testBit 12 ∧
      ∀ js, r.joints = some js →
        (∃ pre post, r.bytes = pre ++
          ([(sampleAvatar 40).getJointDataSizeOut % 256] ++ js.rotationValidity ++
            js.rotationBlock ++ js.translationValidity ++ leBytes 4 js.maxTranslationDimension ++
            js.translationBlock) ++ post) ∧
        js.rotationValidity.length = calcBitVectorSize (sampleAvatar 40).getJointDataSizeOut ∧
        js.translationValidity.length = calcBitVectorSize (sampleAvatar 40).getJointDataSizeOut ∧
        (∀ i, validityBit js.rotationValidity i = true ↔ i ∈ js.rotationsWritten) ∧
        js.rotationBlock = packAll (rotationBytes sampleExtern (sampleAvatar 40))
          js.rotationsWritten ∧
        js.rotationBlock.length = 6 * popCount js.rotationValidity ∧
        (∀ i, validityBit js.translationValidity i = true ↔ i ∈ js.translationsWritten) ∧
        js.translationBlock =
          packAll (translationBytes sampleExtern (sampleAvatar 40) js.maxTranslationDimension)
            js.translationsWritten ∧
        js.translationBlock.length = 6 * popCount js.translationValidity :=
  ⟨by decide, by decide,
    C7_validity_bits_match_blocks sampleExtern (sampleAvatar 40) 0x1000
      AvatarDataDetail.SendAllData [] freshStatus false default 77 (by decide) (by decide)⟩

/-- The sample call of the witness of C7 does write a joint data section: ten rotations and no
translation. -/
theorem sample_joint_section :
    (toByteArray sampleExtern (sampleAvatar 40) 0x1000 AvatarDataDetail.SendAllData []
      freshStatus false default 77).map
        (fun r => r.joints.map (fun js => (js.rotationsWritten, js.translationsWritten))) =
      some (some ([0, 1, 2, 3, 4, 5, 6, 7, 8, 9], [])) := by
  decide

/-- The cursors of a joint data section: each loop starts at the cursor it is given, packs exactly
the joints between the old and the new cursor that pass its test, and never moves back. -/
theorem jointDataSection_cursor (X : Extern) (A : Avatar) (last : List JointData) (r t : Nat)
    (sa cull da : Bool) (v : Vec3) (pe n dest : Nat) :
    r ≤ (jointDataSection X A last r t sa cull da v pe n dest).rotationsSent ∧
    (jointDataSection X A last r t sa cull da v pe n dest).rotationsSent ≤ r + (n - r) ∧
    t ≤ (jointDataSection X A last r t sa cull da v pe n dest).translationsSent ∧
    (jointDataSection X A last r t sa cull da v pe n dest).translationsSent ≤ t + (n - t) ∧
    (jointDataSection X A last r t sa cull da v pe n dest).rotationsWritten =
      (List.range' r ((jointDataSection X A last r t sa cull da v pe n dest).rotationsSent - r)).filter
        (rotationSend X A last sa cull da v) ∧
    (jointDataSection X A last r t sa cull da v pe n dest).translationsWritten =
      (List.range' t
        ((jointDataSection X A last r t sa cull da v pe n dest).translationsSent - t)).filter
        (translationSend X A last sa cull da v) := by
  obtain ⟨r1, r2, r3, -⟩ := rotationPass_spec X A last r sa cull da v pe n dest
  obtain ⟨t1, t2, t3, -⟩ := translationPass_spec X A last t sa cull da v pe n
    (dest + 1 + calcBitVectorSize n + (rotationPass X A last r sa cull da v pe n dest).out.length)
  simp only [jointDataSection]
  exact ⟨r1, r2, t1, t2, r3, t3⟩

/-- The cursors that a call of `toByteArray` returns, and the joints it packs: the cursors start
from `rotationsSentFor` and `translationsSentFor` of the incoming status and never move back, and
a joint data section packs exactly the joints between the old and the new cursor that pass the
test of its loop. -/
theorem toByteArray_cursor (X : Extern) (A : Avatar) (itemFlagsInit : Nat)
    (dataDetail : AvatarDataDetail) (last : List JointData) (s : SendStatus) (da : Bool)
    (v : Vec3) (maxDataSize : Nat)
    (hmax : maxDataSize = 0 ∨ MIN_BULK_PACKET_SIZE ≤ maxDataSize)
    (hd : dataDetail ≠ AvatarDataDetail.NoData) :
    ∃ r, toByteArray X A itemFlagsInit dataDetail last s da v maxDataSize = some r ∧
      rotationsSentFor s ≤ r.sendStatus.rotationsSent ∧
      translationsSentFor s ≤ r.sendStatus.translationsSent ∧
      (r.includedFlags.testBit 12 = false →
        r.sendStatus.rotationsSent = rotationsSentFor s ∧
        r.sendStatus.translationsSent = translationsSentFor s ∧ r.joints = none) ∧
      (r.includedFlags.testBit 12 = true →
        r.sendStatus.rotationsSent ≤
          rotationsSentFor s + (A.getJointDataSizeOut - rotationsSentFor s) ∧
        r.sendStatus.translationsSent ≤
          translationsSentFor s + (A.getJointDataSizeOut - translationsSentFor s)) ∧
      ∀ js, r.joints = some js →
        r.includedFlags.testBit 12 = true ∧
        js.rotationsWritten =
          (List.range' (rotationsSentFor s)
            (r.sendStatus.rotationsSent - rotationsSentFor s)).filter
            (rotationSend X A last (decide (dataDetail = AvatarDataDetail.SendAllData))
              (decide (dataDetail = AvatarDataDetail.CullSmallData)) da v) ∧
        js.translationsWritten =
          (List.range' (translationsSentFor s)
            (r.sendStatus.translationsSent - translationsSentFor s)).filter
            (translationSend X A last (decide (dataDetail = AvatarDataDetail.SendAllData))
              (decide (dataDetail = AvatarDataDetail.CullSmallData)) da v) := by
  obtain ⟨r, hr, -, -, -, hrot, htr, -, hi, -, -, -, hj⟩ :=
    toByteArray_fields X A itemFlagsInit dataDetail last s da v maxDataSize hmax hd
  unfold encodeBlocksFor at hrot htr hi hj
  rw [encodeBlocks_joints, ← hi] at hj
  rw [encodeBlocks_rotationsSent, ← hi] at hrot
  rw [encodeBlocks_translationsSent, ← hi] at htr
  obtain ⟨c1, c2, c3, c4, c5, c6⟩ := jointDataSection_cursor X A last (rotationsSentFor s)
    (translationsSentFor s) (decide (dataDetail = AvatarDataDetail.SendAllData))
    (decide (dataDetail = AvatarDataDetail.CullSmallData)) da v (packetEndFor A maxDataSize)
    A.getJointDataSizeOut
    (startFor A s + (leadingEnc X A (wantedFlagsFor itemFlagsInit s)
      (packetEndFor A maxDataSize) (startFor A s)).body.length)
  refine ⟨r, hr, ?_⟩
  by_cases h12 : r.includedFlags.testBit 12 = true
  · rw [if_pos h12] at hj hrot htr
    rw [hrot, htr]
    refine ⟨c1, c3, fun h => absurd h12 (by simp [h]), fun _ => ⟨c2, c4⟩, ?_⟩
    intro js hjs
    rw [hj] at hjs
    have hjs' := (Option.some.inj hjs).symm
    subst hjs'
    exact ⟨h12, c5, c6⟩
  · rw [if_neg h12] at hj hrot htr
    rw [hrot, htr]
    refine ⟨le_refl _, le_refl _, fun _ => ⟨rfl, rfl, hj⟩, fun h => absurd h h12, ?_⟩
    intro js hjs
    rw [hj] at hjs
    exact absurd hjs (by simp)

/-- The amended C8. If an encode whose wanted flags have the PACKET_HAS_JOINT_DATA bit leaves
`rotationsSent` or `translationsSent` below the joint count, the returned flags have the
PACKET_HAS_JOINT_DATA bit; a following encode with the returned send status and the same avatar
state keeps the cursors, sets no validity bit for a joint below them, packs the joints from the
cursor on that pass the test of the loop, and so packs no joint that the first packet holds. -/
theorem C8_joint_data_resumes (X : Extern) (A : Avatar) (itemFlagsInit itemFlagsNext : Nat)
    (dataDetail : AvatarDataDetail) (lastSentJointData : List JointData)
    (sendStatus : SendStatus) (distanceAdjust : Bool) (viewerPosition : Vec3)
    (maxDataSize : Nat)
    (hmax : maxDataSize = 0 ∨ MIN_BULK_PACKET_SIZE ≤ maxDataSize)
    (hd : dataDetail ≠ AvatarDataDetail.NoData) :
    ∃ r1, toByteArray X A itemFlagsInit dataDetail lastSentJointData sendStatus distanceAdjust
        viewerPosition maxDataSize = some r1 ∧
      (r1.wantedFlags.testBit 12 = true →
        (r1.sendStatus.rotationsSent < A.getJointDataSizeOut ∨
          r1.sendStatus.translationsSent < A.getJointDataSizeOut) →
        r1.sendStatus.itemFlags.testBit 12 = true ∧
        ∃ r2, toByteArray X A itemFlagsNext dataDetail lastSentJointData r1.sendStatus
            distanceAdjust viewerPosition maxDataSize = some r2 ∧
          r1.sendStatus.rotationsSent ≤ r2.sendStatus.rotationsSent ∧
          r1.sendStatus.translationsSent ≤ r2.sendStatus.translationsSent ∧
          ∀ js2, r2.joints = some js2 →
            (∀ i, i < r1.sendStatus.rotationsSent → validityBit js2.rotationValidity i = false) ∧
            js2.rotationsWritten =
              (List.range' r1.sendStatus.rotationsSent
                (r2.sendStatus.rotationsSent - r1.sendStatus.rotationsSent)).filter
                (rotationSend X A lastSentJointData
                  (decide (dataDetail = AvatarDataDetail.SendAllData))
                  (decide (dataDetail = AvatarDataDetail.CullSmallData)) distanceAdjust
                  viewerPosition) ∧
            (∀ i, i < r1.sendStatus.translationsSent →
              validityBit js2.translationValidity i = false) ∧
            js2.translationsWritten =
              (List.range' r1.sendStatus.translationsSent
                (r2.sendStatus.translationsSent - r1.sendStatus.translationsSent)).filter
                (translationSend X A lastSentJointData
                  (decide (dataDetail = AvatarDataDetail.SendAllData))
                  (decide (dataDetail = AvatarDataDetail.CullSmallData)) distanceAdjust
                  viewerPosition) ∧
            ∀ js1, r1.joints = some js1 →
              (∀ i, i ∈ js1.rotationsWritten → i ∉ js2.rotationsWritten) ∧
              (∀ i, i ∈ js1.translationsWritten → i ∉ js2.translationsWritten)) := by
  obtain ⟨r1, hr1, -, hf1, -, hrot1, htr1, hw1, hi1, he1, -, -, -⟩ :=
    toByteArray_fields X A itemFlagsInit dataDetail lastSentJointData sendStatus
      distanceAdjust viewerPosition maxDataSize hmax hd
  obtain ⟨r1', hr1', a1, a2, -, -, a5⟩ :=
    toByteArray_cursor X A itemFlagsInit dataDetail lastSentJointData sendStatus
      distanceAdjust viewerPosition maxDataSize hmax hd
  have e1 : r1' = r1 := Option.some.inj (hr1'.symm.trans hr1)
  subst e1
  refine ⟨r1', hr1, ?_⟩
  intro hw hk
  have hbit : r1'.sendStatus.itemFlags.testBit 12 = true := by
    rw [hf1, residual_testBit, ← hw1, hw, ← hi1, ← he1]
    by_cases hinc : r1'.includedFlags.testBit 12 = true
    · have hex : r1'.extraReturnedFlags = PACKET_HAS_JOINT_DATA := by
        rw [he1]
        unfold encodeBlocksFor
        rw [encodeBlocks_extra, if_pos]
        refine ⟨by rw [← encodeBlocksFor, ← hi1]; exact hinc, ?_⟩
        rw [← encodeBlocksFor, ← hrot1, ← htr1]
        omega
      rw [hex, show PACKET_HAS_JOINT_DATA = 1 <<< 12 from rfl, flag_testBit]
      simp
    · simp [hinc]
  have hne : r1'.sendStatus.itemFlags ≠ 0 := by
    intro h0
    rw [h0] at hbit
    simp at hbit
  have hrs : rotationsSentFor r1'.sendStatus = r1'.sendStatus.rotationsSent := by
    simp [rotationsSentFor, hne]
  have hts : translationsSentFor r1'.sendStatus = r1'.sendStatus.translationsSent := by
    simp [translationsSentFor, hne]
  obtain ⟨r2, hr2, b1, b2, -, -, b5⟩ :=
    toByteArray_cursor X A itemFlagsNext dataDetail lastSentJointData r1'.sendStatus
      distanceAdjust viewerPosition maxDataSize hmax hd
  obtain ⟨r2', hr2', -, c2⟩ :=
    toByteArray_joints_spec X A itemFlagsNext dataDetail lastSentJointData r1'.sendStatus
      distanceAdjust viewerPosition maxDataSize hmax hd
  have e2 : r2' = r2 := Option.some.inj (hr2'.symm.trans hr2)
  subst e2
  rw [hrs] at b1
  rw [hts] at b2
  refine ⟨hbit, r2', hr2, b1, b2, ?_⟩
  intro js2 hjs2
  obtain ⟨-, w1, w2⟩ := b5 js2 hjs2
  rw [hrs] at w1
  rw [hts] at w2
  obtain ⟨-, -, -, v1, -, -, v2, -, -⟩ := c2 js2 hjs2
  have hlow_r : ∀ i, i ∈ js2.rotationsWritten → r1'.sendStatus.rotationsSent ≤ i := by
    intro i hi
    rw [w1] at hi
    have := (List.mem_filter.1 hi).1
    rw [List.mem_range'_1] at this
    exact this.1
  have hlow_t : ∀ i, i ∈ js2.translationsWritten → r1'.sendStatus.translationsSent ≤ i := by
    intro i hi
    rw [w2] at hi
    have := (List.mem_filter.1 hi).1
    rw [List.mem_range'_1] at this
    exact this.1
  refine ⟨?_, w1, ?_, w2, ?_⟩
  · intro i hi
    by_contra hne'
    have hm := (v1 i).1 (by simpa using hne')
    have := hlow_r i hm
    omega
  · intro i hi
    by_contra hne'
    have hm := (v2 i).1 (by simpa using hne')
    have := hlow_t i hm
    omega
  · intro js1 hjs1
    obtain ⟨-, x1, x2⟩ := a5 js1 hjs1
    constructor
    · intro i hi hi2
      rw [x1] at hi
      have h1 := (List.mem_filter.1 hi).1
      rw [List.mem_range'_1] at h1
      have h2 := hlow_r i hi2
      omega
    · intro i hi hi2
      rw [x2] at hi
      have h1 := (List.mem_filter.1 hi).1
      rw [List.mem_range'_1] at h1
      have h2 := hlow_t i hi2
      omega

theorem C8_witness :
    ((77 : Nat) = 0 ∨ MIN_BULK_PACKET_SIZE ≤ 77) ∧
    AvatarDataDetail.SendAllData ≠ AvatarDataDetail.NoData ∧
    (∃ r1, toByteArray sampleExtern (sampleAvatar 40) 0x1000 AvatarDataDetail.SendAllData []
        freshStatus false default 77 = some r1 ∧
      (r1.wantedFlags.testBit 12 = true →
        (r1.sendStatus.rotationsSent < (sampleAvatar 40).getJointDataSizeOut ∨
          r1.sendStatus.translationsSent < (sampleAvatar 40).getJointDataSizeOut) →
        r1.sendStatus.itemFlags.testBit 12 = true ∧
        ∃ r2, toByteArray sampleExtern (sampleAvatar 40) 0 AvatarDataDetail.SendAllData []
            r1.sendStatus false default 77 = some r2 ∧
          r1.sendStatus.rotationsSent ≤ r2.sendStatus.rotationsSent ∧
          r1.sendStatus.translationsSent ≤ r2.sendStatus.translationsSent ∧
          ∀ js2, r2.joints = some js2 →
            (∀ i, i < r1.sendStatus.rotationsSent → validityBit js2.rotationValidity i = false) ∧
            js2.rotationsWritten =
              (List.range' r1.sendStatus.rotationsSent
                (r2.sendStatus.rotationsSent - r1.sendStatus.rotationsSent)).filter
                (rotationSend sampleExtern (sampleAvatar 40) []
                  (decide (AvatarDataDetail.SendAllData = AvatarDataDetail.SendAllData))
                  (decide (AvatarDataDetail.SendAllData = AvatarDataDetail.CullSmallData)) false
                  default) ∧
            (∀ i, i < r1.sendStatus.translationsSent →
              validityBit js2.translationValidity i = false) ∧
            js2.translationsWritten =
              (List.range' r1.sendStatus.translationsSent
                (r2.sendStatus.translationsSent - r1.sendStatus.translationsSent)).filter
                (translationSend sampleExtern (sampleAvatar 40) []
                  (decide (AvatarDataDetail.SendAllData = AvatarDataDetail.SendAllData))
                  (decide (AvatarDataDetail.SendAllData = AvatarDataDetail.CullSmallData)) false
                  default) ∧
            ∀ js1, r1.joints = some js1 →
              (∀ i, i ∈ js1.rotationsWritten → i ∉ js2.rotationsWritten) ∧
              (∀ i, i ∈ js1.translationsWritten → i ∉ js2.translationsWritten))) ∧
    (toByteArray sampleExtern (sampleAvatar 40) 0x1000 AvatarDataDetail.SendAllData []
      freshStatus false default 77).map (fun r => r.sendStatus) =
        some { itemFlags := 0x1000, sendUUID := false, rotationsSent := 10,
               translationsSent := 0 } ∧
    (toByteArray sampleExtern (sampleAvatar 40) 0 AvatarDataDetail.SendAllData []
      { itemFlags := 0x1000, sendUUID := false, rotationsSent := 10, translationsSent := 0 }
      false default 77).map
        (fun r => (r.joints.map (fun js => js.rotationsWritten), r.sendStatus.rotationsSent)) =
        some (some [10, 11, 12, 13, 14, 15, 16, 17, 18, 19], 20) :=
  ⟨by decide, by decide,
    C8_joint_data_resumes sampleExtern (sampleAvatar 40) 0x1000 0 AvatarDataDetail.SendAllData []
      freshStatus false default 77 (by decide) (by decide),
    by decide, by decide⟩

/-- C8 fails as stated. A fresh encode of an avatar with one joint that asks for GLOBAL_POS
alone, with no size limit: the JOINT_DATA block is not entered, the returned cursors are
`rotationsSent = 0` and `translationsSent = 0`, both below the joint count 1, and the returned
flags are 0, so the PACKET_HAS_JOINT_DATA bit is not set. -/
theorem C8_counterexample :
    (sampleAvatar 1).getJointDataSizeOut = 1 ∧
    (toByteArray sampleExtern (sampleAvatar 1) PACKET_HAS_AVATAR_GLOBAL_POSITION
      AvatarDataDetail.SendAllData [] freshStatus false default 0).map
        (fun r => (r.wantedFlags, r.includedFlags)) = some (1, 1) ∧
    (toByteArray sampleExtern (sampleAvatar 1) PACKET_HAS_AVATAR_GLOBAL_POSITION
      AvatarDataDetail.SendAllData [] freshStatus false default 0).map
        (fun r => r.sendStatus) =
        some { itemFlags := 0, sendUUID := false, rotationsSent := 0, translationsSent := 0 } ∧
    (toByteArray sampleExtern (sampleAvatar 1) PACKET_HAS_AVATAR_GLOBAL_POSITION
      AvatarDataDetail.SendAllData [] freshStatus false default 0).map
        (fun r => r.sendStatus.itemFlags.testBit 12) = some false := by
  refine ⟨by decide, ?_, ?_, ?_⟩ <;> decide!

theorem toByteArray_ignores_init (X : Extern) (A : Avatar) (f f' : Nat)
    (dataDetail : AvatarDataDetail) (last : List JointData) (s : SendStatus) (da : Bool)
    (v : Vec3) (maxDataSize : Nat) (hs : s.itemFlags ≠ 0) :
    toByteArray X A f' dataDetail last s da v maxDataSize =
      toByteArray X A f dataDetail last s da v maxDataSize := by
  have hw : wantedFlagsFor f' s = wantedFlagsFor f s := by simp [wantedFlagsFor, hs]
  unfold toByteArray encodeBlocksFor
  rw [hw]

theorem toByteArray_resets_cursor (X : Extern) (A : Avatar) (f : Nat)
    (dataDetail : AvatarDataDetail) (last : List JointData) (s : SendStatus) (da : Bool)
    (v : Vec3) (maxDataSize rot trans : Nat) (hs : s.itemFlags = 0)
    (hd : dataDetail ≠ AvatarDataDetail.NoData) :
    toByteArray X A f dataDetail last { s with rotationsSent := rot, translationsSent := trans }
        da v maxDataSize =
      toByteArray X A f dataDetail last s da v maxDataSize := by
  unfold toByteArray encodeBlocksFor
  simp only [wantedFlagsFor, rotationsSentFor, translationsSentFor, startFor, uuidBytesFor, hs,
    if_true, if_neg hd]

/-- C10. When `sendStatus.itemFlags` is not 0 on entry, `toByteArray` ignores the initial flags
and keeps `rotationsSent` and `translationsSent`: the wanted set is `itemFlags`, with the
PACKET_HAS_JOINT_DATA bit added when `itemFlags` has the PACKET_HAS_GRAB_JOINTS bit, the result is
the same for every `itemFlagsInit`, the cursors are returned as they came when no joint data
section is written, and a section that is written packs no joint below them. When
`sendStatus.itemFlags` is 0 on entry, the wanted set is the initial flags and the cursors are
reset to 0: the result is the same whatever cursors come in, and they are returned as 0 when no
joint data section is written. -/
theorem C10_wanted_flags_and_cursors (X : Extern) (A : Avatar) (itemFlagsInit : Nat)
    (dataDetail : AvatarDataDetail) (lastSentJointData : List JointData)
    (sendStatus : SendStatus) (distanceAdjust : Bool) (viewerPosition : Vec3)
    (maxDataSize : Nat)
    (hmax : maxDataSize = 0 ∨ MIN_BULK_PACKET_SIZE ≤ maxDataSize)
    (hd : dataDetail ≠ AvatarDataDetail.NoData) :
    ∃ r, toByteArray X A itemFlagsInit dataDetail lastSentJointData sendStatus distanceAdjust
        viewerPosition maxDataSize = some r ∧
      (sendStatus.itemFlags ≠ 0 →
        r.wantedFlags =
          (if sendStatus.itemFlags.testBit 14 = true then
            sendStatus.itemFlags ||| PACKET_HAS_JOINT_DATA
          else sendStatus.itemFlags) ∧
        (∀ otherInit, toByteArray X A otherInit dataDetail lastSentJointData sendStatus
          distanceAdjust viewerPosition maxDataSize = some r) ∧
        sendStatus.rotationsSent ≤ r.sendStatus.rotationsSent ∧
        sendStatus.translationsSent ≤ r.sendStatus.translationsSent ∧
        (r.includedFlags.testBit 12 = false →
          r.sendStatus.rotationsSent = sendStatus.rotationsSent ∧
          r.sendStatus.translationsSent = sendStatus.translationsSent) ∧
        (∀ js, r.joints = some js →
          (∀ i, i ∈ js.rotationsWritten → sendStatus.rotationsSent ≤ i) ∧
          (∀ i, i ∈ js.translationsWritten → sendStatus.translationsSent ≤ i))) ∧
      (sendStatus.itemFlags = 0 →
        r.wantedFlags = itemFlagsInit % 65536 ∧
        (∀ rot trans, toByteArray X A itemFlagsInit dataDetail lastSentJointData
          { sendStatus with rotationsSent := rot, translationsSent := trans } distanceAdjust
          viewerPosition maxDataSize = some r) ∧
        (r.includedFlags.testBit 12 = false →
          r.sendStatus.rotationsSent = 0 ∧ r.sendStatus.translationsSent = 0) ∧
        (∀ js, r.joints = some js →
          js.rotationsWritten = (List.range' 0 r.sendStatus.rotationsSent).filter
            (rotationSend X A lastSentJointData
              (decide (dataDetail = AvatarDataDetail.SendAllData))
              (decide (dataDetail = AvatarDataDetail.CullSmallData)) distanceAdjust
              viewerPosition) ∧
          js.translationsWritten = (List.range' 0 r.sendStatus.translationsSent).filter
            (translationSend X A lastSentJointData
              (decide (dataDetail = AvatarDataDetail.SendAllData))
              (decide (dataDetail = AvatarDataDetail.CullSmallData)) distanceAdjust
              viewerPosition))) := by
  obtain ⟨r, hr, -, -, -, -, -, hw, -⟩ :=
    toByteArray_fields X A itemFlagsInit dataDetail lastSentJointData sendStatus
      distanceAdjust viewerPosition maxDataSize hmax hd
  obtain ⟨r', hr', a1, a2, a3, -, a5⟩ :=
    toByteArray_cursor X A itemFlagsInit dataDetail lastSentJointData sendStatus
      distanceAdjust viewerPosition maxDataSize hmax hd
  have e1 : r' = r := Option.some.inj (hr'.symm.trans hr)
  subst e1
  refine ⟨r', hr, ?_, ?_⟩
  · intro hne
    have hrs : rotationsSentFor sendStatus = sendStatus.rotationsSent := by
      simp [rotationsSentFor, hne]
    have hts : translationsSentFor sendStatus = sendStatus.translationsSent := by
      simp [translationsSentFor, hne]
    rw [hrs] at a1 a3 a5
    rw [hts] at a2 a3 a5
    refine ⟨?_, ?_, a1, a2, fun h => ⟨(a3 h).1, (a3 h).2.1⟩, ?_⟩
    · rw [hw]
      unfold wantedFlagsFor
      rw [if_neg hne, show PACKET_HAS_GRAB_JOINTS = 1 <<< 14 from rfl]
      by_cases h14 : sendStatus.itemFlags.testBit 14 = true
      · rw [if_pos ((and_flag_ne_zero _ 14).2 h14), if_pos h14]
      · rw [if_neg (fun h => h14 ((and_flag_ne_zero _ 14).1 h)), if_neg h14]
    · intro f'
      rw [toByteArray_ignores_init X A itemFlagsInit f' dataDetail lastSentJointData sendStatus
        distanceAdjust viewerPosition maxDataSize hne]
      exact hr
    · intro js hjs
      obtain ⟨-, w1, w2⟩ := a5 js hjs
      constructor
      · intro i hi
        rw [w1] at hi
        have := (List.mem_filter.1 hi).1
        rw [List.mem_range'_1] at this
        exact this.1
      · intro i hi
        rw [w2] at hi
        have := (List.mem_filter.1 hi).1
        rw [List.mem_range'_1] at this
        exact this.1
  · intro h0
    have hrs : rotationsSentFor sendStatus = 0 := by simp [rotationsSentFor, h0]
    have hts : translationsSentFor sendStatus = 0 := by simp [translationsSentFor, h0]
    rw [hrs] at a3 a5
    rw [hts] at a3 a5
    refine ⟨?_, ?_, fun h => ⟨(a3 h).1, (a3 h).2.1⟩, ?_⟩
    · rw [hw]; simp [wantedFlagsFor, h0]
    · intro rot trans
      rw [toByteArray_resets_cursor X A itemFlagsInit dataDetail lastSentJointData sendStatus
        distanceAdjust viewerPosition maxDataSize rot trans h0 hd]
      exact hr
    · intro js hjs
      obtain ⟨-, w1, w2⟩ := a5 js hjs
      exact ⟨by simpa using w1, by simpa using w2⟩

theorem C10_witness :
    ((77 : Nat) = 0 ∨ MIN_BULK_PACKET_SIZE ≤ 77) ∧
    AvatarDataDetail.SendAllData ≠ AvatarDataDetail.NoData ∧
    ∃ r, toByteArray sampleExtern (sampleAvatar 40) 3 AvatarDataDetail.SendAllData []
        resumedStatus false default 77 = some r ∧
      (resumedStatus.itemFlags ≠ 0 →
        r.wantedFlags =
          (if resumedStatus.itemFlags.testBit 14 = true then
            resumedStatus.itemFlags ||| PACKET_HAS_JOINT_DATA
          else resumedStatus.itemFlags) ∧
        (∀ otherInit, toByteArray sampleExtern (sampleAvatar 40) otherInit
          AvatarDataDetail.SendAllData [] resumedStatus false default 77 = some r) ∧
        resumedStatus.rotationsSent ≤ r.sendStatus.rotationsSent ∧
        resumedStatus.translationsSent ≤ r.sendStatus.translationsSent ∧
        (r.includedFlags.testBit 12 = false →
          r.sendStatus.rotationsSent = resumedStatus.rotationsSent ∧
          r.sendStatus.translationsSent = resumedStatus.translationsSent) ∧
        (∀ js, r.joints = some js →
          (∀ i, i ∈ js.rotationsWritten → resumedStatus.rotationsSent ≤ i) ∧
          (∀ i, i ∈ js.translationsWritten → resumedStatus.translationsSent ≤ i))) ∧
      (resumedStatus.itemFlags = 0 →
        r.wantedFlags = 3 % 65536 ∧
        (∀ rot trans, toByteArray sampleExtern (sampleAvatar 40) 3 AvatarDataDetail.SendAllData []
          { resumedStatus with rotationsSent := rot, translationsSent := trans } false default
          77 = some r) ∧
        (r.includedFlags.testBit 12 = false →
          r.sendStatus.rotationsSent = 0 ∧ r.sendStatus.translationsSent = 0) ∧
        (∀ js, r.joints = some js →
          js.rotationsWritten = (List.range' 0 r.sendStatus.rotationsSent).filter
            (rotationSend sampleExtern (sampleAvatar 40) []
              (decide (AvatarDataDetail.SendAllData = AvatarDataDetail.SendAllData))
              (decide (AvatarDataDetail.SendAllData = AvatarDataDetail.CullSmallData)) false
              default) ∧
          js.translationsWritten = (List.range' 0 r.sendStatus.translationsSent).filter
            (translationSend sampleExtern (sampleAvatar 40) []
              (decide (AvatarDataDetail.SendAllData = AvatarDataDetail.SendAllData))
              (decide (AvatarDataDetail.SendAllData = AvatarDataDetail.CullSmallData)) false
              default))) :=
  ⟨by decide, by decide,
    C10_wanted_flags_and_cursors sampleExtern (sampleAvatar 40) 3 AvatarDataDetail.SendAllData []
      resumedStatus false default 77 (by decide) (by decide)⟩

/-! ## The decoder on a packet that is cut short -/

theorem runBlocks_append (l1 l2 : List (Dec → Except Dec Dec)) (d : Dec) :
    runBlocks (l1 ++ l2) d =
      match runBlocks l1 d with
      | Except.ok d1 => runBlocks l2 d1
      | Except.error d1 => Except.error d1 := by
  induction l1 generalizing d with
  | nil => rfl
  | cons f l1 ih =>
    simp only [List.cons_append, runBlocks]
    cases f d with
    | ok d1 => exact ih d1
    | error d1 => rfl

/-- When the decoder reaches block `k` in state `d` and that block returns early in state `e`, the
whole call makes the calls of `e` and returns `buffer.size()`. -/
theorem parse_of_block_error (X : Extern) (buf : List Nat) (k : Nat) (d e : Dec)
    (f : Dec → Except Dec Dec)
    (hf : (parseBlocks X buf (packetStateFlags buf)).get? k = some f)
    (hreach : reachesBlock X buf k d) (herr : f d = Except.error e) :
    parseDataFromBuffer X buf = { events := e.events, result := buf.length } := by
  unfold parseDataFromBuffer parseSections
  have hsplit : parseBlocks X buf (packetStateFlags buf) =
      (parseBlocks X buf (packetStateFlags buf)).take k ++
        f :: (parseBlocks X buf (packetStateFlags buf)).drop (k + 1) := by
    have hk : k < (parseBlocks X buf (packetStateFlags buf)).length := by
      by_contra h
      rw [List.get?_eq_none.2 (by omega)] at hf
      exact absurd hf (by simp)
    rw [List.get?_eq_get hk] at hf
    have := List.drop_eq_getElem_cons hk
    conv_lhs => rw [← List.take_append_drop k (parseBlocks X buf (packetStateFlags buf)), this]
    congr 2
    exact Option.some.inj hf
  unfold reachesBlock at hreach
  rw [hsplit, runBlocks_append, hreach]
  simp only [runBlocks, herr]

theorem packetReadCheck_short (buf : List Nat) (name : FieldName) (size : Nat) (d : Dec)
    (h : (buf.length : Int) - (d.pos : Int) < (size : Int)) :
    packetReadCheck buf name size d =
      Except.error (d.call (Event.onPacketTooSmallError name size
        ((buf.length : Int) - (d.pos : Int)))) := by
  unfold packetReadCheck
  rw [if_pos h]

theorem packetReadCheck_ok (buf : List Nat) (name : FieldName) (size : Nat) (d : Dec)
    (h : ¬ (buf.length : Int) - (d.pos : Int) < (size : Int)) :
    packetReadCheck buf name size d = Except.ok d := by
  unfold packetReadCheck
  rw [if_neg h]

/-- A block of `checkedSections` whose flag is set and that finds fewer bytes than it asks for
reports the shortage and returns early. -/
theorem checked_block_short (X : Extern) (buf : List Nat) (k : Nat) (name : FieldName)
    (size : Nat) (d : Dec) (hk : (k, name, size) ∈ checkedSections)
    (hflag : hasFlag (packetStateFlags buf) (1 <<< k) = true)
    (hshort : (buf.length : Int) - (d.pos : Int) < (size : Int)) :
    ∃ f, (parseBlocks X buf (packetStateFlags buf)).get? k = some f ∧
      f d = Except.error (d.call (Event.onPacketTooSmallError name size
        ((buf.length : Int) - (d.pos : Int)))) := by
  simp only [checkedSections, List.mem_cons, Prod.mk.injEq, List.mem_singleton,
    List.not_mem_nil, or_false] at hk
  rcases hk with h | h | h | h | h | h | h | h | h | h | h <;>
  · obtain ⟨hk1, hk2, hk3⟩ := h
    subst hk1 hk2 hk3
    refine ⟨_, rfl, ?_⟩
    simp only [whenFlag, PACKET_HAS_AVATAR_GLOBAL_POSITION, PACKET_HAS_AVATAR_BOUNDING_BOX,
      PACKET_HAS_AVATAR_ORIENTATION, PACKET_HAS_AVATAR_SCALE, PACKET_HAS_LOOK_AT_POSITION,
      PACKET_HAS_AUDIO_LOUDNESS, PACKET_HAS_SENSOR_TO_WORLD_MATRIX, PACKET_HAS_ADDITIONAL_FLAGS,
      PACKET_HAS_PARENT_INFO, PACKET_HAS_AVATAR_LOCAL_POSITION, PACKET_HAS_FACE_TRACKER_INFO,
      hflag, if_true, parseGlobalPosition, parseBoundingBox, parseOrientation, parseScale,
      parseLookAtPosition, parseAudioLoudness, parseSensorToWorldMatrix, parseAdditionalFlags,
      parseParentInfo, parseLocalPosition, parseFaceTrackerInfo,
      packetReadCheck_short _ _ _ _ hshort]
    rfl

theorem packetReadCheck_cases (buf : List Nat) (name : FieldName) (size : Nat) (d : Dec) :
    (packetReadCheck buf name size d = Except.ok d ∧ d.pos + size ≤ buf.length) ∨
    (packetReadCheck buf name size d =
      Except.error (d.call (Event.onPacketTooSmallError name size
        ((buf.length : Int) - (d.pos : Int))))) := by
  unfold packetReadCheck
  by_cases h : (buf.length : Int) - (d.pos : Int) < (size : Int)
  · right; rw [if_pos h]
  · left; rw [if_neg h]; exact ⟨rfl, by omega⟩

theorem readRotations_spec (X : Extern) (buf : List Nat) (vs : List Bool) (i : Nat) (d : Dec) :
    (readRotations X buf vs i d).pos = d.pos + 6 * vs.count true ∧
    ∃ evs, (readRotations X buf vs i d).events = d.events ++ evs := by
  induction vs generalizing i d with
  | nil => exact ⟨by simp [readRotations], [], by simp [readRotations]⟩
  | cons b vs ih =>
    cases b with
    | true =>
      simp only [readRotations, if_true]
      obtain ⟨h1, evs, h2⟩ := ih (i + 1) (((d.advance 6).call
        (Event.setJointDataRotationIn i (X.unpackOrientationQuatFromSixBytes
          (fromLE (readBytes buf d.pos 6))))).call (Event.setJointDataRotationDefaultIn i false))
      refine ⟨?_, [Event.setJointDataRotationIn i (X.unpackOrientationQuatFromSixBytes
          (fromLE (readBytes buf d.pos 6))), Event.setJointDataRotationDefaultIn i false] ++ evs,
        ?_⟩
      · rw [h1]; simp [Dec.call, Dec.advance]; omega
      · rw [h2]; simp [Dec.call, Dec.advance]
    | false =>
      simp only [readRotations, Bool.false_eq_true, if_false]
      obtain ⟨h1, evs, h2⟩ := ih (i + 1) d
      exact ⟨by rw [h1]; simp, evs, h2⟩

theorem readTranslations_spec (X : Extern) (buf : List Nat) (m : Nat) (vs : List Bool) (i : Nat)
    (d : Dec) :
    (readTranslations X buf m vs i d).pos = d.pos + 6 * vs.count true ∧
    ∃ evs, (readTranslations X buf m vs i d).events = d.events ++ evs := by
  induction vs generalizing i d with
  | nil => exact ⟨by simp [readTranslations], [], by simp [readTranslations]⟩
  | cons b vs ih =>
    cases b with
    | true =>
      simp only [readTranslations, if_true]
      obtain ⟨h1, evs, h2⟩ := ih (i + 1) (((d.advance 6).call
        (Event.setJointDataPositionIn i (X.vecMul (X.unpackFloatVec3FromSignedTwoByteFixed
          (fromLE (readBytes buf d.pos 6)) TRANSLATION_COMPRESSION_RADIX) m))).call
          (Event.setJointDataPositionDefaultIn i false))
      refine ⟨?_, [Event.setJointDataPositionIn i (X.vecMul
          (X.unpackFloatVec3FromSignedTwoByteFixed (fromLE (readBytes buf d.pos 6))
            TRANSLATION_COMPRESSION_RADIX) m), Event.setJointDataPositionDefaultIn i false] ++ evs,
        ?_⟩
      · rw [h1]; simp [Dec.call, Dec.advance]; omega
      · rw [h2]; simp [Dec.call, Dec.advance]
    | false =>
      simp only [readTranslations, Bool.false_eq_true, if_false]
      obtain ⟨h1, evs, h2⟩ := ih (i + 1) d
      exact ⟨by rw [h1]; simp, evs, h2⟩

theorem piecewise_error (buf : List Nat) (d d1 : Dec) (name : FieldName) (size : Nat)
    (evs : List Event) (h : d1.events = d.events ++ evs) :
    PiecewiseChecked buf d (Except.error (d1.call (Event.onPacketTooSmallError name size
        ((buf.length : Int) - (d1.pos : Int))))) :=
  Or.inr ⟨_, evs, name, (size : Int), (buf.length : Int) - (d1.pos : Int), rfl,
    by simp [Dec.call, h]⟩

theorem parseGrabJoints_piecewise (buf : List Nat) (d0 d : Dec) (evs : List Event)
    (h : d.events = d0.events ++ evs) :
    PiecewiseChecked buf d0 (parseGrabJoints buf d) := by
  unfold parseGrabJoints
  rcases packetReadCheck_cases buf FieldName.FarGrabJoints FAR_GRAB_JOINTS_SIZE d with
    ⟨h1, h2⟩ | h1
  · rw [h1]
    exact Or.inl ⟨_, rfl, by simp [Dec.call, Dec.advance]; omega, _,
      by simp [Dec.call, Dec.advance, h]; rfl⟩
  · rw [h1]
    exact piecewise_error buf d0 d _ _ evs h

/-- The joint data block is checked piece by piece. -/
theorem parseJointData_piecewise (X : Extern) (buf : List Nat) (g : Bool) (d : Dec) :
    PiecewiseChecked buf d (parseJointData X buf g d) := by
  unfold parseJointData
  rcases packetReadCheck_cases buf FieldName.NumJoints 1 d with ⟨h1, b1⟩ | h1
  swap
  · rw [h1]; exact piecewise_error buf d d _ _ [] (by simp)
  rw [h1]
  simp only [bind, Except.bind]
  rcases packetReadCheck_cases buf FieldName.JointRotationValidityBits
    ((readByte buf d.pos + (BITS_IN_BYTE - 1)) / BITS_IN_BYTE) (d.advance 1) with ⟨h2, b2⟩ | h2
  swap
  · rw [h2]; exact piecewise_error buf d _ _ _ [] (by simp [Dec.advance])
  rw [h2]
  simp only []
  generalize hd3 : ((d.advance 1).advance (calcBitVectorSize (readByte buf d.pos))).call
    (Event.setJointDataSizeIn (readByte buf d.pos)) = d3
  have e3 : d3.events = d.events ++ [Event.setJointDataSizeIn (readByte buf d.pos)] := by
    rw [← hd3]; simp [Dec.call, Dec.advance]
  rcases packetReadCheck_cases buf FieldName.JointRotations
    ((readValidity buf (d.advance 1).pos (readByte buf d.pos)).count true * 6) d3 with
    ⟨h3, b3⟩ | h3
  swap
  · rw [h3]; exact piecewise_error buf d _ _ _ _ e3
  rw [h3]
  simp only []
  obtain ⟨p4, evs4, e4⟩ := readRotations_spec X buf
    (readValidity buf (d.advance 1).pos (readByte buf d.pos)) 0 d3
  generalize readRotations X buf (readValidity buf (d.advance 1).pos (readByte buf d.pos)) 0 d3
    = d4 at *
  rw [e3] at e4
  rcases packetReadCheck_cases buf FieldName.JointTranslationValidityBits
    ((readByte buf d.pos + (BITS_IN_BYTE - 1)) / BITS_IN_BYTE) d4 with ⟨h4, b4⟩ | h4
  swap
  · rw [h4]; exact piecewise_error buf d _ _ _ _ (by rw [e4, List.append_assoc])
  rw [h4]
  simp only []
  rcases packetReadCheck_cases buf FieldName.JointMaxTranslationDimension 4
    (d4.advance (calcBitVectorSize (readByte buf d.pos))) with ⟨h5, b5⟩ | h5
  swap
  · rw [h5]
    exact piecewise_error buf d _ _ _ _
      (by simp only [Dec.advance]; rw [e4, List.append_assoc])
  rw [h5]
  simp only []
  rcases packetReadCheck_cases buf FieldName.JointTranslation
    ((readValidity buf d4.pos (readByte buf d.pos)).count true * 6)
    ((d4.advance (calcBitVectorSize (readByte buf d.pos))).advance 4) with ⟨h6, b6⟩ | h6
  swap
  · rw [h6]
    exact piecewise_error buf d _ _ _ _
      (by simp only [Dec.advance]; rw [e4, List.append_assoc])
  rw [h6]
  simp only []
  obtain ⟨p7, evs7, e7⟩ := readTranslations_spec X buf
    (fromLE (readBytes buf (d4.advance (calcBitVectorSize (readByte buf d.pos))).pos 4))
    (readValidity buf d4.pos (readByte buf d.pos)) 0
    ((d4.advance (calcBitVectorSize (readByte buf d.pos))).advance 4)
  generalize readTranslations X buf
    (fromLE (readBytes buf (d4.advance (calcBitVectorSize (readByte buf d.pos))).pos 4))
    (readValidity buf d4.pos (readByte buf d.pos)) 0
    ((d4.advance (calcBitVectorSize (readByte buf d.pos))).advance 4) = d7 at *
  simp only [Dec.advance] at e7 p7 b6
  rw [e4] at e7
  by_cases hg : g = true
  · rw [if_pos hg]
    exact parseGrabJoints_piecewise buf d d7 _ (by rw [e7, List.append_assoc, List.append_assoc])
  · rw [if_neg hg]
    exact Or.inl ⟨d7, rfl, by omega, _, by rw [e7, List.append_assoc, List.append_assoc]⟩

/-- The default pose flags block is checked piece by piece. -/
theorem parseJointDefaultPoseFlags_piecewise (buf : List Nat) (d : Dec) :
    PiecewiseChecked buf d (parseJointDefaultPoseFlags buf d) := by
  unfold parseJointDefaultPoseFlags
  rcases packetReadCheck_cases buf FieldName.JointDefaultPoseFlagsNumJoints 1 d with
    ⟨h1, b1⟩ | h1
  swap
  · rw [h1]; exact piecewise_error buf d d _ _ [] (by simp)
  rw [h1]
  simp only [bind, Except.bind]
  rcases packetReadCheck_cases buf FieldName.JointDefaultPoseFlagsRotationFlags
    (calcBitVectorSize (readByte buf d.pos))
    ((d.advance 1).call (Event.setJointDataSizeIn (readByte buf d.pos))) with ⟨h2, b2⟩ | h2
  swap
  · rw [h2]
    exact piecewise_error buf d _ _ _ [Event.setJointDataSizeIn (readByte buf d.pos)]
      (by simp [Dec.call, Dec.advance])
  rw [h2]
  simp only []
  rcases packetReadCheck_cases buf FieldName.JointDefaultPoseFlagsTranslationFlags
    (calcBitVectorSize (readByte buf d.pos))
    { pos := ((d.advance 1).call (Event.setJointDataSizeIn (readByte buf d.pos))).pos +
        calcBitVectorSize (readByte buf d.pos)
      events := ((d.advance 1).call (Event.setJointDataSizeIn (readByte buf d.pos))).events ++
        readBitVector buf ((d.advance 1).call (Event.setJointDataSizeIn (readByte buf d.pos))).pos
          (readByte buf d.pos) Event.setJointDataRotationDefaultIn } with ⟨h3, b3⟩ | h3
  swap
  · rw [h3]
    exact piecewise_error buf d _ _ _
      ([Event.setJointDataSizeIn (readByte buf d.pos)] ++
        readBitVector buf (d.pos + 1) (readByte buf d.pos) Event.setJointDataRotationDefaultIn)
      (by simp only [Dec.call, Dec.advance, List.append_assoc])
  rw [h3]
  simp only [pure, Except.pure]
  exact Or.inl ⟨_, rfl, by simp only [Dec.call, Dec.advance] at b3 ⊢; omega,
    [Event.setJointDataSizeIn (readByte buf d.pos)] ++
        readBitVector buf (d.pos + 1) (readByte buf d.pos) Event.setJointDataRotationDefaultIn ++
        readBitVector buf (d.pos + 1 + calcBitVectorSize (readByte buf d.pos))
          (readByte buf d.pos) Event.setJointDataPositionDefaultIn,
    by simp only [Dec.call, Dec.advance, List.append_assoc]⟩

/-! ## C5: sections that are cut short -/

theorem reachesBlock_succ (X : Extern) (buf : List Nat) (k : Nat) (d d1 : Dec)
    (f : Dec → Except Dec Dec)
    (hf : (parseBlocks X buf (packetStateFlags buf)).get? k = some f)
    (hreach : reachesBlock X buf k d) (hok : f d = Except.ok d1) :
    reachesBlock X buf (k + 1) d1 := by
  unfold reachesBlock at *
  have hk : k < (parseBlocks X buf (packetStateFlags buf)).length := by
    by_contra h
    rw [List.get?_eq_none.2 (by omega)] at hf
    exact absurd hf (by simp)
  rw [List.get?_eq_get hk] at hf
  have hfe : (parseBlocks X buf (packetStateFlags buf))[k] = f := Option.some.inj hf
  rw [List.take_succ, List.getElem?_eq_getElem hk, hfe, runBlocks_append, hreach]
  simp [runBlocks, hok]

/-- The face tracker block when its 17 bytes are there and fewer bytes follow than the count
byte announces: the shortage of the coefficients is reported and the block returns early, before
the call of `setFaceTrackerInfoIn`. -/
theorem faceTracker_coefficients_short (buf : List Nat) (d : Dec)
    (hhead : ¬ (buf.length : Int) - (d.pos : Int) < (FACE_TRACKER_INFO_SIZE : Int))
    (hshort : (buf.length : Int) - ((d.pos + FACE_TRACKER_INFO_SIZE : Nat) : Int) <
      ((4 * readByte buf (d.pos + 16) : Nat) : Int)) :
    parseFaceTrackerInfo buf d =
      Except.error
        { pos := d.pos + FACE_TRACKER_INFO_SIZE
          events := d.events ++
            [Event.onPacketTooSmallError FieldName.FaceTrackerCoefficients
              (4 * readByte buf (d.pos + 16))
              ((buf.length : Int) - ((d.pos + FACE_TRACKER_INFO_SIZE : Nat) : Int))] } := by
  unfold parseFaceTrackerInfo
  rw [packetReadCheck_ok buf _ _ d hhead]
  simp only [bind, Except.bind]
  rw [packetReadCheck_short buf _ _ (d.advance FACE_TRACKER_INFO_SIZE) hshort]
  rfl

/-- The amended C5. For every buffer and each of the sections GLOBAL_POS, BOUNDING_BOX,
ORIENTATION, SCALE, LOOK_AT, AUDIO_LOUDNESS, SENSOR_TO_WORLD, ADDITIONAL_FLAGS, PARENT_INFO,
LOCAL_POS and FACE_TRACKER whose bit is set in the mask: if, when the decoder reaches the
section, fewer bytes remain than its fixed block asks for (17 for FACE_TRACKER), the decoder calls
`onPacketTooSmallError(name, needed, available)`, makes no other call from there on, and returns
`buffer.size()`. For FACE_TRACKER the same holds when the 17 bytes are there and fewer than
`4 * N` bytes follow them, `N` being the count in the last of the 17 bytes: the decoder calls
`onPacketTooSmallError("FaceTrackerCoefficients", 4 * N, bytes left after the 17)`, does not call
`setFaceTrackerInfoIn`, and returns `buffer.size()`. The blocks of JOINT_DATA and
JOINT_DEFAULT_POSE_FLAGS are checked piece by piece: either the block ends inside the buffer, or
the decoder keeps the calls already made (among them `setJointDataSizeIn`), reports the shortage
by `onPacketTooSmallError` as its last call and returns `buffer.size()`. -/
theorem C5_truncated_section_amended (X : Extern) (buf : List Nat) (k : Nat) (d : Dec)
    (hreach : reachesBlock X buf k d)
    (hflag : hasFlag (packetStateFlags buf) (1 <<< k) = true) :
    (∀ name size, (k, name, size) ∈ checkedSections →
      (buf.length : Int) - (d.pos : Int) < (size : Int) →
      parseDataFromBuffer X buf =
        { events := d.events ++
            [Event.onPacketTooSmallError name size ((buf.length : Int) - (d.pos : Int))]
          result := buf.length }) ∧
    (k = 11 →
      (FACE_TRACKER_INFO_SIZE : Int) ≤ (buf.length : Int) - (d.pos : Int) →
      (buf.length : Int) - ((d.pos + FACE_TRACKER_INFO_SIZE : Nat) : Int) <
        ((4 * readByte buf (d.pos + 16) : Nat) : Int) →
      parseDataFromBuffer X buf =
        { events := d.events ++
            [Event.onPacketTooSmallError FieldName.FaceTrackerCoefficients
              (4 * readByte buf (d.pos + 16))
              ((buf.length : Int) - ((d.pos + FACE_TRACKER_INFO_SIZE : Nat) : Int))]
          result := buf.length }) ∧
    (k = 12 ∨ k = 13 →
      (∃ d1, reachesBlock X buf (k + 1) d1 ∧ d1.pos ≤ buf.length ∧
        ∃ evs, d1.events = d.events ++ evs) ∨
      (∃ evs name needed available,
        parseDataFromBuffer X buf =
          { events := d.events ++ evs ++ [Event.onPacketTooSmallError name needed available]
            result := buf.length })) := by
  refine ⟨?_, ?_, ?_⟩
  · intro name size hk hshort
    obtain ⟨f, hf, herr⟩ := checked_block_short X buf k name size d hk hflag hshort
    rw [parse_of_block_error X buf k d _ f hf hreach herr]
    rfl
  · intro hk hhead hshort
    subst hk
    have hf : (parseBlocks X buf (packetStateFlags buf)).get? 11 =
        some (whenFlag (packetStateFlags buf) PACKET_HAS_FACE_TRACKER_INFO
          (parseFaceTrackerInfo buf)) := rfl
    have hrun : whenFlag (packetStateFlags buf) PACKET_HAS_FACE_TRACKER_INFO
        (parseFaceTrackerInfo buf) d = parseFaceTrackerInfo buf d := by
      unfold whenFlag
      exact if_pos hflag
    rw [parse_of_block_error X buf 11 d _ _ hf hreach
      (hrun.trans (faceTracker_coefficients_short buf d (not_lt.mpr hhead) hshort))]
  · intro hk
    rcases hk with rfl | rfl
    · have hf : (parseBlocks X buf (packetStateFlags buf)).get? 12 =
          some (whenFlag (packetStateFlags buf) PACKET_HAS_JOINT_DATA
            (parseJointData X buf (hasFlag (packetStateFlags buf) PACKET_HAS_GRAB_JOINTS))) :=
        rfl
      have hrun : whenFlag (packetStateFlags buf) PACKET_HAS_JOINT_DATA
            (parseJointData X buf (hasFlag (packetStateFlags buf) PACKET_HAS_GRAB_JOINTS)) d =
          parseJointData X buf (hasFlag (packetStateFlags buf) PACKET_HAS_GRAB_JOINTS) d := by
        unfold whenFlag
        exact if_pos hflag
      rcases parseJointData_piecewise X buf
        (hasFlag (packetStateFlags buf) PACKET_HAS_GRAB_JOINTS) d with
        ⟨d1, h1, h2, h3⟩ | ⟨e, evs, name, needed, available, h1, h2⟩
      · exact Or.inl ⟨d1, reachesBlock_succ X buf 12 d d1 _ hf hreach (hrun.trans h1), h2, h3⟩
      · refine Or.inr ⟨evs, name, needed, available, ?_⟩
        rw [parse_of_block_error X buf 12 d e _ hf hreach (hrun.trans h1), h2]
    · have hf : (parseBlocks X buf (packetStateFlags buf)).get? 13 =
          some (whenFlag (packetStateFlags buf) PACKET_HAS_JOINT_DEFAULT_POSE_FLAGS
            (parseJointDefaultPoseFlags buf)) := rfl
      have hrun : whenFlag (packetStateFlags buf) PACKET_HAS_JOINT_DEFAULT_POSE_FLAGS
            (parseJointDefaultPoseFlags buf) d = parseJointDefaultPoseFlags buf d := by
        unfold whenFlag
        exact if_pos hflag
      rcases parseJointDefaultPoseFlags_piecewise buf d with
        ⟨d1, h1, h2, h3⟩ | ⟨e, evs, name, needed, available, h1, h2⟩
      · exact Or.inl ⟨d1, reachesBlock_succ X buf 13 d d1 _ hf hreach (hrun.trans h1), h2, h3⟩
      · refine Or.inr ⟨evs, name, needed, available, ?_⟩
        rw [parse_of_block_error X buf 13 d e _ hf hreach (hrun.trans h1), h2]

theorem C5_amended_witness :
    reachesBlock sampleExtern [1, 0, 7] 0 { pos := 2, events := [] } ∧
    hasFlag (packetStateFlags [1, 0, 7]) (1 <<< 0) = true ∧
    (0, FieldName.AvatarGlobalPosition, 12) ∈ checkedSections ∧
    parseDataFromBuffer sampleExtern [1, 0, 7] =
      { events := [Event.onPacketTooSmallError FieldName.AvatarGlobalPosition 12 1]
        result := 3 } ∧
    reachesBlock sampleExtern [0, 8, 0, 0, 0, 0, 0, 0, 0, 0, 0, 0, 0, 0, 0, 0, 0, 0, 5] 11
      { pos := 2, events := [] } ∧
    hasFlag (packetStateFlags [0, 8, 0, 0, 0, 0, 0, 0, 0, 0, 0, 0, 0, 0, 0, 0, 0, 0, 5])
      (1 <<< 11) = true ∧
    readByte [0, 8, 0, 0, 0, 0, 0, 0, 0, 0, 0, 0, 0, 0, 0, 0, 0, 0, 5] (2 + 16) = 5 ∧
    parseDataFromBuffer sampleExtern [0, 8, 0, 0, 0, 0, 0, 0, 0, 0, 0, 0, 0, 0, 0, 0, 0, 0, 5] =
      { events := [Event.onPacketTooSmallError FieldName.FaceTrackerCoefficients 20 0]
        result := 19 } :=
  ⟨rfl, by decide, by decide,
    (C5_truncated_section_amended sampleExtern [1, 0, 7] 0 { pos := 2, events := [] } rfl
      (by decide)).1 FieldName.AvatarGlobalPosition 12 (by decide) (by decide),
    rfl, by decide, by decide,
    (C5_truncated_section_amended sampleExtern
      [0, 8, 0, 0, 0, 0, 0, 0, 0, 0, 0, 0, 0, 0, 0, 0, 0, 0, 5] 11 { pos := 2, events := [] } rfl
      (by decide)).2.1 rfl (by decide) (by decide)⟩

/-- C5 fails as stated. A packet whose mask has the JOINT_DATA bit, with one joint and two bytes
where the smallest joint data section takes seven: the decoder reports the shortage and returns
`buffer.size()`, but it has called the sink `setJointDataSizeIn` of that section. A packet whose
mask has the HAND_CONTROLLERS bit and no byte after the mask, where the section takes 24: the
decoder calls no error callback, calls the one sink `setHandControllersIn` (section 10) and
returns 26, not `buffer.size()`. -/
theorem C5_counterexample :
    hasFlag (packetStateFlags [0, 16, 1, 0]) PACKET_HAS_JOINT_DATA = true ∧
    ([0, 16, 1, 0] : List Nat).length - HEADER_SIZE < minJointDataSize 1 ∧
    parseDataFromBuffer sampleExtern [0, 16, 1, 0] =
      { events := [Event.setJointDataSizeIn 1,
          Event.onPacketTooSmallError FieldName.JointTranslationValidityBits 1 0]
        result := 4 } ∧
    hasFlag (packetStateFlags [0, 4]) PACKET_HAS_HAND_CONTROLLERS = true ∧
    ([0, 4] : List Nat).length - HEADER_SIZE < HAND_CONTROLLERS_SIZE ∧
    (parseDataFromBuffer sampleExtern [0, 4]).events.filter Event.isError = [] ∧
    (parseDataFromBuffer sampleExtern [0, 4]).events.filterMap Event.sinkOf = [10] ∧
    (parseDataFromBuffer sampleExtern [0, 4]).result = 26 := by
  decide

/-! ## The decoder on the bytes of a section -/

theorem readBytes_mid (pre S post : List Nat) (o n : Nat) (h : o + n ≤ S.length) :
    readBytes (pre ++ S ++ post) (pre.length + o) n = readBytes S o n := by
  unfold readBytes
  rw [List.append_assoc, List.drop_append, List.drop_append_of_le_length (by omega),
    List.take_append_of_le_length (by simp; omega)]

theorem readBytes_mid0 (pre S post : List Nat) (n : Nat) (h : n ≤ S.length) :
    readBytes (pre ++ S ++ post) pre.length n = readBytes S 0 n := by
  have := readBytes_mid pre S post 0 n (by omega)
  simpa using this

theorem readByte_mid (pre S post : List Nat) (o : Nat) (h : o < S.length) :
    readByte (pre ++ S ++ post) (pre.length + o) = readByte S o := by
  unfold readByte
  rw [List.append_assoc, List.getD_eq_getElem?_getD, List.getD_eq_getElem?_getD,
    List.getElem?_append_right (by omega), Nat.add_sub_cancel_left,
    List.getElem?_append_left h]

theorem check_bind_ok (buf : List Nat) (name : FieldName) (size : Nat) (d : Dec)
    (g : Dec → Except Dec Dec) (h : d.pos + size ≤ buf.length) :
    (packetReadCheck buf name size d >>= g) = g d := by
  rw [packetReadCheck_ok buf name size d (by omega)]
  rfl

theorem runBlocks_segs
    (segs : List ((List Nat → Dec → Except Dec Dec) × List Nat × List Event))
    (h : ∀ s ∈ segs, SegOk s.1 s.2.1 s.2.2) :
    ∀ (pre post : List Nat) (evs0 : List Event) (buf : List Nat),
      buf = pre ++ (segs.map (fun s => s.2.1)).flatten ++ post →
      ∃ E1 : List Event, E1.map Event.shape = (segs.map (fun s => s.2.2)).flatten ∧
        runBlocks (segs.map (fun s => s.1 buf)) { pos := pre.length, events := evs0 } =
          Except.ok { pos := pre.length + ((segs.map (fun s => s.2.1)).flatten).length,
                      events := evs0 ++ E1 } := by
  induction segs with
  | nil =>
    intro pre post evs0 buf _
    exact ⟨[], rfl, by simp [runBlocks]⟩
  | cons s rest ih =>
    intro pre post evs0 buf hbuf
    obtain ⟨E1, hE1, hrun1⟩ := h s (List.mem_cons_self _ _) pre
      ((rest.map (fun s => s.2.1)).flatten ++ post) evs0
    have hbuf1 : buf = pre ++ s.2.1 ++ ((rest.map (fun s => s.2.1)).flatten ++ post) := by
      rw [hbuf]; simp [List.append_assoc]
    have hbuf2 : buf = (pre ++ s.2.1) ++ (rest.map (fun s => s.2.1)).flatten ++ post := by
      rw [hbuf]; simp [List.append_assoc]
    obtain ⟨E2, hE2, hrun2⟩ := ih (fun t ht => h t (List.mem_cons_of_mem _ ht)) (pre ++ s.2.1)
      post (evs0 ++ E1) buf hbuf2
    refine ⟨E1 ++ E2, by simp [hE1, hE2], ?_⟩
    simp only [List.map_cons, runBlocks]
    rw [← hbuf1] at hrun1
    rw [hrun1]
    simp only [List.length_append] at hrun2
    simp only [hrun2]
    simp [List.append_assoc, Nat.add_assoc]

theorem hasFlag_flag (m k : Nat) : hasFlag m (1 <<< k) = m.testBit k := by
  unfold hasFlag
  by_cases h : m.testBit k = true
  · rw [h]
    apply decide_eq_true
    apply Nat.eq_of_testBit_eq
    intro j
    rw [Nat.testBit_and, flag_testBit]
    by_cases hj : k = j
    · subst hj; simp [h]
    · simp [hj]
  · have h0 : m.testBit k = false := by simpa using h
    rw [h0]
    apply decide_eq_false
    intro he
    have := congrArg (fun x => Nat.testBit x k) he
    simp [Nat.testBit_and, flag_testBit, h0] at this

theorem segOk_whenFlag (m k : Nat) (f : List Nat → Dec → Except Dec Dec) (S : List Nat)
    (E : List Event) (h : m.testBit k = true → SegOk f S E) :
    SegOk (fun b => whenFlag m (1 <<< k) (f b)) (if m.testBit k = true then S else [])
      (if m.testBit k = true then E else []) := by
  by_cases hb : m.testBit k = true
  · rw [if_pos hb, if_pos hb]
    intro pre post evs0
    obtain ⟨E1, h1, h2⟩ := h hb pre post evs0
    refine ⟨E1, h1, ?_⟩
    show whenFlag m (1 <<< k) (f (pre ++ S ++ post)) _ = _
    unfold whenFlag
    rw [hasFlag_flag, if_pos hb, h2]
  · rw [if_neg hb, if_neg hb]
    intro pre post evs0
    refine ⟨[], rfl, ?_⟩
    show whenFlag m (1 <<< k) (f (pre ++ [] ++ post)) _ = _
    unfold whenFlag
    rw [hasFlag_flag, if_neg hb]
    simp [pure, Except.pure]

theorem segOk_globalPosition (A : Avatar) :
    SegOk (fun b => parseGlobalPosition b) (globalPositionBytes A)
      [Event.setGlobalPositionIn default] := by
  intro pre post evs0
  refine ⟨[Event.setGlobalPositionIn (readVec3 (pre ++ globalPositionBytes A ++ post) pre.length)],
    rfl, ?_⟩
  have hl : (globalPositionBytes A).length = 12 := by simp [globalPositionBytes]
  show parseGlobalPosition _ _ = _
  unfold parseGlobalPosition
  rw [check_bind_ok _ _ _ _ _ (by simp [AVATAR_GLOBAL_POSITION_SIZE, hl])]
  simp [pure, Except.pure, Dec.call, Dec.advance, hl, AVATAR_GLOBAL_POSITION_SIZE]

instance (X : Extern) (A : Avatar) : Decidable (NaNFree X A) := by
  unfold NaNFree
  infer_instance

theorem readBytes_full (S : List Nat) : readBytes S 0 S.length = S := by
  simp [readBytes]

theorem isNaN_mod (f : Nat) : isNaN (f % 256 ^ 4) = isNaN f := by
  unfold isNaN
  have h1 : f % 256 ^ 4 / 2 ^ 23 % 256 = f / 2 ^ 23 % 256 := by omega
  have h2 : f % 256 ^ 4 % 2 ^ 23 = f % 2 ^ 23 := by omega
  rw [h1, h2]

theorem readVec3_bytes (pre post : List Nat) (v : Vec3) :
    readVec3 (pre ++ v.bytes ++ post) pre.length =
      { x := v.x % 256 ^ 4, y := v.y % 256 ^ 4, z := v.z % 256 ^ 4 } := by
  have hl : v.bytes.length = 12 := by simp
  unfold readVec3
  rw [readBytes_mid0 _ _ _ _ (by omega), readBytes_mid _ _ _ _ _ (by omega),
    readBytes_mid _ _ _ _ _ (by omega)]
  have e1 : readBytes v.bytes 0 4 = leBytes 4 v.x := by
    have := readBytes_append_mid [] (leBytes 4 v.x) (leBytes 4 v.y ++ leBytes 4 v.z)
    simpa [Vec3.bytes, List.append_assoc] using this
  have e2 : readBytes v.bytes 4 4 = leBytes 4 v.y := by
    have := readBytes_append_mid (leBytes 4 v.x) (leBytes 4 v.y) (leBytes 4 v.z)
    simpa [Vec3.bytes] using this
  have e3 : readBytes v.bytes 8 4 = leBytes 4 v.z := by
    have := readBytes_append_mid (leBytes 4 v.x ++ leBytes 4 v.y) (leBytes 4 v.z) []
    simpa [Vec3.bytes] using this
  rw [e1, e2, e3, fromLE_leBytes, fromLE_leBytes, fromLE_leBytes]

theorem anyNaN_mod (v : Vec3) :
    anyNaN { x := v.x % 256 ^ 4, y := v.y % 256 ^ 4, z := v.z % 256 ^ 4 } = anyNaN v := by
  simp only [anyNaN, isNaN_mod]

theorem segOk_boundingBox (A : Avatar) :
    SegOk (fun b => parseBoundingBox b) (boundingBoxBytes A)
      [Event.setBoundingBoxIn default default] := by
  intro pre post evs0
  refine ⟨[Event.setBoundingBoxIn (readVec3 (pre ++ boundingBoxBytes A ++ post) pre.length)
    (readVec3 (pre ++ boundingBoxBytes A ++ post) (pre.length + 12))], rfl, ?_⟩
  have hl : (boundingBoxBytes A).length = 24 := by simp [boundingBoxBytes]
  show parseBoundingBox _ _ = _
  unfold parseBoundingBox
  rw [check_bind_ok _ _ _ _ _ (by simp [AVATAR_BOUNDING_BOX_SIZE, hl])]
  simp [pure, Except.pure, Dec.call, Dec.advance, hl, AVATAR_BOUNDING_BOX_SIZE]

theorem segOk_orientation (X : Extern) (A : Avatar) :
    SegOk (fun b => parseOrientation X b) (orientationBytes X A)
      [Event.setOrientationIn default] := by
  intro pre post evs0
  refine ⟨[Event.setOrientationIn (X.unpackOrientationQuatFromSixBytes
    (fromLE (readBytes (pre ++ orientationBytes X A ++ post) pre.length 6)))], rfl, ?_⟩
  have hl : (orientationBytes X A).length = 6 := by simp [orientationBytes]
  show parseOrientation _ _ _ = _
  unfold parseOrientation
  rw [check_bind_ok _ _ _ _ _ (by simp [AVATAR_ORIENTATION_SIZE, hl])]
  simp [pure, Except.pure, Dec.call, Dec.advance, hl]

theorem segOk_scale (X : Extern) (A : Avatar) (h : NaNFree X A) :
    SegOk (fun b => parseScale X b) (scaleBytes X A) [Event.setScaleIn 0] := by
  intro pre post evs0
  refine ⟨[Event.setScaleIn (X.unpackFloatRatioFromTwoByte
    (fromLE (readBytes (pre ++ scaleBytes X A ++ post) pre.length 2)))], rfl, ?_⟩
  have hl : (scaleBytes X A).length = 2 := by simp [scaleBytes]
  have hr : fromLE (readBytes (pre ++ scaleBytes X A ++ post) pre.length 2) =
      X.packFloatRatioToTwoByte A.scale % 65536 := by
    rw [readBytes_mid0 _ _ _ _ (by omega), ← hl, readBytes_full]
    unfold scaleBytes
    rw [fromLE_leBytes]
    norm_num
  show parseScale _ _ _ = _
  unfold parseScale
  rw [check_bind_ok _ _ _ _ _ (by simp [AVATAR_SCALE_SIZE, hl])]
  simp only [hr, h.1]
  simp [pure, Except.pure, Dec.call, Dec.advance, hl, AVATAR_SCALE_SIZE]

theorem segOk_lookAtPosition (X : Extern) (A : Avatar) (h : NaNFree X A) :
    SegOk (fun b => parseLookAtPosition b) (lookAtPositionBytes A)
      [Event.setLookAtPositionIn default] := by
  intro pre post evs0
  refine ⟨[Event.setLookAtPositionIn
    (readVec3 (pre ++ lookAtPositionBytes A ++ post) pre.length)], rfl, ?_⟩
  have hl : (lookAtPositionBytes A).length = 12 := by simp [lookAtPositionBytes]
  have hn : anyNaN (readVec3 (pre ++ lookAtPositionBytes A ++ post) pre.length) = false := by
    unfold lookAtPositionBytes
    rw [readVec3_bytes, anyNaN_mod]
    exact h.2.1
  show parseLookAtPosition _ _ = _
  unfold parseLookAtPosition
  rw [check_bind_ok _ _ _ _ _ (by simp [LOOK_AT_POSITION_SIZE, hl])]
  simp only [hn]
  simp [pure, Except.pure, Dec.call, Dec.advance, hl, LOOK_AT_POSITION_SIZE]

theorem segOk_audioLoudness (X : Extern) (A : Avatar) (h : NaNFree X A) :
    SegOk (fun b => parseAudioLoudness X b) (audioLoudnessBytes X A)
      [Event.setAudioLoudnessIn 0] := by
  intro pre post evs0
  refine ⟨[Event.setAudioLoudnessIn (X.fmul (X.unpackFloatGainFromByte
    (fromLE (readBytes (pre ++ audioLoudnessBytes X A ++ post) pre.length 1)))
    AUDIO_LOUDNESS_SCALE)], rfl, ?_⟩
  have hl : (audioLoudnessBytes X A).length = 1 := by simp [audioLoudnessBytes]
  have hr : fromLE (readBytes (pre ++ audioLoudnessBytes X A ++ post) pre.length 1) =
      X.packFloatGainToByte (X.fdiv A.audioLoudness AUDIO_LOUDNESS_SCALE) % 256 := by
    rw [readBytes_mid0 _ _ _ _ (by omega), ← hl, readBytes_full]
    unfold audioLoudnessBytes
    rw [fromLE_leBytes]
    simp
  show parseAudioLoudness _ _ _ = _
  unfold parseAudioLoudness
  rw [check_bind_ok _ _ _ _ _ (by simp [AUDIO_LOUDNESS_SIZE, hl])]
  simp only [hr, h.2.2.1]
  simp [pure, Except.pure, Dec.call, Dec.advance, hl, AUDIO_LOUDNESS_SIZE]

theorem segOk_sensorToWorld (X : Extern) (A : Avatar) :
    SegOk (fun b => parseSensorToWorldMatrix X b) (sensorToWorldBytes X A)
      [Event.setSensorToWorldMatrixIn default] := by
  intro pre post evs0
  have hl : (sensorToWorldBytes X A).length = 20 := by simp [sensorToWorldBytes]
  show ∃ E1, _ ∧ parseSensorToWorldMatrix _ _ _ = _
  unfold parseSensorToWorldMatrix
  rw [check_bind_ok _ _ _ _ _ (by simp [SENSOR_TO_WORLD_SIZE, hl])]
  exact ⟨[Event.setSensorToWorldMatrixIn _], rfl,
    by simp [pure, Except.pure, Dec.call, Dec.advance, hl, SENSOR_TO_WORLD_SIZE]; rfl⟩

theorem segOk_additionalFlags (A : Avatar) :
    SegOk (fun b => parseAdditionalFlags b) (additionalFlagsBytes A)
      [Event.setAdditionalFlagsIn default] := by
  intro pre post evs0
  have hl : (additionalFlagsBytes A).length = 2 := by simp [additionalFlagsBytes]
  show ∃ E1, _ ∧ parseAdditionalFlags _ _ = _
  unfold parseAdditionalFlags
  rw [check_bind_ok _ _ _ _ _ (by simp [ADDITIONAL_FLAGS_SIZE, hl])]
  exact ⟨[Event.setAdditionalFlagsIn _], rfl,
    by simp [pure, Except.pure, Dec.call, Dec.advance, hl, ADDITIONAL_FLAGS_SIZE]; rfl⟩

theorem segOk_parentInfo (A : Avatar) :
    SegOk (fun b => parseParentInfo b) (parentInfoBytes A) [Event.setParentInfoIn 0 0] := by
  intro pre post evs0
  have hl : (parentInfoBytes A).length = 18 := by simp [parentInfoBytes]
  show ∃ E1, _ ∧ parseParentInfo _ _ = _
  unfold parseParentInfo
  rw [check_bind_ok _ _ _ _ _ (by simp [PARENT_INFO_SIZE, hl])]
  exact ⟨[Event.setParentInfoIn _ _], rfl,
    by simp [pure, Except.pure, Dec.call, Dec.advance, hl, PARENT_INFO_SIZE]; exact ⟨rfl, rfl⟩⟩

theorem segOk_localPosition (X : Extern) (A : Avatar) (h : NaNFree X A) :
    SegOk (fun b => parseLocalPosition b) (localPositionBytes A)
      [Event.setLocalPositionIn default] := by
  intro pre post evs0
  refine ⟨[Event.setLocalPositionIn
    (readVec3 (pre ++ localPositionBytes A ++ post) pre.length)], rfl, ?_⟩
  have hl : (localPositionBytes A).length = 12 := by simp [localPositionBytes]
  have hn : anyNaN (readVec3 (pre ++ localPositionBytes A ++ post) pre.length) = false := by
    unfold localPositionBytes
    rw [readVec3_bytes, anyNaN_mod]
    exact h.2.2.2
  show parseLocalPosition _ _ = _
  unfold parseLocalPosition
  rw [check_bind_ok _ _ _ _ _ (by simp [AVATAR_LOCAL_POSITION_SIZE, hl])]
  simp only [hn]
  simp [pure, Except.pure, Dec.call, Dec.advance, hl, AVATAR_LOCAL_POSITION_SIZE]

theorem segOk_handControllers (X : Extern) (A : Avatar) :
    SegOk (fun b => parseHandControllers X b) (handControllersBytes X A)
      [Event.setHandControllersIn default default] := by
  intro pre post evs0
  have hl : (handControllersBytes X A).length = 24 := by
    simp [handControllersBytes, handControllerBytes]
  show ∃ E1, _ ∧ parseHandControllers _ _ _ = _
  unfold parseHandControllers
  exact ⟨[Event.setHandControllersIn _ _], rfl,
    by simp [pure, Except.pure, Dec.call, Dec.advance, hl]; exact ⟨rfl, rfl⟩⟩

theorem faceTrackerBytes_length (A : Avatar) :
    (faceTrackerBytes A).length = 17 + 4 * A.faceTracker.blendshapeCoefficients.length := by
  simp [faceTrackerBytes, floatsBytes_length]
  omega

theorem segOk_faceTracker (A : Avatar) (hN : A.faceTracker.blendshapeCoefficients.length ≤ 255) :
    SegOk (fun b => parseFaceTrackerInfo b) (faceTrackerBytes A)
      [Event.setFaceTrackerInfoIn default] := by
  intro pre post evs0
  have hl := faceTrackerBytes_length A
  have hcount : readByte (pre ++ faceTrackerBytes A ++ post) (pre.length + 16) =
      A.faceTracker.blendshapeCoefficients.length := by
    rw [readByte_mid _ _ _ _ (by omega)]
    unfold readByte faceTrackerBytes
    rw [List.getD_eq_getElem?_getD, List.append_assoc,
      List.getElem?_append_right (by simp)]
    simp
    omega
  show ∃ E1, _ ∧ parseFaceTrackerInfo _ _ = _
  unfold parseFaceTrackerInfo
  rw [check_bind_ok _ _ _ _ _ (by simp [FACE_TRACKER_INFO_SIZE, hl]; omega)]
  dsimp only
  rw [hcount]
  rw [check_bind_ok _ _ _ _ _ (by simp [FACE_TRACKER_INFO_SIZE, hl, Dec.advance]; omega)]
  exact ⟨[Event.setFaceTrackerInfoIn _], rfl,
    by simp [pure, Except.pure, Dec.call, Dec.advance, hl, FACE_TRACKER_INFO_SIZE, hcount]
       exact ⟨by omega, rfl⟩⟩

/-! ## The decoder on a joint data section -/

theorem count_true_map (p : Nat → Bool) (l : List Nat) :
    (l.map p).count true = (l.filter p).length := by
  induction l with
  | nil => rfl
  | cons a l ih =>
    by_cases h : p a = true
    · simp [List.filter_cons, h, ih]
    · have h0 : p a = false := by simpa using h
      simp [List.filter_cons, h0, ih]

theorem readValidity_mid (buf a v c : List Nat) (J : Nat) (hbuf : buf = a ++ v ++ c)
    (hv : v.length = calcBitVectorSize J) :
    readValidity buf a.length J = (List.range' 0 J).map (validityBit v) := by
  unfold readValidity
  rw [List.range_eq_range']
  apply List.map_congr_left
  intro i hi
  have hi' : i < J := by simpa using hi
  have h8 : i / 8 < v.length := by
    rw [hv]; unfold calcBitVectorSize; omega
  unfold bitAt validityBit
  rw [hbuf, show BITS_IN_BYTE = 8 from rfl, readByte_mid _ _ _ _ h8]
  rfl

theorem readRotations_shape (X : Extern) (buf : List Nat) (p : Nat → Bool) (n : Nat) :
    ∀ (i : Nat) (d : Dec), ∃ E1 : List Event,
      E1.map Event.shape = rotationCalls ((List.range' i n).filter p) ∧
      readRotations X buf ((List.range' i n).map p) i d =
        { pos := d.pos + 6 * ((List.range' i n).filter p).length, events := d.events ++ E1 } := by
  induction n with
  | zero =>
    intro i d
    exact ⟨[], rfl, by simp [readRotations]⟩
  | succ n ih =>
    intro i d
    rw [List.range'_succ, List.map_cons, List.filter_cons]
    by_cases h : p i = true
    · rw [if_pos h]
      simp only [readRotations, h, if_true]
      obtain ⟨E1, h1, h2⟩ := ih (i + 1) (((d.advance 6).call
        (Event.setJointDataRotationIn i (X.unpackOrientationQuatFromSixBytes
          (fromLE (readBytes buf d.pos 6))))).call (Event.setJointDataRotationDefaultIn i false))
      refine ⟨[Event.setJointDataRotationIn i (X.unpackOrientationQuatFromSixBytes
          (fromLE (readBytes buf d.pos 6))), Event.setJointDataRotationDefaultIn i false] ++ E1,
        ?_, ?_⟩
      · simp [h1, rotationCalls, Event.shape]
      · rw [h2]
        simp [Dec.call, Dec.advance]
        omega
    · rw [if_neg h]
      have h0 : p i = false := by simpa using h
      simp only [readRotations, h0, Bool.false_eq_true, if_false]
      exact ih (i + 1) d

theorem readTranslations_shape (X : Extern) (buf : List Nat) (m : Nat) (p : Nat → Bool)
    (n : Nat) :
    ∀ (i : Nat) (d : Dec), ∃ E1 : List Event,
      E1.map Event.shape = translationCalls ((List.range' i n).filter p) ∧
      readTranslations X buf m ((List.range' i n).map p) i d =
        { pos := d.pos + 6 * ((List.range' i n).filter p).length, events := d.events ++ E1 } := by
  induction n with
  | zero =>
    intro i d
    exact ⟨[], rfl, by simp [readTranslations]⟩
  | succ n ih =>
    intro i d
    rw [List.range'_succ, List.map_cons, List.filter_cons]
    by_cases h : p i = true
    · rw [if_pos h]
      simp only [readTranslations, h, if_true]
      obtain ⟨E1, h1, h2⟩ := ih (i + 1) (((d.advance 6).call
        (Event.setJointDataPositionIn i (X.vecMul (X.unpackFloatVec3FromSignedTwoByteFixed
          (fromLE (readBytes buf d.pos 6)) TRANSLATION_COMPRESSION_RADIX) m))).call
          (Event.setJointDataPositionDefaultIn i false))
      refine ⟨[Event.setJointDataPositionIn i (X.vecMul (X.unpackFloatVec3FromSignedTwoByteFixed
          (fromLE (readBytes buf d.pos 6)) TRANSLATION_COMPRESSION_RADIX) m),
          Event.setJointDataPositionDefaultIn i false] ++ E1, ?_, ?_⟩
      · simp [h1, translationCalls, Event.shape]
      · rw [h2]
        simp [Dec.call, Dec.advance]
        omega
    · rw [if_neg h]
      have h0 : p i = false := by simpa using h
      simp only [readTranslations, h0, Bool.false_eq_true, if_false]
      exact ih (i + 1) d

theorem farGrabJointsBytes_length (g : FarGrabJoints) : (farGrabJointsBytes g).length = 84 := by
  simp [farGrabJointsBytes]

theorem parseJointData_ok (X : Extern) (F : FarGrabJoints) (buf pre post : List Nat) (J : Nat)
    (rv rb tv mt tb : List Nat) (rots trans : List Nat) (g : Bool) (evs0 : List Event)
    (hbuf : buf = pre ++ ([J] ++ rv ++ rb ++ tv ++ mt ++ tb ++
      (if g = true then farGrabJointsBytes F else [])) ++ post)
    (hrv : rv.length = calcBitVectorSize J) (htv : tv.length = calcBitVectorSize J)
    (hmt : mt.length = 4)
    (hrots : (List.range' 0 J).filter (validityBit rv) = rots)
    (htrans : (List.range' 0 J).filter (validityBit tv) = trans)
    (hrb : rb.length = 6 * rots.length) (htb : tb.length = 6 * trans.length) :
    ∃ E1 : List Event,
      E1.map Event.shape = [Event.setJointDataSizeIn J] ++ rotationCalls rots ++
        translationCalls trans ++ (if g = true then [Event.setFarGrabJointsIn default] else []) ∧
      parseJointData X buf g { pos := pre.length, events := evs0 } =
        Except.ok
          { pos := pre.length + ([J] ++ rv ++ rb ++ tv ++ mt ++ tb ++
              (if g = true then farGrabJointsBytes F else [])).length
            events := evs0 ++ E1 } := by
  have hlen : buf.length = pre.length + (1 + rv.length + rb.length + tv.length + 4 + tb.length +
      (if g = true then 84 else 0)) + post.length := by
    rw [hbuf]
    by_cases hg : g = true
    · simp [hg, hmt, farGrabJointsBytes_length]; omega
    · simp [hg, hmt]; omega
  have hnj : readByte buf pre.length = J := by
    have := readByte_mid pre ([J] ++ rv ++ rb ++ tv ++ mt ++ tb ++
      (if g = true then farGrabJointsBytes F else [])) post 0 (by simp)
    rw [← hbuf] at this
    simpa [readByte] using this
  have hvr : readValidity buf (pre.length + 1) J = (List.range' 0 J).map (validityBit rv) := by
    have := readValidity_mid buf (pre ++ [J]) rv (rb ++ tv ++ mt ++ tb ++
      (if g = true then farGrabJointsBytes F else []) ++ post) J
      (by rw [hbuf]; simp [List.append_assoc]) hrv
    simpa using this
  have hvt : readValidity buf (pre.length + 1 + calcBitVectorSize J + 6 * rots.length) J =
      (List.range' 0 J).map (validityBit tv) := by
    have := readValidity_mid buf (pre ++ [J] ++ rv ++ rb) tv (mt ++ tb ++
      (if g = true then farGrabJointsBytes F else []) ++ post) J
      (by rw [hbuf]; simp [List.append_assoc]) htv
    rw [← this]
    congr 1
    simp [hrv, hrb]
    omega
  obtain ⟨ER, hER, hrun⟩ := readRotations_shape X buf (validityBit rv) J 0
    { pos := pre.length + 1 + calcBitVectorSize J,
      events := evs0 ++ [Event.setJointDataSizeIn J] }
  rw [hrots] at hER hrun
  obtain ⟨ET, hET, hrunT⟩ := readTranslations_shape X buf
    (fromLE (readBytes buf (pre.length + 1 + calcBitVectorSize J + 6 * rots.length +
      calcBitVectorSize J) 4)) (validityBit tv) J 0
    { pos := pre.length + 1 + calcBitVectorSize J + 6 * rots.length + calcBitVectorSize J + 4,
      events := evs0 ++ [Event.setJointDataSizeIn J] ++ ER }
  rw [htrans] at hET hrunT
  have key : parseJointData X buf g { pos := pre.length, events := evs0 } =
      (if g = true then parseGrabJoints buf
        { pos := pre.length + 1 + calcBitVectorSize J + 6 * rots.length + calcBitVectorSize J + 4
            + 6 * trans.length,
          events := evs0 ++ [Event.setJointDataSizeIn J] ++ ER ++ ET }
      else pure
        { pos := pre.length + 1 + calcBitVectorSize J + 6 * rots.length + calcBitVectorSize J + 4
            + 6 * trans.length,
          events := evs0 ++ [Event.setJointDataSizeIn J] ++ ER ++ ET }) := by
    unfold parseJointData
    rw [check_bind_ok _ _ _ _ _ (by simp [hlen]; omega)]
    simp only [Dec.advance, Dec.call, hnj]
    rw [show (J + (BITS_IN_BYTE - 1)) / BITS_IN_BYTE = calcBitVectorSize J from rfl]
    rw [check_bind_ok _ _ _ _ _ (by simp [hlen]; omega)]
    simp only [hvr, count_true_map, hrots]
    rw [check_bind_ok _ _ _ _ _ (by simp [hlen]; omega)]
    simp only [hrun]
    rw [check_bind_ok _ _ _ _ _ (by simp [hlen]; omega)]
    simp only [hvt, count_true_map, htrans]
    rw [check_bind_ok _ _ _ _ _ (by simp [hlen]; omega)]
    simp only []
    rw [check_bind_ok _ _ _ _ _ (by simp [hlen]; omega)]
    simp only [hrunT]
  rw [key]
  by_cases hg : g = true
  · subst hg
    refine ⟨[Event.setJointDataSizeIn J] ++ ER ++ ET ++
      [Event.setFarGrabJointsIn (readFarGrabJoints buf (pre.length + 1 + calcBitVectorSize J +
        6 * rots.length + calcBitVectorSize J + 4 + 6 * trans.length))], ?_, ?_⟩
    · simp [hER, hET, Event.shape]
    · simp only [if_true]
      unfold parseGrabJoints
      rw [check_bind_ok _ _ _ _ _ (by simp [hlen, FAR_GRAB_JOINTS_SIZE]; omega)]
      simp [pure, Except.pure, Dec.call, Dec.advance, FAR_GRAB_JOINTS_SIZE,
        farGrabJointsBytes_length, hmt, hrv, htv, hrb, htb]
      omega
  · have hg0 : g = false := by simpa using hg
    subst hg0
    refine ⟨[Event.setJointDataSizeIn J] ++ ER ++ ET, ?_, ?_⟩
    · simp [hER, hET, Event.shape]
    · simp [pure, Except.pure, hmt, hrv, htv, hrb, htb]
      omega

theorem parseJointDefaultPoseFlags_ok (buf pre post : List Nat) (J : Nat) (b1 b2 : List Nat)
    (evs0 : List Event)
    (hbuf : buf = pre ++ ([J] ++ b1 ++ b2) ++ post)
    (h1 : b1.length = calcBitVectorSize J) (h2 : b2.length = calcBitVectorSize J) :
    ∃ E1 : List Event,
      E1.map Event.shape = defaultPoseCalls J ∧
      parseJointDefaultPoseFlags buf { pos := pre.length, events := evs0 } =
        Except.ok { pos := pre.length + ([J] ++ b1 ++ b2).length, events := evs0 ++ E1 } := by
  have hlen : buf.length = pre.length + (1 + b1.length + b2.length) + post.length := by
    rw [hbuf]; simp; omega
  have hnj : readByte buf pre.length = J := by
    have := readByte_mid pre ([J] ++ b1 ++ b2) post 0 (by simp)
    rw [← hbuf] at this
    simpa [readByte] using this
  refine ⟨[Event.setJointDataSizeIn J] ++
    readBitVector buf (pre.length + 1) J Event.setJointDataRotationDefaultIn ++
    readBitVector buf (pre.length + 1 + calcBitVectorSize J) J
      Event.setJointDataPositionDefaultIn, ?_, ?_⟩
  · simp [defaultPoseCalls, readBitVector, Event.shape, Function.comp_def]
  · unfold parseJointDefaultPoseFlags
    rw [check_bind_ok _ _ _ _ _ (by simp [hlen]; omega)]
    simp only [Dec.advance, Dec.call, hnj]
    rw [check_bind_ok _ _ _ _ _ (by simp [hlen]; omega)]
    simp only []
    rw [check_bind_ok _ _ _ _ _ (by simp [hlen]; omega)]
    simp [pure, Except.pure, h1, h2]
    omega

/-! ## The layout of the encoded sections -/

theorem filter_mem_range' (send : Nat → Bool) (r k J : Nat) (h : r + k ≤ J) :
    (List.range' 0 J).filter (fun i => decide (i ∈ (List.range' r k).filter send)) =
      (List.range' r k).filter send := by
  have e1 : List.range' 0 J =
      List.range' 0 r ++ (List.range' r k ++ List.range' (r + k) (J - (r + k))) := by
    have a := List.range'_append_1 0 r (J - r)
    rw [Nat.zero_add, Nat.sub_add_cancel (by omega)] at a
    have b := List.range'_append_1 r k (J - (r + k))
    rw [show J - (r + k) + k = J - r by omega] at b
    rw [b, a]
  rw [e1, List.filter_append, List.filter_append]
  have h1 : (List.range' 0 r).filter (fun i => decide (i ∈ (List.range' r k).filter send)) = [] := by
    rw [List.filter_eq_nil_iff]
    intro a ha
    simp only [List.mem_range'_1] at ha
    simp [List.mem_filter, List.mem_range'_1]
    intro h2
    omega
  have h3 : (List.range' (r + k) (J - (r + k))).filter
      (fun i => decide (i ∈ (List.range' r k).filter send)) = [] := by
    rw [List.filter_eq_nil_iff]
    intro a ha
    simp only [List.mem_range'_1] at ha
    simp [List.mem_filter, List.mem_range'_1]
    intro h2
    omega
  have h2 : (List.range' r k).filter (fun i => decide (i ∈ (List.range' r k).filter send)) =
      (List.range' r k).filter send := by
    apply List.filter_congr
    intro a ha
    simp [List.mem_filter, ha]
  rw [h1, h2, h3]
  simp

theorem validity_filter (v : List Nat) (send : Nat → Bool) (r k J : Nat) (h : r + k ≤ J)
    (hv : ∀ i, validityBit v i = true ↔ i ∈ (List.range' r k).filter send) :
    (List.range' 0 J).filter (validityBit v) = (List.range' r k).filter send := by
  rw [← filter_mem_range' send r k J h]
  apply List.filter_congr
  intro a _
  by_cases ha : a ∈ (List.range' r k).filter send
  · simp [ha, (hv a).2 ha]
  · have : validityBit v a = false := by
      by_contra hc
      exact ha ((hv a).1 (by simpa using hc))
    simp [ha, this]

theorem sectionsBody_congr (m1 m2 : Nat) (l : List (Nat × Nat × List Nat)) (b : Nat)
    (h : ∀ j, b ≤ j → j < b + l.length → m1.testBit j = m2.testBit j) :
    sectionsBody m1 l b = sectionsBody m2 l b := by
  induction l generalizing b with
  | nil => rfl
  | cons s rest ih =>
    simp only [sectionsBody]
    rw [h b (Nat.le_refl _) (by simp), ih (b + 1) (fun j h1 h2 => h j (by omega)
      (by simp only [List.length_cons]; omega))]

theorem encodeSections_body (w pe st : Nat) (l : List (Nat × Nat × List Nat)) (b : Nat) (e : Enc)
    (hflags : flagsFrom b l) (hlen : ∀ s ∈ l, s.2.2.length = s.2.1)
    (he : e.includedFlags < 2 ^ b) :
    (encodeSections w pe st l e).body =
      e.body ++ sectionsBody (encodeSections w pe st l e).includedFlags l b := by
  induction l generalizing b e with
  | nil => simp [encodeSections, sectionsBody]
  | cons s rest ih =>
    obtain ⟨hs, hrest⟩ := hflags
    have he1 : (ifAvatarSpace w pe st s.1 s.2.1 s.2.2 e).includedFlags < 2 ^ (b + 1) := by
      rw [hs]
      exact ifAvatarSpace_lt w pe st b s.2.1 s.2.2 e (b + 1)
        (lt_of_lt_of_le he (Nat.pow_le_pow_right (by decide) (Nat.le_succ b))) (Nat.lt_succ_self b)
    have hspec := encodeSections_spec w pe st rest (b + 1)
      (ifAvatarSpace w pe st s.1 s.2.1 s.2.2 e) hrest
      (fun t ht => hlen t (List.mem_cons_of_mem _ ht)) he1
    have hbit := hspec.2.1 b (Nat.lt_succ_self b)
    simp only [encodeSections, sectionsBody]
    rw [ih (b + 1) (ifAvatarSpace w pe st s.1 s.2.1 s.2.2 e) hrest
      (fun t ht => hlen t (List.mem_cons_of_mem _ ht)) he1, ← List.append_assoc]
    congr 1
    simp only [hbit]
    rw [hs, ifAvatarSpace_testBit, ifAvatarSpace_eq, testBit_false_of_lt he (Nat.le_refl b)]
    by_cases hc : w.testBit b = true ∧ hasSpace pe (st + e.body.length) s.2.1 = true
    · rw [if_pos hc]; simp [hc.1, hc.2]
    · rw [if_neg hc]
      have : (w.testBit b && hasSpace pe (st + e.body.length) s.2.1) = false := by
        rcases Bool.eq_false_or_eq_true (w.testBit b) with h1 | h1
        · rcases Bool.eq_false_or_eq_true (hasSpace pe (st + e.body.length) s.2.1) with h2 | h2
          · exact absurd ⟨h1, h2⟩ hc
          · simp [h2]
        · simp [h1]
      simp [this]

theorem leadingEnc_body (X : Extern) (A : Avatar) (w pe st : Nat) :
    (leadingEnc X A w pe st).body =
      sectionsBody (leadingEnc X A w pe st).includedFlags (leadingSections X A) 0 := by
  have h := encodeSections_body w pe st (leadingSections X A) 0
    { body := [], includedFlags := 0 } (leadingSections_flagsFrom X A)
    (leadingSections_length X A)
    (by decide)
  rw [List.nil_append] at h
  exact h

theorem segOk_jointData (X : Extern) (A : Avatar) (last : List JointData) (r t : Nat)
    (sa cull da : Bool) (v : Vec3) (pe dest : Nat) (g : Bool)
    (hJ : A.getJointDataSizeOut ≤ 255) :
    SegOk (fun b => parseJointData X b g)
      ((jointDataSection X A last r t sa cull da v pe A.getJointDataSizeOut dest).bytes ++
        (if g = true then farGrabJointsBytes A.farGrabJoints else []))
      ([Event.setJointDataSizeIn A.getJointDataSizeOut] ++
        rotationCalls
          (jointDataSection X A last r t sa cull da v pe A.getJointDataSizeOut
            dest).rotationsWritten ++
        translationCalls
          (jointDataSection X A last r t sa cull da v pe A.getJointDataSizeOut
            dest).translationsWritten ++
        (if g = true then [Event.setFarGrabJointsIn default] else [])) := by
  intro pre post evs0
  obtain ⟨hb, hrv, htv, hvr, hrb, _, hvt, htb, _⟩ :=
    jointDataSection_spec X A last r t sa cull da v pe A.getJointDataSizeOut dest
  obtain ⟨hr1, hr2, ht1, ht2, hrw, htw⟩ :=
    jointDataSection_cursor X A last r t sa cull da v pe A.getJointDataSizeOut dest
  generalize jointDataSection X A last r t sa cull da v pe A.getJointDataSizeOut dest = js at *
  have hrots : (List.range' 0 A.getJointDataSizeOut).filter (validityBit js.rotationValidity) =
      js.rotationsWritten := by
    by_cases hc : r ≤ A.getJointDataSizeOut
    · rw [hrw]
      apply validity_filter _ _ _ _ _ (by omega)
      rw [← hrw]; exact hvr
    · have h0 : js.rotationsSent - r = 0 := by omega
      rw [hrw, h0]
      have := validity_filter js.rotationValidity (rotationSend X A last sa cull da v) 0 0
        A.getJointDataSizeOut (by omega) (by
          intro i
          rw [hvr i, hrw, h0]
          simp)
      simpa using this
  have htrans : (List.range' 0 A.getJointDataSizeOut).filter
      (validityBit js.translationValidity) = js.translationsWritten := by
    by_cases hc : t ≤ A.getJointDataSizeOut
    · rw [htw]
      apply validity_filter _ _ _ _ _ (by omega)
      rw [← htw]; exact hvt
    · have h0 : js.translationsSent - t = 0 := by omega
      rw [htw, h0]
      have := validity_filter js.translationValidity (translationSend X A last sa cull da v) 0 0
        A.getJointDataSizeOut (by omega) (by
          intro i
          rw [hvt i, htw, h0]
          simp)
      simpa using this
  have hrl : js.rotationBlock.length = 6 * js.rotationsWritten.length := by
    rw [hrb]
    exact packAll_length _ 6 (fun i => by simp [rotationBytes]) _
  have htl : js.translationBlock.length = 6 * js.translationsWritten.length := by
    rw [htb]
    exact packAll_length _ 6 (fun i => by simp [translationBytes]) _
  have hJ' : A.getJointDataSizeOut % 256 = A.getJointDataSizeOut := Nat.mod_eq_of_lt (by omega)
  have hbuf : pre ++ (js.bytes ++ (if g = true then farGrabJointsBytes A.farGrabJoints else []))
      ++ post = pre ++ ([A.getJointDataSizeOut] ++ js.rotationValidity ++ js.rotationBlock ++
        js.translationValidity ++ leBytes 4 js.maxTranslationDimension ++ js.translationBlock ++
        (if g = true then farGrabJointsBytes A.farGrabJoints else [])) ++ post := by
    rw [hb, hJ']
  obtain ⟨E1, hE1, hrun⟩ := parseJointData_ok X A.farGrabJoints _ pre post A.getJointDataSizeOut
    js.rotationValidity js.rotationBlock js.translationValidity
    (leBytes 4 js.maxTranslationDimension) js.translationBlock js.rotationsWritten
    js.translationsWritten g evs0 hbuf hrv htv (by simp) hrots htrans hrl htl
  refine ⟨E1, hE1, ?_⟩
  show parseJointData X _ g _ = _
  rw [hrun, hb, hJ']

theorem segOk_defaultPose (A : Avatar) (hJ : A.getJointDataSizeOut ≤ 255) :
    SegOk (fun b => parseJointDefaultPoseFlags b)
      (jointDefaultPoseFlagsBytes A A.getJointDataSizeOut)
      (defaultPoseCalls A.getJointDataSizeOut) := by
  intro pre post evs0
  have hJ' : A.getJointDataSizeOut % 256 = A.getJointDataSizeOut := Nat.mod_eq_of_lt (by omega)
  have hb : jointDefaultPoseFlagsBytes A A.getJointDataSizeOut =
      [A.getJointDataSizeOut] ++
        writeBitVector A.getJointDataSizeOut (fun i => (A.getJointDataOut i).rotationIsDefaultPose)
        ++ writeBitVector A.getJointDataSizeOut
          (fun i => (A.getJointDataOut i).translationIsDefaultPose) := by
    unfold jointDefaultPoseFlagsBytes
    rw [hJ']
  obtain ⟨E1, hE1, hrun⟩ := parseJointDefaultPoseFlags_ok
    (pre ++ jointDefaultPoseFlagsBytes A A.getJointDataSizeOut ++ post) pre post
    A.getJointDataSizeOut _ _ evs0 (by rw [hb]) (writeBitVector_length _ _)
    (writeBitVector_length _ _)
  refine ⟨E1, hE1, ?_⟩
  show parseJointDefaultPoseFlags _ _ = _
  rw [hrun, hb]

theorem numJointsFor_of_pose (A : Avatar) (w : Nat) (h : w.testBit 13 = true) :
    numJointsFor A w = A.getJointDataSizeOut := by
  unfold numJointsFor
  rw [if_pos]
  intro h0
  have := congrArg (fun x => Nat.testBit x 13) h0
  simp only [Nat.testBit_and, Nat.testBit_or, h, Nat.zero_testBit, Bool.true_and] at this
  rw [show PACKET_HAS_JOINT_DEFAULT_POSE_FLAGS = 1 <<< 13 from rfl,
    show PACKET_HAS_JOINT_DATA = 1 <<< 12 from rfl, flag_testBit, flag_testBit] at this
  simp at this

theorem encodeBlocks_grab_joint (X : Extern) (A : Avatar) (last : List JointData) (r t : Nat)
    (sa cull da : Bool) (v : Vec3) (w pe st : Nat)
    (h : (encodeBlocks X A last r t sa cull da v w pe st).enc.includedFlags.testBit 14 = true) :
    (encodeBlocks X A last r t sa cull da v w pe st).enc.includedFlags.testBit 12 = true := by
  rw [encodeBlocks_testBit] at h
  rw [encodeBlocks_testBit_joint]
  have hl : (leadingEnc X A w pe st).includedFlags.testBit 14 = false :=
    testBit_false_of_lt (leadingEnc_spec X A w pe st).1 (by decide)
  rw [hl] at h
  simp only [Bool.false_or, Bool.or_eq_true, Bool.and_eq_true, decide_eq_true_eq] at h
  rcases h with h | h
  · simpa using h.1
  · exact absurd h.1.1 (by decide)

theorem parseSections_encodeBlocks (X : Extern) (A : Avatar) (last : List JointData) (r t : Nat)
    (sa cull da : Bool) (v : Vec3) (w pe : Nat)
    (hNaN : NaNFree X A) (hJ : A.getJointDataSizeOut ≤ 255)
    (hN : A.faceTracker.blendshapeCoefficients.length ≤ 255) :
    ∃ E1 : List Event,
      E1.map Event.shape =
        expectedCalls (encodeBlocks X A last r t sa cull da v w pe HEADER_SIZE).enc.includedFlags
          A.getJointDataSizeOut
          (rotationsWrittenOf (encodeBlocks X A last r t sa cull da v w pe HEADER_SIZE).joints)
          (translationsWrittenOf
            (encodeBlocks X A last r t sa cull da v w pe HEADER_SIZE).joints) ∧
      parseSections X
        (leBytes HEADER_SIZE
            (encodeBlocks X A last r t sa cull da v w pe HEADER_SIZE).enc.includedFlags ++
          (encodeBlocks X A last r t sa cull da v w pe HEADER_SIZE).enc.body) =
        Except.ok
          { pos := (leBytes HEADER_SIZE
              (encodeBlocks X A last r t sa cull da v w pe HEADER_SIZE).enc.includedFlags ++
              (encodeBlocks X A last r t sa cull da v w pe HEADER_SIZE).enc.body).length
            events := E1 } := by
  have hlt := encodeBlocks_lt X A last r t sa cull da v w pe HEADER_SIZE
  have hbody := encodeBlocks_body X A last r t sa cull da v w pe HEADER_SIZE
  have hjoints := encodeBlocks_joints X A last r t sa cull da v w pe HEADER_SIZE
  have hlow := fun k hk => encodeBlocks_testBit_low X A last r t sa cull da v w pe HEADER_SIZE k hk
  have h14 := encodeBlocks_grab_joint X A last r t sa cull da v w pe HEADER_SIZE
  have h13 := encodeBlocks_subset X A last r t sa cull da v w pe HEADER_SIZE 13
  have hlead := leadingEnc_body X A w pe HEADER_SIZE
  rw [sectionsBody_congr (leadingEnc X A w pe HEADER_SIZE).includedFlags
    (encodeBlocks X A last r t sa cull da v w pe HEADER_SIZE).enc.includedFlags _ 0
    (fun j _ hj2 => (hlow j (by simpa [leadingSections] using hj2)).symm)] at hlead
  rw [hlead] at hbody
  generalize hjs : jointDataSection X A last r t sa cull da v pe A.getJointDataSizeOut
    (HEADER_SIZE + (sectionsBody (encodeBlocks X A last r t sa cull da v w pe
      HEADER_SIZE).enc.includedFlags (leadingSections X A) 0).length) = js at hbody hjoints
  rw [hlead] at hjoints
  rw [hjs] at hjoints
  generalize encodeBlocks X A last r t sa cull da v w pe HEADER_SIZE = j at *
  generalize hm : j.enc.includedFlags = m at *
  have hmask : packetStateFlags (leBytes HEADER_SIZE m ++ j.enc.body) = m := by
    unfold packetStateFlags
    have := readBytes_append_mid [] (leBytes HEADER_SIZE m) j.enc.body
    simp only [List.nil_append, List.length_nil, leBytes_length] at this
    rw [this, fromLE_leBytes]
    apply Nat.mod_eq_of_lt
    exact lt_of_lt_of_le hlt (by decide)
  have hseg12 : SegOk (fun b => parseJointData X b (m.testBit 14))
      (js.bytes ++ (if m.testBit 14 = true then farGrabJointsBytes A.farGrabJoints else []))
      ([Event.setJointDataSizeIn A.getJointDataSizeOut] ++ rotationCalls js.rotationsWritten ++
        translationCalls js.translationsWritten ++
        (if m.testBit 14 = true then [Event.setFarGrabJointsIn default] else [])) := by
    rw [← hjs]
    exact segOk_jointData X A last r t sa cull da v pe _ (m.testBit 14) hJ
  have hall := runBlocks_segs
    [ (fun b => whenFlag m (1 <<< 0) (parseGlobalPosition b),
        (if m.testBit 0 = true then globalPositionBytes A else []),
        (if m.testBit 0 = true then [Event.setGlobalPositionIn default] else [])),
      (fun b => whenFlag m (1 <<< 1) (parseBoundingBox b),
        (if m.testBit 1 = true then boundingBoxBytes A else []),
        (if m.testBit 1 = true then [Event.setBoundingBoxIn default default] else [])),
      (fun b => whenFlag m (1 <<< 2) (parseOrientation X b),
        (if m.testBit 2 = true then orientationBytes X A else []),
        (if m.testBit 2 = true then [Event.setOrientationIn default] else [])),
      (fun b => whenFlag m (1 <<< 3) (parseScale X b),
        (if m.testBit 3 = true then scaleBytes X A else []),
        (if m.testBit 3 = true then [Event.setScaleIn 0] else [])),
      (fun b => whenFlag m (1 <<< 4) (parseLookAtPosition b),
        (if m.testBit 4 = true then lookAtPositionBytes A else []),
        (if m.testBit 4 = true then [Event.setLookAtPositionIn default] else [])),
      (fun b => whenFlag m (1 <<< 5) (parseAudioLoudness X b),
        (if m.testBit 5 = true then audioLoudnessBytes X A else []),
        (if m.testBit 5 = true then [Event.setAudioLoudnessIn 0] else [])),
      (fun b => whenFlag m (1 <<< 6) (parseSensorToWorldMatrix X b),
        (if m.testBit 6 = true then sensorToWorldBytes X A else []),
        (if m.testBit 6 = true then [Event.setSensorToWorldMatrixIn default] else [])),
      (fun b => whenFlag m (1 <<< 7) (parseAdditionalFlags b),
        (if m.testBit 7 = true then additionalFlagsBytes A else []),
        (if m.testBit 7 = true then [Event.setAdditionalFlagsIn default] else [])),
      (fun b => whenFlag m (1 <<< 8) (parseParentInfo b),
        (if m.testBit 8 = true then parentInfoBytes A else []),
        (if m.testBit 8 = true then [Event.setParentInfoIn 0 0] else [])),
      (fun b => whenFlag m (1 <<< 9) (parseLocalPosition b),
        (if m.testBit 9 = true then localPositionBytes A else []),
        (if m.testBit 9 = true then [Event.setLocalPositionIn default] else [])),
      (fun b => whenFlag m (1 <<< 10) (parseHandControllers X b),
        (if m.testBit 10 = true then handControllersBytes X A else []),
        (if m.testBit 10 = true then [Event.setHandControllersIn default default] else [])),
      (fun b => whenFlag m (1 <<< 11) (parseFaceTrackerInfo b),
        (if m.testBit 11 = true then faceTrackerBytes A else []),
        (if m.testBit 11 = true then [Event.setFaceTrackerInfoIn default] else [])),
      (fun b => whenFlag m (1 <<< 12) (parseJointData X b (m.testBit 14)),
        (if m.testBit 12 = true then
          js.bytes ++ (if m.testBit 14 = true then farGrabJointsBytes A.farGrabJoints else [])
        else []),
        (if m.testBit 12 = true then
          [Event.setJointDataSizeIn A.getJointDataSizeOut] ++
            rotationCalls js.rotationsWritten ++ translationCalls js.translationsWritten ++
            (if m.testBit 14 = true then [Event.setFarGrabJointsIn default] else [])
        else [])),
      (fun b => whenFlag m (1 <<< 13) (parseJointDefaultPoseFlags b),
        (if m.testBit 13 = true then jointDefaultPoseFlagsBytes A A.getJointDataSizeOut else []),
        (if m.testBit 13 = true then defaultPoseCalls A.getJointDataSizeOut else [])) ]
    (by
      intro s hs
      simp only [List.mem_cons, List.mem_singleton, List.not_mem_nil, or_false] at hs
      rcases hs with h | h | h | h | h | h | h | h | h | h | h | h | h | h <;> subst h
      · exact segOk_whenFlag m 0 _ _ _ (fun _ => segOk_globalPosition A)
      · exact segOk_whenFlag m 1 _ _ _ (fun _ => segOk_boundingBox A)
      · exact segOk_whenFlag m 2 _ _ _ (fun _ => segOk_orientation X A)
      · exact segOk_whenFlag m 3 _ _ _ (fun _ => segOk_scale X A hNaN)
      · exact segOk_whenFlag m 4 _ _ _ (fun _ => segOk_lookAtPosition X A hNaN)
      · exact segOk_whenFlag m 5 _ _ _ (fun _ => segOk_audioLoudness X A hNaN)
      · exact segOk_whenFlag m 6 _ _ _ (fun _ => segOk_sensorToWorld X A)
      · exact segOk_whenFlag m 7 _ _ _ (fun _ => segOk_additionalFlags A)
      · exact segOk_whenFlag m 8 _ _ _ (fun _ => segOk_parentInfo A)
      · exact segOk_whenFlag m 9 _ _ _ (fun _ => segOk_localPosition X A hNaN)
      · exact segOk_whenFlag m 10 _ _ _ (fun _ => segOk_handControllers X A)
      · exact segOk_whenFlag m 11 _ _ _ (fun _ => segOk_faceTracker A hN)
      · exact segOk_whenFlag m 12 _ _ _ (fun _ => hseg12)
      · exact segOk_whenFlag m 13 _ _ _ (fun _ => segOk_defaultPose A hJ))
    (leBytes HEADER_SIZE m) [] [] (leBytes HEADER_SIZE m ++ j.enc.body)
    (by
      rw [hbody]
      simp only [leadingSections, sectionsBody, List.map_cons, List.map_nil, List.flatten_cons,
        List.flatten_nil, List.append_nil, List.append_assoc, grabPart, defaultPosePart]
      by_cases b12 : m.testBit 12 = true
      · by_cases b13 : m.testBit 13 = true
        · simp [b12, b13, numJointsFor_of_pose A w (h13 b13)]
        · simp [b12, b13]
      · have b14 : ¬ m.testBit 14 = true := fun h => b12 (h14 h)
        by_cases b13 : m.testBit 13 = true
        · simp [b12, b13, b14, numJointsFor_of_pose A w (h13 b13)]
        · simp [b12, b13, b14])
  obtain ⟨E1, hE1, hrun⟩ := hall
  refine ⟨E1, ?_, ?_⟩
  · rw [hE1, hjoints]
    unfold expectedCalls
    by_cases b12 : m.testBit 12 = true
    · simp [b12, rotationsWrittenOf, translationsWrittenOf]
    · simp [b12, rotationsWrittenOf, translationsWrittenOf]
  · unfold parseSections
    rw [hmask]
    unfold parseBlocks
    rw [show hasFlag m PACKET_HAS_GRAB_JOINTS = m.testBit 14 from hasFlag_flag m 14]
    simp only [List.map_cons, List.map_nil, leBytes_length, List.nil_append] at hrun
    rw [show ({ pos := HEADER_SIZE, events := [] } : Dec) =
      { pos := HEADER_SIZE, events := [] } from rfl]
    refine Eq.trans hrun ?_
    congr 2
    rw [hbody]
    simp only [leadingSections, sectionsBody, List.map_cons, List.map_nil, List.flatten_cons,
      List.flatten_nil, List.append_nil, List.append_assoc, grabPart, defaultPosePart,
      List.length_append, leBytes_length]
    by_cases b12 : m.testBit 12 = true
    · by_cases b13 : m.testBit 13 = true
      · simp [b12, b13, numJointsFor_of_pose A w (h13 b13)]
        try omega
      · simp [b12, b13]
        try omega
    · have b14 : ¬ m.testBit 14 = true := fun h => b12 (h14 h)
      by_cases b13 : m.testBit 13 = true
      · simp [b12, b13, b14, numJointsFor_of_pose A w (h13 b13)]
        try omega
      · simp [b12, b13, b14]
        try omega

/-! ## The calls of the decoder on an encoded packet -/

theorem sinkOf_shape (e : Event) : e.shape.sinkOf = e.sinkOf := by cases e <;> rfl

theorem isError_shape (e : Event) : e.shape.isError = e.isError := by cases e <;> rfl

theorem jointCount_shape (e : Event) : e.shape.jointCount = e.jointCount := by cases e <;> rfl

theorem rotationJoint_shape (e : Event) : e.shape.rotationJoint = e.rotationJoint := by
  cases e <;> rfl

theorem positionJoint_shape (e : Event) : e.shape.positionJoint = e.positionJoint := by
  cases e <;> rfl

theorem filterMap_shape (f : Event → Option Nat) (hf : ∀ e : Event, f e.shape = f e)
    (l : List Event) : (l.map Event.shape).filterMap f = l.filterMap f := by
  rw [List.filterMap_map]
  congr 1
  funext e
  exact hf e

theorem filterMap_ite {α β : Type} (f : α → Option β) (c : Prop) [Decidable c] (l : List α) :
    (if c then l else []).filterMap f = if c then l.filterMap f else [] := by
  split <;> rfl

theorem rotationCalls_filterMap (l : List Nat) :
    (rotationCalls l).filterMap Event.sinkOf = [] ∧
    (rotationCalls l).filterMap Event.jointCount = [] ∧
    (rotationCalls l).filterMap Event.rotationJoint = l ∧
    (rotationCalls l).filterMap Event.positionJoint = [] ∧
    ∀ e ∈ rotationCalls l, e.isError = false := by
  induction l with
  | nil => simp [rotationCalls]
  | cons a l ih =>
    obtain ⟨h1, h2, h3, h4, h5⟩ := ih
    unfold rotationCalls at *
    simp only [List.flatMap_cons, List.filterMap_append, h1, h2, h3, h4]
    refine ⟨rfl, rfl, rfl, rfl, ?_⟩
    intro e he
    simp only [List.mem_append, List.mem_cons, List.mem_singleton, List.not_mem_nil,
      or_false] at he
    rcases he with (h | h) | h
    · subst h; rfl
    · subst h; rfl
    · exact h5 e h

theorem translationCalls_filterMap (l : List Nat) :
    (translationCalls l).filterMap Event.sinkOf = [] ∧
    (translationCalls l).filterMap Event.jointCount = [] ∧
    (translationCalls l).filterMap Event.rotationJoint = [] ∧
    (translationCalls l).filterMap Event.positionJoint = l ∧
    ∀ e ∈ translationCalls l, e.isError = false := by
  induction l with
  | nil => simp [translationCalls]
  | cons a l ih =>
    obtain ⟨h1, h2, h3, h4, h5⟩ := ih
    unfold translationCalls at *
    simp only [List.flatMap_cons, List.filterMap_append, h1, h2, h3, h4]
    refine ⟨rfl, rfl, rfl, rfl, ?_⟩
    intro e he
    simp only [List.mem_append, List.mem_cons, List.mem_singleton, List.not_mem_nil,
      or_false] at he
    rcases he with (h | h) | h
    · subst h; rfl
    · subst h; rfl
    · exact h5 e h

theorem defaultPoseCalls_filterMap (n : Nat) :
    (defaultPoseCalls n).filterMap Event.sinkOf = [] ∧
    (defaultPoseCalls n).filterMap Event.jointCount = [n] ∧
    (defaultPoseCalls n).filterMap Event.rotationJoint = [] ∧
    (defaultPoseCalls n).filterMap Event.positionJoint = [] ∧
    ∀ e ∈ defaultPoseCalls n, e.isError = false := by
  have key : ∀ (f : Event → Option Nat) (g : Nat → Event), (∀ i, f (g i) = none) →
      ∀ l : List Nat, (l.map g).filterMap f = [] := by
    intro f g h l
    induction l with
    | nil => rfl
    | cons a l ih => simp [List.filterMap_cons, h a, ih]
  unfold defaultPoseCalls
  simp only [List.filterMap_append]
  refine ⟨?_, ?_, ?_, ?_, ?_⟩
  · rw [key _ _ (fun _ => rfl), key _ _ (fun _ => rfl)]; rfl
  · rw [key _ _ (fun _ => rfl), key _ _ (fun _ => rfl)]; rfl
  · rw [key _ _ (fun _ => rfl), key _ _ (fun _ => rfl)]; rfl
  · rw [key _ _ (fun _ => rfl), key _ _ (fun _ => rfl)]; rfl
  · intro e he
    simp only [List.mem_append, List.mem_singleton, List.mem_map] at he
    rcases he with (h | ⟨i, _, h⟩) | ⟨i, _, h⟩
    · subst h; rfl
    · subst h; rfl
    · subst h; rfl

theorem filter_cons_append {α : Type} (p : α → Bool) (a : α) (l : List α) :
    (a :: l).filter p = (if p a = true then [a] else []) ++ l.filter p := by
  rw [List.filter_cons]
  split <;> rfl

theorem filter_ite {α : Type} (p : α → Bool) (c : Prop) [Decidable c] (l : List α) :
    (if c then l else []).filter p = if c then l.filter p else [] := by
  split <;> rfl

theorem expectedCalls_spec (m J : Nat) (rots trans : List Nat)
    (h14 : m.testBit 14 = true → m.testBit 12 = true) :
    (expectedCalls m J rots trans).filterMap Event.sinkOf =
      [0, 1, 2, 3, 4, 5, 6, 7, 8, 9, 10, 11, 14].filter (fun k => m.testBit k) ∧
    (expectedCalls m J rots trans).filterMap Event.jointCount =
      (if m.testBit 12 = true then [J] else []) ++ (if m.testBit 13 = true then [J] else []) ∧
    (expectedCalls m J rots trans).filterMap Event.rotationJoint =
      (if m.testBit 12 = true then rots else []) ∧
    (expectedCalls m J rots trans).filterMap Event.positionJoint =
      (if m.testBit 12 = true then trans else []) ∧
    (expectedCalls m J rots trans).filter Event.isError = [] := by
  obtain ⟨r1, r2, r3, r4, r5⟩ := rotationCalls_filterMap rots
  obtain ⟨t1, t2, t3, t4, t5⟩ := translationCalls_filterMap trans
  obtain ⟨d1, d2, d3, d4, d5⟩ := defaultPoseCalls_filterMap J
  have r5' : (rotationCalls rots).filter Event.isError = [] := by
    rw [List.filter_eq_nil_iff]; intro e he; simp [r5 e he]
  have t5' : (translationCalls trans).filter Event.isError = [] := by
    rw [List.filter_eq_nil_iff]; intro e he; simp [t5 e he]
  have d5' : (defaultPoseCalls J).filter Event.isError = [] := by
    rw [List.filter_eq_nil_iff]; intro e he; simp [d5 e he]
  unfold expectedCalls
  refine ⟨?_, ?_, ?_, ?_, ?_⟩
  · simp only [List.filterMap_append, filterMap_ite, List.filterMap_cons, List.filterMap_nil,
      Event.sinkOf, r1, t1, d1, filter_cons_append, List.filter_nil, List.append_nil,
      List.nil_append, ite_self, List.append_assoc]
    by_cases b12 : m.testBit 12 = true
    · simp only [b12, if_true]
    · have b14 : ¬ m.testBit 14 = true := fun h => b12 (h14 h)
      simp only [b12, b14, if_false, Bool.false_eq_true]
  · simp only [List.filterMap_append, filterMap_ite, List.filterMap_cons, List.filterMap_nil,
      Event.jointCount, r2, t2, d2, List.append_nil, List.nil_append, ite_self,
      List.append_assoc]
  · simp only [List.filterMap_append, filterMap_ite, List.filterMap_cons, List.filterMap_nil,
      Event.rotationJoint, r3, t3, d3, List.append_nil, List.nil_append, ite_self,
      List.append_assoc]
  · simp only [List.filterMap_append, filterMap_ite, List.filterMap_cons, List.filterMap_nil,
      Event.positionJoint, r4, t4, d4, List.append_nil, List.nil_append, ite_self,
      List.append_assoc]
  · simp only [List.filter_append, filter_ite, List.filter_cons, List.filter_nil,
      Event.isError, r5', t5', d5', List.append_nil, List.nil_append, ite_self,
      Bool.false_eq_true, if_false]

/-! ## C4: decode mirrors encode -/

theorem decode_of_encode (X : Extern) (A : Avatar) (itemFlagsInit : Nat)
    (dataDetail : AvatarDataDetail) (last : List JointData) (s : SendStatus) (da : Bool)
    (v : Vec3) (maxDataSize : Nat)
    (hmax : maxDataSize = 0 ∨ MIN_BULK_PACKET_SIZE ≤ maxDataSize)
    (hu : s.sendUUID = false) (hNaN : NaNFree X A) (hJ : A.getJointDataSizeOut ≤ 255)
    (hN : A.faceTracker.blendshapeCoefficients.length ≤ 255) :
    ∃ r, toByteArray X A itemFlagsInit dataDetail last s da v maxDataSize = some r ∧
      (parseDataFromBuffer X r.bytes).result = r.bytes.length ∧
      (parseDataFromBuffer X r.bytes).events.map Event.shape =
        expectedCalls r.includedFlags A.getJointDataSizeOut (rotationsWrittenOf r.joints)
          (translationsWrittenOf r.joints) ∧
      (r.includedFlags.testBit 14 = true → r.includedFlags.testBit 12 = true) ∧
      (r.includedFlags.testBit 12 = false → r.joints = none) := by
  have hub : uuidBytesFor A s = [] := by simp [uuidBytesFor, hu]
  have hst : startFor A s = HEADER_SIZE := by simp [startFor, hub]
  by_cases hd : dataDetail = AvatarDataDetail.NoData
  · subst hd
    refine ⟨_, toByteArray_noData X A itemFlagsInit last s da v maxDataSize hmax, ?_, ?_, ?_, ?_⟩
    · simp only [hub, List.nil_append]; rfl
    · simp only [hub, List.nil_append]; rfl
    · intro h; exact absurd h (by simp)
    · intro _; rfl
  · obtain ⟨r, hr, hb, _, _, _, _, _, hi, _, _, _, hj⟩ :=
      toByteArray_fields X A itemFlagsInit dataDetail last s da v maxDataSize hmax hd
    have hblocks : encodeBlocksFor X A itemFlagsInit dataDetail last s da v maxDataSize =
        encodeBlocks X A last (rotationsSentFor s) (translationsSentFor s)
          (decide (dataDetail = AvatarDataDetail.SendAllData))
          (decide (dataDetail = AvatarDataDetail.CullSmallData)) da v
          (wantedFlagsFor itemFlagsInit s) (packetEndFor A maxDataSize) HEADER_SIZE := by
      unfold encodeBlocksFor
      rw [hst]
    rw [hblocks] at hb hi hj
    rw [hub, List.nil_append] at hb
    obtain ⟨E1, hE1, hrun⟩ := parseSections_encodeBlocks X A last (rotationsSentFor s)
      (translationsSentFor s) (decide (dataDetail = AvatarDataDetail.SendAllData))
      (decide (dataDetail = AvatarDataDetail.CullSmallData)) da v
      (wantedFlagsFor itemFlagsInit s) (packetEndFor A maxDataSize) hNaN hJ hN
    refine ⟨r, hr, ?_, ?_, ?_, ?_⟩
    · unfold parseDataFromBuffer
      rw [hb, hrun]
    · unfold parseDataFromBuffer
      rw [hb, hrun, hi, hj]
      exact hE1
    · rw [hi]
      exact encodeBlocks_grab_joint _ _ _ _ _ _ _ _ _ _ _ _
    · rw [hi, hj, encodeBlocks_joints]
      intro h
      rw [if_neg (by simp [h])]

/-- C4. Decode mirrors encode structurally. Take an avatar state that is NaN-free for the decoder,
with at most 255 joints and at most 255 blendshape coefficients, any wanted set, any detail
level, any send status with `sendUUID = false` and any admissible `maxDataSize`. Then
`parseDataFromBuffer` on the bytes returned by `toByteArray` returns exactly their length and
calls no error callback; its calls are, values apart, exactly `expectedCalls` of the mask: the
sinks of the sections 0 to 11 and 14 are called, once each and in this order, exactly for the bits
of the mask; `setJointDataSizeIn` is called once for bit 12 and once for bit 13;
`setJointDataRotationIn` is called exactly for the joints whose rotation the encoder wrote, in
their order, and `setJointDataPositionIn` exactly for those whose translation it wrote. -/
theorem C4_decode_mirrors_encode (X : Extern) (A : Avatar) (itemFlagsInit : Nat)
    (dataDetail : AvatarDataDetail) (lastSentJointData : List JointData)
    (sendStatus : SendStatus) (distanceAdjust : Bool) (viewerPosition : Vec3)
    (maxDataSize : Nat)
    (hmax : maxDataSize = 0 ∨ MIN_BULK_PACKET_SIZE ≤ maxDataSize)
    (hu : sendStatus.sendUUID = false) (hNaN : NaNFree X A)
    (hJ : A.getJointDataSizeOut ≤ 255)
    (hN : A.faceTracker.blendshapeCoefficients.length ≤ 255) :
    ∃ r, toByteArray X A itemFlagsInit dataDetail lastSentJointData sendStatus distanceAdjust
        viewerPosition maxDataSize = some r ∧
      (parseDataFromBuffer X r.bytes).result = r.bytes.length ∧
      (parseDataFromBuffer X r.bytes).events.filter Event.isError = [] ∧
      (parseDataFromBuffer X r.bytes).events.map Event.shape =
        expectedCalls r.includedFlags A.getJointDataSizeOut (rotationsWrittenOf r.joints)
          (translationsWrittenOf r.joints) ∧
      (parseDataFromBuffer X r.bytes).events.filterMap Event.sinkOf =
        [0, 1, 2, 3, 4, 5, 6, 7, 8, 9, 10, 11, 14].filter (fun k => r.includedFlags.testBit k) ∧
      (parseDataFromBuffer X r.bytes).events.filterMap Event.jointCount =
        (if r.includedFlags.testBit 12 = true then [A.getJointDataSizeOut] else []) ++
          (if r.includedFlags.testBit 13 = true then [A.getJointDataSizeOut] else []) ∧
      (parseDataFromBuffer X r.bytes).events.filterMap Event.rotationJoint =
        rotationsWrittenOf r.joints ∧
      (parseDataFromBuffer X r.bytes).events.filterMap Event.positionJoint =
        translationsWrittenOf r.joints := by
  obtain ⟨r, hr, hres, hshape, h14, hnone⟩ := decode_of_encode X A itemFlagsInit dataDetail
    lastSentJointData sendStatus distanceAdjust viewerPosition maxDataSize hmax hu hNaN hJ hN
  obtain ⟨e1, e2, e3, e4, e5⟩ := expectedCalls_spec r.includedFlags A.getJointDataSizeOut
    (rotationsWrittenOf r.joints) (translationsWrittenOf r.joints) h14
  rw [← hshape] at e1 e2 e3 e4 e5
  rw [filterMap_shape _ sinkOf_shape] at e1
  rw [filterMap_shape _ jointCount_shape] at e2
  rw [filterMap_shape _ rotationJoint_shape] at e3
  rw [filterMap_shape _ positionJoint_shape] at e4
  refine ⟨r, hr, hres, ?_, hshape, e1, e2, ?_, ?_⟩
  · rw [List.filter_eq_nil_iff] at e5 ⊢
    intro e he
    have := e5 e.shape (List.mem_map_of_mem _ he)
    rwa [isError_shape] at this
  · rw [e3]
    by_cases b12 : r.includedFlags.testBit 12 = true
    · rw [if_pos b12]
    · rw [if_neg b12, hnone (by simpa using b12)]
      rfl
  · rw [e4]
    by_cases b12 : r.includedFlags.testBit 12 = true
    · rw [if_pos b12]
    · rw [if_neg b12, hnone (by simpa using b12)]
      rfl

theorem C4_witness :
    ((77 : Nat) = 0 ∨ MIN_BULK_PACKET_SIZE ≤ 77) ∧ freshStatus.sendUUID = false ∧
    NaNFree sampleExtern (sampleAvatar 40) ∧ (sampleAvatar 40).getJointDataSizeOut ≤ 255 ∧
    (sampleAvatar 40).faceTracker.blendshapeCoefficients.length ≤ 255 ∧
    ∃ r, toByteArray sampleExtern (sampleAvatar 40) 0x7FFF AvatarDataDetail.SendAllData []
        freshStatus false default 77 = some r ∧
      (parseDataFromBuffer sampleExtern r.bytes).result = r.bytes.length ∧
      (parseDataFromBuffer sampleExtern r.bytes).events.filter Event.isError = [] ∧
      (parseDataFromBuffer sampleExtern r.bytes).events.map Event.shape =
        expectedCalls r.includedFlags (sampleAvatar 40).getJointDataSizeOut
          (rotationsWrittenOf r.joints) (translationsWrittenOf r.joints) ∧
      (parseDataFromBuffer sampleExtern r.bytes).events.filterMap Event.sinkOf =
        [0, 1, 2, 3, 4, 5, 6, 7, 8, 9, 10, 11, 14].filter (fun k => r.includedFlags.testBit k) ∧
      (parseDataFromBuffer sampleExtern r.bytes).events.filterMap Event.jointCount =
        (if r.includedFlags.testBit 12 = true then [(sampleAvatar 40).getJointDataSizeOut]
          else []) ++
          (if r.includedFlags.testBit 13 = true then [(sampleAvatar 40).getJointDataSizeOut]
            else []) ∧
      (parseDataFromBuffer sampleExtern r.bytes).events.filterMap Event.rotationJoint =
        rotationsWrittenOf r.joints ∧
      (parseDataFromBuffer sampleExtern r.bytes).events.filterMap Event.positionJoint =
        translationsWrittenOf r.joints :=
  ⟨by decide, rfl, by decide, by decide, by decide,
    C4_decode_mirrors_encode sampleExtern (sampleAvatar 40) 0x7FFF AvatarDataDetail.SendAllData []
      freshStatus false default 77 (by decide) rfl (by decide) (by decide) (by decide)⟩

/-! ## Progress of one call of the encoder -/

theorem sectionsOffset_eq_zero (m : Nat) (sizes : List Nat) (b k : Nat)
    (h : ∀ j, b ≤ j → j < b + k → m.testBit j = false) :
    sectionsOffset m sizes b k = 0 := by
  induction sizes generalizing b k with
  | nil => simp [sectionsOffset]
  | cons sz rest ih =>
    cases k with
    | zero => simp [sectionsOffset]
    | succ k =>
      simp only [sectionsOffset]
      rw [h b (Nat.le_refl _) (by omega), ih (b + 1) k (fun j h1 h2 => h j (by omega) (by omega))]
      simp

theorem leadingSizes_le (X : Extern) (A : Avatar) (k : Nat) (hk : k < 12) :
    ((leadingSections X A).map (fun s => s.2.1)).getD k 0 ≤ largestNeed A := by
  have h1 : faceTrackerSpace A ≤ largestNeed A := le_max_left _ _
  have h2 : 84 ≤ largestNeed A := by
    have : minJointDataSize A.getJointDataSizeOut + FAR_GRAB_JOINTS_SIZE ≤ largestNeed A :=
      le_trans (le_max_left _ _) (le_max_right _ _)
    simp only [FAR_GRAB_JOINTS_SIZE] at this
    omega
  interval_cases k <;>
    simp [leadingSections, AVATAR_GLOBAL_POSITION_SIZE, AVATAR_BOUNDING_BOX_SIZE,
      SIX_BYTE_QUAT_SIZE, AVATAR_SCALE_SIZE, LOOK_AT_POSITION_SIZE, AUDIO_LOUDNESS_SIZE,
      SENSOR_TO_WORLD_SIZE, ADDITIONAL_FLAGS_SIZE, PARENT_INFO_SIZE, AVATAR_LOCAL_POSITION_SIZE,
      HAND_CONTROLLERS_SIZE] <;> omega

theorem leading_lowest (X : Extern) (A : Avatar) (w pe st k : Nat) (hk : k < 12)
    (hw : w.testBit k = true) (hlow : ∀ j, j < k → w.testBit j = false)
    (hroom : st + largestNeed A ≤ pe) :
    (leadingEnc X A w pe st).includedFlags.testBit k = true := by
  obtain ⟨_, _, h3⟩ := leadingEnc_spec X A w pe st
  rw [h3 k hk]
  refine ⟨hw, ?_⟩
  have h0 : sectionsOffset (leadingEnc X A w pe st).includedFlags
      ((leadingSections X A).map (fun s => s.2.1)) 0 k = 0 := by
    apply sectionsOffset_eq_zero
    intro j _ hj
    have hj' : j < k := by omega
    by_contra hc
    have hc' : (leadingEnc X A w pe st).includedFlags.testBit j = true := by simpa using hc
    have := ((h3 j (by omega)).1 hc').1
    rw [hlow j hj'] at this
    exact absurd this (by decide)
  rw [h0]
  have := leadingSizes_le X A k hk
  omega

theorem leading_empty (X : Extern) (A : Avatar) (w pe st : Nat)
    (hlow : ∀ j, j < 12 → w.testBit j = false) :
    (∀ j, (leadingEnc X A w pe st).includedFlags.testBit j = false) ∧
    (leadingEnc X A w pe st).body = [] := by
  obtain ⟨h1, h2, h3⟩ := leadingEnc_spec X A w pe st
  have hz : ∀ j, (leadingEnc X A w pe st).includedFlags.testBit j = false := by
    intro j
    by_cases hj : j < 12
    · by_contra hc
      have hc' : (leadingEnc X A w pe st).includedFlags.testBit j = true := by simpa using hc
      have := ((h3 j hj).1 hc').1
      rw [hlow j hj] at this
      exact absurd this (by decide)
    · exact testBit_false_of_lt h1 (by omega)
  refine ⟨hz, ?_⟩
  apply List.eq_nil_of_length_eq_zero
  rw [h2]
  exact sectionsOffset_eq_zero _ _ _ _ (fun j _ _ => hz j)

theorem jointDataSection_progress (X : Extern) (A : Avatar) (last : List JointData) (r t : Nat)
    (sa cull da : Bool) (v : Vec3) (pe n dest : Nat) (ht : t ≤ n)
    (hroom : dest + minJointDataSize n + minSizeForJoint n ≤ pe) :
    (r < n → r < (jointDataSection X A last r t sa cull da v pe n dest).rotationsSent) ∧
    (r = n → t < n → t < (jointDataSection X A last r t sa cull da v pe n dest).translationsSent) ∧
    (r = n → t = n →
      (jointDataSection X A last r t sa cull da v pe n dest).rotationsSent = n ∧
      (jointDataSection X A last r t sa cull da v pe n dest).translationsSent = n ∧
      (jointDataSection X A last r t sa cull da v pe n dest).bytes.length =
        minJointDataSize n) := by
  obtain ⟨r1, r2, r3, r4, _, _, r7, _, r9⟩ := rotationPass_spec X A last r sa cull da v pe n dest
  obtain ⟨t1, t2, t3, t4, _, _, t7, _, t9⟩ := translationPass_spec X A last t sa cull da v pe n
    (dest + 1 + calcBitVectorSize n + (rotationPass X A last r sa cull da v pe n dest).out.length)
  have hlen := jointDataSection_length X A last r t sa cull da v pe n dest
  simp only [jointDataSection] at hlen ⊢
  simp only [minJointDataSize] at hroom
  generalize hL : (rotationPass X A last r sa cull da v pe n dest).out.length = L at *
  generalize hT : (translationPass X A last t sa cull da v pe n
    (dest + 1 + calcBitVectorSize n + L)).out.length = T at *
  refine ⟨?_, ?_, ?_⟩
  · intro hlt
    rcases r9 with h | h
    · omega
    · by_contra hc
      have hi : (rotationPass X A last r sa cull da v pe n dest).i = r := by omega
      rw [hi, Nat.sub_self] at r3
      simp only [List.range'_zero, List.filter_nil] at r3
      rw [r3, List.length_nil] at r7
      have hs : hasSpace pe (dest + 1 + calcBitVectorSize n + L) (minSizeForJoint n) = true := by
        rw [hasSpace_iff]; omega
      rw [hs] at h
      exact absurd h (by decide)
  · intro hrn htn
    have hi : (rotationPass X A last r sa cull da v pe n dest).i = r := by omega
    rw [hi, Nat.sub_self] at r3
    simp only [List.range'_zero, List.filter_nil] at r3
    rw [r3, List.length_nil] at r7
    rcases t9 with h | h
    · omega
    · by_contra hc
      have hti : (translationPass X A last t sa cull da v pe n
          (dest + 1 + calcBitVectorSize n + L)).i = t := by omega
      rw [hti, Nat.sub_self] at t3
      simp only [List.range'_zero, List.filter_nil] at t3
      rw [t3, List.length_nil] at t7
      have hs : hasSpace pe (dest + 1 + calcBitVectorSize n + L + calcBitVectorSize n + 4 + T)
          (minSizeForJoint n) = true := by
        rw [hasSpace_iff]; omega
      rw [hs] at h
      exact absurd h (by decide)
  · intro hrn htn
    have hi : (rotationPass X A last r sa cull da v pe n dest).i = r := by omega
    have hti : (translationPass X A last t sa cull da v pe n
        (dest + 1 + calcBitVectorSize n + L)).i = t := by omega
    rw [hi, Nat.sub_self] at r3
    simp only [List.range'_zero, List.filter_nil] at r3
    rw [r3, List.length_nil] at r7
    rw [hti, Nat.sub_self] at t3
    simp only [List.range'_zero, List.filter_nil] at t3
    rw [t3, List.length_nil] at t7
    refine ⟨by omega, by omega, ?_⟩
    rw [hlen]
    simp only [minJointDataSize]
    omega

theorem encodeBlocks_progress (X : Extern) (A : Avatar) (last : List JointData) (r t : Nat)
    (sa cull da : Bool) (v : Vec3) (w pe st : Nat)
    (hw15 : w < 2 ^ 15) (hw0 : w ≠ 0) (hr : r ≤ A.getJointDataSizeOut)
    (ht : t ≤ A.getJointDataSizeOut) (hroom : st + largestNeed A ≤ pe)
    (hclosed : w.testBit 14 = true → w.testBit 12 = true) :
    (∃ k, k ≠ 12 ∧
      (encodeBlocks X A last r t sa cull da v w pe st).enc.includedFlags.testBit k = true) ∨
    ((encodeBlocks X A last r t sa cull da v w pe st).enc.includedFlags.testBit 12 = true ∧
      (r < (encodeBlocks X A last r t sa cull da v w pe st).rotationsSent ∨
        t < (encodeBlocks X A last r t sa cull da v w pe st).translationsSent ∨
        ((encodeBlocks X A last r t sa cull da v w pe st).rotationsSent =
            A.getJointDataSizeOut ∧
          (encodeBlocks X A last r t sa cull da v w pe st).translationsSent =
            A.getJointDataSizeOut ∧
          w.testBit 14 = false))) := by
  have hn1 : minJointDataSize A.getJointDataSizeOut + FAR_GRAB_JOINTS_SIZE ≤ largestNeed A :=
    le_trans (le_max_left _ _) (le_max_right _ _)
  have hn2 : minJointDataSize A.getJointDataSizeOut + minSizeForJoint A.getJointDataSizeOut ≤
      largestNeed A := le_trans (le_max_right _ _) (le_max_right _ _)
  by_cases hlead : ∃ k, k < 12 ∧ w.testBit k = true
  · left
    have hspec := Nat.find_spec hlead
    refine ⟨Nat.find hlead, by omega, ?_⟩
    rw [encodeBlocks_testBit_low _ _ _ _ _ _ _ _ _ _ _ _ _ hspec.1]
    apply leading_lowest X A w pe st _ hspec.1 hspec.2 _ hroom
    intro j hj
    have := Nat.find_min hlead hj
    by_contra hc
    exact this ⟨by omega, by simpa using hc⟩
  · have hlow : ∀ j, j < 12 → w.testBit j = false := by
      intro j hj
      by_contra hc
      exact hlead ⟨j, hj, by simpa using hc⟩
    obtain ⟨hz, hbody⟩ := leading_empty X A w pe st hlow
    by_cases h12 : w.testBit 12 = true
    · have hnj := numJointsFor_of_joint A w h12
      have hent : jointEntered w pe st (numJointsFor A w) (leadingEnc X A w pe st) := by
        refine ⟨h12, ?_⟩
        rw [hasSpace_iff, hbody, hnj]
        simp only [List.length_nil, FAR_GRAB_JOINTS_SIZE] at *
        omega
      have hinc : (encodeBlocks X A last r t sa cull da v w pe st).enc.includedFlags.testBit 12
          = true := by
        rw [encodeBlocks_testBit_joint]
        exact decide_eq_true hent
      have hrs := encodeBlocks_rotationsSent X A last r t sa cull da v w pe st
      have hts := encodeBlocks_translationsSent X A last r t sa cull da v w pe st
      rw [if_pos hinc, hbody] at hrs hts
      obtain ⟨p1, p2, p3⟩ := jointDataSection_progress X A last r t sa cull da v pe
        A.getJointDataSizeOut (st + ([] : List Nat).length) ht
        (by simp only [List.length_nil]; omega)
      by_cases hrlt : r < A.getJointDataSizeOut
      · right
        exact ⟨hinc, Or.inl (by rw [hrs]; exact p1 hrlt)⟩
      · have hre : r = A.getJointDataSizeOut := by omega
        by_cases htlt : t < A.getJointDataSizeOut
        · right
          exact ⟨hinc, Or.inr (Or.inl (by rw [hts]; exact p2 hre htlt))⟩
        · have hte : t = A.getJointDataSizeOut := by omega
          obtain ⟨q1, q2, q3⟩ := p3 hre hte
          by_cases h14 : w.testBit 14 = true
          · left
            refine ⟨14, by decide, ?_⟩
            rw [encodeBlocks_testBit]
            have hsp : hasSpace pe (st + ((leadingEnc X A w pe st).body ++
                (jointDataSection X A last r t sa cull da v pe (numJointsFor A w)
                  (st + (leadingEnc X A w pe st).body.length)).bytes).length)
                FAR_GRAB_JOINTS_SIZE = true := by
              rw [hasSpace_iff, hbody, hnj, List.nil_append, q3]
              omega
            rw [hsp, h14, decide_eq_true hent]
            simp
          · right
            exact ⟨hinc, Or.inr (Or.inr ⟨by rw [hrs]; exact q1, by rw [hts]; exact q2,
              by simpa using h14⟩)⟩
    · left
      have h14 : ¬ w.testBit 14 = true := fun h => h12 (hclosed h)
      obtain ⟨k, hk⟩ := Nat.ne_zero_implies_bit_true hw0
      have hk13 : k = 13 := by
        by_contra hne
        by_cases hk15 : 15 ≤ k
        · rw [testBit_false_of_lt hw15 hk15] at hk
          exact absurd hk (by decide)
        · have hcases : k < 12 ∨ k = 12 ∨ k = 14 := by omega
          rcases hcases with h | h | h
          · rw [hlow k h] at hk; exact absurd hk (by decide)
          · subst h; exact h12 hk
          · subst h; exact h14 hk
      subst hk13
      refine ⟨13, by decide, ?_⟩
      have hnj := numJointsFor_of_pose A w hk
      have hnot : ¬ jointEntered w pe st (numJointsFor A w) (leadingEnc X A w pe st) :=
        fun h => h12 h.1
      rw [encodeBlocks_testBit, jointDataStep_not_entered _ _ _ _ _ _ _ _ _ _ _ _ _ _ hnot]
      have hsp : hasSpace pe (st + (leadingEnc X A w pe st).body.length)
          (1 + 2 * calcBitVectorSize (numJointsFor A w)) = true := by
        rw [hasSpace_iff, hbody, hnj]
        simp only [List.length_nil, minJointDataSize] at *
        omega
      rw [hsp, hk]
      simp

theorem setBits_le (a b : Nat) (h : ∀ k, k < 16 → a.testBit k = true → b.testBit k = true) :
    setBits a ≤ setBits b := by
  unfold setBits
  apply List.sum_le_sum
  intro k hk
  have hk' : k < 16 := by simpa using hk
  by_cases ha : a.testBit k = true
  · simp [ha, h k hk' ha]
  · have : a.testBit k = false := by simpa using ha
    simp only [this, Bool.false_eq_true, if_false]
    split <;> omega

theorem setBits_lt (a b : Nat) (h : ∀ k, k < 16 → a.testBit k = true → b.testBit k = true)
    (k0 : Nat) (hk0 : k0 < 16) (hb : b.testBit k0 = true) (ha : a.testBit k0 = false) :
    setBits a < setBits b := by
  unfold setBits
  apply List.sum_lt_sum
  · intro k hk
    have hk' : k < 16 := by simpa using hk
    by_cases ha' : a.testBit k = true
    · simp [ha', h k hk' ha']
    · have : a.testBit k = false := by simpa using ha'
      simp only [this, Bool.false_eq_true, if_false]
      split <;> omega
  · exact ⟨k0, by simpa using hk0, by simp [ha, hb]⟩

theorem closeFlags_testBit (w k : Nat) :
    (closeFlags w).testBit k = (w.testBit k || (decide (12 = k) && w.testBit 14)) := by
  unfold closeFlags
  rw [Nat.testBit_or]
  by_cases h : w.testBit 14 = true
  · rw [if_pos h, flag_testBit, h]; simp
  · have h0 : w.testBit 14 = false := by simpa using h
    rw [if_neg h, h0]; simp

theorem wantedFlagsFor_continuing (itemFlagsInit : Nat) (s : SendStatus) (hs : s.itemFlags ≠ 0) :
    wantedFlagsFor itemFlagsInit s = closeFlags s.itemFlags := by
  unfold wantedFlagsFor closeFlags
  rw [if_neg hs]
  rw [show PACKET_HAS_GRAB_JOINTS = 1 <<< 14 from rfl, show PACKET_HAS_JOINT_DATA = 1 <<< 12 from rfl]
  by_cases h : s.itemFlags.testBit 14 = true
  · rw [if_pos ((and_flag_ne_zero _ _).2 h), if_pos h]
  · rw [if_neg (fun hc => h ((and_flag_ne_zero _ _).1 hc)), if_neg h]
    simp

theorem eq_zero_of_testBit_false (n : Nat) (h : ∀ k, n.testBit k = false) : n = 0 := by
  by_contra hn
  obtain ⟨k, hk⟩ := Nat.ne_zero_implies_bit_true hn
  rw [h k] at hk
  exact absurd hk (by decide)

theorem toByteArray_step (X : Extern) (A : Avatar) (itemFlagsInit : Nat)
    (dataDetail : AvatarDataDetail) (last : List JointData) (s : SendStatus) (da : Bool)
    (v : Vec3) (maxDataSize : Nat)
    (hmax : maxDataSize = 0 ∨ MIN_BULK_PACKET_SIZE ≤ maxDataSize)
    (hd : dataDetail ≠ AvatarDataDetail.NoData)
    (hroom : startFor A s + largestNeed A ≤ packetEndFor A maxDataSize)
    (hw : wantedFlagsFor itemFlagsInit s < 2 ^ 15)
    (hrot : rotationsSentFor s ≤ A.getJointDataSizeOut)
    (htr : translationsSentFor s ≤ A.getJointDataSizeOut) :
    ∃ r, toByteArray X A itemFlagsInit dataDetail last s da v maxDataSize = some r ∧
      (∀ k, r.includedFlags.testBit k = true →
        (wantedFlagsFor itemFlagsInit s).testBit k = true) ∧
      (∀ k, k ≠ 12 → r.sendStatus.itemFlags.testBit k =
        ((wantedFlagsFor itemFlagsInit s).testBit k && !r.includedFlags.testBit k)) ∧
      r.sendStatus.sendUUID = s.sendUUID ∧
      (rotationsSentFor s ≤ r.sendStatus.rotationsSent ∧
        r.sendStatus.rotationsSent ≤ A.getJointDataSizeOut ∧
        translationsSentFor s ≤ r.sendStatus.translationsSent ∧
        r.sendStatus.translationsSent ≤ A.getJointDataSizeOut) ∧
      (rotationsWrittenOf r.joints =
          (List.range' (rotationsSentFor s)
            (r.sendStatus.rotationsSent - rotationsSentFor s)).filter
            (rotationSend X A last (decide (dataDetail = AvatarDataDetail.SendAllData))
              (decide (dataDetail = AvatarDataDetail.CullSmallData)) da v) ∧
        translationsWrittenOf r.joints =
          (List.range' (translationsSentFor s)
            (r.sendStatus.translationsSent - translationsSentFor s)).filter
            (translationSend X A last (decide (dataDetail = AvatarDataDetail.SendAllData))
              (decide (dataDetail = AvatarDataDetail.CullSmallData)) da v)) ∧
      ((wantedFlagsFor itemFlagsInit s).testBit 12 = true →
        r.includedFlags.testBit 12 = true ∨ r.sendStatus.itemFlags.testBit 12 = true) ∧
      (r.sendStatus.itemFlags.testBit 12 = false → r.includedFlags.testBit 12 = true →
        r.sendStatus.rotationsSent = A.getJointDataSizeOut ∧
        r.sendStatus.translationsSent = A.getJointDataSizeOut) ∧
      r.sendStatus.itemFlags < 2 ^ 15 ∧
      (r.sendStatus.itemFlags ≠ 0 →
        callsLeft A itemFlagsInit r.sendStatus < callsLeft A itemFlagsInit s) := by
  obtain ⟨r, hr, _, hf, hu, hrs, hts, _, hi, he, _, _, hj⟩ :=
    toByteArray_fields X A itemFlagsInit dataDetail last s da v maxDataSize hmax hd
  obtain ⟨r', hr', c1, c2, c3, c4, c5⟩ :=
    toByteArray_cursor X A itemFlagsInit dataDetail last s da v maxDataSize hmax hd
  rw [hr] at hr'
  have hrr : r' = r := (Option.some.inj hr').symm
  subst hrr
  have hsub : ∀ k, r'.includedFlags.testBit k = true →
      (wantedFlagsFor itemFlagsInit s).testBit k = true := by
    intro k hk
    rw [hi] at hk
    exact encodeBlocks_subset _ _ _ _ _ _ _ _ _ _ _ _ k hk
  have hextra : r'.extraReturnedFlags =
      if r'.includedFlags.testBit 12 = true ∧
        (r'.sendStatus.rotationsSent ≠ A.getJointDataSizeOut ∨
          r'.sendStatus.translationsSent ≠ A.getJointDataSizeOut) then 1 <<< 12 else 0 := by
    rw [he, hi, hrs, hts]
    exact encodeBlocks_extra _ _ _ _ _ _ _ _ _ _ _ _
  have hres : ∀ k, r'.sendStatus.itemFlags.testBit k =
      (decide (k < 16) && (((wantedFlagsFor itemFlagsInit s).testBit k &&
        !r'.includedFlags.testBit k) || r'.extraReturnedFlags.testBit k)) := by
    intro k
    rw [hf, residual_testBit, ← hi, ← he]
  have hextra_bit : ∀ k, r'.extraReturnedFlags.testBit k =
      (decide (12 = k) && decide (r'.includedFlags.testBit 12 = true ∧
        (r'.sendStatus.rotationsSent ≠ A.getJointDataSizeOut ∨
          r'.sendStatus.translationsSent ≠ A.getJointDataSizeOut))) := by
    intro k
    rw [hextra]
    split
    · rename_i h; rw [flag_testBit]; simp [h]
    · rename_i h; simp [h]
  have hw16 : ∀ k, 15 ≤ k → (wantedFlagsFor itemFlagsInit s).testBit k = false :=
    fun k hk => testBit_false_of_lt hw hk
  have hB : ∀ k, k ≠ 12 → r'.sendStatus.itemFlags.testBit k =
      ((wantedFlagsFor itemFlagsInit s).testBit k && !r'.includedFlags.testBit k) := by
    intro k hk
    rw [hres, hextra_bit]
    have h12 : decide (12 = k) = false := by simp; omega
    rw [h12]
    by_cases hk16 : k < 16
    · simp [hk16]
    · rw [hw16 k (by omega)]; simp
  have hD : r'.sendStatus.rotationsSent ≤ A.getJointDataSizeOut ∧
      r'.sendStatus.translationsSent ≤ A.getJointDataSizeOut := by
    by_cases h12 : r'.includedFlags.testBit 12 = true
    · have := c4 h12
      omega
    · have := c3 (by simpa using h12)
      omega
  have hE1 : rotationsWrittenOf r'.joints =
      (List.range' (rotationsSentFor s)
        (r'.sendStatus.rotationsSent - rotationsSentFor s)).filter
        (rotationSend X A last (decide (dataDetail = AvatarDataDetail.SendAllData))
          (decide (dataDetail = AvatarDataDetail.CullSmallData)) da v) ∧
      translationsWrittenOf r'.joints =
      (List.range' (translationsSentFor s)
        (r'.sendStatus.translationsSent - translationsSentFor s)).filter
        (translationSend X A last (decide (dataDetail = AvatarDataDetail.SendAllData))
          (decide (dataDetail = AvatarDataDetail.CullSmallData)) da v) := by
    cases hjs : r'.joints with
    | some js =>
      obtain ⟨_, e1, e2⟩ := c5 js hjs
      exact ⟨e1, e2⟩
    | none =>
      have h12 : r'.includedFlags.testBit 12 = false := by
        by_contra hc
        have hc' : r'.includedFlags.testBit 12 = true := by simpa using hc
        rw [hj, encodeBlocksFor, encodeBlocks_joints] at hjs
        rw [hi, encodeBlocksFor] at hc'
        rw [if_pos hc'] at hjs
        exact absurd hjs (by simp)
      obtain ⟨e1, e2, _⟩ := c3 h12
      rw [e1, e2]
      simp [rotationsWrittenOf, translationsWrittenOf]
  have hRw : ∀ k, r'.sendStatus.itemFlags.testBit k = true →
      (wantedFlagsFor itemFlagsInit s).testBit k = true := by
    intro k hk
    rw [hres, hextra_bit] at hk
    simp only [Bool.and_eq_true, Bool.or_eq_true, decide_eq_true_eq] at hk
    rcases hk.2 with h | h
    · exact h.1
    · have := h.1
      subst this
      exact hsub 12 h.2.1
  have hG : r'.sendStatus.itemFlags.testBit 12 = false → r'.includedFlags.testBit 12 = true →
      r'.sendStatus.rotationsSent = A.getJointDataSizeOut ∧
      r'.sendStatus.translationsSent = A.getJointDataSizeOut := by
    intro h1 h2
    rw [hres, hextra_bit] at h1
    simp only [h2, true_and, Bool.not_true, Bool.and_false, Bool.false_or, decide_True,
      Bool.true_and, decide_eq_false_iff_not, not_or, not_not, show (12 : Nat) < 16 by decide]
      at h1
    exact h1
  have hH : r'.sendStatus.itemFlags < 2 ^ 15 := by
    apply Nat.lt_pow_two_of_testBit
    intro k hk
    rw [hB k (by omega), hw16 k hk]
    rfl
  refine ⟨r', hr, hsub, hB, hu, ⟨c1, hD.1, c2, hD.2⟩, hE1, ?_, hG, hH, ?_⟩
  · intro h12
    by_cases hinc : r'.includedFlags.testBit 12 = true
    · exact Or.inl hinc
    · right
      rw [hres, h12]
      simp [hinc]
  · intro hne
    have hcont := wantedFlagsFor_continuing itemFlagsInit r'.sendStatus hne
    have hrf : rotationsSentFor r'.sendStatus = r'.sendStatus.rotationsSent := by
      simp [rotationsSentFor, hne]
    have htf : translationsSentFor r'.sendStatus = r'.sendStatus.translationsSent := by
      simp [translationsSentFor, hne]
    unfold callsLeft
    rw [hcont, hrf, htf]
    have hcc : ∀ k, (closeFlags (closeFlags r'.sendStatus.itemFlags)).testBit k =
        (r'.sendStatus.itemFlags.testBit k ||
          (decide (12 = k) && r'.sendStatus.itemFlags.testBit 14)) := by
      intro k
      rw [closeFlags_testBit, closeFlags_testBit, closeFlags_testBit]
      by_cases h : 12 = k
      · subst h; simp
      · simp [h]
    have hmono : ∀ k, k < 16 →
        (closeFlags (closeFlags r'.sendStatus.itemFlags)).testBit k = true →
        (closeFlags (wantedFlagsFor itemFlagsInit s)).testBit k = true := by
      intro k _ hk
      rw [hcc] at hk
      rw [closeFlags_testBit]
      simp only [Bool.or_eq_true, Bool.and_eq_true, decide_eq_true_eq] at hk ⊢
      rcases hk with h | h
      · exact Or.inl (hRw k h)
      · exact Or.inr ⟨h.1, hRw 14 h.2⟩
    have hind : (if (closeFlags r'.sendStatus.itemFlags).testBit 14 = true ∧
        (closeFlags r'.sendStatus.itemFlags).testBit 12 = false then 1 else 0) = 0 := by
      rw [if_neg]
      rw [closeFlags_testBit, closeFlags_testBit]
      intro hc
      obtain ⟨h1, h2⟩ := hc
      simp at h1 h2
      rw [h1] at h2
      exact absurd h2.2 (by decide)
    rw [hind]
    have hle := setBits_le _ _ hmono
    by_cases hopen : (wantedFlagsFor itemFlagsInit s).testBit 14 = true ∧
        (wantedFlagsFor itemFlagsInit s).testBit 12 = false
    · rw [if_pos hopen]
      omega
    · rw [if_neg hopen]
      have hclosed : (wantedFlagsFor itemFlagsInit s).testBit 14 = true →
          (wantedFlagsFor itemFlagsInit s).testBit 12 = true := by
        intro h14
        by_contra hc
        exact hopen ⟨h14, by simpa using hc⟩
      have hw0 : wantedFlagsFor itemFlagsInit s ≠ 0 := by
        intro h0
        apply hne
        apply eq_zero_of_testBit_false
        intro k
        by_contra hc
        have := hRw k (by simpa using hc)
        rw [h0] at this
        simp at this
      have hprog := encodeBlocks_progress X A last (rotationsSentFor s) (translationsSentFor s)
        (decide (dataDetail = AvatarDataDetail.SendAllData))
        (decide (dataDetail = AvatarDataDetail.CullSmallData)) da v
        (wantedFlagsFor itemFlagsInit s) (packetEndFor A maxDataSize) (startFor A s)
        hw hw0 hrot htr hroom hclosed
      rw [encodeBlocksFor] at hi hrs hts
      rw [← hi, ← hrs, ← hts] at hprog
      rcases hprog with ⟨k, hk12, hk⟩ | ⟨hinc, hcase⟩
      · have hwk := hsub k hk
        have hk15 : k < 15 := by
          by_contra hc
          rw [hw16 k (by omega)] at hwk
          exact absurd hwk (by decide)
        have hlt := setBits_lt _ _ hmono k (by omega)
          (by rw [closeFlags_testBit, hwk]; rfl)
          (by
            rw [hcc, hB k hk12, hk]
            have : decide (12 = k) = false := by simp; omega
            rw [this]
            simp)
        omega
      · rcases hcase with h | h | ⟨h1, h2, h3⟩
        · omega
        · omega
        · have hR12 : r'.sendStatus.itemFlags.testBit 12 = false := by
            rw [hres, hextra_bit, hinc]
            simp [h1, h2]
          have hR14 : r'.sendStatus.itemFlags.testBit 14 = false := by
            by_contra hc
            have := hRw 14 (by simpa using hc)
            rw [h3] at this
            exact absurd this (by decide)
          have hlt := setBits_lt _ _ hmono 12 (by decide)
            (by rw [closeFlags_testBit, hsub 12 hinc]; rfl)
            (by rw [hcc, hR12, hR14]; rfl)
          omega

/-! ## Draining an avatar by repeated calls -/

theorem closeFlags_lt (w : Nat) (h : w < 2 ^ 15) : closeFlags w < 2 ^ 15 := by
  apply Nat.lt_pow_two_of_testBit
  intro k hk
  rw [closeFlags_testBit, testBit_false_of_lt h hk]
  have : decide (12 = k) = false := by simp; omega
  rw [this]
  rfl

theorem range'_filter_append (f : Nat → Bool) (a b J : Nat) (hab : a ≤ b) (hb : b ≤ J) :
    (List.range' a (b - a)).filter f ++ (List.range' b (J - b)).filter f =
      (List.range' a (J - a)).filter f := by
  rw [← List.filter_append]
  congr 1
  have := List.range'_append_1 a (b - a) (J - b)
  rw [show a + (b - a) = b by omega, show J - b + (b - a) = J - a by omega] at this
  exact this

theorem encodeUntilDone_spec (X : Extern) (A : Avatar) (itemFlagsInit : Nat)
    (dataDetail : AvatarDataDetail) (last : List JointData) (da : Bool) (v : Vec3)
    (maxDataSize : Nat)
    (hmax : maxDataSize = 0 ∨ MIN_BULK_PACKET_SIZE ≤ maxDataSize)
    (hd : dataDetail ≠ AvatarDataDetail.NoData) :
    ∀ (n : Nat) (s : SendStatus), callsLeft A itemFlagsInit s < n →
      startFor A s + largestNeed A ≤ packetEndFor A maxDataSize →
      wantedFlagsFor itemFlagsInit s < 2 ^ 15 →
      rotationsSentFor s ≤ A.getJointDataSizeOut →
      translationsSentFor s ≤ A.getJointDataSizeOut →
      ∃ packets, encodeUntilDone X A itemFlagsInit dataDetail last da v maxDataSize n s =
          some packets ∧
        packets.length ≤ n ∧
        packets.getLast?.map (fun r => r.sendStatus.itemFlags) = some 0 ∧
        (∀ k, k ≠ 12 → (packets.filter (fun r => r.includedFlags.testBit k)).length =
          if (wantedFlagsFor itemFlagsInit s).testBit k = true then 1 else 0) ∧
        ((wantedFlagsFor itemFlagsInit s).testBit 12 = true ∨
            (rotationsSentFor s = A.getJointDataSizeOut ∧
              translationsSentFor s = A.getJointDataSizeOut) →
          (packets.map (fun r => rotationsWrittenOf r.joints)).flatten =
            (List.range' (rotationsSentFor s)
              (A.getJointDataSizeOut - rotationsSentFor s)).filter
              (rotationSend X A last (decide (dataDetail = AvatarDataDetail.SendAllData))
                (decide (dataDetail = AvatarDataDetail.CullSmallData)) da v) ∧
          (packets.map (fun r => translationsWrittenOf r.joints)).flatten =
            (List.range' (translationsSentFor s)
              (A.getJointDataSizeOut - translationsSentFor s)).filter
              (translationSend X A last (decide (dataDetail = AvatarDataDetail.SendAllData))
                (decide (dataDetail = AvatarDataDetail.CullSmallData)) da v)) ∧
        ((wantedFlagsFor itemFlagsInit s).testBit 12 = true →
          ∃ r ∈ packets, r.includedFlags.testBit 12 = true) := by
  intro n
  induction n with
  | zero => intro s h; exact absurd h (Nat.not_lt_zero _)
  | succ n ih =>
    intro s hlt hroom hw hrot htr
    obtain ⟨r, hr, hsub, hB, hu, ⟨d1, d2, d3, d4⟩, ⟨e1, e2⟩, hF, hG, hH, hI⟩ :=
      toByteArray_step X A itemFlagsInit dataDetail last s da v maxDataSize hmax hd hroom hw
        hrot htr
    by_cases hz : r.sendStatus.itemFlags = 0
    · refine ⟨[r], ?_, by simp, by simp [hz], ?_, ?_, ?_⟩
      · simp only [encodeUntilDone, hr, if_pos hz]
      · intro k hk
        have hb := hB k hk
        rw [hz, Nat.zero_testBit] at hb
        by_cases hinc : r.includedFlags.testBit k = true
        · simp [hinc, hsub k hinc]
        · have hinc0 : r.includedFlags.testBit k = false := by simpa using hinc
          rw [hinc0] at hb
          have hwk : (wantedFlagsFor itemFlagsInit s).testBit k = false := by
            simpa using hb.symm
          simp [hinc0, hwk]
      · intro hpre
        have hJ : r.sendStatus.rotationsSent = A.getJointDataSizeOut ∧
            r.sendStatus.translationsSent = A.getJointDataSizeOut := by
          rcases hpre with h12 | ⟨h1, h2⟩
          · rcases hF h12 with h | h
            · exact hG (by rw [hz]; simp) h
            · rw [hz] at h; simp at h
          · exact ⟨by omega, by omega⟩
        simp only [List.map_cons, List.map_nil, List.flatten_cons, List.flatten_nil,
          List.append_nil]
        rw [e1, e2, hJ.1, hJ.2]
        exact ⟨rfl, rfl⟩
      · intro h12
        rcases hF h12 with h | h
        · exact ⟨r, by simp, h⟩
        · rw [hz] at h; simp at h
    · have hcont := wantedFlagsFor_continuing itemFlagsInit r.sendStatus hz
      have hrf : rotationsSentFor r.sendStatus = r.sendStatus.rotationsSent := by
        simp [rotationsSentFor, hz]
      have htf : translationsSentFor r.sendStatus = r.sendStatus.translationsSent := by
        simp [translationsSentFor, hz]
      have hst : startFor A r.sendStatus = startFor A s := by
        simp [startFor, uuidBytesFor, hu]
      obtain ⟨rest, hrest, hlen, hlast, g1, g2, g3⟩ := ih r.sendStatus
        (by have := hI hz; omega) (by rw [hst]; exact hroom)
        (by rw [hcont]; exact closeFlags_lt _ hH) (by rw [hrf]; exact d2)
        (by rw [htf]; exact d4)
      have hne : rest ≠ [] := by
        intro h0
        rw [h0] at hlast
        simp at hlast
      refine ⟨r :: rest, ?_, by simp; omega, ?_, ?_, ?_, ?_⟩
      · simp only [encodeUntilDone, hr, if_neg hz, hrest, Option.map_some']
      · cases rest with
        | nil => exact absurd rfl hne
        | cons b l =>
          rw [List.getLast?_cons_cons]
          exact hlast
      · intro k hk
        have hb := hB k hk
        have hnext : (wantedFlagsFor itemFlagsInit r.sendStatus).testBit k =
            r.sendStatus.itemFlags.testBit k := by
          rw [hcont, closeFlags_testBit]
          have : decide (12 = k) = false := by simp; omega
          rw [this]
          simp
        rw [List.filter_cons]
        by_cases hinc : r.includedFlags.testBit k = true
        · rw [if_pos hinc, List.length_cons, g1 k hk, hnext, hb, hinc, hsub k hinc]
          simp
        · have hinc0 : r.includedFlags.testBit k = false := by simpa using hinc
          rw [if_neg hinc, g1 k hk, hnext, hb, hinc0]
          simp
      · intro hpre
        have hpre' : (wantedFlagsFor itemFlagsInit r.sendStatus).testBit 12 = true ∨
            (rotationsSentFor r.sendStatus = A.getJointDataSizeOut ∧
              translationsSentFor r.sendStatus = A.getJointDataSizeOut) := by
          rw [hrf, htf]
          rcases hpre with h12 | ⟨h1, h2⟩
          · by_cases hR : r.sendStatus.itemFlags.testBit 12 = true
            · left
              rw [hcont, closeFlags_testBit, hR]
              rfl
            · right
              have hR0 : r.sendStatus.itemFlags.testBit 12 = false := by simpa using hR
              rcases hF h12 with h | h
              · exact hG hR0 h
              · exact absurd h hR
          · exact Or.inr ⟨by omega, by omega⟩
        obtain ⟨q1, q2⟩ := g2 hpre'
        simp only [List.map_cons, List.flatten_cons]
        rw [q1, q2, e1, e2, hrf, htf]
        exact ⟨range'_filter_append _ _ _ _ d1 d2, range'_filter_append _ _ _ _ d3 d4⟩
      · intro h12
        rcases hF h12 with h | h
        · exact ⟨r, by simp, h⟩
        · obtain ⟨r2, hr2, hr2b⟩ := g3 (by rw [hcont, closeFlags_testBit, h]; rfl)
          exact ⟨r2, List.mem_cons_of_mem _ hr2, hr2b⟩

/-! ## C6: repeated calls -/

theorem setBits_le_16 (w : Nat) : setBits w ≤ 16 := by
  unfold setBits
  have h := List.sum_le_card_nsmul ((List.range 16).map
    (fun k => if w.testBit k = true then 1 else 0)) 1 (by
      intro x hx
      simp only [List.mem_map] at hx
      obtain ⟨k, _, hk⟩ := hx
      rw [← hk]
      split <;> omega)
  simpa using h

theorem largestNeed_fits (A : Avatar) (s : SendStatus) :
    startFor A s + largestNeed A ≤ byteArraySize A := by
  have h1 := startFor_le A s
  unfold largestNeed byteArraySize
  simp only [MAX_CONSTANT_HEADER_SIZE, HEADER_SIZE, AVATAR_GLOBAL_POSITION_SIZE,
    AVATAR_BOUNDING_BOX_SIZE, AVATAR_ORIENTATION_SIZE, AVATAR_SCALE_SIZE, LOOK_AT_POSITION_SIZE,
    AUDIO_LOUDNESS_SIZE, SENSOR_TO_WORLD_SIZE, ADDITIONAL_FLAGS_SIZE, PARENT_INFO_SIZE,
    AVATAR_LOCAL_POSITION_SIZE, HAND_CONTROLLERS_SIZE, NUM_BYTES_RFC4122_UUID,
    maxFaceTrackerInfoSize, maxJointDataSize, maxJointDefaultPoseFlagsSize, FAR_GRAB_JOINTS_SIZE,
    faceTrackerSpace, minJointDataSize, minSizeForJoint, SIX_BYTE_QUAT_SIZE,
    FACE_TRACKER_INFO_SIZE, MIN_BULK_PACKET_SIZE] at *
  omega

theorem encodeUntilDone_fresh (X : Extern) (A : Avatar) (itemFlagsInit : Nat)
    (dataDetail : AvatarDataDetail) (last : List JointData) (s : SendStatus) (da : Bool)
    (v : Vec3) (maxDataSize : Nat)
    (hd : dataDetail ≠ AvatarDataDetail.NoData) (hfresh : s.itemFlags = 0)
    (hinit : itemFlagsInit < 2 ^ 15)
    (hroom : maxDataSize = 0 ∨ startFor A s + largestNeed A ≤ maxDataSize) :
    ∃ packets, encodeUntilDone X A itemFlagsInit dataDetail last da v maxDataSize
        (18 + 2 * A.getJointDataSizeOut) s = some packets ∧
      packets.length ≤ 18 + 2 * A.getJointDataSizeOut ∧
      packets.getLast?.map (fun r => r.sendStatus.itemFlags) = some 0 ∧
      (∀ k, k ≠ 12 → (packets.filter (fun r => r.includedFlags.testBit k)).length =
        if itemFlagsInit.testBit k = true then 1 else 0) ∧
      (itemFlagsInit.testBit 12 = true →
        (∃ r ∈ packets, r.includedFlags.testBit 12 = true) ∧
        (packets.map (fun r => rotationsWrittenOf r.joints)).flatten =
          (List.range' 0 A.getJointDataSizeOut).filter
            (rotationSend X A last (decide (dataDetail = AvatarDataDetail.SendAllData))
              (decide (dataDetail = AvatarDataDetail.CullSmallData)) da v) ∧
        (packets.map (fun r => translationsWrittenOf r.joints)).flatten =
          (List.range' 0 A.getJointDataSizeOut).filter
            (translationSend X A last (decide (dataDetail = AvatarDataDetail.SendAllData))
              (decide (dataDetail = AvatarDataDetail.CullSmallData)) da v)) := by
  have hw : wantedFlagsFor itemFlagsInit s = itemFlagsInit := by
    unfold wantedFlagsFor
    rw [if_pos hfresh]
    exact Nat.mod_eq_of_lt (lt_trans hinit (by decide))
  have hr0 : rotationsSentFor s = 0 := by simp [rotationsSentFor, hfresh]
  have ht0 : translationsSentFor s = 0 := by simp [translationsSentFor, hfresh]
  have hneed : 84 ≤ largestNeed A := by
    have : minJointDataSize A.getJointDataSizeOut + FAR_GRAB_JOINTS_SIZE ≤ largestNeed A :=
      le_trans (le_max_left _ _) (le_max_right _ _)
    simp only [FAR_GRAB_JOINTS_SIZE] at this
    omega
  have hmax : maxDataSize = 0 ∨ MIN_BULK_PACKET_SIZE ≤ maxDataSize := by
    rcases hroom with h | h
    · exact Or.inl h
    · right
      simp only [MIN_BULK_PACKET_SIZE, NUM_BYTES_RFC4122_UUID, HEADER_SIZE]
      omega
  have hroom' : startFor A s + largestNeed A ≤ packetEndFor A maxDataSize := by
    unfold packetEndFor
    by_cases h0 : maxDataSize = 0
    · rw [if_pos h0]; exact largestNeed_fits A s
    · rw [if_neg h0]
      rcases hroom with h | h
      · exact absurd h h0
      · exact h
  have hcalls : callsLeft A itemFlagsInit s < 18 + 2 * A.getJointDataSizeOut := by
    unfold callsLeft
    rw [hr0, ht0]
    have := setBits_le_16 (closeFlags (wantedFlagsFor itemFlagsInit s))
    split <;> omega
  obtain ⟨packets, h1, h2, h3, h4, h5, h6⟩ := encodeUntilDone_spec X A itemFlagsInit dataDetail
    last da v maxDataSize hmax hd (18 + 2 * A.getJointDataSizeOut) s hcalls hroom'
    (by rw [hw]; exact hinit) (by rw [hr0]; exact Nat.zero_le _) (by rw [ht0]; exact Nat.zero_le _)
  rw [hw] at h4 h5 h6
  rw [hr0, ht0] at h5
  refine ⟨packets, h1, h2, h3, h4, ?_⟩
  intro h12
  obtain ⟨q1, q2⟩ := h5 (Or.inl h12)
  exact ⟨h6 h12, q1, q2⟩

/-- The amended C6. Let the detail level be other than `NoData`, the wanted set hold only the
bits 0 to 14, the send status be fresh (`itemFlags = 0`), and `maxDataSize` be 0 or leave, after
the session id and the mask, the room `largestNeed` that the largest block asks for when it comes
first. Then calling `toByteArray` again and again with the returned status, the avatar unchanged,
reaches `itemFlags = 0` within `18 + 2 J` calls, none of which aborts; every section wanted at
the start other than the joint data is in the mask of exactly one of the packets, and no other
such section is in any mask; and when the joint data is wanted, its section is in at least one
packet, and the rotations written by the packets, one after the other, are exactly the joints
`0 .. J - 1` that pass the rotation test, each once and in order, and the same for the
translations. -/
theorem C6_repeated_encode_amended (X : Extern) (A : Avatar) (itemFlagsInit : Nat)
    (dataDetail : AvatarDataDetail) (lastSentJointData : List JointData)
    (sendStatus : SendStatus) (distanceAdjust : Bool) (viewerPosition : Vec3)
    (maxDataSize : Nat)
    (hd : dataDetail ≠ AvatarDataDetail.NoData) (hfresh : sendStatus.itemFlags = 0)
    (hinit : itemFlagsInit < 2 ^ 15)
    (hroom : maxDataSize = 0 ∨ startFor A sendStatus + largestNeed A ≤ maxDataSize) :
    ∃ packets, encodeUntilDone X A itemFlagsInit dataDetail lastSentJointData distanceAdjust
        viewerPosition maxDataSize (18 + 2 * A.getJointDataSizeOut) sendStatus = some packets ∧
      packets.length ≤ 18 + 2 * A.getJointDataSizeOut ∧
      packets.getLast?.map (fun r => r.sendStatus.itemFlags) = some 0 ∧
      (∀ k, k ≠ 12 → (packets.filter (fun r => r.includedFlags.testBit k)).length =
        if itemFlagsInit.testBit k = true then 1 else 0) ∧
      (itemFlagsInit.testBit 12 = true →
        (∃ r ∈ packets, r.includedFlags.testBit 12 = true) ∧
        (packets.map (fun r => rotationsWrittenOf r.joints)).flatten =
          (List.range' 0 A.getJointDataSizeOut).filter
            (rotationSend X A lastSentJointData
              (decide (dataDetail = AvatarDataDetail.SendAllData))
              (decide (dataDetail = AvatarDataDetail.CullSmallData)) distanceAdjust
              viewerPosition) ∧
        (packets.map (fun r => translationsWrittenOf r.joints)).flatten =
          (List.range' 0 A.getJointDataSizeOut).filter
            (translationSend X A lastSentJointData
              (decide (dataDetail = AvatarDataDetail.SendAllData))
              (decide (dataDetail = AvatarDataDetail.CullSmallData)) distanceAdjust
              viewerPosition)) :=
  encodeUntilDone_fresh X A itemFlagsInit dataDetail lastSentJointData sendStatus distanceAdjust
    viewerPosition maxDataSize hd hfresh hinit hroom

theorem C6_amended_witness :
    AvatarDataDetail.SendAllData ≠ AvatarDataDetail.NoData ∧ freshStatus.itemFlags = 0 ∧
    (0x7FFF : Nat) < 2 ^ 15 ∧
    ((120 : Nat) = 0 ∨ startFor (sampleAvatar 40) freshStatus + largestNeed (sampleAvatar 40) ≤ 120) ∧
    ∃ packets, encodeUntilDone sampleExtern (sampleAvatar 40) 0x7FFF AvatarDataDetail.SendAllData
        [] false default 120 (18 + 2 * (sampleAvatar 40).getJointDataSizeOut) freshStatus =
          some packets ∧
      packets.length ≤ 18 + 2 * (sampleAvatar 40).getJointDataSizeOut ∧
      packets.getLast?.map (fun r => r.sendStatus.itemFlags) = some 0 ∧
      (∀ k, k ≠ 12 → (packets.filter (fun r => r.includedFlags.testBit k)).length =
        if (0x7FFF : Nat).testBit k = true then 1 else 0) ∧
      ((0x7FFF : Nat).testBit 12 = true →
        (∃ r ∈ packets, r.includedFlags.testBit 12 = true) ∧
        (packets.map (fun r => rotationsWrittenOf r.joints)).flatten =
          (List.range' 0 (sampleAvatar 40).getJointDataSizeOut).filter
            (rotationSend sampleExtern (sampleAvatar 40) []
              (decide (AvatarDataDetail.SendAllData = AvatarDataDetail.SendAllData))
              (decide (AvatarDataDetail.SendAllData = AvatarDataDetail.CullSmallData)) false
              default) ∧
        (packets.map (fun r => translationsWrittenOf r.joints)).flatten =
          (List.range' 0 (sampleAvatar 40).getJointDataSizeOut).filter
            (translationSend sampleExtern (sampleAvatar 40) []
              (decide (AvatarDataDetail.SendAllData = AvatarDataDetail.SendAllData))
              (decide (AvatarDataDetail.SendAllData = AvatarDataDetail.CullSmallData)) false
              default)) :=
  ⟨by decide, rfl, by decide, by decide,
    C6_repeated_encode_amended sampleExtern (sampleAvatar 40) 0x7FFF AvatarDataDetail.SendAllData
      [] freshStatus false default 120 (by decide) rfl (by decide) (by decide)⟩

/-- C6 fails as stated. With `maxDataSize = 25`, which is not below `MIN_BULK_PACKET_SIZE`, no
session id, and the bounding box wanted: the section takes 24 bytes and 23 are left after the
mask, so the first call writes a packet with an empty mask and returns `itemFlags = 2`; a call
that starts from that status returns the same status; hence no number of calls reaches
`itemFlags = 0`, although no call aborts. -/
theorem C6_counterexample :
    MIN_BULK_PACKET_SIZE ≤ 25 ∧
    (toByteArray sampleExtern (sampleAvatar 0) 2 AvatarDataDetail.SendAllData [] freshStatus
      false default 25).map (fun r => (r.includedFlags, r.sendStatus)) =
        some (0, stuckStatus) ∧
    (toByteArray sampleExtern (sampleAvatar 0) 2 AvatarDataDetail.SendAllData [] stuckStatus
      false default 25).map (fun r => (r.includedFlags, r.sendStatus)) =
        some (0, stuckStatus) ∧
    ∀ fuel, encodeUntilDone sampleExtern (sampleAvatar 0) 2 AvatarDataDetail.SendAllData []
      false default 25 fuel freshStatus = none := by
  have h1 : (toByteArray sampleExtern (sampleAvatar 0) 2 AvatarDataDetail.SendAllData []
      freshStatus false default 25).map (fun r => (r.includedFlags, r.sendStatus)) =
        some (0, stuckStatus) := by decide
  have h2 : (toByteArray sampleExtern (sampleAvatar 0) 2 AvatarDataDetail.SendAllData []
      stuckStatus false default 25).map (fun r => (r.includedFlags, r.sendStatus)) =
        some (0, stuckStatus) := by decide
  have hstuck : ∀ fuel, encodeUntilDone sampleExtern (sampleAvatar 0) 2
      AvatarDataDetail.SendAllData [] false default 25 fuel stuckStatus = none := by
    intro fuel
    induction fuel with
    | zero => rfl
    | succ n ih =>
      obtain ⟨r, hr, hrs⟩ := Option.map_eq_some'.1 h2
      have hs : r.sendStatus = stuckStatus := congrArg Prod.snd hrs
      simp only [encodeUntilDone, hr, hs, ih]
      rfl
  refine ⟨by decide, h1, h2, ?_⟩
  intro fuel
  cases fuel with
  | zero => rfl
  | succ n =>
    obtain ⟨r, hr, hrs⟩ := Option.map_eq_some'.1 h1
    have hs : r.sendStatus = stuckStatus := congrArg Prod.snd hrs
    simp only [encodeUntilDone, hr, hs, hstuck n]
    rfl

/-! ## C11 and C12: the layout of a packet -/

theorem toByteArray_layout (X : Extern) (A : Avatar) (itemFlagsInit : Nat)
    (dataDetail : AvatarDataDetail) (last : List JointData) (s : SendStatus) (da : Bool)
    (v : Vec3) (maxDataSize : Nat)
    (hmax : maxDataSize = 0 ∨ MIN_BULK_PACKET_SIZE ≤ maxDataSize)
    (hd : dataDetail ≠ AvatarDataDetail.NoData) :
    ∃ r, toByteArray X A itemFlagsInit dataDetail last s da v maxDataSize = some r ∧
      r.includedFlags < 2 ^ 15 ∧
      r.bytes = uuidBytesFor A s ++ leBytes HEADER_SIZE r.includedFlags ++
        sectionsBody r.includedFlags (leadingSections X A) 0 ++ jointPart A r.joints ++
        grabPart A r.includedFlags ++
        defaultPosePart A r.includedFlags A.getJointDataSizeOut ∧
      r.joints.isSome = r.includedFlags.testBit 12 ∧
      (r.includedFlags.testBit 14 = true → r.includedFlags.testBit 12 = true) ∧
      ∀ js, r.joints = some js →
        js.rotationValidity.length = calcBitVectorSize A.getJointDataSizeOut ∧
        js.translationValidity.length = calcBitVectorSize A.getJointDataSizeOut ∧
        js.rotationBlock = packAll (rotationBytes X A) js.rotationsWritten ∧
        js.translationBlock =
          packAll (translationBytes X A js.maxTranslationDimension) js.translationsWritten := by
  obtain ⟨r, hr, hb, _, _, _, _, hw, hi, _, _, _, hj⟩ :=
    toByteArray_fields X A itemFlagsInit dataDetail last s da v maxDataSize hmax hd
  unfold encodeBlocksFor at hb hi hj
  have hbody := encodeBlocks_body X A last (rotationsSentFor s) (translationsSentFor s)
    (decide (dataDetail = AvatarDataDetail.SendAllData))
    (decide (dataDetail = AvatarDataDetail.CullSmallData)) da v
    (wantedFlagsFor itemFlagsInit s) (packetEndFor A maxDataSize) (startFor A s)
  have hjoints := encodeBlocks_joints X A last (rotationsSentFor s) (translationsSentFor s)
    (decide (dataDetail = AvatarDataDetail.SendAllData))
    (decide (dataDetail = AvatarDataDetail.CullSmallData)) da v
    (wantedFlagsFor itemFlagsInit s) (packetEndFor A maxDataSize) (startFor A s)
  have hlt := encodeBlocks_lt X A last (rotationsSentFor s) (translationsSentFor s)
    (decide (dataDetail = AvatarDataDetail.SendAllData))
    (decide (dataDetail = AvatarDataDetail.CullSmallData)) da v
    (wantedFlagsFor itemFlagsInit s) (packetEndFor A maxDataSize) (startFor A s)
  have h14 := encodeBlocks_grab_joint X A last (rotationsSentFor s) (translationsSentFor s)
    (decide (dataDetail = AvatarDataDetail.SendAllData))
    (decide (dataDetail = AvatarDataDetail.CullSmallData)) da v
    (wantedFlagsFor itemFlagsInit s) (packetEndFor A maxDataSize) (startFor A s)
  have h13 := encodeBlocks_subset X A last (rotationsSentFor s) (translationsSentFor s)
    (decide (dataDetail = AvatarDataDetail.SendAllData))
    (decide (dataDetail = AvatarDataDetail.CullSmallData)) da v
    (wantedFlagsFor itemFlagsInit s) (packetEndFor A maxDataSize) (startFor A s) 13
  have hlead := leadingEnc_body X A (wantedFlagsFor itemFlagsInit s) (packetEndFor A maxDataSize)
    (startFor A s)
  rw [sectionsBody_congr _ (encodeBlocks X A last (rotationsSentFor s) (translationsSentFor s)
    (decide (dataDetail = AvatarDataDetail.SendAllData))
    (decide (dataDetail = AvatarDataDetail.CullSmallData)) da v
    (wantedFlagsFor itemFlagsInit s) (packetEndFor A maxDataSize)
    (startFor A s)).enc.includedFlags _ 0
    (fun j _ hj2 => (encodeBlocks_testBit_low X A last (rotationsSentFor s)
      (translationsSentFor s) (decide (dataDetail = AvatarDataDetail.SendAllData))
      (decide (dataDetail = AvatarDataDetail.CullSmallData)) da v
      (wantedFlagsFor itemFlagsInit s) (packetEndFor A maxDataSize) (startFor A s) j
      (by simpa [leadingSections] using hj2)).symm)] at hlead
  have hspec := jointDataSection_spec X A last (rotationsSentFor s) (translationsSentFor s)
    (decide (dataDetail = AvatarDataDetail.SendAllData))
    (decide (dataDetail = AvatarDataDetail.CullSmallData)) da v (packetEndFor A maxDataSize)
    A.getJointDataSizeOut
    (startFor A s + (leadingEnc X A (wantedFlagsFor itemFlagsInit s) (packetEndFor A maxDataSize)
      (startFor A s)).body.length)
  generalize jointDataSection X A last (rotationsSentFor s) (translationsSentFor s)
    (decide (dataDetail = AvatarDataDetail.SendAllData))
    (decide (dataDetail = AvatarDataDetail.CullSmallData)) da v (packetEndFor A maxDataSize)
    A.getJointDataSizeOut
    (startFor A s + (leadingEnc X A (wantedFlagsFor itemFlagsInit s) (packetEndFor A maxDataSize)
      (startFor A s)).body.length) = js0 at hbody hjoints hspec
  rw [hlead] at hbody
  generalize encodeBlocks X A last (rotationsSentFor s) (translationsSentFor s)
    (decide (dataDetail = AvatarDataDetail.SendAllData))
    (decide (dataDetail = AvatarDataDetail.CullSmallData)) da v
    (wantedFlagsFor itemFlagsInit s) (packetEndFor A maxDataSize) (startFor A s) = j at *
  rw [← hi] at hbody hjoints hlt h14 h13 hb
  rw [← hj] at hjoints
  obtain ⟨s1, s2, s3, _, s5, _, _, s8, _⟩ := hspec
  refine ⟨r, hr, hlt, ?_, ?_, h14, ?_⟩
  · rw [hb, hbody, hjoints]
    by_cases b12 : r.includedFlags.testBit 12 = true
    · simp only [b12, if_true, jointPart]
      rw [s1]
      by_cases b13 : r.includedFlags.testBit 13 = true
      · simp [defaultPosePart, b13, numJointsFor_of_pose A _ (h13 b13)]
      · simp [defaultPosePart, b13]
    · simp only [b12, if_false, jointPart, Bool.false_eq_true]
      by_cases b13 : r.includedFlags.testBit 13 = true
      · simp [defaultPosePart, b13, numJointsFor_of_pose A _ (h13 b13)]
      · simp [defaultPosePart, b13]
  · rw [hjoints]
    by_cases b12 : r.includedFlags.testBit 12 = true
    · simp [b12]
    · simp [b12]
  · intro js hjs
    rw [hjoints] at hjs
    by_cases b12 : r.includedFlags.testBit 12 = true
    · rw [if_pos b12] at hjs
      have : js0 = js := Option.some.inj hjs
      subst this
      exact ⟨s2, s3, s5, s8⟩
    · rw [if_neg b12] at hjs
      exact absurd hjs (by simp)

theorem sectionsBody_length (m : Nat) (l : List (Nat × Nat × List Nat)) (b : Nat)
    (hlen : ∀ s ∈ l, s.2.2.length = s.2.1) :
    (sectionsBody m l b).length = sectionsOffset m (l.map (fun s => s.2.1)) b l.length := by
  induction l generalizing b with
  | nil => simp [sectionsBody, sectionsOffset]
  | cons s rest ih =>
    simp only [sectionsBody, List.map_cons, List.length_cons, sectionsOffset, List.length_append]
    rw [ih (b + 1) (fun t ht => hlen t (List.mem_cons_of_mem _ ht))]
    congr 1
    split
    · exact hlen s (List.mem_cons_self _ _)
    · rfl

theorem sectionsOffset_snoc (m : Nat) (l : List Nat) (x b : Nat) :
    sectionsOffset m (l ++ [x]) b (l.length + 1) =
      sectionsOffset m l b l.length + (if m.testBit (b + l.length) = true then x else 0) := by
  induction l generalizing b with
  | nil => simp [sectionsOffset]
  | cons a rest ih =>
    simp only [List.cons_append, List.length_cons, sectionsOffset, List.append_eq]
    rw [ih (b + 1)]
    rw [show b + 1 + rest.length = b + (rest.length + 1) by omega]
    omega

theorem leadingBody_length (X : Extern) (A : Avatar) (m : Nat) :
    (sectionsBody m (leadingSections X A) 0).length =
      sectionsOffset m fixedSectionSizes 0 11 +
        (if m.testBit 11 = true then
          FACE_TRACKER_INFO_SIZE + 4 * A.faceTracker.blendshapeCoefficients.length
        else 0) := by
  rw [sectionsBody_length m _ 0 (leadingSections_length X A)]
  have hsizes : (leadingSections X A).map (fun s => s.2.1) =
      fixedSectionSizes ++ [faceTrackerSpace A] := rfl
  have h11 : fixedSectionSizes.length = 11 := rfl
  have h12 : (leadingSections X A).length = fixedSectionSizes.length + 1 := rfl
  rw [hsizes, h12, sectionsOffset_snoc, h11]
  simp only [Nat.zero_add, faceTrackerSpace]
  rw [Nat.mul_comm]

/-- C11. In every packet produced with a detail level other than `NoData`, the bytes before the
mask are the session id (16 bytes when `sendUUID`, none otherwise), the two bytes that follow are
the little-endian included mask, and the length of the packet is that of the session id, plus 2,
plus the wire sizes of exactly the sections whose bits are in the mask: the eleven fixed sizes,
the face tracker header and four bytes per coefficient, `1 + 2 ⌈J/8⌉ + 4 + 6 (rotations written +
translations written)` for the joint data, `1 + 2 ⌈J/8⌉` for the default pose flags and 84 for
the far-grab joints. -/
theorem C11_packet_length (X : Extern) (A : Avatar) (itemFlagsInit : Nat)
    (dataDetail : AvatarDataDetail) (lastSentJointData : List JointData)
    (sendStatus : SendStatus) (distanceAdjust : Bool) (viewerPosition : Vec3)
    (maxDataSize : Nat)
    (hmax : maxDataSize = 0 ∨ MIN_BULK_PACKET_SIZE ≤ maxDataSize)
    (hd : dataDetail ≠ AvatarDataDetail.NoData) :
    ∃ r, toByteArray X A itemFlagsInit dataDetail lastSentJointData sendStatus distanceAdjust
        viewerPosition maxDataSize = some r ∧
      r.bytes.take (if sendStatus.sendUUID = true then 16 else 0) =
        (if sendStatus.sendUUID = true then sessionUUIDBytes A else []) ∧
      readBytes r.bytes (if sendStatus.sendUUID = true then 16 else 0) 2 =
        leBytes 2 r.includedFlags ∧
      r.includedFlags < 2 ^ 16 ∧
      fixedSectionSizes = [12, 24, 6, 2, 12, 1, 20, 2, 18, 12, 24] ∧
      r.bytes.length =
        (if sendStatus.sendUUID = true then 16 else 0) + 2 +
          sectionsOffset r.includedFlags fixedSectionSizes 0 11 +
          (if r.includedFlags.testBit 11 = true then
            FACE_TRACKER_INFO_SIZE + 4 * A.faceTracker.blendshapeCoefficients.length else 0) +
          (if r.includedFlags.testBit 12 = true then
            1 + 2 * calcBitVectorSize A.getJointDataSizeOut + 4 +
              6 * ((rotationsWrittenOf r.joints).length + (translationsWrittenOf r.joints).length)
            else 0) +
          (if r.includedFlags.testBit 13 = true then
            1 + 2 * calcBitVectorSize A.getJointDataSizeOut else 0) +
          (if r.includedFlags.testBit 14 = true then FAR_GRAB_JOINTS_SIZE else 0) := by
  obtain ⟨r, hr, hlt, hb, hsome, _, hjs⟩ := toByteArray_layout X A itemFlagsInit dataDetail
    lastSentJointData sendStatus distanceAdjust viewerPosition maxDataSize hmax hd
  have hu : (uuidBytesFor A sendStatus).length = (if sendStatus.sendUUID = true then 16 else 0) := by
    unfold uuidBytesFor sessionUUIDBytes
    split <;> simp [NUM_BYTES_RFC4122_UUID]
  have hu2 : uuidBytesFor A sendStatus =
      (if sendStatus.sendUUID = true then sessionUUIDBytes A else []) := rfl
  refine ⟨r, hr, ?_, ?_, lt_trans hlt (by decide), rfl, ?_⟩
  · rw [hb, ← hu, ← hu2]
    simp [List.append_assoc]
  · rw [hb, ← hu]
    have := readBytes_append_mid (uuidBytesFor A sendStatus)
      (leBytes HEADER_SIZE r.includedFlags)
      (sectionsBody r.includedFlags (leadingSections X A) 0 ++ jointPart A r.joints ++
        grabPart A r.includedFlags ++ defaultPosePart A r.includedFlags A.getJointDataSizeOut)
    simp only [leBytes_length, HEADER_SIZE, ← List.append_assoc] at this ⊢
    exact this
  · rw [hb]
    simp only [List.length_append, hu, leBytes_length, HEADER_SIZE, leadingBody_length]
    have hjp : (jointPart A r.joints).length =
        (if r.includedFlags.testBit 12 = true then
          1 + 2 * calcBitVectorSize A.getJointDataSizeOut + 4 +
            6 * ((rotationsWrittenOf r.joints).length + (translationsWrittenOf r.joints).length)
          else 0) := by
      cases hjo : r.joints with
      | none =>
        rw [hjo] at hsome
        rw [← hsome]
        simp [jointPart]
      | some js =>
        rw [hjo] at hsome
        obtain ⟨q1, q2, q3, q4⟩ := hjs js hjo
        rw [← hsome]
        simp only [Option.isSome_some, if_true, jointPart, rotationsWrittenOf,
          translationsWrittenOf, List.length_append, List.length_singleton, leBytes_length, q1, q2]
        rw [q3, q4, packAll_length _ 6 (fun i => by simp [rotationBytes]),
          packAll_length _ 6 (fun i => by simp [translationBytes])]
        omega
    have hgp : (grabPart A r.includedFlags).length =
        (if r.includedFlags.testBit 14 = true then FAR_GRAB_JOINTS_SIZE else 0) := by
      unfold grabPart
      split <;> simp [farGrabJointsBytes_length, FAR_GRAB_JOINTS_SIZE]
    have hpp : (defaultPosePart A r.includedFlags A.getJointDataSizeOut).length =
        (if r.includedFlags.testBit 13 = true then
          1 + 2 * calcBitVectorSize A.getJointDataSizeOut else 0) := by
      unfold defaultPosePart
      split <;> simp
    rw [hjp, hgp, hpp]
    omega

theorem C11_witness :
    ((77 : Nat) = 0 ∨ MIN_BULK_PACKET_SIZE ≤ 77) ∧
    AvatarDataDetail.SendAllData ≠ AvatarDataDetail.NoData ∧
    ∃ r, toByteArray sampleExtern (sampleAvatar 40) 0x7FFF AvatarDataDetail.SendAllData []
        freshStatus false default 77 = some r ∧
      r.bytes.take (if freshStatus.sendUUID = true then 16 else 0) =
        (if freshStatus.sendUUID = true then sessionUUIDBytes (sampleAvatar 40) else []) ∧
      readBytes r.bytes (if freshStatus.sendUUID = true then 16 else 0) 2 =
        leBytes 2 r.includedFlags ∧
      r.includedFlags < 2 ^ 16 ∧
      fixedSectionSizes = [12, 24, 6, 2, 12, 1, 20, 2, 18, 12, 24] ∧
      r.bytes.length =
        (if freshStatus.sendUUID = true then 16 else 0) + 2 +
          sectionsOffset r.includedFlags fixedSectionSizes 0 11 +
          (if r.includedFlags.testBit 11 = true then
            FACE_TRACKER_INFO_SIZE +
              4 * (sampleAvatar 40).faceTracker.blendshapeCoefficients.length else 0) +
          (if r.includedFlags.testBit 12 = true then
            1 + 2 * calcBitVectorSize (sampleAvatar 40).getJointDataSizeOut + 4 +
              6 * ((rotationsWrittenOf r.joints).length + (translationsWrittenOf r.joints).length)
            else 0) +
          (if r.includedFlags.testBit 13 = true then
            1 + 2 * calcBitVectorSize (sampleAvatar 40).getJointDataSizeOut else 0) +
          (if r.includedFlags.testBit 14 = true then FAR_GRAB_JOINTS_SIZE else 0) :=
  ⟨by decide, by decide,
    C11_packet_length sampleExtern (sampleAvatar 40) 0x7FFF AvatarDataDetail.SendAllData []
      freshStatus false default 77 (by decide) (by decide)⟩

theorem sectionsBody_leadingPart (X : Extern) (A : Avatar) (m : Nat) :
    sectionsBody m (leadingSections X A) 0 = leadingPart X A m := by
  simp [sectionsBody, leadingSections, leadingPart, presentSection]

/-- C12, as amended. The sections of a packet appear in the order global position, bounding box,
orientation, scale, look-at position, audio loudness, sensor-to-world matrix, additional flags,
parent info, local position, hand controllers, face tracker, joint data, far-grab joints, default
pose flags; and the joint data section is the joint count, the rotation validity bits, all the
rotations written, the translation validity bits, the scale and then all the translations
written. -/
theorem C12_section_order_amended (X : Extern) (A : Avatar) (itemFlagsInit : Nat)
    (dataDetail : AvatarDataDetail) (lastSentJointData : List JointData)
    (sendStatus : SendStatus) (distanceAdjust : Bool) (viewerPosition : Vec3)
    (maxDataSize : Nat)
    (hmax : maxDataSize = 0 ∨ MIN_BULK_PACKET_SIZE ≤ maxDataSize)
    (hd : dataDetail ≠ AvatarDataDetail.NoData) :
    ∃ r, toByteArray X A itemFlagsInit dataDetail lastSentJointData sendStatus distanceAdjust
        viewerPosition maxDataSize = some r ∧
      r.bytes = uuidBytesFor A sendStatus ++ leBytes HEADER_SIZE r.includedFlags ++
        wireOrder X A r.includedFlags r.joints ∧
      ∀ js, r.joints = some js →
        jointPart A r.joints =
          [A.getJointDataSizeOut % 256] ++ js.rotationValidity ++
            packAll (rotationBytes X A) js.rotationsWritten ++
            js.translationValidity ++ leBytes 4 js.maxTranslationDimension ++
            packAll (translationBytes X A js.maxTranslationDimension) js.translationsWritten := by
  obtain ⟨r, hr, _, hb, _, _, hjs⟩ := toByteArray_layout X A itemFlagsInit dataDetail
    lastSentJointData sendStatus distanceAdjust viewerPosition maxDataSize hmax hd
  refine ⟨r, hr, ?_, ?_⟩
  · rw [hb, sectionsBody_leadingPart]
    simp [wireOrder, List.append_assoc]
  · intro js hjo
    obtain ⟨_, _, q3, q4⟩ := hjs js hjo
    rw [hjo]
    simp only [jointPart]
    rw [q3, q4]

theorem C12_amended_witness :
    ((0 : Nat) = 0 ∨ MIN_BULK_PACKET_SIZE ≤ 0) ∧
    AvatarDataDetail.SendAllData ≠ AvatarDataDetail.NoData ∧
    ∃ r, toByteArray sampleExtern grabAvatar 0x7000 AvatarDataDetail.SendAllData []
        freshStatus false default 0 = some r ∧
      r.bytes = uuidBytesFor grabAvatar freshStatus ++ leBytes HEADER_SIZE r.includedFlags ++
        wireOrder sampleExtern grabAvatar r.includedFlags r.joints ∧
      ∀ js, r.joints = some js →
        jointPart grabAvatar r.joints =
          [grabAvatar.getJointDataSizeOut % 256] ++ js.rotationValidity ++
            packAll (rotationBytes sampleExtern grabAvatar) js.rotationsWritten ++
            js.translationValidity ++ leBytes 4 js.maxTranslationDimension ++
            packAll (translationBytes sampleExtern grabAvatar js.maxTranslationDimension)
              js.translationsWritten :=
  ⟨by decide, by decide,
    C12_section_order_amended sampleExtern grabAvatar 0x7000 AvatarDataDetail.SendAllData []
      freshStatus false default 0 (by decide) (by decide)⟩

/-- C12, counterexample. The packet of an avatar with one joint, with the joint data, the default
pose flags and the far-grab joints wanted, has all three sections, and its bytes are not in the
order of the table: the 84 bytes of the far-grab joints come before the three bytes of the default
pose flags. -/
theorem C12_counterexample :
    ∃ r, toByteArray sampleExtern grabAvatar 0x7000 AvatarDataDetail.SendAllData []
        freshStatus false default 0 = some r ∧
      r.includedFlags = 0x7000 ∧
      r.bytes ≠ leBytes HEADER_SIZE r.includedFlags ++
        tableOrder sampleExtern grabAvatar r.includedFlags r.joints ∧
      r.bytes = leBytes HEADER_SIZE r.includedFlags ++
        wireOrder sampleExtern grabAvatar r.includedFlags r.joints ∧
      grabPart grabAvatar r.includedFlags = farGrabJointsBytes grabAvatar.farGrabJoints ∧
      defaultPosePart grabAvatar r.includedFlags 1 = [1, 0, 0] ∧
      r.bytes.drop (r.bytes.length - 3) = [1, 0, 0] := by
  refine ⟨_, rfl, ?_⟩
  decide

/-! ## C17, C14 and C16: the global position and the hand controllers -/

theorem packetEndFor_ge (A : Avatar) (maxDataSize : Nat)
    (hmax : maxDataSize = 0 ∨ MIN_BULK_PACKET_SIZE ≤ maxDataSize) :
    MIN_BULK_PACKET_SIZE ≤ packetEndFor A maxDataSize := by
  unfold packetEndFor
  split
  · simp only [byteArraySize, MAX_CONSTANT_HEADER_SIZE, MIN_BULK_PACKET_SIZE,
      NUM_BYTES_RFC4122_UUID, HEADER_SIZE]
    omega
  · rcases hmax with h | h
    · contradiction
    · exact h

/-- The packet of a call that wants the global position only, without a session id. -/
theorem toByteArray_globalPosition_only (X : Extern) (A : Avatar) (itemFlagsInit : Nat)
    (dataDetail : AvatarDataDetail) (last : List JointData) (s : SendStatus) (da : Bool)
    (v : Vec3) (maxDataSize : Nat)
    (hw : wantedFlagsFor itemFlagsInit s = PACKET_HAS_AVATAR_GLOBAL_POSITION)
    (hu : s.sendUUID = false)
    (hmax : maxDataSize = 0 ∨ MIN_BULK_PACKET_SIZE ≤ maxDataSize)
    (hd : dataDetail ≠ AvatarDataDetail.NoData) :
    ∃ r, toByteArray X A itemFlagsInit dataDetail last s da v maxDataSize = some r ∧
      r.includedFlags = 1 ∧ r.bytes = [1, 0] ++ A.globalPosition.bytes := by
  obtain ⟨r, hr, _, hb, hsome, _, _⟩ := toByteArray_layout X A itemFlagsInit dataDetail
    last s da v maxDataSize hmax hd
  obtain ⟨r2, hr2, -, -, -, -, -, -, hi, -⟩ := toByteArray_fields X A itemFlagsInit dataDetail
    last s da v maxDataSize hmax hd
  have hrr : r2 = r := Option.some.inj (hr2.symm.trans hr)
  subst hrr
  have hst : startFor A s = 2 := by
    simp [startFor, uuidBytesFor, hu, HEADER_SIZE]
  have hpe := packetEndFor_ge A maxDataSize hmax
  have hone : r2.includedFlags = 1 := by
    apply Nat.eq_of_testBit_eq
    intro i
    rw [hi]
    unfold encodeBlocksFor
    rw [hw]
    cases i with
    | zero =>
      rw [encodeBlocks_testBit_low _ _ _ _ _ _ _ _ _ _ _ _ _ (by omega)]
      have h0 := (leadingEnc_spec X A PACKET_HAS_AVATAR_GLOBAL_POSITION
        (packetEndFor A maxDataSize) (startFor A s)).2.2 0 (by omega)
      have hb0 : Nat.testBit 1 0 = true := by decide
      rw [hb0]
      apply h0.2
      refine ⟨by decide, ?_⟩
      have e0 : ∀ m, sectionsOffset m ((leadingSections X A).map (fun s => s.2.1)) 0 0 = 0 :=
        fun _ => rfl
      have e1 : ((leadingSections X A).map (fun s => s.2.1)).getD 0 0 = 12 := rfl
      rw [e0, e1, hst]
      simp only [MIN_BULK_PACKET_SIZE, NUM_BYTES_RFC4122_UUID, HEADER_SIZE] at hpe
      omega
    | succ k =>
      have hb1 : Nat.testBit 1 (k + 1) = false := by
        rw [show (1 : Nat) = 1 <<< 0 from rfl, flag_testBit]
        simp
      rw [hb1]
      by_contra hne
      have htrue := encodeBlocks_subset _ _ _ _ _ _ _ _ _ _ _ _ _ (by simpa using hne)
      rw [show PACKET_HAS_AVATAR_GLOBAL_POSITION = 1 from rfl, hb1] at htrue
      exact absurd htrue (by simp)
  refine ⟨r2, hr, hone, ?_⟩
  rw [hone] at hb hsome
  have hj : r2.joints = none := by
    cases hjo : r2.joints with
    | none => rfl
    | some js =>
      rw [hjo] at hsome
      simp only [Option.isSome_some] at hsome
      exact absurd hsome.symm (by decide)
  rw [hb, hj]
  have hlead : sectionsBody 1 (leadingSections X A) 0 = A.globalPosition.bytes := by
    rw [sectionsBody_leadingPart]
    simp [leadingPart, presentSection, globalPositionBytes, Nat.testBit_one_eq_true_iff_self_eq_zero]
  rw [hlead]
  simp [uuidBytesFor, hu, jointPart, grabPart, defaultPosePart, HEADER_SIZE, leBytes,
    Nat.testBit_one_eq_true_iff_self_eq_zero]

/-- The decoder on a packet that holds the global position only. -/
theorem parse_globalPosition_only (X : Extern) (p : Vec3)
    (hx : p.x < 2 ^ 32) (hy : p.y < 2 ^ 32) (hz : p.z < 2 ^ 32) :
    parseDataFromBuffer X ([1, 0] ++ p.bytes) =
      { events := [Event.setGlobalPositionIn p], result := 14 } := by
  have hl : p.bytes.length = 12 := by simp
  have hflags : packetStateFlags ([1, 0] ++ p.bytes) = 1 := by
    simp [packetStateFlags, readBytes, HEADER_SIZE, fromLE]
  have hv : readVec3 ([1, 0] ++ p.bytes) 2 = p := by
    have := readVec3_bytes [1, 0] [] p
    simp only [List.append_nil, List.length_cons, List.length_nil] at this
    rw [this]
    have e1 : p.x % 256 ^ 4 = p.x := Nat.mod_eq_of_lt (by norm_num at hx ⊢; exact hx)
    have e2 : p.y % 256 ^ 4 = p.y := Nat.mod_eq_of_lt (by norm_num at hy ⊢; exact hy)
    have e3 : p.z % 256 ^ 4 = p.z := Nat.mod_eq_of_lt (by norm_num at hz ⊢; exact hz)
    rw [e1, e2, e3]
  have hgp : parseGlobalPosition ([1, 0] ++ p.bytes) { pos := 2, events := [] } =
      Except.ok { pos := 14, events := [Event.setGlobalPositionIn p] } := by
    unfold parseGlobalPosition
    rw [check_bind_ok _ _ _ _ _ (by simp [AVATAR_GLOBAL_POSITION_SIZE])]
    simp only [pure, Except.pure, Dec.call, Dec.advance, hv, AVATAR_GLOBAL_POSITION_SIZE]
    rfl
  unfold parseDataFromBuffer parseSections
  rw [hflags]
  have hf0 : hasFlag 1 PACKET_HAS_AVATAR_GLOBAL_POSITION = true := by decide
  have hrun : runBlocks (parseBlocks X ([1, 0] ++ p.bytes) 1) { pos := HEADER_SIZE, events := [] } =
      Except.ok { pos := 14, events := [Event.setGlobalPositionIn p] } := by
    simp only [parseBlocks, runBlocks, whenFlag, hf0, if_true, HEADER_SIZE, hgp]
    simp +decide only [if_false, pure, Except.pure, Bool.false_eq_true]
  rw [hrun]

/-- C17. For every position `p` (three 32-bit float patterns): a call of the encoder that wants
the global position only, sends no session id, is not at detail `NoData` and has an admissible
`maxDataSize` yields exactly the 14 bytes `01 00` followed by the twelve little-endian bytes of
`p`; the decoder on these bytes calls `setGlobalPositionIn` with exactly `p`, calls no other sink
and no error callback, and returns 14. -/
theorem C17_global_position_round_trip (X : Extern) (A : Avatar) (itemFlagsInit : Nat)
    (dataDetail : AvatarDataDetail) (lastSentJointData : List JointData)
    (sendStatus : SendStatus) (distanceAdjust : Bool) (viewerPosition : Vec3)
    (maxDataSize : Nat) (p : Vec3)
    (hp : A.globalPosition = p)
    (hx : p.x < 2 ^ 32) (hy : p.y < 2 ^ 32) (hz : p.z < 2 ^ 32)
    (hw : wantedFlagsFor itemFlagsInit sendStatus = PACKET_HAS_AVATAR_GLOBAL_POSITION)
    (hu : sendStatus.sendUUID = false)
    (hmax : maxDataSize = 0 ∨ MIN_BULK_PACKET_SIZE ≤ maxDataSize)
    (hd : dataDetail ≠ AvatarDataDetail.NoData) :
    ∃ r, toByteArray X A itemFlagsInit dataDetail lastSentJointData sendStatus distanceAdjust
        viewerPosition maxDataSize = some r ∧
      r.bytes = [1, 0] ++ (leBytes 4 p.x ++ leBytes 4 p.y ++ leBytes 4 p.z) ∧
      r.bytes.length = 14 ∧
      parseDataFromBuffer X r.bytes =
        { events := [Event.setGlobalPositionIn p], result := 14 } := by
  obtain ⟨r, hr, _, hb⟩ := toByteArray_globalPosition_only X A itemFlagsInit dataDetail
    lastSentJointData sendStatus distanceAdjust viewerPosition maxDataSize hw hu hmax hd
  rw [hp] at hb
  refine ⟨r, hr, ?_, ?_, ?_⟩
  · rw [hb]; rfl
  · rw [hb]; simp
  · rw [hb]
    exact parse_globalPosition_only X p hx hy hz

theorem C17_witness :
    (sampleAvatar 0).globalPosition = { x := 0x3FC00000, y := 0xC0100000, z := 0x40400000 } ∧
    (0x3FC00000 < 2 ^ 32 ∧ 0xC0100000 < 2 ^ 32 ∧ 0x40400000 < 2 ^ 32) ∧
    wantedFlagsFor 1 freshStatus = PACKET_HAS_AVATAR_GLOBAL_POSITION ∧
    freshStatus.sendUUID = false ∧
    ((0 : Nat) = 0 ∨ MIN_BULK_PACKET_SIZE ≤ 0) ∧
    AvatarDataDetail.SendAllData ≠ AvatarDataDetail.NoData ∧
    ∃ r, toByteArray sampleExtern (sampleAvatar 0) 1 AvatarDataDetail.SendAllData []
        freshStatus false default 0 = some r ∧
      r.bytes = [1, 0] ++ (leBytes 4 0x3FC00000 ++ leBytes 4 0xC0100000 ++ leBytes 4 0x40400000) ∧
      r.bytes.length = 14 ∧
      parseDataFromBuffer sampleExtern r.bytes =
        { events := [Event.setGlobalPositionIn
            { x := 0x3FC00000, y := 0xC0100000, z := 0x40400000 }], result := 14 } :=
  ⟨rfl, by decide, by decide, rfl, by decide, by decide,
    C17_global_position_round_trip sampleExtern (sampleAvatar 0) 1 AvatarDataDetail.SendAllData []
      freshStatus false default 0 { x := 0x3FC00000, y := 0xC0100000, z := 0x40400000 } rfl
      (by decide) (by decide) (by decide) (by decide) rfl (by decide) (by decide)⟩

/-- C14, the code at the failing input. The packet `01 00` followed by the global position
(NaN, 0, 0) is complete; the decoder, whatever the external functions, calls no error callback,
calls `setGlobalPositionIn` with the NaN position and returns 14, the bytes consumed; with two
more bytes after the section it does the same and returns 14, not the size of the buffer. -/
theorem C14_nan_global_position_accepted (X : Extern) :
    isNaN 0x7FC00000 = true ∧
    hasFlag (packetStateFlags [1, 0, 0, 0, 192, 127, 0, 0, 0, 0, 0, 0, 0, 0])
      PACKET_HAS_AVATAR_GLOBAL_POSITION = true ∧
    parseDataFromBuffer X [1, 0, 0, 0, 192, 127, 0, 0, 0, 0, 0, 0, 0, 0] =
      { events := [Event.setGlobalPositionIn { x := 0x7FC00000, y := 0, z := 0 }],
        result := 14 } ∧
    parseDataFromBuffer X ([1, 0, 0, 0, 192, 127, 0, 0, 0, 0, 0, 0, 0, 0] ++ [0, 0]) =
      { events := [Event.setGlobalPositionIn { x := 0x7FC00000, y := 0, z := 0 }],
        result := 14 } := by
  refine ⟨by decide, by decide, ?_, ?_⟩
  · exact parse_globalPosition_only X { x := 0x7FC00000, y := 0, z := 0 } (by decide)
      (by decide) (by decide)
  · rfl

/-- C16, the code at the failing input. The mask `00 0C` flags the hand controllers and the face
tracker and no byte follows it. The decoder abandons the packet at the face tracker, which it
reports as too small with 17 bytes needed and -24 available, and returns the size of the buffer;
but it has called the sink of the hand controllers, the section before, with values read past the
end of the buffer, where a packet that carries the section hands over the values of its bytes. -/
theorem C16_hand_controllers_read_past_end :
    hasFlag (packetStateFlags [0, 12]) PACKET_HAS_HAND_CONTROLLERS = true ∧
    hasFlag (packetStateFlags [0, 12]) PACKET_HAS_FACE_TRACKER_INFO = true ∧
    parseDataFromBuffer sampleExtern [0, 12] =
      { events := [Event.setHandControllersIn default default,
          Event.onPacketTooSmallError FieldName.FaceTrackerInfo 17 (-24)],
        result := 2 } ∧
    (parseDataFromBuffer sampleExtern
        ([0, 12] ++ List.replicate 24 1 ++ List.replicate 17 0)).events.head? ≠
      some (Event.setHandControllersIn default default) ∧
    (parseDataFromBuffer sampleExtern
        ([0, 12] ++ List.replicate 24 1 ++ List.replicate 17 0)).result = 43 := by
  decide

/-! ## C20: the additional flags -/

set_option maxRecDepth 1000000 in
theorem flags_round_trip_all :
    ∀ (k : Fin 4) (h : Fin 8) (b1 b2 b3 b4 b5 b6 b7 pn : Bool),
      unpackAdditionalFlags
        (additionalFlagsWord (flagsAvatar (flagsOf k.val h.val b1 b2 b3 b4 b5 b6 b7) pn)) =
        flagsOf k.val h.val b1 b2 b3 b4 b5 b6 b7 ∧
      additionalFlagsWord (flagsAvatar (flagsOf k.val h.val b1 b2 b3 b4 b5 b6 b7) pn) <
        65536 := by
  decide!

theorem additionalFlagsWord_flagsAvatar (A : Avatar) :
    additionalFlagsWord A =
      additionalFlagsWord (flagsAvatar A.additionalFlags (!decide (A.parentUUID % 2 ^ 128 = 0))) := by
  have hcongr : ∀ B : Avatar, A.additionalFlags = B.additionalFlags →
      decide (A.parentUUID % 2 ^ 128 = 0) = decide (B.parentUUID % 2 ^ 128 = 0) →
      additionalFlagsWord A = additionalFlagsWord B := by
    intro B h1 h2
    unfold additionalFlagsWord
    simp only [h1, h2]
  refine hcongr (flagsAvatar A.additionalFlags (!decide (A.parentUUID % 2 ^ 128 = 0))) rfl ?_
  by_cases hp : A.parentUUID % 2 ^ 128 = 0
  · rw [decide_eq_true hp]
    rfl
  · rw [decide_eq_false hp]
    rfl

/-- The additional flags of an avatar come back from the word that the encoder builds. -/
theorem unpack_additionalFlagsWord (A : Avatar) (hk : A.additionalFlags.keyState < 4)
    (hh : A.additionalFlags.handState < 8) :
    unpackAdditionalFlags (fromLE (leBytes 2 (additionalFlagsWord A))) = A.additionalFlags := by
  have h := flags_round_trip_all ⟨A.additionalFlags.keyState, hk⟩ ⟨A.additionalFlags.handState, hh⟩
    A.additionalFlags.headHasScriptedBlendshapes A.additionalFlags.headHasProceduralEyeMovement
    A.additionalFlags.headHasAudioEnabledFaceMovement
    A.additionalFlags.headHasProceduralEyeFaceMovement
    A.additionalFlags.headHasProceduralBlinkFaceMovement
    A.additionalFlags.collideWithOtherAvatars A.additionalFlags.hasPriority
    (!decide (A.parentUUID % 2 ^ 128 = 0))
  have hf : flagsOf A.additionalFlags.keyState A.additionalFlags.handState
      A.additionalFlags.headHasScriptedBlendshapes A.additionalFlags.headHasProceduralEyeMovement
      A.additionalFlags.headHasAudioEnabledFaceMovement
      A.additionalFlags.headHasProceduralEyeFaceMovement
      A.additionalFlags.headHasProceduralBlinkFaceMovement
      A.additionalFlags.collideWithOtherAvatars A.additionalFlags.hasPriority =
      A.additionalFlags := rfl
  simp only [hf] at h
  rw [← additionalFlagsWord_flagsAvatar] at h
  rw [fromLE_leBytes, Nat.mod_eq_of_lt (by norm_num; exact h.2)]
  exact h.1

/-- C20. For every key state in 0..3, every hand state in 0..7 and every combination of the seven
booleans, the section of the additional flags that the encoder writes is two bytes long, and the
decoder that reads it, wherever it stands in a buffer, hands exactly those values to
`setAdditionalFlagsIn` and moves on by two bytes. -/
theorem C20_additional_flags_round_trip (A : Avatar)
    (hk : A.additionalFlags.keyState < 4) (hh : A.additionalFlags.handState < 8) :
    (additionalFlagsBytes A).length = 2 ∧
    unpackAdditionalFlags (fromLE (additionalFlagsBytes A)) = A.additionalFlags ∧
    ∀ (pre post : List Nat) (evs0 : List Event),
      parseAdditionalFlags (pre ++ additionalFlagsBytes A ++ post)
          { pos := pre.length, events := evs0 } =
        Except.ok { pos := pre.length + 2,
                    events := evs0 ++ [Event.setAdditionalFlagsIn A.additionalFlags] } := by
  have hl : (additionalFlagsBytes A).length = 2 := by simp [additionalFlagsBytes]
  refine ⟨hl, unpack_additionalFlagsWord A hk hh, ?_⟩
  intro pre post evs0
  unfold parseAdditionalFlags
  rw [check_bind_ok _ _ _ _ _ (by simp [ADDITIONAL_FLAGS_SIZE, hl])]
  have hread : readBytes (pre ++ additionalFlagsBytes A ++ post) pre.length 2 =
      leBytes 2 (additionalFlagsWord A) := by
    have := readBytes_append_mid pre (additionalFlagsBytes A) post
    rw [hl] at this
    exact this
  simp only [pure, Except.pure, Dec.call, Dec.advance, ADDITIONAL_FLAGS_SIZE, hread,
    unpack_additionalFlagsWord A hk hh]

theorem C20_witness :
    (flagsAvatar (flagsOf 2 5 true false true false true false true) true).additionalFlags.keyState
      < 4 ∧
    (flagsAvatar (flagsOf 2 5 true false true false true false true) true).additionalFlags.handState
      < 8 ∧
    (additionalFlagsBytes
      (flagsAvatar (flagsOf 2 5 true false true false true false true) true)).length = 2 ∧
    unpackAdditionalFlags (fromLE (additionalFlagsBytes
      (flagsAvatar (flagsOf 2 5 true false true false true false true) true))) =
      (flagsAvatar (flagsOf 2 5 true false true false true false true) true).additionalFlags ∧
    ∀ (pre post : List Nat) (evs0 : List Event),
      parseAdditionalFlags (pre ++ additionalFlagsBytes
          (flagsAvatar (flagsOf 2 5 true false true false true false true) true) ++ post)
          { pos := pre.length, events := evs0 } =
        Except.ok { pos := pre.length + 2,
                    events := evs0 ++ [Event.setAdditionalFlagsIn
                      (flagsAvatar (flagsOf 2 5 true false true false true false true)
                        true).additionalFlags] } :=
  ⟨by decide, by decide,
    C20_additional_flags_round_trip
      (flagsAvatar (flagsOf 2 5 true false true false true false true) true)
      (by decide) (by decide)⟩

/-! ## C19: the scale of the joint translations -/

theorem isNaN_fabsf (c : Nat) : isNaN (fabsf c) = isNaN c := by
  unfold isNaN fabsf
  have h1 : c % 2 ^ 31 / 2 ^ 23 % 256 = c / 2 ^ 23 % 256 := by omega
  have h2 : c % 2 ^ 31 % 2 ^ 23 = c % 2 ^ 23 := by omega
  rw [h1, h2]

theorem fabsf_lt (c : Nat) : fabsf c < 2 ^ 31 := Nat.mod_lt _ (by decide)

theorem floatLess_nonneg (a b : Nat) (ha : a < 2 ^ 31) (hb : b < 2 ^ 31)
    (hna : isNaN a = false) (hnb : isNaN b = false) : floatLess a b = decide (a < b) := by
  unfold floatLess
  have h1 : a / 2 ^ 31 % 2 = 0 := by omega
  have h2 : b / 2 ^ 31 % 2 = 0 := by omega
  have h3 : a % 2 ^ 31 = a := Nat.mod_eq_of_lt ha
  have h4 : b % 2 ^ 31 = b := Nat.mod_eq_of_lt hb
  simp only [hna, hnb, Bool.or_self, Bool.false_eq_true, if_false, h1, h2, h3, h4, if_true]

theorem glmMax_nonneg (a b : Nat) (ha : a < 2 ^ 31) (hb : b < 2 ^ 31)
    (hna : isNaN a = false) (hnb : isNaN b = false) : glmMax a b = max a b := by
  unfold glmMax
  rw [floatLess_nonneg a b ha hb hna hnb]
  by_cases h : a < b
  · simp [h, Nat.max_eq_right (Nat.le_of_lt h)]
  · simp [h, Nat.max_eq_left (Nat.le_of_not_lt h)]

theorem floatLeq_nonneg (a b : Nat) (ha : a < 2 ^ 31) (hb : b < 2 ^ 31)
    (hna : isNaN a = false) (hnb : isNaN b = false) (hab : a ≤ b) : floatLeq a b = true := by
  unfold floatLeq
  rw [floatLess_nonneg a b ha hb hna hnb]
  rcases Nat.lt_or_eq_of_le hab with h | h
  · simp [h]
  · subst h
    simp [floatEq, hna]

/-- The scale computed by the loop over NaN-free translations: a non-negative number that is no
NaN, at least the starting value and at least every component met. -/
theorem maxTranslationDimensionLoop_spec (A : Avatar) (hA : TranslationsNaNFree A) :
    ∀ (fuel i m : Nat), m < 2 ^ 31 → isNaN m = false →
      maxTranslationDimensionLoop A fuel i m < 2 ^ 31 ∧
      isNaN (maxTranslationDimensionLoop A fuel i m) = false ∧
      m ≤ maxTranslationDimensionLoop A fuel i m ∧
      ∀ k, i ≤ k → k < i + fuel → (A.getJointDataOut k).translationIsDefaultPose = false →
        fabsf (A.getJointDataOut k).translation.x ≤ maxTranslationDimensionLoop A fuel i m ∧
        fabsf (A.getJointDataOut k).translation.y ≤ maxTranslationDimensionLoop A fuel i m ∧
        fabsf (A.getJointDataOut k).translation.z ≤ maxTranslationDimensionLoop A fuel i m := by
  intro fuel
  induction fuel with
  | zero =>
    intro i m hm hn
    refine ⟨hm, hn, le_refl _, ?_⟩
    intro k h1 h2
    omega
  | succ fuel ih =>
    intro i m hm hn
    unfold maxTranslationDimensionLoop
    by_cases hdp : (A.getJointDataOut i).translationIsDefaultPose = false
    · have hnan := hA i hdp
      simp only [anyNaN, Bool.or_eq_false_iff] at hnan
      obtain ⟨⟨hx, hy⟩, hz⟩ := hnan
      have ex := glmMax_nonneg _ m (fabsf_lt (A.getJointDataOut i).translation.x) hm
        (by rw [isNaN_fabsf]; exact hx) hn
      have hm1 : max (fabsf (A.getJointDataOut i).translation.x) m < 2 ^ 31 :=
        max_lt (fabsf_lt _) hm
      have hn1 : isNaN (max (fabsf (A.getJointDataOut i).translation.x) m) = false := by
        rcases max_choice (fabsf (A.getJointDataOut i).translation.x) m with h | h
        · rw [h, isNaN_fabsf]; exact hx
        · rw [h]; exact hn
      have ey := glmMax_nonneg _ _ (fabsf_lt (A.getJointDataOut i).translation.y) hm1
        (by rw [isNaN_fabsf]; exact hy) hn1
      have hm2 : max (fabsf (A.getJointDataOut i).translation.y)
          (max (fabsf (A.getJointDataOut i).translation.x) m) < 2 ^ 31 :=
        max_lt (fabsf_lt _) hm1
      have hn2 : isNaN (max (fabsf (A.getJointDataOut i).translation.y)
          (max (fabsf (A.getJointDataOut i).translation.x) m)) = false := by
        rcases max_choice (fabsf (A.getJointDataOut i).translation.y)
          (max (fabsf (A.getJointDataOut i).translation.x) m) with h | h
        · rw [h, isNaN_fabsf]; exact hy
        · rw [h]; exact hn1
      have ez := glmMax_nonneg _ _ (fabsf_lt (A.getJointDataOut i).translation.z) hm2
        (by rw [isNaN_fabsf]; exact hz) hn2
      have hm3 : max (fabsf (A.getJointDataOut i).translation.z)
          (max (fabsf (A.getJointDataOut i).translation.y)
            (max (fabsf (A.getJointDataOut i).translation.x) m)) < 2 ^ 31 :=
        max_lt (fabsf_lt _) hm2
      have hn3 : isNaN (max (fabsf (A.getJointDataOut i).translation.z)
          (max (fabsf (A.getJointDataOut i).translation.y)
            (max (fabsf (A.getJointDataOut i).translation.x) m))) = false := by
        rcases max_choice (fabsf (A.getJointDataOut i).translation.z)
          (max (fabsf (A.getJointDataOut i).translation.y)
            (max (fabsf (A.getJointDataOut i).translation.x) m)) with h | h
        · rw [h, isNaN_fabsf]; exact hz
        · rw [h]; exact hn2
      simp only [hdp, Bool.not_false, if_true, ex, ey, ez]
      obtain ⟨r1, r2, r3, r4⟩ := ih (i + 1) _ hm3 hn3
      refine ⟨r1, r2, ?_, ?_⟩
      · exact le_trans (by omega) r3
      · intro k h1 h2 hk
        by_cases hki : k = i
        · subst hki
          refine ⟨le_trans ?_ r3, le_trans ?_ r3, le_trans ?_ r3⟩ <;> omega
        · exact r4 k (by omega) (by omega) hk
    · have hdp1 : (A.getJointDataOut i).translationIsDefaultPose = true := by
        simpa using hdp
      simp only [hdp1, Bool.not_true, Bool.false_eq_true, if_false]
      obtain ⟨r1, r2, r3, r4⟩ := ih (i + 1) m hm hn
      refine ⟨r1, r2, r3, ?_⟩
      intro k h1 h2 hk
      by_cases hki : k = i
      · subst hki
        rw [hdp1] at hk
        exact absurd hk (by simp)
      · exact r4 k (by omega) (by omega) hk

/-- The joint data section of a returned packet is the one that the inner block produces from
the cursors of the call. -/
theorem toByteArray_joint_section (X : Extern) (A : Avatar) (itemFlagsInit : Nat)
    (dataDetail : AvatarDataDetail) (last : List JointData) (s : SendStatus) (da : Bool)
    (v : Vec3) (maxDataSize : Nat)
    (hmax : maxDataSize = 0 ∨ MIN_BULK_PACKET_SIZE ≤ maxDataSize)
    (hd : dataDetail ≠ AvatarDataDetail.NoData) :
    ∃ r, toByteArray X A itemFlagsInit dataDetail last s da v maxDataSize = some r ∧
      ∀ js, r.joints = some js → ∃ dest,
        js = jointDataSection X A last (rotationsSentFor s) (translationsSentFor s)
          (decide (dataDetail = AvatarDataDetail.SendAllData))
          (decide (dataDetail = AvatarDataDetail.CullSmallData)) da v
          (packetEndFor A maxDataSize) A.getJointDataSizeOut dest := by
  obtain ⟨r, hr, -, -, -, -, -, -, -, -, -, -, hj⟩ := toByteArray_fields X A itemFlagsInit
    dataDetail last s da v maxDataSize hmax hd
  refine ⟨r, hr, ?_⟩
  intro js hjs
  rw [hj] at hjs
  unfold encodeBlocksFor at hjs
  rw [encodeBlocks_joints] at hjs
  split at hjs
  · exact ⟨_, (Option.some.inj hjs).symm⟩
  · exact absurd hjs (by simp)

/-- The scale of a joint data section covers the translations written in it. -/
theorem jointDataSection_scale (X : Extern) (A : Avatar) (last : List JointData) (r t : Nat)
    (sa cull da : Bool) (v : Vec3) (pe n dest : Nat) (hA : TranslationsNaNFree A) :
    floatLeq FLOAT_0_001
      (jointDataSection X A last r t sa cull da v pe n dest).maxTranslationDimension = true ∧
    ∀ i ∈ (jointDataSection X A last r t sa cull da v pe n dest).translationsWritten,
      floatLeq (fabsf (A.getJointDataOut i).translation.x)
        (jointDataSection X A last r t sa cull da v pe n dest).maxTranslationDimension = true ∧
      floatLeq (fabsf (A.getJointDataOut i).translation.y)
        (jointDataSection X A last r t sa cull da v pe n dest).maxTranslationDimension = true ∧
      floatLeq (fabsf (A.getJointDataOut i).translation.z)
        (jointDataSection X A last r t sa cull da v pe n dest).maxTranslationDimension = true := by
  have h0 : FLOAT_0_001 < 2 ^ 31 := by decide
  have hn0 : isNaN FLOAT_0_001 = false := by decide
  obtain ⟨m1, m2, m3, m4⟩ := maxTranslationDimensionLoop_spec A hA (n - t) t FLOAT_0_001 h0 hn0
  obtain ⟨t1, t2, t3, -⟩ := translationPass_spec X A last t sa cull da v pe n
    (dest + 1 + calcBitVectorSize n + (rotationPass X A last r sa cull da v pe n dest).out.length)
  simp only [jointDataSection]
  unfold maxTranslationDimensionFor
  refine ⟨floatLeq_nonneg _ _ h0 m1 hn0 m2 m3, ?_⟩
  intro i hi
  rw [t3] at hi
  obtain ⟨hrange, hsend⟩ := List.mem_filter.1 hi
  rw [List.mem_range'_1] at hrange
  have hdp : (A.getJointDataOut i).translationIsDefaultPose = false := by
    unfold translationSend sendTranslation at hsend
    simp only [Bool.and_eq_true, Bool.not_eq_true'] at hsend
    exact hsend.1
  have hnan := hA i hdp
  simp only [anyNaN, Bool.or_eq_false_iff] at hnan
  obtain ⟨⟨hx, hy⟩, hz⟩ := hnan
  obtain ⟨cx, cy, cz⟩ := m4 i hrange.1 (by omega) hdp
  exact ⟨floatLeq_nonneg _ _ (fabsf_lt _) m1 (by rw [isNaN_fabsf]; exact hx) m2 cx,
    floatLeq_nonneg _ _ (fabsf_lt _) m1 (by rw [isNaN_fabsf]; exact hy) m2 cy,
    floatLeq_nonneg _ _ (fabsf_lt _) m1 (by rw [isNaN_fabsf]; exact hz) m2 cz⟩

/-- C19, as amended. For an avatar whose joints that are not in the default pose have a
translation without NaN component: in every joint data section that the encoder emits, whatever
`maxDataSize` and wherever the loops stop, the scale float written before the translation block
is at least 0.001 and at least the absolute value of every component of every translation written
in the section (comparisons of IEEE-754 single precision). -/
theorem C19_translation_scale_amended (X : Extern) (A : Avatar) (itemFlagsInit : Nat)
    (dataDetail : AvatarDataDetail) (lastSentJointData : List JointData)
    (sendStatus : SendStatus) (distanceAdjust : Bool) (viewerPosition : Vec3)
    (maxDataSize : Nat)
    (hmax : maxDataSize = 0 ∨ MIN_BULK_PACKET_SIZE ≤ maxDataSize)
    (hd : dataDetail ≠ AvatarDataDetail.NoData)
    (hA : TranslationsNaNFree A) :
    ∃ r, toByteArray X A itemFlagsInit dataDetail lastSentJointData sendStatus distanceAdjust
        viewerPosition maxDataSize = some r ∧
      ∀ js, r.joints = some js →
        floatLeq FLOAT_0_001 js.maxTranslationDimension = true ∧
        js.translationBlock =
          packAll (translationBytes X A js.maxTranslationDimension) js.translationsWritten ∧
        ∀ i ∈ js.translationsWritten,
          floatLeq (fabsf (A.getJointDataOut i).translation.x) js.maxTranslationDimension = true ∧
          floatLeq (fabsf (A.getJointDataOut i).translation.y) js.maxTranslationDimension = true ∧
          floatLeq (fabsf (A.getJointDataOut i).translation.z) js.maxTranslationDimension = true := by
  obtain ⟨r, hr, hjs⟩ := toByteArray_joint_section X A itemFlagsInit dataDetail
    lastSentJointData sendStatus distanceAdjust viewerPosition maxDataSize hmax hd
  refine ⟨r, hr, ?_⟩
  intro js hj
  obtain ⟨dest, hdest⟩ := hjs js hj
  subst hdest
  obtain ⟨h1, h2⟩ := jointDataSection_scale X A lastSentJointData (rotationsSentFor sendStatus)
    (translationsSentFor sendStatus) (decide (dataDetail = AvatarDataDetail.SendAllData))
    (decide (dataDetail = AvatarDataDetail.CullSmallData)) distanceAdjust viewerPosition
    (packetEndFor A maxDataSize) A.getJointDataSizeOut dest hA
  exact ⟨h1, (jointDataSection_spec _ _ _ _ _ _ _ _ _ _ _ _).2.2.2.2.2.2.2.1, h2⟩

instance (A : Avatar) : Decidable (∀ i, i < A.jointData.length →
    (A.getJointDataOut i).translationIsDefaultPose = false →
    anyNaN (A.getJointDataOut i).translation = false) :=
  Nat.decidableBallLT _ _

theorem translationsNaNFree_of_bounded (A : Avatar)
    (hdef : anyNaN (default : JointData).translation = false)
    (h : ∀ i, i < A.jointData.length →
      (A.getJointDataOut i).translationIsDefaultPose = false →
      anyNaN (A.getJointDataOut i).translation = false) : TranslationsNaNFree A := by
  intro i hi
  by_cases hlt : i < A.jointData.length
  · exact h i hlt hi
  · have : A.getJointDataOut i = default := by
      unfold Avatar.getJointDataOut
      rw [List.getD_eq_default _ _ (by omega)]
    rw [this]
    exact hdef

theorem C19_amended_witness :
    ((0 : Nat) = 0 ∨ MIN_BULK_PACKET_SIZE ≤ 0) ∧
    AvatarDataDetail.SendAllData ≠ AvatarDataDetail.NoData ∧
    TranslationsNaNFree (sampleAvatar 3) ∧
    ∃ r, toByteArray sampleExtern (sampleAvatar 3) 0x1000 AvatarDataDetail.SendAllData []
        freshStatus false default 0 = some r ∧
      ∀ js, r.joints = some js →
        floatLeq FLOAT_0_001 js.maxTranslationDimension = true ∧
        js.translationBlock =
          packAll (translationBytes sampleExtern (sampleAvatar 3) js.maxTranslationDimension)
            js.translationsWritten ∧
        ∀ i ∈ js.translationsWritten,
          floatLeq (fabsf ((sampleAvatar 3).getJointDataOut i).translation.x)
            js.maxTranslationDimension = true ∧
          floatLeq (fabsf ((sampleAvatar 3).getJointDataOut i).translation.y)
            js.maxTranslationDimension = true ∧
          floatLeq (fabsf ((sampleAvatar 3).getJointDataOut i).translation.z)
            js.maxTranslationDimension = true :=
  ⟨by decide, by decide,
    translationsNaNFree_of_bounded (sampleAvatar 3) (by decide) (by decide),
    C19_translation_scale_amended sampleExtern (sampleAvatar 3) 0x1000
      AvatarDataDetail.SendAllData [] freshStatus false default 0 (by decide) (by decide)
      (translationsNaNFree_of_bounded (sampleAvatar 3) (by decide) (by decide))⟩

/-- C19, counterexample. An avatar with one joint whose translation is (5.0, NaN, 0.0): the
encoder emits a joint data section that writes this translation, and its scale float is 0.0,
which is neither at least 0.001 nor at least 5.0. -/
theorem C19_counterexample :
    ∃ r js, toByteArray sampleExtern nanJointAvatar 0x1000 AvatarDataDetail.SendAllData []
        freshStatus false default 0 = some r ∧
      r.joints = some js ∧
      js.translationsWritten = [0] ∧
      (nanJointAvatar.getJointDataOut 0).translation =
        { x := 0x40A00000, y := 0x7FC00000, z := 0 } ∧
      js.maxTranslationDimension = 0 ∧
      floatLeq FLOAT_0_001 js.maxTranslationDimension = false ∧
      floatLeq (fabsf (nanJointAvatar.getJointDataOut 0).translation.x)
        js.maxTranslationDimension = false := by
  refine ⟨_, _, rfl, rfl, ?_⟩
  decide

/-! ## Buffers with a common beginning -/

theorem readBytes_take (buf : List Nat) (n p k : Nat) (hp : p + k ≤ n) :
    readBytes (buf.take n) p k = readBytes buf p k := by
  unfold readBytes
  rw [List.drop_take, List.take_take, Nat.min_eq_left (by omega)]

theorem readByte_take (buf : List Nat) (n p : Nat) (hp : p < n) :
    readByte (buf.take n) p = readByte buf p := by
  unfold readByte
  rw [List.getD_eq_getElem?_getD, List.getD_eq_getElem?_getD, List.getElem?_take_of_lt hp]

theorem readBytes_agree {n : Nat} {buf b2 : List Nat} (h : Agree n buf b2) (p k : Nat)
    (hp : p + k ≤ n) : readBytes b2 p k = readBytes buf p k := by
  rw [← readBytes_take b2 n p k hp, ← readBytes_take buf n p k hp, h.2.2]

theorem readByte_agree {n : Nat} {buf b2 : List Nat} (h : Agree n buf b2) (p : Nat)
    (hp : p < n) : readByte b2 p = readByte buf p := by
  rw [← readByte_take b2 n p hp, ← readByte_take buf n p hp, h.2.2]

theorem bitAt_agree {n : Nat} {buf b2 : List Nat} (h : Agree n buf b2) (pos i : Nat)
    (hp : pos + i / 8 < n) : bitAt b2 pos i = bitAt buf pos i := by
  unfold bitAt
  rw [readByte_agree h _ (by simpa [BITS_IN_BYTE] using hp)]

theorem readVec3_agree {n : Nat} {buf b2 : List Nat} (h : Agree n buf b2) (p : Nat)
    (hp : p + 12 ≤ n) : readVec3 b2 p = readVec3 buf p := by
  unfold readVec3
  rw [readBytes_agree h _ _ (by omega), readBytes_agree h _ _ (by omega),
    readBytes_agree h _ _ (by omega)]

theorem readValidity_agree {n : Nat} {buf b2 : List Nat} (h : Agree n buf b2) (pos J : Nat)
    (hp : pos + calcBitVectorSize J ≤ n) : readValidity b2 pos J = readValidity buf pos J := by
  unfold readValidity
  apply List.map_congr_left
  intro i hi
  rw [List.mem_range] at hi
  apply bitAt_agree h
  unfold calcBitVectorSize at hp
  omega

theorem readBitVector_agree {n : Nat} {buf b2 : List Nat} (h : Agree n buf b2) (pos J : Nat)
    (f : Nat → Bool → Event) (hp : pos + calcBitVectorSize J ≤ n) :
    readBitVector b2 pos J f = readBitVector buf pos J f := by
  unfold readBitVector
  apply List.map_congr_left
  intro i hi
  rw [List.mem_range] at hi
  rw [bitAt_agree h]
  unfold calcBitVectorSize at hp
  omega

theorem readFloats_agree {n : Nat} {buf b2 : List Nat} (h : Agree n buf b2) (pos N : Nat)
    (hp : pos + 4 * N ≤ n) : readFloats b2 pos N = readFloats buf pos N := by
  unfold readFloats
  apply List.map_congr_left
  intro i hi
  rw [List.mem_range] at hi
  rw [readBytes_agree h _ _ (by omega)]

theorem readFarGrabJoints_agree {n : Nat} {buf b2 : List Nat} (h : Agree n buf b2) (pos : Nat)
    (hp : pos + 84 ≤ n) : readFarGrabJoints b2 pos = readFarGrabJoints buf pos := by
  unfold readFarGrabJoints
  simp (disch := omega) only [readBytes_agree h]

theorem unpackHandController_agree {n : Nat} {buf b2 : List Nat} (X : Extern)
    (h : Agree n buf b2) (pos : Nat) (hp : pos + 12 ≤ n) :
    unpackHandController X b2 pos = unpackHandController X buf pos := by
  unfold unpackHandController
  rw [readBytes_agree h _ _ (by omega), readBytes_agree h _ _ (by omega)]

theorem readRotations_agree {n : Nat} {buf b2 : List Nat} (X : Extern) (h : Agree n buf b2)
    (vs : List Bool) (i : Nat) (d : Dec) (hp : d.pos + 6 * vs.count true ≤ n) :
    readRotations X b2 vs i d = readRotations X buf vs i d := by
  induction vs generalizing i d with
  | nil => rfl
  | cons b vs ih =>
    cases b with
    | true =>
      simp only [readRotations, if_true]
      simp only [List.count_cons_self] at hp
      rw [readBytes_agree h _ _ (by omega)]
      apply ih
      simp only [Dec.call, Dec.advance]
      omega
    | false =>
      simp only [readRotations, Bool.false_eq_true, if_false]
      apply ih
      simpa using hp

theorem readTranslations_agree {n : Nat} {buf b2 : List Nat} (X : Extern) (h : Agree n buf b2)
    (m : Nat) (vs : List Bool) (i : Nat) (d : Dec) (hp : d.pos + 6 * vs.count true ≤ n) :
    readTranslations X b2 m vs i d = readTranslations X buf m vs i d := by
  induction vs generalizing i d with
  | nil => rfl
  | cons b vs ih =>
    cases b with
    | true =>
      simp only [readTranslations, if_true]
      simp only [List.count_cons_self] at hp
      rw [readBytes_agree h _ _ (by omega)]
      apply ih
      simp only [Dec.call, Dec.advance]
      omega
    | false =>
      simp only [readTranslations, Bool.false_eq_true, if_false]
      apply ih
      simpa using hp

theorem packetStateFlags_agree {n : Nat} {buf b2 : List Nat} (h : Agree n buf b2)
    (h2 : 2 ≤ n) : packetStateFlags b2 = packetStateFlags buf := by
  unfold packetStateFlags
  rw [readBytes_agree h _ _ (by simpa [HEADER_SIZE] using h2)]

/-! ## The decoder on sections that are completely present -/

theorem parseBlocks_blockAt (X : Extern) (buf : List Nat) :
    parseBlocks X buf (packetStateFlags buf) = (List.range 14).map (blockAt X buf) := rfl

theorem whenFlag_flag (m k : Nat) (f : Dec → Except Dec Dec) (d : Dec) :
    whenFlag m (1 <<< k) f d = if m.testBit k = true then f d else Except.ok d := by
  unfold whenFlag
  rw [hasFlag_flag]
  rfl

theorem blockAt_unflagged (X : Extern) (buf : List Nat) (k : Nat) (d : Dec) (hk : k < 14)
    (hflag : (packetStateFlags buf).testBit k = false) : blockAt X buf k d = Except.ok d := by
  have hne : ¬ (packetStateFlags buf).testBit k = true := by simp [hflag]
  interval_cases k <;> exact (whenFlag_flag _ _ _ _).trans (if_neg hne)

theorem sinkOf_not_error (e : Event) (k : Nat) (h : Event.sinkOf e = some k) :
    Event.isError e = false := by
  cases e <;> simp [Event.sinkOf, Event.isError] at h ⊢

/-- A fixed-size block whose section is flagged and completely in the buffer either calls the
sink of its section and moves on by the size of the section, or, when its NaN check fires, calls
`onParseError` and returns early. -/
theorem fixedBlock_room (X : Extern) (buf : List Nat) (k : Nat) (d : Dec) (hk : k < 11)
    (hflag : (packetStateFlags buf).testBit k = true)
    (hroom : d.pos + fixedSectionSizes.getD k 0 ≤ buf.length) :
    (nanAt X buf k d.pos = false ∧ ∃ e, Event.sinkOf e = some k ∧
      blockAt X buf k d =
        Except.ok { pos := d.pos + fixedSectionSizes.getD k 0, events := d.events ++ [e] }) ∨
    (nanAt X buf k d.pos = true ∧ ∃ e r, blockAt X buf k d = Except.error e ∧
      e.events = d.events ++ [Event.onParseError r]) := by
  interval_cases k
  · left
    refine ⟨rfl, ?_⟩
    apply Exists.intro
    constructor
    swap
    · refine (whenFlag_flag _ 0 _ _).trans ((if_pos hflag).trans ?_)
      unfold parseGlobalPosition
      rw [check_bind_ok _ _ _ _ _ (by exact hroom)]
      rfl
    · rfl
  · left
    refine ⟨rfl, ?_⟩
    apply Exists.intro
    constructor
    swap
    · refine (whenFlag_flag _ 1 _ _).trans ((if_pos hflag).trans ?_)
      unfold parseBoundingBox
      rw [check_bind_ok _ _ _ _ _ (by exact hroom)]
      rfl
    · rfl
  · left
    refine ⟨rfl, ?_⟩
    apply Exists.intro
    constructor
    swap
    · refine (whenFlag_flag _ 2 _ _).trans ((if_pos hflag).trans ?_)
      unfold parseOrientation
      rw [check_bind_ok _ _ _ _ _ (by exact hroom)]
      rfl
    · rfl
  · have hb : blockAt X buf 3 d = parseScale X buf d :=
      (whenFlag_flag _ 3 _ _).trans (if_pos hflag)
    rw [hb]
    unfold parseScale
    rw [check_bind_ok _ _ _ _ _ (by exact hroom)]
    by_cases hn : nanAt X buf 3 d.pos = true
    · right
      exact ⟨hn, _, ParseErrorReason.scaleNaN, if_pos hn, rfl⟩
    · left
      refine ⟨by simpa using hn, ?_⟩
      apply Exists.intro
      constructor
      swap
      · exact if_neg hn
      · rfl
  · have hb : blockAt X buf 4 d = parseLookAtPosition buf d :=
      (whenFlag_flag _ 4 _ _).trans (if_pos hflag)
    rw [hb]
    unfold parseLookAtPosition
    rw [check_bind_ok _ _ _ _ _ (by exact hroom)]
    by_cases hn : nanAt X buf 4 d.pos = true
    · right
      exact ⟨hn, _, ParseErrorReason.lookAtPositionNaN, if_pos hn, rfl⟩
    · left
      refine ⟨by simpa using hn, ?_⟩
      apply Exists.intro
      constructor
      swap
      · exact if_neg hn
      · rfl
  · have hb : blockAt X buf 5 d = parseAudioLoudness X buf d :=
      (whenFlag_flag _ 5 _ _).trans (if_pos hflag)
    rw [hb]
    unfold parseAudioLoudness
    rw [check_bind_ok _ _ _ _ _ (by exact hroom)]
    by_cases hn : nanAt X buf 5 d.pos = true
    · right
      exact ⟨hn, _, ParseErrorReason.audioLoudnessNaN, if_pos hn, rfl⟩
    · left
      refine ⟨by simpa using hn, ?_⟩
      apply Exists.intro
      constructor
      swap
      · exact if_neg hn
      · rfl
  · left
    refine ⟨rfl, ?_⟩
    apply Exists.intro
    constructor
    swap
    · refine (whenFlag_flag _ 6 _ _).trans ((if_pos hflag).trans ?_)
      unfold parseSensorToWorldMatrix
      rw [check_bind_ok _ _ _ _ _ (by exact hroom)]
      rfl
    · rfl
  · left
    refine ⟨rfl, ?_⟩
    apply Exists.intro
    constructor
    swap
    · refine (whenFlag_flag _ 7 _ _).trans ((if_pos hflag).trans ?_)
      unfold parseAdditionalFlags
      rw [check_bind_ok _ _ _ _ _ (by exact hroom)]
      rfl
    · rfl
  · left
    refine ⟨rfl, ?_⟩
    apply Exists.intro
    constructor
    swap
    · refine (whenFlag_flag _ 8 _ _).trans ((if_pos hflag).trans ?_)
      unfold parseParentInfo
      rw [check_bind_ok _ _ _ _ _ (by exact hroom)]
      rfl
    · rfl
  · have hb : blockAt X buf 9 d = parseLocalPosition buf d :=
      (whenFlag_flag _ 9 _ _).trans (if_pos hflag)
    rw [hb]
    unfold parseLocalPosition
    rw [check_bind_ok _ _ _ _ _ (by exact hroom)]
    by_cases hn : nanAt X buf 9 d.pos = true
    · right
      exact ⟨hn, _, ParseErrorReason.positionNaN, if_pos hn, rfl⟩
    · left
      refine ⟨by simpa using hn, ?_⟩
      apply Exists.intro
      constructor
      swap
      · exact if_neg hn
      · rfl
  · left
    refine ⟨rfl, ?_⟩
    apply Exists.intro
    constructor
    swap
    · exact (whenFlag_flag _ 10 _ _).trans (if_pos hflag)
    · rfl

/-! ## C15: the NaN checks of the positions -/

theorem wireWalk_ge (buf : List Nat) (fuel k pos : Nat) : pos ≤ wireWalk buf fuel k pos := by
  induction fuel generalizing k pos with
  | zero => exact le_refl _
  | succ fuel ih =>
    simp only [wireWalk]
    refine le_trans ?_ (ih _ _)
    split <;> omega

theorem wireSizeAt_fixed (buf : List Nat) (k pos : Nat) (hk : k < 11) :
    wireSizeAt buf k pos = fixedSectionSizes.getD k 0 := by
  unfold wireSizeAt
  rw [if_pos hk]

/-- The run of the decoder over fixed-size sections that are completely in the buffer: either
every block calls the sink of its section, or the run stops at the first NaN check that fires,
with a call of `onParseError`. -/
theorem fixed_prefix_run (X : Extern) (buf : List Nat) (fuel : Nat) :
    ∀ (j : Nat) (d : Dec), j + fuel ≤ 11 → wireWalk buf fuel j d.pos ≤ buf.length →
      (∃ E, (∀ e ∈ E, ∃ i, i < j + fuel ∧ Event.sinkOf e = some i) ∧
        runBlocks ((List.range' j fuel).map (blockAt X buf)) d =
          Except.ok { pos := wireWalk buf fuel j d.pos, events := d.events ++ E } ∧
        nanWalk X buf fuel j d.pos = false) ∨
      (∃ E r e, (∀ e ∈ E, ∃ i, i < j + fuel ∧ Event.sinkOf e = some i) ∧
        runBlocks ((List.range' j fuel).map (blockAt X buf)) d = Except.error e ∧
        e.events = d.events ++ E ++ [Event.onParseError r] ∧
        nanWalk X buf fuel j d.pos = true) := by
  induction fuel with
  | zero =>
    intro j d _ _
    left
    exact ⟨[], by simp, by simp [runBlocks, wireWalk], rfl⟩
  | succ fuel ih =>
    intro j d hj hroom
    simp only [List.range'_succ, List.map_cons, runBlocks, wireWalk, nanWalk] at hroom ⊢
    by_cases hflag : (packetStateFlags buf).testBit j = true
    · simp only [hflag, if_true, Bool.true_and] at hroom ⊢
      have hsz := wireSizeAt_fixed buf j d.pos (by omega)
      have hr1 : d.pos + fixedSectionSizes.getD j 0 ≤ buf.length := by
        rw [← hsz]
        exact le_trans (wireWalk_ge _ _ _ _) hroom
      rcases fixedBlock_room X buf j d (by omega) hflag hr1 with
        ⟨hn, e, he, hb⟩ | ⟨hn, e, r, hb, hev⟩
      · rw [hb, hn, hsz]
        simp only [Bool.false_or]
        rw [hsz] at hroom
        rcases ih (j + 1) { pos := d.pos + fixedSectionSizes.getD j 0, events := d.events ++ [e] }
          (by omega) hroom with ⟨E, hE, hrun, hnw⟩ | ⟨E, r, e1, hE, hrun, hev, hnw⟩
        · left
          refine ⟨e :: E, ?_, ?_, hnw⟩
          · intro x hx
            rcases List.mem_cons.1 hx with h | h
            · exact ⟨j, by omega, by rw [h]; exact he⟩
            · obtain ⟨i, hi, hs⟩ := hE x h
              exact ⟨i, by omega, hs⟩
          · rw [hrun]
            simp
        · right
          refine ⟨e :: E, r, e1, ?_, hrun, ?_, hnw⟩
          · intro x hx
            rcases List.mem_cons.1 hx with h | h
            · exact ⟨j, by omega, by rw [h]; exact he⟩
            · obtain ⟨i, hi, hs⟩ := hE x h
              exact ⟨i, by omega, hs⟩
          · rw [hev]
            simp
      · right
        rw [hb, hn]
        exact ⟨[], r, e, by simp, rfl, by simpa using hev, by simp⟩
    · have hf : (packetStateFlags buf).testBit j = false := by simpa using hflag
      simp only [hf, Bool.false_eq_true, if_false, Bool.false_and, Bool.false_or] at hroom ⊢
      rw [blockAt_unflagged X buf j d (by omega) hf]
      rcases ih (j + 1) d (by omega) hroom with ⟨E, hE, hrun, hnw⟩ | ⟨E, r, e1, hE, hrun, hev, hnw⟩
      · left
        refine ⟨E, ?_, hrun, hnw⟩
        intro x hx
        obtain ⟨i, hi, hs⟩ := hE x hx
        exact ⟨i, by omega, hs⟩
      · right
        refine ⟨E, r, e1, ?_, hrun, hev, hnw⟩
        intro x hx
        obtain ⟨i, hi, hs⟩ := hE x hx
        exact ⟨i, by omega, hs⟩

theorem parseSections_split (X : Extern) (buf : List Nat) (k : Nat) (hk : k ≤ 14) :
    parseSections X buf =
      runBlocks ((List.range' 0 k).map (blockAt X buf) ++
        (List.range' k (14 - k)).map (blockAt X buf)) { pos := HEADER_SIZE, events := [] } := by
  unfold parseSections
  rw [parseBlocks_blockAt, ← List.map_append]
  have h := List.range'_append_1 0 k (14 - k)
  rw [Nat.zero_add, show 14 - k + k = 14 by omega] at h
  rw [h, List.range_eq_range']

/-- The NaN check of a position section that is flagged and completely in the buffer. -/
theorem nan_position_rejected (X : Extern) (buf : List Nat) (k : Nat) (hk : k = 4 ∨ k = 9)
    (hflag : (packetStateFlags buf).testBit k = true)
    (hpresent : wireWalk buf k 0 HEADER_SIZE + 12 ≤ buf.length)
    (hnan : anyNaN (readVec3 buf (wireWalk buf k 0 HEADER_SIZE)) = true) :
    ∃ E r, (parseDataFromBuffer X buf).events = E ++ [Event.onParseError r] ∧
      (∀ e ∈ E, ∃ j, j < k ∧ Event.sinkOf e = some j) ∧
      (parseDataFromBuffer X buf).result = buf.length := by
  have hk14 : k ≤ 14 := by omega
  unfold parseDataFromBuffer
  rw [parseSections_split X buf k hk14, runBlocks_append]
  rcases fixed_prefix_run X buf k 0 { pos := HEADER_SIZE, events := [] } (by omega)
    (by simp only []; omega) with ⟨E, hE, hrun, -⟩ | ⟨E, r, e1, hE, hrun, hev, -⟩
  · rw [hrun]
    simp only [List.nil_append]
    have hr : List.range' k (14 - k) = k :: List.range' (k + 1) (13 - k) := by
      rw [show 14 - k = (13 - k) + 1 by omega, List.range'_succ]
    rw [hr]
    simp only [List.map_cons, runBlocks]
    have hsz : fixedSectionSizes.getD k 0 = 12 := by
      rcases hk with h | h <;> subst h <;> rfl
    have hn : nanAt X buf k (wireWalk buf k 0 HEADER_SIZE) = true := by
      rcases hk with h | h <;> subst h <;> exact hnan
    rcases fixedBlock_room X buf k { pos := wireWalk buf k 0 HEADER_SIZE, events := E }
        (by omega) hflag (by simp only [hsz]; exact hpresent) with
      ⟨hn0, -⟩ | ⟨-, e, r, hb, hev⟩
    · rw [hn] at hn0
      exact absurd hn0 (by simp)
    · rw [hb]
      refine ⟨E, r, hev, ?_, rfl⟩
      intro x hx
      obtain ⟨i, hi, hs⟩ := hE x hx
      exact ⟨i, by omega, hs⟩
  · rw [hrun]
    simp only [List.nil_append] at hev
    refine ⟨E, r, hev, ?_, rfl⟩
    intro x hx
    obtain ⟨i, hi, hs⟩ := hE x hx
    exact ⟨i, by omega, hs⟩

/-- C15. For every buffer that flags the look-at position (`k = 4`; resp. the local position,
`k = 9`), holds the twelve bytes of that section at its offset (2 plus the sizes of the flagged
sections before it) and has a NaN among its three floats: the last call of the decoder is
`onParseError`, every call before it is the sink of a section before `k`, so neither
`setLookAtPositionIn` (resp. `setLocalPositionIn`) nor the sink of a later section nor a joint
sink is called, and the decoder returns the size of the buffer. -/
theorem C15_nan_position_rejected (X : Extern) (buf : List Nat) (k : Nat) (hk : k = 4 ∨ k = 9)
    (hflag : (packetStateFlags buf).testBit k = true)
    (hpresent : wireWalk buf k 0 HEADER_SIZE + 12 ≤ buf.length)
    (hnan : anyNaN (readVec3 buf (wireWalk buf k 0 HEADER_SIZE)) = true) :
    (∃ E r, (parseDataFromBuffer X buf).events = E ++ [Event.onParseError r] ∧
      ∀ e ∈ E, ∃ j, j < k ∧ Event.sinkOf e = some j) ∧
    (∀ e ∈ (parseDataFromBuffer X buf).events, ∀ j, k ≤ j → Event.sinkOf e ≠ some j) ∧
    (∀ e ∈ (parseDataFromBuffer X buf).events,
      Event.jointCount e = none ∧ Event.rotationJoint e = none ∧
        Event.positionJoint e = none) ∧
    (parseDataFromBuffer X buf).result = buf.length := by
  obtain ⟨E, r, hev, hE, hres⟩ := nan_position_rejected X buf k hk hflag hpresent hnan
  refine ⟨⟨E, r, hev, hE⟩, ?_, ?_, hres⟩
  · intro e he j hj
    rw [hev] at he
    rcases List.mem_append.1 he with h | h
    · obtain ⟨i, hi, hs⟩ := hE e h
      rw [hs]
      intro hc
      have := Option.some.inj hc
      omega
    · rw [List.mem_singleton.1 h]
      simp [Event.sinkOf]
  · intro e he
    rw [hev] at he
    rcases List.mem_append.1 he with h | h
    · obtain ⟨i, hi, hs⟩ := hE e h
      cases e <;> simp [Event.sinkOf, Event.jointCount, Event.rotationJoint,
        Event.positionJoint] at hs ⊢
    · rw [List.mem_singleton.1 h]
      simp [Event.jointCount, Event.rotationJoint, Event.positionJoint]

theorem C15_witness :
    ((4 : Nat) = 4 ∨ (4 : Nat) = 9) ∧
    (packetStateFlags [16, 0, 0, 0, 192, 127, 0, 0, 0, 0, 0, 0, 0, 0]).testBit 4 = true ∧
    wireWalk [16, 0, 0, 0, 192, 127, 0, 0, 0, 0, 0, 0, 0, 0] 4 0 HEADER_SIZE + 12 ≤
      ([16, 0, 0, 0, 192, 127, 0, 0, 0, 0, 0, 0, 0, 0] : List Nat).length ∧
    readVec3 [16, 0, 0, 0, 192, 127, 0, 0, 0, 0, 0, 0, 0, 0]
      (wireWalk [16, 0, 0, 0, 192, 127, 0, 0, 0, 0, 0, 0, 0, 0] 4 0 HEADER_SIZE) =
      { x := 0x7FC00000, y := 0, z := 0 } ∧
    ((∃ E r, (parseDataFromBuffer sampleExtern
        [16, 0, 0, 0, 192, 127, 0, 0, 0, 0, 0, 0, 0, 0]).events = E ++ [Event.onParseError r] ∧
      ∀ e ∈ E, ∃ j, j < 4 ∧ Event.sinkOf e = some j) ∧
    (∀ e ∈ (parseDataFromBuffer sampleExtern
        [16, 0, 0, 0, 192, 127, 0, 0, 0, 0, 0, 0, 0, 0]).events,
      ∀ j, 4 ≤ j → Event.sinkOf e ≠ some j) ∧
    (∀ e ∈ (parseDataFromBuffer sampleExtern
        [16, 0, 0, 0, 192, 127, 0, 0, 0, 0, 0, 0, 0, 0]).events,
      Event.jointCount e = none ∧ Event.rotationJoint e = none ∧
        Event.positionJoint e = none) ∧
    (parseDataFromBuffer sampleExtern [16, 0, 0, 0, 192, 127, 0, 0, 0, 0, 0, 0, 0, 0]).result =
      ([16, 0, 0, 0, 192, 127, 0, 0, 0, 0, 0, 0, 0, 0] : List Nat).length) ∧
    parseDataFromBuffer sampleExtern [16, 0, 0, 0, 192, 127, 0, 0, 0, 0, 0, 0, 0, 0] =
      { events := [Event.onParseError ParseErrorReason.lookAtPositionNaN], result := 14 } :=
  ⟨by decide, by decide, by decide, by decide,
    C15_nan_position_rejected sampleExtern [16, 0, 0, 0, 192, 127, 0, 0, 0, 0, 0, 0, 0, 0] 4
      (by decide) (by decide) (by decide) (by decide),
    by decide⟩

/-! ## C13: the decoder on a complete buffer -/

/-- A fixed-size block whose section is flagged and lies in the common part of two buffers does
the same on both. -/
theorem fixedBlock_agree (X : Extern) {n : Nat} {buf b2 : List Nat} (h : Agree n buf b2)
    (h2 : 2 ≤ n) (k : Nat) (d : Dec) (hk : k < 11)
    (hflag : (packetStateFlags buf).testBit k = true)
    (hroom : d.pos + fixedSectionSizes.getD k 0 ≤ n) :
    blockAt X b2 k d = blockAt X buf k d ∧ nanAt X b2 k d.pos = nanAt X buf k d.pos := by
  have hflag2 : (packetStateFlags b2).testBit k = true := by
    rw [packetStateFlags_agree h h2]; exact hflag
  have hl1 := h.1
  have hl2 := h.2.1
  interval_cases k
  · have hr : d.pos + 12 ≤ n := hroom
    refine ⟨?_, rfl⟩
    rw [show blockAt X b2 0 d = parseGlobalPosition b2 d from
        (whenFlag_flag _ 0 _ _).trans (if_pos hflag2),
      show blockAt X buf 0 d = parseGlobalPosition buf d from
        (whenFlag_flag _ 0 _ _).trans (if_pos hflag)]
    unfold parseGlobalPosition
    rw [check_bind_ok b2 _ _ _ _ (by exact le_trans hroom hl2),
      check_bind_ok buf _ _ _ _ (by exact le_trans hroom hl1)]
    simp (disch := omega) only [readBytes_agree h, readVec3_agree h]
  · have hr : d.pos + 24 ≤ n := hroom
    refine ⟨?_, rfl⟩
    rw [show blockAt X b2 1 d = parseBoundingBox b2 d from
        (whenFlag_flag _ 1 _ _).trans (if_pos hflag2),
      show blockAt X buf 1 d = parseBoundingBox buf d from
        (whenFlag_flag _ 1 _ _).trans (if_pos hflag)]
    unfold parseBoundingBox
    rw [check_bind_ok b2 _ _ _ _ (by exact le_trans hroom hl2),
      check_bind_ok buf _ _ _ _ (by exact le_trans hroom hl1)]
    simp (disch := omega) only [readBytes_agree h, readVec3_agree h]
  · have hr : d.pos + 6 ≤ n := hroom
    refine ⟨?_, rfl⟩
    rw [show blockAt X b2 2 d = parseOrientation X b2 d from
        (whenFlag_flag _ 2 _ _).trans (if_pos hflag2),
      show blockAt X buf 2 d = parseOrientation X buf d from
        (whenFlag_flag _ 2 _ _).trans (if_pos hflag)]
    unfold parseOrientation
    rw [check_bind_ok b2 _ _ _ _ (by exact le_trans hroom hl2),
      check_bind_ok buf _ _ _ _ (by exact le_trans hroom hl1)]
    simp (disch := omega) only [readBytes_agree h, readVec3_agree h]
  · have hr : d.pos + 2 ≤ n := hroom
    refine ⟨?_, by
      unfold nanAt
      simp (disch := omega) only [readBytes_agree h, readVec3_agree h]⟩
    rw [show blockAt X b2 3 d = parseScale X b2 d from
        (whenFlag_flag _ 3 _ _).trans (if_pos hflag2),
      show blockAt X buf 3 d = parseScale X buf d from
        (whenFlag_flag _ 3 _ _).trans (if_pos hflag)]
    unfold parseScale
    rw [check_bind_ok b2 _ _ _ _ (by exact le_trans hroom hl2),
      check_bind_ok buf _ _ _ _ (by exact le_trans hroom hl1)]
    simp (disch := omega) only [readBytes_agree h, readVec3_agree h]
  · have hr : d.pos + 12 ≤ n := hroom
    refine ⟨?_, by
      unfold nanAt
      simp (disch := omega) only [readBytes_agree h, readVec3_agree h]⟩
    rw [show blockAt X b2 4 d = parseLookAtPosition b2 d from
        (whenFlag_flag _ 4 _ _).trans (if_pos hflag2),
      show blockAt X buf 4 d = parseLookAtPosition buf d from
        (whenFlag_flag _ 4 _ _).trans (if_pos hflag)]
    unfold parseLookAtPosition
    rw [check_bind_ok b2 _ _ _ _ (by exact le_trans hroom hl2),
      check_bind_ok buf _ _ _ _ (by exact le_trans hroom hl1)]
    simp (disch := omega) only [readBytes_agree h, readVec3_agree h]
  · have hr : d.pos + 1 ≤ n := hroom
    refine ⟨?_, by
      unfold nanAt
      simp (disch := omega) only [readBytes_agree h, readVec3_agree h]⟩
    rw [show blockAt X b2 5 d = parseAudioLoudness X b2 d from
        (whenFlag_flag _ 5 _ _).trans (if_pos hflag2),
      show blockAt X buf 5 d = parseAudioLoudness X buf d from
        (whenFlag_flag _ 5 _ _).trans (if_pos hflag)]
    unfold parseAudioLoudness
    rw [check_bind_ok b2 _ _ _ _ (by exact le_trans hroom hl2),
      check_bind_ok buf _ _ _ _ (by exact le_trans hroom hl1)]
    simp (disch := omega) only [readBytes_agree h, readVec3_agree h]
  · have hr : d.pos + 20 ≤ n := hroom
    refine ⟨?_, rfl⟩
    rw [show blockAt X b2 6 d = parseSensorToWorldMatrix X b2 d from
        (whenFlag_flag _ 6 _ _).trans (if_pos hflag2),
      show blockAt X buf 6 d = parseSensorToWorldMatrix X buf d from
        (whenFlag_flag _ 6 _ _).trans (if_pos hflag)]
    unfold parseSensorToWorldMatrix
    rw [check_bind_ok b2 _ _ _ _ (by exact le_trans hroom hl2),
      check_bind_ok buf _ _ _ _ (by exact le_trans hroom hl1)]
    simp (disch := omega) only [readBytes_agree h, readVec3_agree h]
  · have hr : d.pos + 2 ≤ n := hroom
    refine ⟨?_, rfl⟩
    rw [show blockAt X b2 7 d = parseAdditionalFlags b2 d from
        (whenFlag_flag _ 7 _ _).trans (if_pos hflag2),
      show blockAt X buf 7 d = parseAdditionalFlags buf d from
        (whenFlag_flag _ 7 _ _).trans (if_pos hflag)]
    unfold parseAdditionalFlags
    rw [check_bind_ok b2 _ _ _ _ (by exact le_trans hroom hl2),
      check_bind_ok buf _ _ _ _ (by exact le_trans hroom hl1)]
    simp (disch := omega) only [readBytes_agree h, readVec3_agree h]
  · have hr : d.pos + 18 ≤ n := hroom
    refine ⟨?_, rfl⟩
    rw [show blockAt X b2 8 d = parseParentInfo b2 d from
        (whenFlag_flag _ 8 _ _).trans (if_pos hflag2),
      show blockAt X buf 8 d = parseParentInfo buf d from
        (whenFlag_flag _ 8 _ _).trans (if_pos hflag)]
    unfold parseParentInfo
    rw [check_bind_ok b2 _ _ _ _ (by exact le_trans hroom hl2),
      check_bind_ok buf _ _ _ _ (by exact le_trans hroom hl1)]
    simp (disch := omega) only [readBytes_agree h, readVec3_agree h]
  · have hr : d.pos + 12 ≤ n := hroom
    refine ⟨?_, by
      unfold nanAt
      simp (disch := omega) only [readBytes_agree h, readVec3_agree h]⟩
    rw [show blockAt X b2 9 d = parseLocalPosition b2 d from
        (whenFlag_flag _ 9 _ _).trans (if_pos hflag2),
      show blockAt X buf 9 d = parseLocalPosition buf d from
        (whenFlag_flag _ 9 _ _).trans (if_pos hflag)]
    unfold parseLocalPosition
    rw [check_bind_ok b2 _ _ _ _ (by exact le_trans hroom hl2),
      check_bind_ok buf _ _ _ _ (by exact le_trans hroom hl1)]
    simp (disch := omega) only [readBytes_agree h, readVec3_agree h]
  · have hr : d.pos + 24 ≤ n := hroom
    refine ⟨?_, rfl⟩
    rw [show blockAt X b2 10 d = parseHandControllers X b2 d from
        (whenFlag_flag _ 10 _ _).trans (if_pos hflag2),
      show blockAt X buf 10 d = parseHandControllers X buf d from
        (whenFlag_flag _ 10 _ _).trans (if_pos hflag)]
    unfold parseHandControllers
    rw [unpackHandController_agree X h _ (by omega), unpackHandController_agree X h _ (by omega)]

theorem noErrors_append {E1 E2 : List Event} (h1 : NoErrors E1) (h2 : NoErrors E2) :
    NoErrors (E1 ++ E2) := by
  intro e he
  rcases List.mem_append.1 he with h | h
  · exact h1 e h
  · exact h2 e h

theorem readRotations_events (X : Extern) (buf : List Nat) (vs : List Bool) :
    ∀ (i p : Nat), ∃ evs, NoErrors evs ∧ ∀ evs0,
      readRotations X buf vs i { pos := p, events := evs0 } =
        { pos := p + 6 * vs.count true, events := evs0 ++ evs } := by
  induction vs with
  | nil =>
    intro i p
    exact ⟨[], by simp [NoErrors], by simp [readRotations]⟩
  | cons b vs ih =>
    intro i p
    cases b with
    | true =>
      obtain ⟨evs, hc, hrun⟩ := ih (i + 1) (p + 6)
      refine ⟨[Event.setJointDataRotationIn i (X.unpackOrientationQuatFromSixBytes
          (fromLE (readBytes buf p 6))), Event.setJointDataRotationDefaultIn i false] ++ evs,
        ?_, ?_⟩
      · apply noErrors_append _ hc
        intro e he
        simp only [List.mem_cons, List.mem_singleton, List.not_mem_nil, or_false] at he
        rcases he with h | h <;> rw [h] <;> rfl
      · intro evs0
        simp only [readRotations, if_true, Dec.call, Dec.advance, hrun, List.count_cons_self]
        simp only [List.append_assoc, List.singleton_append, List.cons_append, List.nil_append,
          Dec.mk.injEq, and_true]
        omega
    | false =>
      obtain ⟨evs, hc, hrun⟩ := ih (i + 1) p
      refine ⟨evs, hc, ?_⟩
      intro evs0
      simp only [readRotations, Bool.false_eq_true, if_false, hrun]
      simp

theorem readTranslations_events (X : Extern) (buf : List Nat) (m : Nat) (vs : List Bool) :
    ∀ (i p : Nat), ∃ evs, NoErrors evs ∧ ∀ evs0,
      readTranslations X buf m vs i { pos := p, events := evs0 } =
        { pos := p + 6 * vs.count true, events := evs0 ++ evs } := by
  induction vs with
  | nil =>
    intro i p
    exact ⟨[], by simp [NoErrors], by simp [readTranslations]⟩
  | cons b vs ih =>
    intro i p
    cases b with
    | true =>
      obtain ⟨evs, hc, hrun⟩ := ih (i + 1) (p + 6)
      refine ⟨[Event.setJointDataPositionIn i (X.vecMul
          (X.unpackFloatVec3FromSignedTwoByteFixed (fromLE (readBytes buf p 6))
            TRANSLATION_COMPRESSION_RADIX) m), Event.setJointDataPositionDefaultIn i false] ++ evs,
        ?_, ?_⟩
      · apply noErrors_append _ hc
        intro e he
        simp only [List.mem_cons, List.mem_singleton, List.not_mem_nil, or_false] at he
        rcases he with h | h <;> rw [h] <;> rfl
      · intro evs0
        simp only [readTranslations, if_true, Dec.call, Dec.advance, hrun, List.count_cons_self]
        simp only [List.append_assoc, List.singleton_append, List.cons_append, List.nil_append,
          Dec.mk.injEq, and_true]
        omega
    | false =>
      obtain ⟨evs, hc, hrun⟩ := ih (i + 1) p
      refine ⟨evs, hc, ?_⟩
      intro evs0
      simp only [readTranslations, Bool.false_eq_true, if_false, hrun]
      simp

/-- The face tracker block on a section that lies in the common part of two buffers. -/
theorem faceTracker_present {n : Nat} {buf : List Nat} (d : Dec)
    (hroom : d.pos + (FACE_TRACKER_INFO_SIZE + 4 * readByte buf (d.pos + 16)) ≤ n) :
    ∃ E, NoErrors E ∧ ∀ b, Agree n buf b →
      parseFaceTrackerInfo b d =
        Except.ok { pos := d.pos + (FACE_TRACKER_INFO_SIZE + 4 * readByte buf (d.pos + 16)),
                    events := d.events ++ E } ∧
      readByte b (d.pos + 16) = readByte buf (d.pos + 16) := by
  simp only [FACE_TRACKER_INFO_SIZE] at hroom
  refine ⟨[Event.setFaceTrackerInfoIn
    { leftEyeBlink := fromLE (readBytes buf d.pos 4)
      rightEyeBlink := fromLE (readBytes buf (d.pos + 4) 4)
      averageLoudness := fromLE (readBytes buf (d.pos + 8) 4)
      browAudioLift := fromLE (readBytes buf (d.pos + 12) 4)
      blendshapeCoefficients := readFloats buf (d.pos + 17) (readByte buf (d.pos + 16)) }], ?_, ?_⟩
  · intro e he
    rw [List.mem_singleton.1 he]
    rfl
  · intro b hb
    have hl := hb.2.1
    have hcount := readByte_agree hb (d.pos + 16) (by omega)
    refine ⟨?_, hcount⟩
    unfold parseFaceTrackerInfo
    rw [check_bind_ok _ _ _ _ _ (by simp only [FACE_TRACKER_INFO_SIZE]; omega)]
    simp only [hcount]
    rw [check_bind_ok _ _ _ _ _ (by simp only [FACE_TRACKER_INFO_SIZE, Dec.advance]; omega)]
    simp (disch := omega) only [pure, Except.pure, Dec.call, Dec.advance, FACE_TRACKER_INFO_SIZE,
      readBytes_agree hb, readFloats_agree hb]
    simp only [Except.ok.injEq, Dec.mk.injEq, and_true]
    omega

/-- The default pose flags block on a section that lies in the common part of two buffers. -/
theorem defaultPose_present {n : Nat} {buf : List Nat} (d : Dec)
    (hroom : d.pos + (1 + 2 * calcBitVectorSize (readByte buf d.pos)) ≤ n) :
    ∃ E, NoErrors E ∧ ∀ b, Agree n buf b →
      parseJointDefaultPoseFlags b d =
        Except.ok { pos := d.pos + (1 + 2 * calcBitVectorSize (readByte buf d.pos)),
                    events := d.events ++ E } ∧
      readByte b d.pos = readByte buf d.pos := by
  refine ⟨[Event.setJointDataSizeIn (readByte buf d.pos)] ++
    readBitVector buf (d.pos + 1) (readByte buf d.pos) Event.setJointDataRotationDefaultIn ++
    readBitVector buf (d.pos + 1 + calcBitVectorSize (readByte buf d.pos)) (readByte buf d.pos)
      Event.setJointDataPositionDefaultIn, ?_, ?_⟩
  · intro e he
    simp only [List.mem_append, List.mem_singleton, readBitVector, List.mem_map,
      List.mem_range] at he
    rcases he with (h | ⟨i, -, h⟩) | ⟨i, -, h⟩
    · rw [h]; rfl
    · rw [← h]; rfl
    · rw [← h]; rfl
  · intro b hb
    have hl := hb.2.1
    have hcount := readByte_agree hb d.pos (by omega)
    refine ⟨?_, hcount⟩
    unfold parseJointDefaultPoseFlags
    rw [check_bind_ok _ _ _ _ _ (by omega)]
    simp only [hcount, Dec.advance, Dec.call]
    rw [check_bind_ok _ _ _ _ _ (by simp only []; omega)]
    simp only []
    rw [check_bind_ok _ _ _ _ _ (by simp only []; omega)]
    simp (disch := omega) only [pure, Except.pure, readBitVector_agree hb]
    simp only [Except.ok.injEq, Dec.mk.injEq, List.append_assoc, and_true]
    omega

/-- The joint data block on a section that lies in the common part of two buffers. -/
theorem jointData_present (X : Extern) {n : Nat} {buf : List Nat} (g : Bool) (d : Dec)
    (hroom : d.pos + jointDataWireSize buf d.pos g ≤ n) :
    ∃ E, NoErrors E ∧ ∀ b, Agree n buf b →
      parseJointData X b g d =
        Except.ok { pos := d.pos + jointDataWireSize buf d.pos g, events := d.events ++ E } ∧
      jointDataWireSize b d.pos g = jointDataWireSize buf d.pos g := by
  simp only [jointDataWireSize] at hroom ⊢
  generalize hJ0 : readByte buf d.pos = J at hroom ⊢
  generalize hvr0 : readValidity buf (d.pos + 1) J = vr at hroom ⊢
  generalize hvt0 : readValidity buf (d.pos + 1 + calcBitVectorSize J + 6 * vr.count true) J = vt
    at hroom ⊢
  obtain ⟨ER, cR, hR⟩ := readRotations_events X buf vr 0 (d.pos + 1 + calcBitVectorSize J)
  obtain ⟨ET, cT, hT⟩ := readTranslations_events X buf
    (fromLE (readBytes buf (d.pos + 1 + calcBitVectorSize J + 6 * vr.count true +
      calcBitVectorSize J) 4)) vt 0
    (d.pos + 1 + calcBitVectorSize J + 6 * vr.count true + calcBitVectorSize J + 4)
  have hsize : ∀ b, Agree n buf b →
      readByte b d.pos = J ∧ readValidity b (d.pos + 1) J = vr ∧
      readValidity b (d.pos + 1 + calcBitVectorSize J + 6 * vr.count true) J = vt := by
    intro b hb
    refine ⟨?_, ?_, ?_⟩
    · rw [readByte_agree hb _ (by omega), hJ0]
    · rw [readValidity_agree hb _ _ (by omega), hvr0]
    · rw [readValidity_agree hb _ _ (by omega), hvt0]
  have key : ∀ b, Agree n buf b → parseJointData X b g d =
      (if g = true then parseGrabJoints b
        { pos := d.pos + 1 + calcBitVectorSize J + 6 * vr.count true + calcBitVectorSize J + 4
            + 6 * vt.count true,
          events := d.events ++ [Event.setJointDataSizeIn J] ++ ER ++ ET }
      else pure
        { pos := d.pos + 1 + calcBitVectorSize J + 6 * vr.count true + calcBitVectorSize J + 4
            + 6 * vt.count true,
          events := d.events ++ [Event.setJointDataSizeIn J] ++ ER ++ ET }) := by
    intro b hb
    obtain ⟨s1, s2, s3⟩ := hsize b hb
    have hl := hb.2.1
    unfold parseJointData
    rw [check_bind_ok _ _ _ _ _ (by omega)]
    simp only [Dec.advance, Dec.call, s1]
    rw [show (J + (BITS_IN_BYTE - 1)) / BITS_IN_BYTE = calcBitVectorSize J from rfl]
    rw [check_bind_ok _ _ _ _ _ (by simp only []; omega)]
    simp only [s2]
    rw [check_bind_ok _ _ _ _ _ (by simp only []; omega)]
    rw [readRotations_agree X hb _ _ _ (by simp only []; omega), hR]
    rw [check_bind_ok _ _ _ _ _ (by simp only []; omega)]
    simp only [s3]
    rw [check_bind_ok _ _ _ _ _ (by simp only []; omega)]
    simp only []
    rw [check_bind_ok _ _ _ _ _ (by simp only []; omega)]
    rw [readBytes_agree hb _ _ (by omega),
      readTranslations_agree X hb _ _ _ _ (by simp only []; omega), hT]
  by_cases hg : g = true
  · subst hg
    simp only [if_true] at hroom ⊢
    refine ⟨[Event.setJointDataSizeIn J] ++ ER ++ ET ++
      [Event.setFarGrabJointsIn (readFarGrabJoints buf (d.pos + 1 + calcBitVectorSize J +
        6 * vr.count true + calcBitVectorSize J + 4 + 6 * vt.count true))], ?_, ?_⟩
    · refine noErrors_append (noErrors_append (noErrors_append ?_ cR) cT) ?_
      · intro e he
        rw [List.mem_singleton.1 he]
        rfl
      · intro e he
        rw [List.mem_singleton.1 he]
        rfl
    · intro b hb
      obtain ⟨s1, s2, s3⟩ := hsize b hb
      have hl := hb.2.1
      refine ⟨?_, by rw [s1, s2, s3]⟩
      rw [key b hb]
      simp only [if_true]
      unfold parseGrabJoints
      rw [check_bind_ok _ _ _ _ _ (by simp only [FAR_GRAB_JOINTS_SIZE] at hroom ⊢; omega)]
      simp only [FAR_GRAB_JOINTS_SIZE] at hroom ⊢
      rw [readFarGrabJoints_agree hb _ (by omega)]
      simp only [pure, Except.pure, Dec.call, Dec.advance, Except.ok.injEq, Dec.mk.injEq,
        List.append_assoc, and_true]
      omega
  · have hg0 : g = false := by simpa using hg
    subst hg0
    simp only [Bool.false_eq_true, if_false] at hroom ⊢
    refine ⟨[Event.setJointDataSizeIn J] ++ ER ++ ET, ?_, ?_⟩
    · refine noErrors_append (noErrors_append ?_ cR) cT
      intro e he
      rw [List.mem_singleton.1 he]
      rfl
    · intro b hb
      obtain ⟨s1, s2, s3⟩ := hsize b hb
      refine ⟨?_, by rw [s1, s2, s3]⟩
      rw [key b hb]
      simp only [Bool.false_eq_true, if_false, pure, Except.pure, Except.ok.injEq, Dec.mk.injEq,
        List.append_assoc, and_true]
      omega

/-- A block whose section is flagged, lies within the first `n` bytes and passes its NaN check:
on every buffer with the same first `n` bytes it makes the same calls, none of them an error
callback, and moves on by the wire size of the section. -/
theorem block_present (X : Extern) {n : Nat} {buf : List Nat} (h2 : 2 ≤ n)
    (hn : n ≤ buf.length) (k : Nat) (d : Dec) (hk : k < 14)
    (hflag : (packetStateFlags buf).testBit k = true)
    (hroom : d.pos + wireSizeAt buf k d.pos ≤ n)
    (hnan : nanAt X buf k d.pos = false) :
    ∃ E, NoErrors E ∧ ∀ b, Agree n buf b →
      blockAt X b k d =
        Except.ok { pos := d.pos + wireSizeAt buf k d.pos, events := d.events ++ E } ∧
      wireSizeAt b k d.pos = wireSizeAt buf k d.pos ∧ nanAt X b k d.pos = false := by
  by_cases hk11 : k < 11
  · have hsz := wireSizeAt_fixed buf k d.pos hk11
    rw [hsz] at hroom ⊢
    rcases fixedBlock_room X buf k d hk11 hflag (le_trans hroom hn) with
      ⟨-, e, he, hb⟩ | ⟨hn1, -⟩
    · refine ⟨[e], ?_, ?_⟩
      · intro x hx
        rw [List.mem_singleton.1 hx]
        exact sinkOf_not_error e k he
      · intro b hb2
        obtain ⟨q1, q2⟩ := fixedBlock_agree X hb2 h2 k d hk11 hflag hroom
        exact ⟨q1.trans hb, wireSizeAt_fixed b k d.pos hk11, q2.trans hnan⟩
    · rw [hnan] at hn1
      exact absurd hn1 (by simp)
  · have hcases : k = 11 ∨ k = 12 ∨ k = 13 := by omega
    rcases hcases with h | h | h
    · subst h
      have hroom1 : d.pos + (FACE_TRACKER_INFO_SIZE + 4 * readByte buf (d.pos + 16)) ≤ n := hroom
      obtain ⟨E, hE, hrun⟩ := faceTracker_present d hroom1
      refine ⟨E, hE, ?_⟩
      intro b hb
      have hflag2 : (packetStateFlags b).testBit 11 = true := by
        rw [packetStateFlags_agree hb h2]; exact hflag
      obtain ⟨r1, r2⟩ := hrun b hb
      refine ⟨((whenFlag_flag _ 11 _ _).trans (if_pos hflag2)).trans r1, ?_, rfl⟩
      show FACE_TRACKER_INFO_SIZE + 4 * readByte b (d.pos + 16) = _
      rw [r2]
      rfl
    · subst h
      have hroom1 : d.pos + jointDataWireSize buf d.pos ((packetStateFlags buf).testBit 14) ≤ n :=
        hroom
      obtain ⟨E, hE, hrun⟩ := jointData_present X ((packetStateFlags buf).testBit 14) d hroom1
      refine ⟨E, hE, ?_⟩
      intro b hb
      have hm := packetStateFlags_agree hb h2
      have hflag2 : (packetStateFlags b).testBit 12 = true := by
        rw [hm]; exact hflag
      obtain ⟨r1, r2⟩ := hrun b hb
      have hblock : blockAt X b 12 d =
          parseJointData X b ((packetStateFlags buf).testBit 14) d := by
        refine ((whenFlag_flag _ 12 _ _).trans (if_pos hflag2)).trans ?_
        rw [show PACKET_HAS_GRAB_JOINTS = 1 <<< 14 from rfl, hasFlag_flag, hm]
      refine ⟨hblock.trans r1, ?_, rfl⟩
      show jointDataWireSize b d.pos ((packetStateFlags b).testBit 14) = _
      rw [hm, r2]
      rfl
    · subst h
      have hroom1 : d.pos + (1 + 2 * calcBitVectorSize (readByte buf d.pos)) ≤ n := hroom
      obtain ⟨E, hE, hrun⟩ := defaultPose_present d hroom1
      refine ⟨E, hE, ?_⟩
      intro b hb
      have hflag2 : (packetStateFlags b).testBit 13 = true := by
        rw [packetStateFlags_agree hb h2]; exact hflag
      obtain ⟨r1, r2⟩ := hrun b hb
      refine ⟨((whenFlag_flag _ 13 _ _).trans (if_pos hflag2)).trans r1, ?_, rfl⟩
      show 1 + 2 * calcBitVectorSize (readByte b d.pos) = _
      rw [r2]
      rfl

/-- The run of the decoder over sections that all lie within the first `n` bytes and pass their
NaN checks. -/
theorem present_run (X : Extern) {n : Nat} {buf : List Nat} (h2 : 2 ≤ n) (hn : n ≤ buf.length)
    (fuel : Nat) :
    ∀ (k : Nat) (d : Dec), k + fuel ≤ 14 → wireWalk buf fuel k d.pos ≤ n →
      nanWalk X buf fuel k d.pos = false →
      ∃ E, NoErrors E ∧ ∀ b, Agree n buf b →
        runBlocks ((List.range' k fuel).map (blockAt X b)) d =
          Except.ok { pos := wireWalk buf fuel k d.pos, events := d.events ++ E } ∧
        wireWalk b fuel k d.pos = wireWalk buf fuel k d.pos ∧
        nanWalk X b fuel k d.pos = false := by
  induction fuel with
  | zero =>
    intro k d _ _ _
    exact ⟨[], by simp [NoErrors], fun b _ => ⟨by simp [runBlocks, wireWalk], rfl, rfl⟩⟩
  | succ fuel ih =>
    intro k d hk hroom hnan
    simp only [wireWalk, nanWalk] at hroom hnan ⊢
    by_cases hflag : (packetStateFlags buf).testBit k = true
    · simp only [hflag, if_true, Bool.true_and, Bool.or_eq_false_iff] at hroom hnan ⊢
      have hr1 : d.pos + wireSizeAt buf k d.pos ≤ n := le_trans (wireWalk_ge _ _ _ _) hroom
      obtain ⟨E1, c1, hstep⟩ := block_present X h2 hn k d (by omega) hflag hr1 hnan.1
      obtain ⟨E2, c2, hrest⟩ := ih (k + 1)
        { pos := d.pos + wireSizeAt buf k d.pos, events := d.events ++ E1 } (by omega) hroom
        hnan.2
      refine ⟨E1 ++ E2, noErrors_append c1 c2, ?_⟩
      intro b hb
      obtain ⟨s1, s2, s3⟩ := hstep b hb
      obtain ⟨t1, t2, t3⟩ := hrest b hb
      have hflag2 : (packetStateFlags b).testBit k = true := by
        rw [packetStateFlags_agree hb h2]; exact hflag
      simp only [List.range'_succ, List.map_cons, runBlocks, s1, wireWalk, nanWalk, hflag2,
        if_true, s2, s3, Bool.true_and, Bool.false_or]
      exact ⟨by rw [t1, List.append_assoc], t2, trivial, t3⟩
    · have hf : (packetStateFlags buf).testBit k = false := by simpa using hflag
      simp only [hf, Bool.false_eq_true, if_false, Bool.false_and, Bool.false_or] at hroom hnan ⊢
      obtain ⟨E2, c2, hrest⟩ := ih (k + 1) d (by omega) hroom hnan
      refine ⟨E2, c2, ?_⟩
      intro b hb
      obtain ⟨t1, t2, t3⟩ := hrest b hb
      have hf2 : (packetStateFlags b).testBit k = false := by
        rw [packetStateFlags_agree hb h2]; exact hf
      simp only [List.range'_succ, List.map_cons, runBlocks,
        blockAt_unflagged X b k d (by omega) hf2, wireWalk, nanWalk, hf2, Bool.false_eq_true,
        if_false, Bool.false_and, Bool.false_or]
      exact ⟨t1, t2, t3⟩

theorem agree_refl (n : Nat) (buf : List Nat) (hn : n ≤ buf.length) : Agree n buf buf :=
  ⟨hn, hn, rfl⟩

theorem agree_of_take (n : Nat) (buf b2 : List Nat) (hn : n ≤ buf.length)
    (h : b2.take n = buf.take n) : Agree n buf b2 := by
  refine ⟨hn, ?_, h⟩
  have := congrArg List.length h
  simp only [List.length_take] at this
  omega

/-- The decoder on a buffer whose flagged sections are all present and pass their NaN checks. -/
theorem parse_present (X : Extern) (buf : List Nat) (hpresent : wireEnd buf ≤ buf.length)
    (hnan : nanWalk X buf 14 0 HEADER_SIZE = false) :
    ∃ E, NoErrors E ∧ ∀ b, b.take (wireEnd buf) = buf.take (wireEnd buf) →
      parseDataFromBuffer X b = { events := E, result := wireEnd buf } := by
  have h2 : 2 ≤ wireEnd buf := wireWalk_ge buf 14 0 HEADER_SIZE
  obtain ⟨E, hE, hrun⟩ := present_run X h2 hpresent 14 0 { pos := HEADER_SIZE, events := [] }
    (by omega) (le_refl _) hnan
  refine ⟨E, hE, ?_⟩
  intro b hb
  obtain ⟨r1, -, -⟩ := hrun b (agree_of_take _ buf b hpresent hb)
  unfold parseDataFromBuffer parseSections
  rw [parseBlocks_blockAt, List.range_eq_range', r1]
  simp [wireEnd]

/-- C13. For every buffer in which every flagged section is completely present (the offset
`wireEnd` after the last flagged section, 2 for the mask plus the wire sizes of the flagged
sections as laid out in the buffer, is within the buffer) and no NaN check fires: the decoder
calls no error callback and returns `wireEnd`, which is at most the size of the buffer; the far-grab
bit without the joint data bit adds nothing to it; and the bytes after it are ignored, every
buffer with the same first `wireEnd` bytes giving the same calls and the same result. -/
theorem C13_complete_buffer (X : Extern) (buf : List Nat)
    (hpresent : wireEnd buf ≤ buf.length)
    (hnan : nanWalk X buf 14 0 HEADER_SIZE = false) :
    (∀ e ∈ (parseDataFromBuffer X buf).events, Event.isError e = false) ∧
    (parseDataFromBuffer X buf).result = wireEnd buf ∧
    (parseDataFromBuffer X buf).result ≤ buf.length ∧
    (∀ p, (packetStateFlags buf).testBit 12 = false → wireWalk buf 1 12 p = p) ∧
    ∀ b, b.take (wireEnd buf) = buf.take (wireEnd buf) →
      parseDataFromBuffer X b = parseDataFromBuffer X buf := by
  obtain ⟨E, hE, hrun⟩ := parse_present X buf hpresent hnan
  have hself := hrun buf rfl
  refine ⟨?_, ?_, ?_, ?_, ?_⟩
  · rw [hself]
    exact hE
  · rw [hself]
  · rw [hself]
    exact hpresent
  · intro p h12
    simp [wireWalk, h12]
  · intro b hb
    rw [hrun b hb, hself]

theorem C13_witness :
    wireEnd trailingPacket ≤ trailingPacket.length ∧
    nanWalk sampleExtern trailingPacket 14 0 HEADER_SIZE = false ∧
    ((∀ e ∈ (parseDataFromBuffer sampleExtern trailingPacket).events, Event.isError e = false) ∧
    (parseDataFromBuffer sampleExtern trailingPacket).result = wireEnd trailingPacket ∧
    (parseDataFromBuffer sampleExtern trailingPacket).result ≤ trailingPacket.length ∧
    (∀ p, (packetStateFlags trailingPacket).testBit 12 = false →
      wireWalk trailingPacket 1 12 p = p) ∧
    ∀ b, b.take (wireEnd trailingPacket) = trailingPacket.take (wireEnd trailingPacket) →
      parseDataFromBuffer sampleExtern b = parseDataFromBuffer sampleExtern trailingPacket) ∧
    wireEnd trailingPacket = 108 ∧ trailingPacket.length = 110 :=
  ⟨by decide, by decide,
    C13_complete_buffer sampleExtern trailingPacket (by decide) (by decide),
    by decide, by decide⟩

/-! ## C21: the rotation change test -/

/-- The threshold `minRotationDOT` under `CullSmallData`. -/
theorem minRotationDOTFor_cull (X : Extern) (A : Avatar) (da : Bool) (v : Vec3) :
    minRotationDOTFor X A da true v =
      if da = true then getDistanceBasedMinRotationDOT X A v else X.AVATAR_MIN_ROTATION_DOT := by
  unfold minRotationDOTFor
  cases da <;> simp

/-- The rotation test for a joint in the default pose, and under `CullSmallData` for a joint
that is not in the default pose and was not sent so. -/
theorem rotationSend_spec (X : Extern) (A : Avatar) (last : List JointData) (sa cull da : Bool)
    (v : Vec3) (i : Nat) :
    ((A.getJointDataOut i).rotationIsDefaultPose = true →
      rotationSend X A last sa cull da v i = false) ∧
    (sa = false → cull = true → (A.getJointDataOut i).rotationIsDefaultPose = false →
      (last.getD i default).rotationIsDefaultPose = false →
      rotationSend X A last sa cull da v i =
        floatLess (fabsf (X.dot (last.getD i default).rotation (A.getJointDataOut i).rotation))
          (if da = true then getDistanceBasedMinRotationDOT X A v
            else X.AVATAR_MIN_ROTATION_DOT)) := by
  constructor
  · intro h
    simp [rotationSend, sendRotation, h]
  · intro hsa hcull h1 h2
    subst hsa hcull
    unfold rotationSend sendRotation
    rw [h1, h2, minRotationDOTFor_cull]
    simp only [Bool.not_false, Bool.true_and, Bool.false_or, Bool.not_true, Bool.false_and]

/-- C21. In the joint data section of a packet: a joint whose current rotation is the default
pose is never written, under any detail level; and under `CullSmallData`, for a joint from
`rotationsSent` on that the loop reaches with enough space (a joint below the returned
`rotationsSent`), whose current rotation and last-sent rotation are not the default pose, the
rotation is written iff `|dot(last, current)| < τ`, where `τ` is the distance-based threshold when
`distanceAdjust` is set and `AVATAR_MIN_ROTATION_DOT` otherwise. -/
theorem C21_rotation_written_iff (X : Extern) (A : Avatar) (itemFlagsInit : Nat)
    (dataDetail : AvatarDataDetail) (lastSentJointData : List JointData)
    (sendStatus : SendStatus) (distanceAdjust : Bool) (viewerPosition : Vec3)
    (maxDataSize : Nat)
    (hmax : maxDataSize = 0 ∨ MIN_BULK_PACKET_SIZE ≤ maxDataSize)
    (hd : dataDetail ≠ AvatarDataDetail.NoData) :
    ∃ r, toByteArray X A itemFlagsInit dataDetail lastSentJointData sendStatus distanceAdjust
        viewerPosition maxDataSize = some r ∧
      ∀ js, r.joints = some js →
        (∀ i, (A.getJointDataOut i).rotationIsDefaultPose = true → i ∉ js.rotationsWritten) ∧
        (dataDetail = AvatarDataDetail.CullSmallData →
          ∀ i, rotationsSentFor sendStatus ≤ i → i < r.sendStatus.rotationsSent →
            (A.getJointDataOut i).rotationIsDefaultPose = false →
            (lastSentJointData.getD i default).rotationIsDefaultPose = false →
            (i ∈ js.rotationsWritten ↔
              floatLess
                (fabsf (X.dot (lastSentJointData.getD i default).rotation
                  (A.getJointDataOut i).rotation))
                (if distanceAdjust = true then getDistanceBasedMinRotationDOT X A viewerPosition
                  else X.AVATAR_MIN_ROTATION_DOT) = true)) := by
  obtain ⟨r, hr, hle, -, -, -, hjs⟩ := toByteArray_cursor X A itemFlagsInit dataDetail
    lastSentJointData sendStatus distanceAdjust viewerPosition maxDataSize hmax hd
  refine ⟨r, hr, ?_⟩
  intro js hj
  obtain ⟨-, hw, -⟩ := hjs js hj
  constructor
  · intro i hdp hmem
    rw [hw] at hmem
    have hsend := (List.mem_filter.1 hmem).2
    rw [(rotationSend_spec X A lastSentJointData _ _ distanceAdjust viewerPosition i).1 hdp]
      at hsend
    exact absurd hsend (by simp)
  · intro hcull i h1 h2 h3 h4
    subst hcull
    rw [hw, List.mem_filter, List.mem_range'_1]
    have hspec := (rotationSend_spec X A lastSentJointData
      (decide (AvatarDataDetail.CullSmallData = AvatarDataDetail.SendAllData))
      (decide (AvatarDataDetail.CullSmallData = AvatarDataDetail.CullSmallData))
      distanceAdjust viewerPosition i).2 (by decide) (by decide) h3 h4
    rw [hspec]
    constructor
    · intro h
      exact h.2
    · intro h
      exact ⟨⟨h1, by omega⟩, h⟩

theorem C21_witness :
    ((0 : Nat) = 0 ∨ MIN_BULK_PACKET_SIZE ≤ 0) ∧
    AvatarDataDetail.CullSmallData ≠ AvatarDataDetail.NoData ∧
    ∃ r, toByteArray sampleExtern (sampleAvatar 3) 0x1000 AvatarDataDetail.CullSmallData
        (List.replicate 3 sampleJoint) freshStatus false default 0 = some r ∧
      ∀ js, r.joints = some js →
        (∀ i, ((sampleAvatar 3).getJointDataOut i).rotationIsDefaultPose = true →
          i ∉ js.rotationsWritten) ∧
        (AvatarDataDetail.CullSmallData = AvatarDataDetail.CullSmallData →
          ∀ i, rotationsSentFor freshStatus ≤ i → i < r.sendStatus.rotationsSent →
            ((sampleAvatar 3).getJointDataOut i).rotationIsDefaultPose = false →
            ((List.replicate 3 sampleJoint).getD i default).rotationIsDefaultPose = false →
            (i ∈ js.rotationsWritten ↔
              floatLess
                (fabsf (sampleExtern.dot ((List.replicate 3 sampleJoint).getD i default).rotation
                  ((sampleAvatar 3).getJointDataOut i).rotation))
                (if false = true then getDistanceBasedMinRotationDOT sampleExtern (sampleAvatar 3)
                    default
                  else sampleExtern.AVATAR_MIN_ROTATION_DOT) = true)) :=
  ⟨by decide, by decide,
    C21_rotation_written_iff sampleExtern (sampleAvatar 3) 0x1000 AvatarDataDetail.CullSmallData
      (List.replicate 3 sampleJoint) freshStatus false default 0 (by decide) (by decide)⟩

/-! ## C23: the distance-based threshold -/

theorem floatLess_iff (a b : Nat) :
    floatLess a b = true ↔ isNaN a = false ∧ isNaN b = false ∧ floatKey a < floatKey b := by
  unfold floatLess floatKey
  cases ha : isNaN a <;> cases hb : isNaN b <;>
    simp only [Bool.or_false, Bool.or_true, Bool.false_eq_true, if_false, if_true, true_and,
      false_and, and_false, Bool.true_eq_false, Bool.or_self]
  have h1 := Nat.mod_two_eq_zero_or_one (a / 2 ^ 31)
  have h2 := Nat.mod_two_eq_zero_or_one (b / 2 ^ 31)
  rcases h1 with h1 | h1 <;> rcases h2 with h2 | h2 <;>
    simp only [h1, h2, if_true, if_false, one_ne_zero, decide_eq_true_eq, Bool.false_eq_true,
      false_iff] <;> omega

theorem floatEq_iff (a b : Nat) :
    floatEq a b = true ↔ isNaN a = false ∧ isNaN b = false ∧ floatKey a = floatKey b := by
  unfold floatEq floatKey
  cases ha : isNaN a <;> cases hb : isNaN b <;>
    simp only [Bool.or_false, Bool.or_true, Bool.false_eq_true, if_false, if_true, true_and,
      false_and, and_false, Bool.true_eq_false, Bool.or_self]
  have h1 := Nat.mod_two_eq_zero_or_one (a / 2 ^ 31)
  have h2 := Nat.mod_two_eq_zero_or_one (b / 2 ^ 31)
  rcases h1 with h1 | h1 <;> rcases h2 with h2 | h2 <;>
    simp only [h1, h2, if_true, if_false, one_ne_zero, decide_eq_true_eq] <;> omega

theorem floatLeq_iff (a b : Nat) :
    floatLeq a b = true ↔ isNaN a = false ∧ isNaN b = false ∧ floatKey a ≤ floatKey b := by
  unfold floatLeq
  rw [Bool.or_eq_true, floatLess_iff, floatEq_iff]
  constructor
  · rintro (⟨h1, h2, h3⟩ | ⟨h1, h2, h3⟩)
    · exact ⟨h1, h2, le_of_lt h3⟩
    · exact ⟨h1, h2, le_of_eq h3⟩
  · rintro ⟨h1, h2, h3⟩
    rcases lt_or_eq_of_le h3 with h | h
    · exact Or.inl ⟨h1, h2, h⟩
    · exact Or.inr ⟨h1, h2, h⟩

theorem floatLeq_trans {a b c : Nat} (h1 : floatLeq a b = true) (h2 : floatLeq b c = true) :
    floatLeq a c = true := by
  rw [floatLeq_iff] at *
  exact ⟨h1.1, h2.2.1, le_trans h1.2.2 h2.2.2⟩

theorem floatLeq_refl_left {a b : Nat} (h : floatLeq a b = true) : floatLeq a a = true := by
  rw [floatLeq_iff] at *
  exact ⟨h.1, h.1, le_refl _⟩

theorem floatLeq_refl_right {a b : Nat} (h : floatLeq a b = true) : floatLeq b b = true := by
  rw [floatLeq_iff] at *
  exact ⟨h.2.1, h.2.1, le_refl _⟩

theorem floatLess_of_leq_of_less {a b c : Nat} (h1 : floatLeq a b = true)
    (h2 : floatLess b c = true) : floatLess a c = true := by
  rw [floatLeq_iff] at h1
  rw [floatLess_iff] at *
  exact ⟨h1.1, h2.2.1, lt_of_le_of_lt h1.2.2 h2.2.2⟩

/-- The step function of `getDistanceBasedMinRotationDOT`, as a function of the distance. -/
theorem getDistanceBasedMinRotationDOT_eq (X : Extern) (A : Avatar) (v : Vec3) :
    getDistanceBasedMinRotationDOT X A v =
      if floatLess (X.distance A.globalPosition v) X.AVATAR_DISTANCE_LEVEL_1 = true then
        X.AVATAR_MIN_ROTATION_DOT
      else if floatLess (X.distance A.globalPosition v) X.AVATAR_DISTANCE_LEVEL_2 = true then
        X.ROTATION_CHANGE_2D
      else if floatLess (X.distance A.globalPosition v) X.AVATAR_DISTANCE_LEVEL_3 = true then
        X.ROTATION_CHANGE_4D
      else if floatLess (X.distance A.globalPosition v) X.AVATAR_DISTANCE_LEVEL_4 = true then
        X.ROTATION_CHANGE_6D
      else if floatLess (X.distance A.globalPosition v) X.AVATAR_DISTANCE_LEVEL_5 = true then
        X.ROTATION_CHANGE_15D
      else X.ROTATION_CHANGE_179D := rfl

/-- C23. The function `getDistanceBasedMinRotationDOT` returns, for the distance `d` between the
global position of the avatar and the viewer, `AVATAR_MIN_ROTATION_DOT` if `d < LEVEL_1`, else
`ROTATION_CHANGE_2D` if `d < LEVEL_2`, else `ROTATION_CHANGE_4D` if `d < LEVEL_3`, else
`ROTATION_CHANGE_6D` if `d < LEVEL_4`, else `ROTATION_CHANGE_15D` if `d < LEVEL_5`, else
`ROTATION_CHANGE_179D`; and with decreasing thresholds the result does not increase with the
distance: when `d1 <= d2` the result at `d2` is at most the result at `d1` (comparisons of
IEEE-754 single precision). -/
theorem C23_distance_based_min_rotation_dot (X : Extern) (A1 A2 : Avatar) (v1 v2 : Vec3)
    (h2D : floatLeq X.ROTATION_CHANGE_2D X.AVATAR_MIN_ROTATION_DOT = true)
    (h4D : floatLeq X.ROTATION_CHANGE_4D X.ROTATION_CHANGE_2D = true)
    (h6D : floatLeq X.ROTATION_CHANGE_6D X.ROTATION_CHANGE_4D = true)
    (h15D : floatLeq X.ROTATION_CHANGE_15D X.ROTATION_CHANGE_6D = true)
    (h179D : floatLeq X.ROTATION_CHANGE_179D X.ROTATION_CHANGE_15D = true)
    (hdist : floatLeq (X.distance A1.globalPosition v1) (X.distance A2.globalPosition v2) = true) :
    (getDistanceBasedMinRotationDOT X A1 v1 =
      if floatLess (X.distance A1.globalPosition v1) X.AVATAR_DISTANCE_LEVEL_1 = true then
        X.AVATAR_MIN_ROTATION_DOT
      else if floatLess (X.distance A1.globalPosition v1) X.AVATAR_DISTANCE_LEVEL_2 = true then
        X.ROTATION_CHANGE_2D
      else if floatLess (X.distance A1.globalPosition v1) X.AVATAR_DISTANCE_LEVEL_3 = true then
        X.ROTATION_CHANGE_4D
      else if floatLess (X.distance A1.globalPosition v1) X.AVATAR_DISTANCE_LEVEL_4 = true then
        X.ROTATION_CHANGE_6D
      else if floatLess (X.distance A1.globalPosition v1) X.AVATAR_DISTANCE_LEVEL_5 = true then
        X.ROTATION_CHANGE_15D
      else X.ROTATION_CHANGE_179D) ∧
    floatLeq (getDistanceBasedMinRotationDOT X A2 v2) (getDistanceBasedMinRotationDOT X A1 v1) =
      true := by
  refine ⟨getDistanceBasedMinRotationDOT_eq X A1 v1, ?_⟩
  rw [getDistanceBasedMinRotationDOT_eq X A1 v1, getDistanceBasedMinRotationDOT_eq X A2 v2]
  generalize X.distance A1.globalPosition v1 = d1 at hdist ⊢
  generalize X.distance A2.globalPosition v2 = d2 at hdist ⊢
  have m1 := fun h => floatLess_of_leq_of_less (c := X.AVATAR_DISTANCE_LEVEL_1) hdist h
  have m2 := fun h => floatLess_of_leq_of_less (c := X.AVATAR_DISTANCE_LEVEL_2) hdist h
  have m3 := fun h => floatLess_of_leq_of_less (c := X.AVATAR_DISTANCE_LEVEL_3) hdist h
  have m4 := fun h => floatLess_of_leq_of_less (c := X.AVATAR_DISTANCE_LEVEL_4) hdist h
  have m5 := fun h => floatLess_of_leq_of_less (c := X.AVATAR_DISTANCE_LEVEL_5) hdist h
  have r0 := floatLeq_refl_right h2D
  have r1 := floatLeq_refl_left h2D
  have r2 := floatLeq_refl_left h4D
  have r3 := floatLeq_refl_left h6D
  have r4 := floatLeq_refl_left h15D
  have r5 := floatLeq_refl_left h179D
  have t20 := floatLeq_trans h4D h2D
  have t30 := floatLeq_trans h6D t20
  have t40 := floatLeq_trans h15D t30
  have t50 := floatLeq_trans h179D t40
  have t31 := floatLeq_trans h6D h4D
  have t41 := floatLeq_trans h15D t31
  have t51 := floatLeq_trans h179D t41
  have t42 := floatLeq_trans h15D h6D
  have t52 := floatLeq_trans h179D t42
  have t53 := floatLeq_trans h179D h15D
  by_cases c1 : floatLess d2 X.AVATAR_DISTANCE_LEVEL_1 = true
  · have e := m1 c1
    simp only [c1, e, if_true, if_false, Bool.false_eq_true]
    exact r0
  · simp only [c1, if_false, Bool.false_eq_true]
    by_cases c2 : floatLess d2 X.AVATAR_DISTANCE_LEVEL_2 = true
    · have e := m2 c2
      simp only [c1, c2, e, if_true, if_false, Bool.false_eq_true]
      first | assumption | (split_ifs <;> assumption)
    · simp only [c2, if_false, Bool.false_eq_true]
      by_cases c3 : floatLess d2 X.AVATAR_DISTANCE_LEVEL_3 = true
      · have e := m3 c3
        simp only [c1, c2, c3, e, if_true, if_false, Bool.false_eq_true]
        first | assumption | (split_ifs <;> assumption)
      · simp only [c3, if_false, Bool.false_eq_true]
        by_cases c4 : floatLess d2 X.AVATAR_DISTANCE_LEVEL_4 = true
        · have e := m4 c4
          simp only [c1, c2, c3, c4, e, if_true, if_false, Bool.false_eq_true]
          first | assumption | (split_ifs <;> assumption)
        · simp only [c4, if_false, Bool.false_eq_true]
          by_cases c5 : floatLess d2 X.AVATAR_DISTANCE_LEVEL_5 = true
          · have e := m5 c5
            simp only [c1, c2, c3, c4, c5, e, if_true, if_false, Bool.false_eq_true]
            first | assumption | (split_ifs <;> assumption)
          · simp only [c5, if_false, Bool.false_eq_true]
            first | assumption | (split_ifs <;> assumption)

theorem C23_witness :
    floatLeq thresholdExtern.ROTATION_CHANGE_2D thresholdExtern.AVATAR_MIN_ROTATION_DOT = true ∧
    floatLeq thresholdExtern.ROTATION_CHANGE_4D thresholdExtern.ROTATION_CHANGE_2D = true ∧
    floatLeq thresholdExtern.ROTATION_CHANGE_6D thresholdExtern.ROTATION_CHANGE_4D = true ∧
    floatLeq thresholdExtern.ROTATION_CHANGE_15D thresholdExtern.ROTATION_CHANGE_6D = true ∧
    floatLeq thresholdExtern.ROTATION_CHANGE_179D thresholdExtern.ROTATION_CHANGE_15D = true ∧
    floatLeq (thresholdExtern.distance (avatarAt 0x40400000).globalPosition default)
      (thresholdExtern.distance (avatarAt 0x41A00000).globalPosition default) = true ∧
    getDistanceBasedMinRotationDOT thresholdExtern (avatarAt 0x40400000) default = 0x3F7FFFFE ∧
    getDistanceBasedMinRotationDOT thresholdExtern (avatarAt 0x41A00000) default = 0x3F7FD814 ∧
    floatLeq (getDistanceBasedMinRotationDOT thresholdExtern (avatarAt 0x41A00000) default)
      (getDistanceBasedMinRotationDOT thresholdExtern (avatarAt 0x40400000) default) = true :=
  ⟨by decide, by decide, by decide, by decide, by decide, by decide, by decide, by decide,
    (C23_distance_based_min_rotation_dot thresholdExtern (avatarAt 0x40400000)
      (avatarAt 0x41A00000) default default (by decide) (by decide) (by decide) (by decide)
      (by decide) (by decide)).2⟩

/-! ## C24 and C25: the wanted flags and the session id -/

/-- The detail level only tells `toByteArray` whether to send every joint or to cull small
changes: the levels `PALMinimum` and `MinimumData` encode alike. -/
theorem toByteArray_minimum_alike (X : Extern) (A : Avatar) (itemFlagsInit : Nat)
    (last : List JointData) (s : SendStatus) (da : Bool) (v : Vec3) (maxDataSize : Nat) :
    toByteArray X A itemFlagsInit AvatarDataDetail.PALMinimum last s da v maxDataSize =
      toByteArray X A itemFlagsInit AvatarDataDetail.MinimumData last s da v maxDataSize := by
  unfold toByteArray encodeBlocksFor
  simp

/-- C24, as amended. On a new encode (`sendStatus.itemFlags = 0`) at a detail level other than
`NoData` the wanted flags are the initial flags that the caller passes, whatever the detail level,
and the mask of the packet contains no bit that the caller did not pass; in particular it has
the joint data bit only if the caller passed it; and the levels `PALMinimum` and `MinimumData`
give the same packet. -/
theorem C24_wanted_flags_amended (X : Extern) (A : Avatar) (itemFlagsInit : Nat)
    (dataDetail : AvatarDataDetail) (lastSentJointData : List JointData)
    (sendStatus : SendStatus) (distanceAdjust : Bool) (viewerPosition : Vec3)
    (maxDataSize : Nat)
    (hmax : maxDataSize = 0 ∨ MIN_BULK_PACKET_SIZE ≤ maxDataSize)
    (hd : dataDetail ≠ AvatarDataDetail.NoData)
    (hnew : sendStatus.itemFlags = 0) :
    (∃ r, toByteArray X A itemFlagsInit dataDetail lastSentJointData sendStatus distanceAdjust
        viewerPosition maxDataSize = some r ∧
      r.wantedFlags = itemFlagsInit % 65536 ∧
      (∀ k, r.includedFlags.testBit k = true → (itemFlagsInit % 65536).testBit k = true) ∧
      ((itemFlagsInit % 65536).testBit 12 = false → r.includedFlags.testBit 12 = false)) ∧
    toByteArray X A itemFlagsInit AvatarDataDetail.PALMinimum lastSentJointData sendStatus
        distanceAdjust viewerPosition maxDataSize =
      toByteArray X A itemFlagsInit AvatarDataDetail.MinimumData lastSentJointData sendStatus
        distanceAdjust viewerPosition maxDataSize := by
  refine ⟨?_, toByteArray_minimum_alike X A itemFlagsInit lastSentJointData sendStatus
    distanceAdjust viewerPosition maxDataSize⟩
  obtain ⟨r, hr, -, -, -, -, -, hw, hi, -⟩ := toByteArray_fields X A itemFlagsInit dataDetail
    lastSentJointData sendStatus distanceAdjust viewerPosition maxDataSize hmax hd
  have hwf : wantedFlagsFor itemFlagsInit sendStatus = itemFlagsInit % 65536 := by
    unfold wantedFlagsFor
    rw [if_pos hnew]
  have hsub : ∀ k, r.includedFlags.testBit k = true → (itemFlagsInit % 65536).testBit k = true := by
    intro k hk
    rw [hi] at hk
    rw [← hwf]
    exact encodeBlocks_subset _ _ _ _ _ _ _ _ _ _ _ _ _ hk
  refine ⟨r, hr, hw.trans hwf, hsub, ?_⟩
  intro h12
  by_contra hne
  have := hsub 12 (by simpa using hne)
  rw [h12] at this
  exact absurd this (by simp)

theorem C24_amended_witness :
    ((0 : Nat) = 0 ∨ MIN_BULK_PACKET_SIZE ≤ 0) ∧
    AvatarDataDetail.PALMinimum ≠ AvatarDataDetail.NoData ∧
    freshStatus.itemFlags = 0 ∧
    ((∃ r, toByteArray sampleExtern (sampleAvatar 1) 0x21 AvatarDataDetail.PALMinimum []
        freshStatus false default 0 = some r ∧
      r.wantedFlags = 0x21 % 65536 ∧
      (∀ k, r.includedFlags.testBit k = true → (0x21 % 65536).testBit k = true) ∧
      ((0x21 % 65536).testBit 12 = false → r.includedFlags.testBit 12 = false)) ∧
    toByteArray sampleExtern (sampleAvatar 1) 0x21 AvatarDataDetail.PALMinimum [] freshStatus
        false default 0 =
      toByteArray sampleExtern (sampleAvatar 1) 0x21 AvatarDataDetail.MinimumData [] freshStatus
        false default 0) :=
  ⟨by decide, by decide, rfl,
    C24_wanted_flags_amended sampleExtern (sampleAvatar 1) 0x21 AvatarDataDetail.PALMinimum []
      freshStatus false default 0 (by decide) (by decide) rfl⟩

/-- C24, counterexample. A new encode of an avatar with one joint, with all fifteen flags passed
by the caller and no size limit: at the level `PALMinimum` the mask is `0x7FFF`, with bits other
than those of the global position (0) and the audio loudness (5), and at the level `MinimumData`
the mask has the joint data bit (12). -/
theorem C24_counterexample :
    freshStatus.itemFlags = 0 ∧
    (toByteArray sampleExtern (sampleAvatar 1) 0x7FFF AvatarDataDetail.PALMinimum []
        freshStatus false default 0).map (fun r => r.includedFlags) = some 0x7FFF ∧
    Nat.testBit 0x7FFF 1 = true ∧
    (toByteArray sampleExtern (sampleAvatar 1) 0x7FFF AvatarDataDetail.MinimumData []
        freshStatus false default 0).map (fun r => r.includedFlags.testBit 12) = some true := by
  decide!

/-- C25, as amended. Every encode with an admissible `maxDataSize` returns, and the returned
send status has the `sendUUID` that the call was given: the encoder never changes it. The packet
starts with the session id iff `sendUUID` is set, so a call with the returned status emits the
session id again when the first one did. -/
theorem C25_send_uuid_amended (X : Extern) (A : Avatar) (itemFlagsInit : Nat)
    (dataDetail : AvatarDataDetail) (lastSentJointData : List JointData)
    (sendStatus : SendStatus) (distanceAdjust : Bool) (viewerPosition : Vec3)
    (maxDataSize : Nat)
    (hmax : maxDataSize = 0 ∨ MIN_BULK_PACKET_SIZE ≤ maxDataSize) :
    ∃ r, toByteArray X A itemFlagsInit dataDetail lastSentJointData sendStatus distanceAdjust
        viewerPosition maxDataSize = some r ∧
      r.sendStatus.sendUUID = sendStatus.sendUUID ∧
      r.bytes.take (if sendStatus.sendUUID = true then 16 else 0) =
        (if sendStatus.sendUUID = true then sessionUUIDBytes A else []) ∧
      uuidBytesFor A r.sendStatus = uuidBytesFor A sendStatus := by
  have hu : (uuidBytesFor A sendStatus).length =
      (if sendStatus.sendUUID = true then 16 else 0) := uuidBytesFor_length A sendStatus
  have hu2 : uuidBytesFor A sendStatus =
      (if sendStatus.sendUUID = true then sessionUUIDBytes A else []) := rfl
  by_cases hd : dataDetail = AvatarDataDetail.NoData
  · subst hd
    refine ⟨_, toByteArray_noData X A itemFlagsInit lastSentJointData sendStatus distanceAdjust
      viewerPosition maxDataSize hmax, rfl, ?_, rfl⟩
    rw [← hu, ← hu2]
    simp
  · refine ⟨_, toByteArray_eq X A itemFlagsInit dataDetail lastSentJointData sendStatus
      distanceAdjust viewerPosition maxDataSize hmax hd, rfl, ?_, rfl⟩
    rw [← hu, ← hu2]
    simp [List.append_assoc]

theorem C25_amended_witness :
    ((0 : Nat) = 0 ∨ MIN_BULK_PACKET_SIZE ≤ 0) ∧
    ∃ r, toByteArray sampleExtern (sampleAvatar 1) 1 AvatarDataDetail.SendAllData []
        uuidStatus false default 0 = some r ∧
      r.sendStatus.sendUUID = uuidStatus.sendUUID ∧
      r.bytes.take (if uuidStatus.sendUUID = true then 16 else 0) =
        (if uuidStatus.sendUUID = true then sessionUUIDBytes (sampleAvatar 1) else []) ∧
      uuidBytesFor (sampleAvatar 1) r.sendStatus = uuidBytesFor (sampleAvatar 1) uuidStatus :=
  ⟨by decide,
    C25_send_uuid_amended sampleExtern (sampleAvatar 1) 1 AvatarDataDetail.SendAllData []
      uuidStatus false default 0 (by decide)⟩

/-- C25, counterexample. An encode with `sendUUID` set returns a send status in which `sendUUID`
is still set, and the encode that continues with the returned status starts with the session id
again. -/
theorem C25_counterexample :
    ∃ r r2, toByteArray sampleExtern (sampleAvatar 1) 1 AvatarDataDetail.SendAllData []
        uuidStatus false default 0 = some r ∧
      r.sendStatus.sendUUID = true ∧
      r.bytes.take 16 = sessionUUIDBytes (sampleAvatar 1) ∧
      toByteArray sampleExtern (sampleAvatar 1) 1 AvatarDataDetail.SendAllData []
        r.sendStatus false default 0 = some r2 ∧
      r2.bytes.take 16 = sessionUUIDBytes (sampleAvatar 1) ∧
      r2.sendStatus.sendUUID = true := by
  refine ⟨_, _, rfl, rfl, ?_, rfl, ?_, rfl⟩ <;> decide

/-! ## C22: the commit doneEncoding -/

/-- C22, the code at the failing input. The joint was last sent with the rotation (0, 0, 0, 1)
and now has the rotation (0, 0, 0, 0.9999999), so `|dot(last, current)|` is exactly
`AVATAR_MIN_ROTATION_DOT`. Under `cullSmallChanges` the test of the encoder,
`|dot| < AVATAR_MIN_ROTATION_DOT`, fails and the rotation is not written; but `doneEncoding`
tests `|dot| <= AVATAR_MIN_ROTATION_DOT` and sets the last-sent rotation to the current one. -/
theorem C22_commit_at_threshold :
    fabsf (edgeExtern.dot edgeLastJoint.rotation edgeJoint.rotation) =
      edgeExtern.AVATAR_MIN_ROTATION_DOT ∧
    sendRotation edgeExtern false true edgeExtern.AVATAR_MIN_ROTATION_DOT edgeLastJoint
      edgeJoint = false ∧
    (∃ r js, toByteArray edgeExtern edgeAvatar 0x1000 AvatarDataDetail.CullSmallData
        [edgeLastJoint] freshStatus false default 0 = some r ∧
      r.joints = some js ∧ r.sendStatus.rotationsSent = 1 ∧ js.rotationsWritten = []) ∧
    doneEncoding edgeExtern edgeAvatar true oneJointStatus [edgeLastJoint] = [edgeJoint] ∧
    edgeJoint.rotation ≠ edgeLastJoint.rotation := by
  refine ⟨by decide, by decide, ⟨_, _, rfl, rfl, by decide, by decide⟩, by decide, by decide⟩

/-! ## C26: the identity sequence number -/

/-- C26. Once a first identity has been processed: `processAvatarIdentity` with an incoming
sequence number that is not greater than the stored one leaves the stored sequence number and the
identity data unchanged and does not touch `identityChanged` nor `displayNameChanged`; with a
greater one it stores the incoming sequence number and the incoming identity and sets
`identityChanged` to (new identity ≠ old identity) and `displayNameChanged` to (new display
name ≠ old display name). -/
theorem C26_identity_sequence (Q : SequenceNumberOps) (st : IdentityState)
    (packet : IdentityPacket) (identityChanged displayNameChanged : Bool)
    (hfirst : st.hasProcessedFirstIdentity = true) :
    (Q.greater (Q.ofType packet.sequenceNumber) st.identitySequenceNumber = false →
      processAvatarIdentity Q st packet identityChanged displayNameChanged =
        { state := st, identityChanged := identityChanged,
          displayNameChanged := displayNameChanged }) ∧
    (Q.greater (Q.ofType packet.sequenceNumber) st.identitySequenceNumber = true →
      processAvatarIdentity Q st packet identityChanged displayNameChanged =
        { state := { hasProcessedFirstIdentity := true
                     identitySequenceNumber := Q.ofType packet.sequenceNumber
                     identityData := packet.identity }
          identityChanged := decide (packet.identity ≠ st.identityData)
          displayNameChanged :=
            decide (packet.identity.displayName ≠ st.identityData.displayName) }) := by
  constructor
  · intro h
    simp [processAvatarIdentity, hfirst, h]
  · intro h
    simp [processAvatarIdentity, hfirst, h]

/-- C26 at concrete inputs: after a first identity with the sequence number 5, the identity
with the sequence number 3 leaves the stored sequence number at 5, the identity data as it was
and both flags as they were; the identity with the sequence number 7 and another display name is
stored and raises both flags. -/
theorem C26_witness :
    stateAfterFive.hasProcessedFirstIdentity = true ∧
    stateAfterFive.identitySequenceNumber = 5 ∧
    processAvatarIdentity plainSequence stateAfterFive (identityPacket 3 [66]) false false =
      { state := stateAfterFive, identityChanged := false, displayNameChanged := false } ∧
    (processAvatarIdentity plainSequence stateAfterFive (identityPacket 3 [66]) false
        false).state.identitySequenceNumber = 5 ∧
    processAvatarIdentity plainSequence stateAfterFive (identityPacket 7 [66]) false false =
      { state := { hasProcessedFirstIdentity := true, identitySequenceNumber := 7
                   identityData := (identityPacket 7 [66]).identity }
        identityChanged := true, displayNameChanged := true } :=
  ⟨by decide, by decide,
    (C26_identity_sequence plainSequence stateAfterFive (identityPacket 3 [66]) false false
      (by decide)).1 (by decide),
    by decide,
    ((C26_identity_sequence plainSequence stateAfterFive (identityPacket 7 [66]) false false
      (by decide)).2 (by decide)).trans (by decide)⟩

/-! ## C27 to C30: the avatar entities -/

theorem mapReplace_cons (k : Nat) (v : List Nat) (m : List (Nat × List Nat)) (id : Nat)
    (data : List Nat) :
    mapReplace ((k, v) :: m) id data
      = (if k = id then (id, data) else (k, v)) :: mapReplace m id data := rfl

theorem lookup_cons_eq (id k : Nat) (v : List Nat) (m : List (Nat × List Nat)) :
    List.lookup id ((k, v) :: m) = if id = k then some v else List.lookup id m := by
  by_cases h : id = k
  · subst h
    simp [List.lookup]
  · have hb : (id == k) = false := by simpa using h
    simp [List.lookup, hb, h]

theorem lookup_mapReplace_self (m : List (Nat × List Nat)) (id : Nat) (data : List Nat)
    (h : (m.lookup id).isSome = true) : (mapReplace m id data).lookup id = some data := by
  induction m with
  | nil => simp at h
  | cons e m ih =>
    obtain ⟨k, v⟩ := e
    rw [mapReplace_cons]
    by_cases hk : k = id
    · rw [if_pos hk, lookup_cons_eq, if_pos rfl]
    · have hk2 : ¬ id = k := fun h => hk h.symm
      rw [lookup_cons_eq, if_neg hk2] at h
      rw [if_neg hk, lookup_cons_eq, if_neg hk2]
      exact ih h

theorem lookup_mapReplace_other (m : List (Nat × List Nat)) (id id2 : Nat) (data : List Nat)
    (h : id2 ≠ id) : (mapReplace m id data).lookup id2 = m.lookup id2 := by
  induction m with
  | nil => rfl
  | cons e m ih =>
    obtain ⟨k, v⟩ := e
    rw [mapReplace_cons]
    by_cases hk : k = id
    · have hk2 : ¬ id2 = k := fun e => h (e.trans hk)
      rw [if_pos hk, lookup_cons_eq, if_neg h, lookup_cons_eq, if_neg hk2]
      exact ih
    · rw [if_neg hk, lookup_cons_eq, lookup_cons_eq, ih]

theorem lookup_mapInsert_self (m : List (Nat × List Nat)) (id : Nat) (data : List Nat)
    (h : m.lookup id = none) : (mapInsert m id data).lookup id = some data := by
  induction m with
  | nil => simp [mapInsert, List.lookup]
  | cons e m ih =>
    obtain ⟨k, v⟩ := e
    cases hb : (id == k)
    · simp only [List.lookup, hb] at h
      simp only [mapInsert, List.cons_append, List.lookup, hb]
      exact ih h
    · simp [List.lookup, hb] at h

theorem lookup_mapInsert_other (m : List (Nat × List Nat)) (id id2 : Nat) (data : List Nat)
    (h : id2 ≠ id) : (mapInsert m id data).lookup id2 = m.lookup id2 := by
  induction m with
  | nil =>
    have hb : (id2 == id) = false := by simpa using h
    simp [mapInsert, List.lookup, hb]
  | cons e m ih =>
    obtain ⟨k, v⟩ := e
    simp only [mapInsert, List.cons_append, List.lookup]
    cases hb : (id2 == k)
    · exact ih
    · rfl

theorem lookup_mapRemove_self (m : List (Nat × List Nat)) (id : Nat) :
    (mapRemove m id).lookup id = none := by
  induction m with
  | nil => rfl
  | cons e m ih =>
    obtain ⟨k, v⟩ := e
    by_cases hk : k = id
    · subst hk
      simp only [mapRemove, List.filter_cons, ne_eq, not_true_eq_false, decide_False,
        Bool.false_eq_true, if_false]
      exact ih
    · have hb : (id == k) = false := by simpa using fun h : id = k => hk h.symm
      simp only [mapRemove, List.filter_cons, ne_eq, hk, not_false_eq_true, decide_True, if_true,
        List.lookup, hb]
      exact ih

theorem lookup_mapRemove_other (m : List (Nat × List Nat)) (id id2 : Nat) (h : id2 ≠ id) :
    (mapRemove m id).lookup id2 = m.lookup id2 := by
  induction m with
  | nil => rfl
  | cons e m ih =>
    obtain ⟨k, v⟩ := e
    by_cases hk : k = id
    · subst hk
      have hb : (id2 == k) = false := by simpa using h
      simp only [mapRemove, List.filter_cons, ne_eq, not_true_eq_false, decide_False,
        Bool.false_eq_true, if_false, List.lookup, hb]
      exact ih
    · simp only [mapRemove, List.filter_cons, ne_eq, hk, not_false_eq_true, decide_True, if_true,
        List.lookup]
      cases hb : (id2 == k)
      · exact ih
      · rfl

theorem store_packed (MAX_NUM_AVATAR_ENTITIES : Nat) (s : TraitState) (id : Nat)
    (data : List Nat) :
    (storeAvatarEntityDataPayload MAX_NUM_AVATAR_ENTITIES s id data).packedAvatarEntityData
      = (match s.packedAvatarEntityData.lookup id with
         | none =>
           if s.packedAvatarEntityData.length < MAX_NUM_AVATAR_ENTITIES then
             mapInsert s.packedAvatarEntityData id data
           else s.packedAvatarEntityData
         | some _ => mapReplace s.packedAvatarEntityData id data) := by
  unfold storeAvatarEntityDataPayload
  cases h : s.packedAvatarEntityData.lookup id with
  | none =>
    by_cases hl : s.packedAvatarEntityData.length < MAX_NUM_AVATAR_ENTITIES
    · simp [hl]
    · simp [hl]
  | some v => simp

theorem store_full (MAX_NUM_AVATAR_ENTITIES : Nat) (s : TraitState) (id : Nat)
    (data : List Nat) (hnew : s.packedAvatarEntityData.lookup id = none)
    (hfull : MAX_NUM_AVATAR_ENTITIES ≤ s.packedAvatarEntityData.length) :
    storeAvatarEntityDataPayload MAX_NUM_AVATAR_ENTITIES s id data = s := by
  unfold storeAvatarEntityDataPayload
  have hl : ¬ s.packedAvatarEntityData.length < MAX_NUM_AVATAR_ENTITIES := by omega
  simp [hnew, hl]

theorem store_marks_insert (MAX_NUM_AVATAR_ENTITIES : Nat) (s : TraitState) (id : Nat)
    (data : List Nat) (hnew : s.packedAvatarEntityData.lookup id = none)
    (hroom : s.packedAvatarEntityData.length < MAX_NUM_AVATAR_ENTITIES) :
    (storeAvatarEntityDataPayload MAX_NUM_AVATAR_ENTITIES s id data).marks
        = (if s.hasClientTraitsHandler = true then s.marks ++ [TraitMark.updated id]
           else s.marks) ∧
      (storeAvatarEntityDataPayload MAX_NUM_AVATAR_ENTITIES s id data).avatarEntityRemoved
        = s.avatarEntityRemoved ∧
      (storeAvatarEntityDataPayload MAX_NUM_AVATAR_ENTITIES s id data).avatarEntityDataChanged
        = true := by
  unfold storeAvatarEntityDataPayload
  simp [hnew, hroom]

theorem mapReplace_length (m : List (Nat × List Nat)) (id : Nat) (data : List Nat) :
    (mapReplace m id data).length = m.length := by
  simp [mapReplace]

theorem mapInsert_length (m : List (Nat × List Nat)) (id : Nat) (data : List Nat) :
    (mapInsert m id data).length = m.length + 1 := by
  simp [mapInsert]

theorem clear_fields (s : TraitState) (id : Nat) :
    (clearAvatarEntityInternal s id).packedAvatarEntityData
        = mapRemove s.packedAvatarEntityData id ∧
      (clearAvatarEntityInternal s id).avatarEntityRemoved
        = (if id ∈ s.avatarEntityRemoved then s.avatarEntityRemoved
           else s.avatarEntityRemoved ++ [id]) ∧
      (clearAvatarEntityInternal s id).hasClientTraitsHandler = s.hasClientTraitsHandler ∧
      (clearAvatarEntityInternal s id).marks
        = s.marks ++
          (if ((s.packedAvatarEntityData.lookup id).isSome && s.hasClientTraitsHandler) = true
           then [TraitMark.deleted id] else []) := by
  unfold clearAvatarEntityInternal insertRemovedEntityID
  by_cases h : ((s.packedAvatarEntityData.lookup id).isSome && s.hasClientTraitsHandler) = true
  · rw [if_pos h, if_pos h]
    exact ⟨rfl, rfl, rfl, rfl⟩
  · rw [if_neg h, if_neg h, List.append_nil]
    exact ⟨rfl, rfl, rfl, rfl⟩

theorem mem_removed_after_clear (s : TraitState) (id : Nat) :
    id ∈ (clearAvatarEntityInternal s id).avatarEntityRemoved := by
  rw [(clear_fields s id).2.1]
  by_cases h : id ∈ s.avatarEntityRemoved
  · rw [if_pos h]
    exact h
  · rw [if_neg h]
    simp

theorem lastMarkFor_append_self (marks : List TraitMark) (m : TraitMark) :
    lastMarkFor (marks ++ [m]) m.instanceID = some m := by
  simp [lastMarkFor, List.filter_append]

/-- C27. The function `storeAvatarEntityDataPayload(id, data)`: if `id` is already stored, or fewer
than `MAX_NUM_AVATAR_ENTITIES` entities are stored, then afterwards
`packTraitInstance(AvatarEntity, id)` returns `data` and the entry of every other id is as before;
if `id` is new and the map holds `MAX_NUM_AVATAR_ENTITIES` entries or more, the whole state, the
map and the marks among it, is as before; and a map of at most `MAX_NUM_AVATAR_ENTITIES` entries
has at most that many afterwards. -/
theorem C27_store_entity_capacity (MAX_NUM_AVATAR_ENTITIES : Nat) (s : TraitState) (id : Nat)
    (data : List Nat) :
    (((s.packedAvatarEntityData.lookup id).isSome = true
        ∨ s.packedAvatarEntityData.length < MAX_NUM_AVATAR_ENTITIES) →
      packTraitInstance (storeAvatarEntityDataPayload MAX_NUM_AVATAR_ENTITIES s id data)
          TraitType.AvatarEntity id = data ∧
      ∀ other, other ≠ id →
        packTraitInstance (storeAvatarEntityDataPayload MAX_NUM_AVATAR_ENTITIES s id data)
            TraitType.AvatarEntity other
          = packTraitInstance s TraitType.AvatarEntity other ∧
        (storeAvatarEntityDataPayload MAX_NUM_AVATAR_ENTITIES s id data
            ).packedAvatarEntityData.lookup other
          = s.packedAvatarEntityData.lookup other) ∧
    ((s.packedAvatarEntityData.lookup id = none
        ∧ MAX_NUM_AVATAR_ENTITIES ≤ s.packedAvatarEntityData.length) →
      storeAvatarEntityDataPayload MAX_NUM_AVATAR_ENTITIES s id data = s) ∧
    (s.packedAvatarEntityData.length ≤ MAX_NUM_AVATAR_ENTITIES →
      (storeAvatarEntityDataPayload MAX_NUM_AVATAR_ENTITIES s id data
        ).packedAvatarEntityData.length ≤ MAX_NUM_AVATAR_ENTITIES) := by
  refine ⟨?_, ?_, ?_⟩
  · intro h
    have hp := store_packed MAX_NUM_AVATAR_ENTITIES s id data
    have key : (storeAvatarEntityDataPayload MAX_NUM_AVATAR_ENTITIES s id data
          ).packedAvatarEntityData.lookup id = some data ∧
        ∀ other, other ≠ id →
          (storeAvatarEntityDataPayload MAX_NUM_AVATAR_ENTITIES s id data
            ).packedAvatarEntityData.lookup other = s.packedAvatarEntityData.lookup other := by
      rw [hp]
      cases hl : s.packedAvatarEntityData.lookup id with
      | none =>
        have hroom : s.packedAvatarEntityData.length < MAX_NUM_AVATAR_ENTITIES := by
          rcases h with h | h
          · simp [hl] at h
          · exact h
        simp only [hroom, if_true]
        exact ⟨lookup_mapInsert_self _ _ _ hl, fun o ho => lookup_mapInsert_other _ _ _ _ ho⟩
      | some v =>
        exact ⟨lookup_mapReplace_self _ _ _ (by simp [hl]),
          fun o ho => lookup_mapReplace_other _ _ _ _ ho⟩
    refine ⟨?_, ?_⟩
    · simp [packTraitInstance, packAvatarEntityTraitInstance, key.1]
    · intro other ho
      refine ⟨?_, key.2 other ho⟩
      simp [packTraitInstance, packAvatarEntityTraitInstance, key.2 other ho]
  · rintro ⟨hnew, hfull⟩
    exact store_full _ _ _ _ hnew hfull
  · intro hle
    rw [store_packed]
    cases hl : s.packedAvatarEntityData.lookup id with
    | none =>
      by_cases hroom : s.packedAvatarEntityData.length < MAX_NUM_AVATAR_ENTITIES
      · simp only [hroom, if_true, mapInsert_length]
        omega
      · simp only [hroom, if_false]
        exact hle
    | some v =>
      simp only [mapReplace_length]
      exact hle

/-- C27 at concrete inputs: with a cap of two the entity 9 is added next to the entity 7 and
comes back from `packTraitInstance`, the entity 7 keeps its payload; with a cap of one the state
is as before; the stored entity 7 is replaced at a cap of one. -/
theorem C27_witness :
    packTraitInstance (storeAvatarEntityDataPayload 2 oneEntityState 9 [3])
        TraitType.AvatarEntity 9 = [3] ∧
      packTraitInstance (storeAvatarEntityDataPayload 2 oneEntityState 9 [3])
        TraitType.AvatarEntity 7 = [1, 2] ∧
      storeAvatarEntityDataPayload 1 oneEntityState 9 [3] = oneEntityState ∧
      (storeAvatarEntityDataPayload 1 oneEntityState 7 [3]).packedAvatarEntityData.length ≤ 1 ∧
      packTraitInstance (storeAvatarEntityDataPayload 1 oneEntityState 7 [3])
        TraitType.AvatarEntity 7 = [3] :=
  ⟨((C27_store_entity_capacity 2 oneEntityState 9 [3]).1 (Or.inr (by decide))).1,
    (((C27_store_entity_capacity 2 oneEntityState 9 [3]).1 (Or.inr (by decide))).2 7
      (by decide)).1.trans (by decide),
    (C27_store_entity_capacity 1 oneEntityState 9 [3]).2.1 ⟨by decide, by decide⟩,
    (C27_store_entity_capacity 1 oneEntityState 7 [3]).2.2 (by decide),
    ((C27_store_entity_capacity 1 oneEntityState 7 [3]).1 (Or.inl (by decide))).1⟩

/-- C28, the code at the failing input. The entity 7 is stored with the payload `01 02` and
nothing is marked; `storeAvatarEntityDataPayload(7, 01 02)` leaves the map as it is, sets the
entity-data-changed flag and calls `markInstancedTraitUpdated(AvatarEntity, 7)`, while
`updateAvatarGrabData(7, 01 02)` on the grab of the same payload returns false and changes
nothing. -/
theorem C28_store_same_payload :
    packTraitInstance oneEntityState TraitType.AvatarEntity 7 = [1, 2] ∧
      (storeAvatarEntityDataPayload 100 oneEntityState 7 [1, 2]).packedAvatarEntityData
        = oneEntityState.packedAvatarEntityData ∧
      oneEntityState.avatarEntityDataChanged = false ∧
      (storeAvatarEntityDataPayload 100 oneEntityState 7 [1, 2]).avatarEntityDataChanged
        = true ∧
      oneEntityState.marks = [] ∧
      (storeAvatarEntityDataPayload 100 oneEntityState 7 [1, 2]).marks
        = [TraitMark.updated 7] ∧
      packTraitInstance oneEntityState TraitType.Grab 7 = [1, 2] ∧
      updateAvatarGrabData 100 oneEntityState 7 [1, 2] = (false, oneEntityState) := by
  decide

/-- C29, amended. After `clearAvatarEntityInternal(id)` the map has no entry for `id`, `id` is in
the recently-removed set, and the entry of every other id is as before;
`markInstancedTraitDeleted(AvatarEntity, id)` is the one call made into the client traits handler
when `id` was stored before the call and the avatar has a client traits handler, and no call is
made otherwise. The next `getAndClearRecentlyRemovedIDs` returns a set that contains `id` and
leaves the set empty. -/
theorem C29_clear_entity_amended (s : TraitState) (id : Nat) :
    (clearAvatarEntityInternal s id).packedAvatarEntityData.lookup id = none ∧
      packTraitInstance (clearAvatarEntityInternal s id) TraitType.AvatarEntity id = [] ∧
      id ∈ (clearAvatarEntityInternal s id).avatarEntityRemoved ∧
      (∀ other, other ≠ id →
        (clearAvatarEntityInternal s id).packedAvatarEntityData.lookup other
          = s.packedAvatarEntityData.lookup other) ∧
      (clearAvatarEntityInternal s id).marks
        = s.marks ++
          (if (s.packedAvatarEntityData.lookup id).isSome = true
              ∧ s.hasClientTraitsHandler = true
           then [TraitMark.deleted id] else []) ∧
      id ∈ (getAndClearRecentlyRemovedIDs (clearAvatarEntityInternal s id)).1 ∧
      (getAndClearRecentlyRemovedIDs (clearAvatarEntityInternal s id)).2.avatarEntityRemoved
        = [] := by
  obtain ⟨hp, _, _, hm⟩ := clear_fields s id
  have hnone : (clearAvatarEntityInternal s id).packedAvatarEntityData.lookup id = none := by
    rw [hp]
    exact lookup_mapRemove_self _ _
  refine ⟨hnone, ?_, mem_removed_after_clear s id, ?_, ?_, mem_removed_after_clear s id, rfl⟩
  · simp [packTraitInstance, packAvatarEntityTraitInstance, hnone]
  · intro other ho
    rw [hp]
    exact lookup_mapRemove_other _ _ _ ho
  · rw [hm]
    simp only [Bool.and_eq_true]

/-- C29 as stated fails: the avatar has no client traits handler and the entity 7 is stored;
after `clearAvatarEntityInternal(7)` no `markInstancedTraitDeleted(AvatarEntity, 7)` has been
called. -/
theorem C29_counterexample :
    (noHandlerState.packedAvatarEntityData.lookup 7).isSome = true ∧
      (clearAvatarEntityInternal noHandlerState 7).marks = [] ∧
      ¬ (TraitMark.deleted 7 ∈ (clearAvatarEntityInternal noHandlerState 7).marks
          ↔ (noHandlerState.packedAvatarEntityData.lookup 7).isSome = true) := by
  decide

/-- C30, amended. After `clearAvatarEntityInternal(id)` followed by
`storeAvatarEntityDataPayload(id, bytes)` with the map below its cap, on an avatar with a client
traits handler: `id` is stored with the payload `bytes`, the last call into the client traits
handler for `id` is `markInstancedTraitUpdated`, and `id` is still in the recently-removed set,
which only the next `getAndClearRecentlyRemovedIDs` empties. -/
theorem C30_revive_amended (MAX_NUM_AVATAR_ENTITIES : Nat) (s : TraitState) (id : Nat)
    (bytes : List Nat)
    (hcap : (clearAvatarEntityInternal s id).packedAvatarEntityData.length
      < MAX_NUM_AVATAR_ENTITIES)
    (hhandler : s.hasClientTraitsHandler = true) :
    packTraitInstance
        (storeAvatarEntityDataPayload MAX_NUM_AVATAR_ENTITIES (clearAvatarEntityInternal s id)
          id bytes) TraitType.AvatarEntity id = bytes ∧
      lastMarkFor
        (storeAvatarEntityDataPayload MAX_NUM_AVATAR_ENTITIES (clearAvatarEntityInternal s id)
          id bytes).marks id = some (TraitMark.updated id) ∧
      id ∈ (storeAvatarEntityDataPayload MAX_NUM_AVATAR_ENTITIES
        (clearAvatarEntityInternal s id) id bytes).avatarEntityRemoved ∧
      (getAndClearRecentlyRemovedIDs
        (storeAvatarEntityDataPayload MAX_NUM_AVATAR_ENTITIES (clearAvatarEntityInternal s id)
          id bytes)).2.avatarEntityRemoved = [] := by
  obtain ⟨hp, _, hh, _⟩ := clear_fields s id
  have hnone : (clearAvatarEntityInternal s id).packedAvatarEntityData.lookup id = none := by
    rw [hp]
    exact lookup_mapRemove_self _ _
  obtain ⟨hm, hr, _⟩ := store_marks_insert MAX_NUM_AVATAR_ENTITIES
    (clearAvatarEntityInternal s id) id bytes hnone hcap
  have hlook := store_packed MAX_NUM_AVATAR_ENTITIES (clearAvatarEntityInternal s id) id bytes
  refine ⟨?_, ?_, ?_, rfl⟩
  · simp only [hnone, hcap, if_true] at hlook
    simp [packTraitInstance, packAvatarEntityTraitInstance, hlook,
      lookup_mapInsert_self _ _ _ hnone]
  · rw [hm, hh, hhandler, if_pos rfl]
    exact lastMarkFor_append_self _ (TraitMark.updated id)
  · rw [hr]
    exact mem_removed_after_clear s id

/-- C30 amended at a concrete input: the entity 7 is cleared and stored again with the payload
`09`. -/
theorem C30_amended_witness :
    (clearAvatarEntityInternal oneEntityState 7).packedAvatarEntityData.length < 100 ∧
      oneEntityState.hasClientTraitsHandler = true ∧
      packTraitInstance
        (storeAvatarEntityDataPayload 100 (clearAvatarEntityInternal oneEntityState 7) 7 [9])
        TraitType.AvatarEntity 7 = [9] ∧
      lastMarkFor
        (storeAvatarEntityDataPayload 100 (clearAvatarEntityInternal oneEntityState 7) 7
          [9]).marks 7 = some (TraitMark.updated 7) ∧
      7 ∈ (storeAvatarEntityDataPayload 100 (clearAvatarEntityInternal oneEntityState 7) 7
        [9]).avatarEntityRemoved ∧
      (getAndClearRecentlyRemovedIDs
        (storeAvatarEntityDataPayload 100 (clearAvatarEntityInternal oneEntityState 7) 7
          [9])).2.avatarEntityRemoved = [] :=
  ⟨by decide, rfl, C30_revive_amended 100 oneEntityState 7 [9] (by decide) rfl⟩

/-- C30 as stated fails: the entity 7 is cleared and stored again with the payload `09` below the
cap; it is stored and its last mark is `updated`, but 7 is still in the recently-removed set. -/
theorem C30_counterexample :
    ¬ (packTraitInstance
          (storeAvatarEntityDataPayload 100 (clearAvatarEntityInternal oneEntityState 7) 7 [9])
          TraitType.AvatarEntity 7 = [9] ∧
        lastMarkFor
          (storeAvatarEntityDataPayload 100 (clearAvatarEntityInternal oneEntityState 7) 7
            [9]).marks 7 = some (TraitMark.updated 7) ∧
        7 ∉ (storeAvatarEntityDataPayload 100 (clearAvatarEntityInternal oneEntityState 7) 7
          [9]).avatarEntityRemoved) := by
  decide

/-! ## C31 and C40: the grabs and the identity sequence number -/

theorem updateAvatarGrabData_map (MAX_NUM_AVATAR_GRABS : Nat) (s : TraitState) (id : Nat)
    (data : List Nat) :
    (updateAvatarGrabData MAX_NUM_AVATAR_GRABS s id data).2.avatarGrabData
      = (match s.avatarGrabData.lookup id with
         | none =>
           if s.avatarGrabData.length < MAX_NUM_AVATAR_GRABS then
             mapInsert s.avatarGrabData id data
           else s.avatarGrabData
         | some value =>
           if value ≠ data then mapReplace s.avatarGrabData id data else s.avatarGrabData) ∧
    (updateAvatarGrabData MAX_NUM_AVATAR_GRABS s id data).1
      = (match s.avatarGrabData.lookup id with
         | none => decide (s.avatarGrabData.length < MAX_NUM_AVATAR_GRABS)
         | some value => decide (value ≠ data)) ∧
    ((updateAvatarGrabData MAX_NUM_AVATAR_GRABS s id data).1 = false →
      (updateAvatarGrabData MAX_NUM_AVATAR_GRABS s id data).2 = s) := by
  unfold updateAvatarGrabData
  cases h : s.avatarGrabData.lookup id with
  | none =>
    by_cases hl : s.avatarGrabData.length < MAX_NUM_AVATAR_GRABS
    · simp [hl]
    · simp [hl]
  | some v =>
    by_cases hv : v = data
    · simp [hv]
    · simp [hv]

/-- After `updateAvatarGrabData(id, data)` the grab `id` is stored iff it was stored or the call
returned true, and then with the payload `data` unless the call found another payload and
returned false, which it never does. -/
theorem updateAvatarGrabData_lookup (MAX_NUM_AVATAR_GRABS : Nat) (s : TraitState) (id : Nat)
    (data : List Nat) :
    (updateAvatarGrabData MAX_NUM_AVATAR_GRABS s id data).2.avatarGrabData.lookup id
      = (match s.avatarGrabData.lookup id with
         | none => if s.avatarGrabData.length < MAX_NUM_AVATAR_GRABS then some data else none
         | some _ => some data) := by
  rw [(updateAvatarGrabData_map MAX_NUM_AVATAR_GRABS s id data).1]
  cases h : s.avatarGrabData.lookup id with
  | none =>
    by_cases hl : s.avatarGrabData.length < MAX_NUM_AVATAR_GRABS
    · simp only [hl, if_true]
      exact lookup_mapInsert_self _ _ _ h
    · simp only [hl, if_false]
      exact h
  | some v =>
    by_cases hv : v = data
    · simp only [hv, ne_eq, not_true_eq_false, if_false]
      rw [h, hv]
    · simp only [ne_eq, hv, not_false_eq_true, if_true]
      exact lookup_mapReplace_self _ _ _ (by simp [h])

/-- C31. The function `updateAvatarGrabData(id, data)` returns true iff it inserted `id` while
fewer than `MAX_NUM_AVATAR_GRABS` grabs were stored or replaced a different payload, and then the
entry of `id` differs from what it was and is `data`; it returns false and leaves the whole state
unchanged when `id` is new and `MAX_NUM_AVATAR_GRABS` grabs or more are stored, or when the
identical payload is already stored; the entry of every other id is as before; the same call
made again right away returns false; and a map of at most `MAX_NUM_AVATAR_GRABS` entries has at
most that many afterwards. -/
theorem C31_update_grab (MAX_NUM_AVATAR_GRABS : Nat) (s : TraitState) (id : Nat)
    (data : List Nat) :
    ((updateAvatarGrabData MAX_NUM_AVATAR_GRABS s id data).1 = true ↔
      (s.avatarGrabData.lookup id = none ∧ s.avatarGrabData.length < MAX_NUM_AVATAR_GRABS) ∨
      (∃ value, s.avatarGrabData.lookup id = some value ∧ value ≠ data)) ∧
    ((updateAvatarGrabData MAX_NUM_AVATAR_GRABS s id data).1 = true →
      (updateAvatarGrabData MAX_NUM_AVATAR_GRABS s id data).2.avatarGrabData.lookup id
          = some data ∧
        (updateAvatarGrabData MAX_NUM_AVATAR_GRABS s id data).2.avatarGrabData.lookup id
          ≠ s.avatarGrabData.lookup id) ∧
    ((updateAvatarGrabData MAX_NUM_AVATAR_GRABS s id data).1 = false →
      (updateAvatarGrabData MAX_NUM_AVATAR_GRABS s id data).2 = s) ∧
    ((s.avatarGrabData.lookup id = none ∧ MAX_NUM_AVATAR_GRABS ≤ s.avatarGrabData.length) ∨
        s.avatarGrabData.lookup id = some data →
      updateAvatarGrabData MAX_NUM_AVATAR_GRABS s id data = (false, s)) ∧
    (∀ other, other ≠ id →
      (updateAvatarGrabData MAX_NUM_AVATAR_GRABS s id data).2.avatarGrabData.lookup other
        = s.avatarGrabData.lookup other) ∧
    (updateAvatarGrabData MAX_NUM_AVATAR_GRABS
      (updateAvatarGrabData MAX_NUM_AVATAR_GRABS s id data).2 id data).1 = false ∧
    (s.avatarGrabData.length ≤ MAX_NUM_AVATAR_GRABS →
      (updateAvatarGrabData MAX_NUM_AVATAR_GRABS s id data).2.avatarGrabData.length
        ≤ MAX_NUM_AVATAR_GRABS) := by
  obtain ⟨hmap, hret, hfalse⟩ := updateAvatarGrabData_map MAX_NUM_AVATAR_GRABS s id data
  have hlook := updateAvatarGrabData_lookup MAX_NUM_AVATAR_GRABS s id data
  have hiff : (updateAvatarGrabData MAX_NUM_AVATAR_GRABS s id data).1 = true ↔
      (s.avatarGrabData.lookup id = none ∧ s.avatarGrabData.length < MAX_NUM_AVATAR_GRABS) ∨
      (∃ value, s.avatarGrabData.lookup id = some value ∧ value ≠ data) := by
    rw [hret]
    cases h : s.avatarGrabData.lookup id with
    | none => simp
    | some v => simp
  refine ⟨hiff, ?_, hfalse, ?_, ?_, ?_, ?_⟩
  · intro ht
    rw [hlook]
    rcases hiff.1 ht with ⟨hn, hl⟩ | ⟨v, hv, hne⟩
    · simp [hn, hl]
    · rw [hv]
      exact ⟨rfl, fun e => hne (Option.some.inj e).symm⟩
  · intro h
    have hf : (updateAvatarGrabData MAX_NUM_AVATAR_GRABS s id data).1 = false := by
      rw [hret]
      rcases h with ⟨hn, hl⟩ | hs
      · have : ¬ s.avatarGrabData.length < MAX_NUM_AVATAR_GRABS := by omega
        simp [hn, this]
      · simp [hs]
    exact Prod.ext hf (hfalse hf)
  · intro other ho
    rw [hmap]
    cases h : s.avatarGrabData.lookup id with
    | none =>
      by_cases hl : s.avatarGrabData.length < MAX_NUM_AVATAR_GRABS
      · simp only [hl, if_true]
        exact lookup_mapInsert_other _ _ _ _ ho
      · simp only [hl, if_false]
    | some v =>
      by_cases hv : v = data
      · simp only [hv, ne_eq, not_true_eq_false, if_false]
      · simp only [ne_eq, hv, not_false_eq_true, if_true]
        exact lookup_mapReplace_other _ _ _ _ ho
  · rw [(updateAvatarGrabData_map MAX_NUM_AVATAR_GRABS _ id data).2.1, hlook]
    cases h : s.avatarGrabData.lookup id with
    | none =>
      by_cases hl : s.avatarGrabData.length < MAX_NUM_AVATAR_GRABS
      · simp [hl]
      · have hs : (updateAvatarGrabData MAX_NUM_AVATAR_GRABS s id data).2 = s := by
          apply hfalse
          rw [hret]
          simp [h, hl]
        simp only [hl, if_false, hs, decide_False]
    | some v => simp
  · intro hle
    rw [hmap]
    cases h : s.avatarGrabData.lookup id with
    | none =>
      by_cases hl : s.avatarGrabData.length < MAX_NUM_AVATAR_GRABS
      · simp only [hl, if_true, mapInsert_length]
        omega
      · simp only [hl, if_false]
        exact hle
    | some v =>
      by_cases hv : v = data
      · simp only [hv, ne_eq, not_true_eq_false, if_false]
        exact hle
      · simp only [ne_eq, hv, not_false_eq_true, if_true, mapReplace_length]
        exact hle

/-- C31 at concrete inputs: the grab 7 is stored with the payload `01 02`. Another payload for it
is stored and the call returns true; the same payload, and a new grab at a cap of one, return
false and change nothing; a new grab below the cap is stored with a map of two entries. -/
theorem C31_witness :
    (updateAvatarGrabData 2 oneEntityState 7 [3]).1 = true ∧
      (updateAvatarGrabData 2 oneEntityState 7 [3]).2.avatarGrabData.lookup 7 = some [3] ∧
      updateAvatarGrabData 2 oneEntityState 7 [1, 2] = (false, oneEntityState) ∧
      updateAvatarGrabData 1 oneEntityState 9 [3] = (false, oneEntityState) ∧
      (updateAvatarGrabData 2 oneEntityState 9 [3]).2.avatarGrabData.length ≤ 2 :=
  ⟨(C31_update_grab 2 oneEntityState 7 [3]).1.2 (Or.inr ⟨[1, 2], by decide, by decide⟩),
    ((C31_update_grab 2 oneEntityState 7 [3]).2.1 (by decide)).1,
    (C31_update_grab 2 oneEntityState 7 [1, 2]).2.2.2.1 (Or.inr (by decide)),
    (C31_update_grab 1 oneEntityState 9 [3]).2.2.2.1 (Or.inl ⟨by decide, by decide⟩),
    (C31_update_grab 2 oneEntityState 9 [3]).2.2.2.2.2.2 (by decide)⟩

/-- C40, amended. Once a first identity has been processed, `processAvatarIdentity` leaves a
stored sequence number that is the previous one or one that is greater than it: the stored
sequence number never decreases. The first call on an object stores the incoming sequence
number whenever that is greater than its predecessor `incoming - 1`, whatever the object held
before. -/
theorem C40_identity_sequence_amended (Q : SequenceNumberOps) (st : IdentityState)
    (packet : IdentityPacket) (identityChanged displayNameChanged : Bool) :
    (st.hasProcessedFirstIdentity = true →
      (processAvatarIdentity Q st packet identityChanged displayNameChanged
          ).state.identitySequenceNumber = st.identitySequenceNumber ∨
        Q.greater
          (processAvatarIdentity Q st packet identityChanged displayNameChanged
            ).state.identitySequenceNumber st.identitySequenceNumber = true) ∧
    (st.hasProcessedFirstIdentity = false →
      Q.greater (Q.ofType packet.sequenceNumber) (Q.minusOne (Q.ofType packet.sequenceNumber))
        = true →
      (processAvatarIdentity Q st packet identityChanged displayNameChanged
        ).state.identitySequenceNumber = Q.ofType packet.sequenceNumber) ∧
    (processAvatarIdentity Q st packet identityChanged displayNameChanged
      ).state.hasProcessedFirstIdentity = true := by
  refine ⟨?_, ?_, ?_⟩
  · intro hfirst
    cases hg : Q.greater (Q.ofType packet.sequenceNumber) st.identitySequenceNumber
    · left
      simp [processAvatarIdentity, hfirst, hg]
    · right
      simp [processAvatarIdentity, hfirst, hg]
  · intro hfirst hg
    simp [processAvatarIdentity, hfirst, hg]
  · cases hfirst : st.hasProcessedFirstIdentity
    · cases hg : Q.greater (Q.ofType packet.sequenceNumber)
        (Q.minusOne (Q.ofType packet.sequenceNumber))
      · simp [processAvatarIdentity, hfirst, hg]
      · simp [processAvatarIdentity, hfirst, hg]
    · cases hg : Q.greater (Q.ofType packet.sequenceNumber) st.identitySequenceNumber
      · simp [processAvatarIdentity, hfirst, hg]
      · simp [processAvatarIdentity, hfirst, hg]

/-- C40 amended at concrete inputs, with sequence numbers compared as plain numbers: after a
first identity with the sequence number 5 the identity 3 leaves 5 stored and the identity 7
stores 7; the first identity 3 on an object that held 10 stores 3. -/
theorem C40_amended_witness :
    stateAfterFive.hasProcessedFirstIdentity = true ∧
    ((processAvatarIdentity plainSequence stateAfterFive (identityPacket 3 [66]) false false
          ).state.identitySequenceNumber = stateAfterFive.identitySequenceNumber ∨
        plainSequence.greater
          (processAvatarIdentity plainSequence stateAfterFive (identityPacket 3 [66]) false false
            ).state.identitySequenceNumber stateAfterFive.identitySequenceNumber = true) ∧
    (processAvatarIdentity plainSequence stateAfterFive (identityPacket 7 [66]) false false
      ).state.identitySequenceNumber = 7 ∧
    (processAvatarIdentity plainSequence unprocessedTen (identityPacket 3 [66]) false false
      ).state.identitySequenceNumber = plainSequence.ofType (identityPacket 3 [66]).sequenceNumber :=
  ⟨by decide,
    (C40_identity_sequence_amended plainSequence stateAfterFive (identityPacket 3 [66]) false
      false).1 (by decide),
    by decide,
    (C40_identity_sequence_amended plainSequence unprocessedTen (identityPacket 3 [66]) false
      false).2.1 (by decide) (by decide)⟩

/-- C40 as stated fails: an object that holds the sequence number 10 and has not processed an
identity yet processes an identity with the sequence number 3; the stored sequence number is then
3, which is less than 10. -/
theorem C40_counterexample :
    unprocessedTen.hasProcessedFirstIdentity = false ∧
    unprocessedTen.identitySequenceNumber = 10 ∧
    (processAvatarIdentity plainSequence unprocessedTen (identityPacket 3 [66]) false false
      ).state.identitySequenceNumber = 3 ∧
    ¬ (unprocessedTen.identitySequenceNumber ≤
      (processAvatarIdentity plainSequence unprocessedTen (identityPacket 3 [66]) false false
        ).state.identitySequenceNumber) := by
  decide

/-! ## C33, C34 and C35: the space of the joint data section -/

/-- What a joint data section does with the space it finds: with room for the smallest section
and one joint after it, the rotation cursor moves when it is below the joint count, and else the
translation cursor moves when it is below the joint count; and when 84 bytes are left after the
section, with at most 255 joints, neither loop has stopped for lack of space. -/
theorem jointDataSection_outcome (X : Extern) (A : Avatar) (last : List JointData) (r t : Nat)
    (sa cull da : Bool) (v : Vec3) (pe n dest : Nat) :
    (dest + minJointDataSize n + minSizeForJoint n ≤ pe →
      (r < n → r < (jointDataSection X A last r t sa cull da v pe n dest).rotationsSent) ∧
      (n ≤ r → t < n →
        t < (jointDataSection X A last r t sa cull da v pe n dest).translationsSent)) ∧
    (dest + (jointDataSection X A last r t sa cull da v pe n dest).bytes.length
        + FAR_GRAB_JOINTS_SIZE ≤ pe → n ≤ 255 →
      (jointDataSection X A last r t sa cull da v pe n dest).rotationsSent = r + (n - r) ∧
      (jointDataSection X A last r t sa cull da v pe n dest).translationsSent = t + (n - t)) := by
  obtain ⟨r1, r2, r3, r4, _, _, r7, _, r9⟩ := rotationPass_spec X A last r sa cull da v pe n dest
  obtain ⟨t1, t2, t3, t4, _, _, t7, _, t9⟩ := translationPass_spec X A last t sa cull da v pe n
    (dest + 1 + calcBitVectorSize n + (rotationPass X A last r sa cull da v pe n dest).out.length)
  have hlen := jointDataSection_length X A last r t sa cull da v pe n dest
  simp only [jointDataSection] at hlen ⊢
  generalize hL : (rotationPass X A last r sa cull da v pe n dest).out.length = L at *
  generalize hT : (translationPass X A last t sa cull da v pe n
    (dest + 1 + calcBitVectorSize n + L)).out.length = T at *
  constructor
  · intro hroom
    simp only [minJointDataSize] at hroom
    constructor
    · intro hlt
      rcases r9 with h | h
      · omega
      · by_contra hc
        have hi : (rotationPass X A last r sa cull da v pe n dest).i = r := by omega
        rw [hi, Nat.sub_self] at r3
        simp only [List.range'_zero, List.filter_nil] at r3
        rw [r3, List.length_nil] at r7
        have hs : hasSpace pe (dest + 1 + calcBitVectorSize n + L) (minSizeForJoint n) = true := by
          rw [hasSpace_iff]; omega
        rw [hs] at h
        exact absurd h (by decide)
    · intro hrn htn
      have hi : (rotationPass X A last r sa cull da v pe n dest).i = r := by omega
      rw [hi, Nat.sub_self] at r3
      simp only [List.range'_zero, List.filter_nil] at r3
      rw [r3, List.length_nil] at r7
      rcases t9 with h | h
      · omega
      · by_contra hc
        have hti : (translationPass X A last t sa cull da v pe n
            (dest + 1 + calcBitVectorSize n + L)).i = t := by omega
        rw [hti, Nat.sub_self] at t3
        simp only [List.range'_zero, List.filter_nil] at t3
        rw [t3, List.length_nil] at t7
        have hs : hasSpace pe (dest + 1 + calcBitVectorSize n + L + calcBitVectorSize n + 4 + T)
            (minSizeForJoint n) = true := by
          rw [hasSpace_iff]; omega
        rw [hs] at h
        exact absurd h (by decide)
  · intro hgrab hn
    rw [hlen] at hgrab
    have hbv : calcBitVectorSize n ≤ 32 := by
      unfold calcBitVectorSize
      omega
    simp only [FAR_GRAB_JOINTS_SIZE] at hgrab
    constructor
    · rcases r9 with h | h
      · exact h
      · have hs : hasSpace pe (dest + 1 + calcBitVectorSize n + L) (minSizeForJoint n) = true := by
          rw [hasSpace_iff]
          simp only [minSizeForJoint, SIX_BYTE_QUAT_SIZE]
          omega
        rw [hs] at h
        exact absurd h (by decide)
    · rcases t9 with h | h
      · exact h
      · have hs : hasSpace pe (dest + 1 + calcBitVectorSize n + L + calcBitVectorSize n + 4 + T)
            (minSizeForJoint n) = true := by
          rw [hasSpace_iff]
          simp only [minSizeForJoint, SIX_BYTE_QUAT_SIZE]
          omega
        rw [hs] at h
        exact absurd h (by decide)

/-- The joint data block of `encodeBlocks`: when it is in the mask, the joint data was wanted and
the smallest section fitted; the cursors then move as `jointDataSection_outcome` says; and when
the far-grab block is in the mask, neither joint loop has stopped for lack of space. -/
theorem encodeBlocks_joint_outcome (X : Extern) (A : Avatar) (last : List JointData) (r t : Nat)
    (sa cull da : Bool) (v : Vec3) (w pe st : Nat) :
    ((encodeBlocks X A last r t sa cull da v w pe st).enc.includedFlags.testBit 12 = true →
      w.testBit 12 = true ∧
      st + (leadingEnc X A w pe st).body.length + minJointDataSize A.getJointDataSizeOut ≤ pe ∧
      (st + (leadingEnc X A w pe st).body.length + minJointDataSize A.getJointDataSizeOut
          + minSizeForJoint A.getJointDataSizeOut ≤ pe →
        (r < A.getJointDataSizeOut →
          r < (encodeBlocks X A last r t sa cull da v w pe st).rotationsSent) ∧
        (A.getJointDataSizeOut ≤ r → t < A.getJointDataSizeOut →
          t < (encodeBlocks X A last r t sa cull da v w pe st).translationsSent))) ∧
    ((encodeBlocks X A last r t sa cull da v w pe st).enc.includedFlags.testBit 14 = true →
      A.getJointDataSizeOut ≤ 255 →
      (encodeBlocks X A last r t sa cull da v w pe st).enc.includedFlags.testBit 12 = true ∧
      (encodeBlocks X A last r t sa cull da v w pe st).rotationsSent
        = r + (A.getJointDataSizeOut - r) ∧
      (encodeBlocks X A last r t sa cull da v w pe st).translationsSent
        = t + (A.getJointDataSizeOut - t)) := by
  have hrs := encodeBlocks_rotationsSent X A last r t sa cull da v w pe st
  have hts := encodeBlocks_translationsSent X A last r t sa cull da v w pe st
  have hout := jointDataSection_outcome X A last r t sa cull da v pe A.getJointDataSizeOut
    (st + (leadingEnc X A w pe st).body.length)
  constructor
  · intro h12
    have hent : jointEntered w pe st (numJointsFor A w) (leadingEnc X A w pe st) := by
      have := encodeBlocks_testBit_joint X A last r t sa cull da v w pe st
      rw [h12] at this
      exact of_decide_eq_true this.symm
    have hn := numJointsFor_of_joint A w hent.1
    rw [hn] at hent
    have hsp := (hasSpace_iff _ _ _).1 hent.2
    refine ⟨hent.1, hsp, ?_⟩
    intro hroom
    rw [hrs, hts, if_pos h12, if_pos h12]
    exact hout.1 hroom
  · intro h14 hJ
    have h12 := encodeBlocks_grab_joint X A last r t sa cull da v w pe st h14
    have hent : jointEntered w pe st (numJointsFor A w) (leadingEnc X A w pe st) := by
      have := encodeBlocks_testBit_joint X A last r t sa cull da v w pe st
      rw [h12] at this
      exact of_decide_eq_true this.symm
    have hn := numJointsFor_of_joint A w hent.1
    rw [encodeBlocks_testBit, hn] at h14
    have hl : (leadingEnc X A w pe st).includedFlags.testBit 14 = false :=
      testBit_false_of_lt (leadingEnc_spec X A w pe st).1 (by decide)
    rw [hl] at h14
    simp only [Bool.false_or, Bool.or_eq_true, Bool.and_eq_true, decide_eq_true_eq] at h14
    have hsp : st + (leadingEnc X A w pe st).body.length +
        (jointDataSection X A last r t sa cull da v pe A.getJointDataSizeOut
          (st + (leadingEnc X A w pe st).body.length)).bytes.length + FAR_GRAB_JOINTS_SIZE ≤ pe := by
      rcases h14 with h | h
      · rcases h.2 with h2 | h2
        · exact absurd h2 (by decide)
        · have := (hasSpace_iff _ _ _).1 h2.2
          simp only [List.length_append] at this
          omega
      · exact absurd h.1.1 (by decide)
    refine ⟨h12, ?_⟩
    rw [hrs, hts, if_pos h12, if_pos h12]
    exact hout.2 hsp hJ

/-- C34. The overflow test at the end of `toByteArray` never fires: for every avatar, every
initial flags, detail level, send status and `maxDataSize`, also one larger than the
pre-allocated size, the number of bytes written is at most `byteArraySize`, which is
`MAX_CONSTANT_HEADER_SIZE + 16 + maxFaceTrackerInfoSize(N) + maxJointDataSize(J) +
maxJointDefaultPoseFlagsSize(J) + FAR_GRAB_JOINTS_SIZE`; and a call with an admissible
`maxDataSize` returns a buffer of at most that many bytes. -/
theorem C34_no_buffer_overflow (X : Extern) (A : Avatar) (itemFlagsInit : Nat)
    (dataDetail : AvatarDataDetail) (lastSentJointData : List JointData)
    (sendStatus : SendStatus) (distanceAdjust : Bool) (viewerPosition : Vec3)
    (maxDataSize : Nat) :
    byteArraySize A = MAX_CONSTANT_HEADER_SIZE + 16 +
      maxFaceTrackerInfoSize A.faceTracker.blendshapeCoefficients.length +
      maxJointDataSize A.getJointDataSizeOut +
      maxJointDefaultPoseFlagsSize A.getJointDataSizeOut + FAR_GRAB_JOINTS_SIZE ∧
    ¬ (byteArraySize A < startFor A sendStatus +
      (encodeBlocksFor X A itemFlagsInit dataDetail lastSentJointData sendStatus distanceAdjust
        viewerPosition maxDataSize).enc.body.length) ∧
    ((maxDataSize = 0 ∨ MIN_BULK_PACKET_SIZE ≤ maxDataSize) →
      ∃ r, toByteArray X A itemFlagsInit dataDetail lastSentJointData sendStatus distanceAdjust
          viewerPosition maxDataSize = some r ∧
        r.bytes.length ≤ byteArraySize A) := by
  have hle : startFor A sendStatus +
      (encodeBlocksFor X A itemFlagsInit dataDetail lastSentJointData sendStatus distanceAdjust
        viewerPosition maxDataSize).enc.body.length ≤ byteArraySize A :=
    encodeBlocks_le_byteArraySize X A lastSentJointData _ _ _ _ distanceAdjust viewerPosition _ _
      sendStatus
  refine ⟨rfl, by omega, ?_⟩
  intro hmax
  by_cases hd : dataDetail = AvatarDataDetail.NoData
  · subst hd
    refine ⟨_, toByteArray_noData X A itemFlagsInit lastSentJointData sendStatus distanceAdjust
      viewerPosition maxDataSize hmax, ?_⟩
    have hs := startFor_le A sendStatus
    simp only [List.length_append, leBytes_length, startFor, byteArraySize,
      MAX_CONSTANT_HEADER_SIZE, MIN_BULK_PACKET_SIZE, NUM_BYTES_RFC4122_UUID, HEADER_SIZE] at *
    omega
  · refine ⟨_, toByteArray_eq X A itemFlagsInit dataDetail lastSentJointData sendStatus
      distanceAdjust viewerPosition maxDataSize hmax hd, ?_⟩
    simp only [List.length_append, leBytes_length, startFor] at hle ⊢
    omega

/-- C34 at a concrete input: three joints, every section wanted, the session id sent and a
`maxDataSize` of 100000, far above the pre-allocated size. -/
theorem C34_witness :
    ((100000 : Nat) = 0 ∨ MIN_BULK_PACKET_SIZE ≤ 100000) ∧
    byteArraySize (sampleAvatar 3) < 100000 ∧
    ∃ r, toByteArray sampleExtern (sampleAvatar 3) 0x7FFF AvatarDataDetail.SendAllData []
        uuidStatus false default 100000 = some r ∧
      r.bytes.length ≤ byteArraySize (sampleAvatar 3) :=
  ⟨by decide, by decide,
    (C34_no_buffer_overflow sampleExtern (sampleAvatar 3) 0x7FFF AvatarDataDetail.SendAllData []
      uuidStatus false default 100000).2.2 (by decide)⟩

/-- C33, amended. A joint data section is in the packet only when the joint data is wanted and
the space left where the section starts is at least `minJointDataSize(J)`, the count byte, the two
validity vectors and the scale float (`1 + 2 * ceil(J/8) + 4` bytes, no rotation and no
translation); and when at least `minJointDataSize(J) + minSizeForJoint(J)` bytes are left there
(`minSizeForJoint(J)` is `6 + ceil(J/8) + 4`), the rotation cursor increases when it was below
`J`, and else the translation cursor increases when it was below `J`. -/
theorem C33_joint_data_space_amended (X : Extern) (A : Avatar) (itemFlagsInit : Nat)
    (dataDetail : AvatarDataDetail) (lastSentJointData : List JointData)
    (sendStatus : SendStatus) (distanceAdjust : Bool) (viewerPosition : Vec3)
    (maxDataSize : Nat)
    (hmax : maxDataSize = 0 ∨ MIN_BULK_PACKET_SIZE ≤ maxDataSize) :
    minJointDataSize A.getJointDataSizeOut
      = 1 + 2 * calcBitVectorSize A.getJointDataSizeOut + 4 ∧
    minSizeForJoint A.getJointDataSizeOut = 6 + calcBitVectorSize A.getJointDataSizeOut + 4 ∧
    ∃ r, toByteArray X A itemFlagsInit dataDetail lastSentJointData sendStatus distanceAdjust
        viewerPosition maxDataSize = some r ∧
      (r.includedFlags.testBit 12 = true →
        r.wantedFlags.testBit 12 = true ∧
        startFor A sendStatus +
            (leadingEnc X A r.wantedFlags r.packetEnd (startFor A sendStatus)).body.length +
            minJointDataSize A.getJointDataSizeOut ≤ r.packetEnd ∧
        (startFor A sendStatus +
            (leadingEnc X A r.wantedFlags r.packetEnd (startFor A sendStatus)).body.length +
            minJointDataSize A.getJointDataSizeOut + minSizeForJoint A.getJointDataSizeOut
              ≤ r.packetEnd →
          (rotationsSentFor sendStatus < A.getJointDataSizeOut →
            rotationsSentFor sendStatus < r.sendStatus.rotationsSent) ∧
          (A.getJointDataSizeOut ≤ rotationsSentFor sendStatus →
            translationsSentFor sendStatus < A.getJointDataSizeOut →
            translationsSentFor sendStatus < r.sendStatus.translationsSent))) := by
  refine ⟨by simp only [minJointDataSize]; omega, by simp only [minSizeForJoint,
    SIX_BYTE_QUAT_SIZE], ?_⟩
  by_cases hd : dataDetail = AvatarDataDetail.NoData
  · subst hd
    refine ⟨_, toByteArray_noData X A itemFlagsInit lastSentJointData sendStatus distanceAdjust
      viewerPosition maxDataSize hmax, ?_⟩
    intro h
    simp at h
  · refine ⟨_, toByteArray_eq X A itemFlagsInit dataDetail lastSentJointData sendStatus
      distanceAdjust viewerPosition maxDataSize hmax hd, ?_⟩
    exact (encodeBlocks_joint_outcome X A lastSentJointData (rotationsSentFor sendStatus)
      (translationsSentFor sendStatus) _ _ distanceAdjust viewerPosition
      (wantedFlagsFor itemFlagsInit sendStatus) (packetEndFor A maxDataSize)
      (startFor A sendStatus)).1

/-- C33 amended at a concrete input: one joint, the global position and the joint data wanted,
`maxDataSize` 40. -/
theorem C33_amended_witness :
    ((40 : Nat) = 0 ∨ MIN_BULK_PACKET_SIZE ≤ 40) ∧
    ∃ r, toByteArray sampleExtern (sampleAvatar 1) 0x1001 AvatarDataDetail.SendAllData []
        freshStatus false default 40 = some r ∧
      r.includedFlags.testBit 12 = true ∧
      rotationsSentFor freshStatus < r.sendStatus.rotationsSent := by
  obtain ⟨r, hr, h⟩ := (C33_joint_data_space_amended sampleExtern (sampleAvatar 1) 0x1001
    AvatarDataDetail.SendAllData [] freshStatus false default 40 (by decide)).2.2
  have hv : (r.includedFlags.testBit 12, r.packetEnd, r.wantedFlags) = (true, 40, 0x1001) := by
    have e := congrArg
      (Option.map (fun q => (q.includedFlags.testBit 12, q.packetEnd, q.wantedFlags))) hr
    rw [Option.map_some'] at e
    exact Option.some.inj (e.symm.trans (by decide!))
  have h12 : r.includedFlags.testBit 12 = true := congrArg Prod.fst hv
  have hpe : r.packetEnd = 40 := congrArg (fun p => p.2.1) hv
  have hw : r.wantedFlags = 0x1001 := congrArg (fun p => p.2.2) hv
  have hroom := (h h12).2.2
  rw [hpe, hw] at hroom
  exact ⟨by decide, r, hr, h12, (hroom (by decide!)).1 (by decide)⟩

/-- C33 as stated fails: one joint, the global position and the joint data wanted, a fresh send
status and `maxDataSize` 21. Where the joint data section starts 7 bytes are left, fewer than the
`1 + 1 + 6 + 1 + 4` of a section with one rotation; the section is in the packet all the same
(mask `0x1001`, 21 bytes), the joint is unsent and neither cursor moves. -/
theorem C33_counterexample :
    (sampleAvatar 1).getJointDataSizeOut = 1 ∧
    rotationsSentFor freshStatus = 0 ∧ translationsSentFor freshStatus = 0 ∧
    21 - (startFor (sampleAvatar 1) freshStatus +
      (leadingEnc sampleExtern (sampleAvatar 1) 0x1001 21
        (startFor (sampleAvatar 1) freshStatus)).body.length) = 7 ∧
    (toByteArray sampleExtern (sampleAvatar 1) 0x1001 AvatarDataDetail.SendAllData []
        freshStatus false default 21).map
      (fun r => (r.includedFlags, r.bytes.length, r.sendStatus.rotationsSent,
        r.sendStatus.translationsSent, r.sendStatus.itemFlags))
      = some (0x1001, 21, 0, 0, 0x1000) := by
  decide!

/-- C35, amended. In every packet of an avatar with at most 255 joints, the far-grab block is in
the mask only if the joint data section is in the mask of the same packet and neither joint loop
stopped for lack of space: each cursor is returned at the joint count, or where it came in when
that was beyond the joint count. When the cursors that the call starts from do not exceed the
joint count, as after a new encode, both are returned equal to the joint count and the returned
flags have no joint data bit. -/
theorem C35_grab_joints_amended (X : Extern) (A : Avatar) (itemFlagsInit : Nat)
    (dataDetail : AvatarDataDetail) (lastSentJointData : List JointData)
    (sendStatus : SendStatus) (distanceAdjust : Bool) (viewerPosition : Vec3)
    (maxDataSize : Nat)
    (hmax : maxDataSize = 0 ∨ MIN_BULK_PACKET_SIZE ≤ maxDataSize)
    (hJ : A.getJointDataSizeOut ≤ 255) :
    ∃ r, toByteArray X A itemFlagsInit dataDetail lastSentJointData sendStatus distanceAdjust
        viewerPosition maxDataSize = some r ∧
      (r.includedFlags.testBit 14 = true →
        r.includedFlags.testBit 12 = true ∧
        r.sendStatus.rotationsSent
          = rotationsSentFor sendStatus + (A.getJointDataSizeOut - rotationsSentFor sendStatus) ∧
        r.sendStatus.translationsSent
          = translationsSentFor sendStatus
            + (A.getJointDataSizeOut - translationsSentFor sendStatus) ∧
        (rotationsSentFor sendStatus ≤ A.getJointDataSizeOut →
          translationsSentFor sendStatus ≤ A.getJointDataSizeOut →
          r.sendStatus.rotationsSent = A.getJointDataSizeOut ∧
          r.sendStatus.translationsSent = A.getJointDataSizeOut ∧
          r.sendStatus.itemFlags.testBit 12 = false)) := by
  by_cases hd : dataDetail = AvatarDataDetail.NoData
  · subst hd
    refine ⟨_, toByteArray_noData X A itemFlagsInit lastSentJointData sendStatus distanceAdjust
      viewerPosition maxDataSize hmax, ?_⟩
    intro h
    simp at h
  · refine ⟨_, toByteArray_eq X A itemFlagsInit dataDetail lastSentJointData sendStatus
      distanceAdjust viewerPosition maxDataSize hmax hd, ?_⟩
    intro h14
    obtain ⟨h12, hr, ht⟩ := (encodeBlocks_joint_outcome X A lastSentJointData
      (rotationsSentFor sendStatus) (translationsSentFor sendStatus) _ _ distanceAdjust
      viewerPosition (wantedFlagsFor itemFlagsInit sendStatus) (packetEndFor A maxDataSize)
      (startFor A sendStatus)).2 h14 hJ
    refine ⟨h12, hr, ht, ?_⟩
    intro hrot htr
    have hr2 : (encodeBlocksFor X A itemFlagsInit dataDetail lastSentJointData sendStatus
        distanceAdjust viewerPosition maxDataSize).rotationsSent = A.getJointDataSizeOut := by
      unfold encodeBlocksFor
      omega
    have ht2 : (encodeBlocksFor X A itemFlagsInit dataDetail lastSentJointData sendStatus
        distanceAdjust viewerPosition maxDataSize).translationsSent = A.getJointDataSizeOut := by
      unfold encodeBlocksFor
      omega
    refine ⟨hr2, ht2, ?_⟩
    have hextra : (encodeBlocksFor X A itemFlagsInit dataDetail lastSentJointData sendStatus
        distanceAdjust viewerPosition maxDataSize).extraReturnedFlags = 0 := by
      unfold encodeBlocksFor at hr2 ht2 ⊢
      rw [encodeBlocks_extra, if_neg]
      rintro ⟨-, h | h⟩
      · exact h hr2
      · exact h ht2
    show (((wantedFlagsFor itemFlagsInit sendStatus &&&
      ((encodeBlocksFor X A itemFlagsInit dataDetail lastSentJointData sendStatus distanceAdjust
        viewerPosition maxDataSize).enc.includedFlags ^^^ 65535)) |||
      (encodeBlocksFor X A itemFlagsInit dataDetail lastSentJointData sendStatus distanceAdjust
        viewerPosition maxDataSize).extraReturnedFlags) % 65536).testBit 12 = false
    rw [residual_testBit, hextra]
    have h12b : (encodeBlocksFor X A itemFlagsInit dataDetail lastSentJointData sendStatus
        distanceAdjust viewerPosition maxDataSize).enc.includedFlags.testBit 12 = true := h12
    rw [h12b]
    simp

/-- C35 amended at a concrete input: a new encode of an avatar with three joints and far-grab
joints, everything wanted and no size limit. -/
theorem C35_amended_witness :
    ((0 : Nat) = 0 ∨ MIN_BULK_PACKET_SIZE ≤ 0) ∧
    (sampleAvatar 3).getJointDataSizeOut ≤ 255 ∧
    ∃ r, toByteArray sampleExtern (sampleAvatar 3) 0x7FFF AvatarDataDetail.SendAllData []
        freshStatus false default 0 = some r ∧
      (r.includedFlags.testBit 14 = true →
        r.includedFlags.testBit 12 = true ∧
        r.sendStatus.rotationsSent
          = rotationsSentFor freshStatus
            + ((sampleAvatar 3).getJointDataSizeOut - rotationsSentFor freshStatus) ∧
        r.sendStatus.translationsSent
          = translationsSentFor freshStatus
            + ((sampleAvatar 3).getJointDataSizeOut - translationsSentFor freshStatus) ∧
        (rotationsSentFor freshStatus ≤ (sampleAvatar 3).getJointDataSizeOut →
          translationsSentFor freshStatus ≤ (sampleAvatar 3).getJointDataSizeOut →
          r.sendStatus.rotationsSent = (sampleAvatar 3).getJointDataSizeOut ∧
          r.sendStatus.translationsSent = (sampleAvatar 3).getJointDataSizeOut ∧
          r.sendStatus.itemFlags.testBit 12 = false)) :=
  ⟨by decide, by decide,
    C35_grab_joints_amended sampleExtern (sampleAvatar 3) 0x7FFF AvatarDataDetail.SendAllData []
      freshStatus false default 0 (by decide) (by decide)⟩

/-- C35 as stated fails: an avatar with one joint is encoded with a send status that continues
the joint data and the far-grab joints with both cursors at 5, with no size limit. The far-grab
block and the joint data section are in the mask (`0x5000`), but the cursors are returned at 5,
not at the joint count 1, and the returned flags have the joint data bit. -/
theorem C35_counterexample :
    (sampleAvatar 1).getJointDataSizeOut = 1 ∧
    (toByteArray sampleExtern (sampleAvatar 1) 0 AvatarDataDetail.SendAllData []
        beyondStatus false default 0).map
      (fun r => (r.includedFlags, r.includedFlags.testBit 14, r.sendStatus.rotationsSent,
        r.sendStatus.translationsSent, r.sendStatus.itemFlags,
        r.sendStatus.itemFlags.testBit 12))
      = some (0x5000, true, 5, 5, 0x1000, true) := by
  decide!

/-! ## C36: the encode without a size limit -/

theorem sectionsOffset_getD_le (m : Nat) (sizes : List Nat) (b k : Nat) :
    sectionsOffset m sizes b k + sizes.getD k 0 ≤ sizes.sum := by
  induction sizes generalizing b k with
  | nil => simp [sectionsOffset]
  | cons sz rest ih =>
    cases k with
    | zero => simp [sectionsOffset]
    | succ k =>
      have := ih (b + 1) k
      simp only [sectionsOffset, List.getD_cons_succ, List.sum_cons]
      split <;> omega

theorem leadingSizes_sum (X : Extern) (A : Avatar) :
    ((leadingSections X A).map (fun s => s.2.1)).sum = 133 + faceTrackerSpace A := by
  have hsizes : (leadingSections X A).map (fun s => s.2.1) =
      fixedSectionSizes ++ [faceTrackerSpace A] := rfl
  rw [hsizes, List.sum_append]
  simp [fixedSectionSizes, AVATAR_GLOBAL_POSITION_SIZE, AVATAR_BOUNDING_BOX_SIZE,
    AVATAR_ORIENTATION_SIZE, AVATAR_SCALE_SIZE, LOOK_AT_POSITION_SIZE, AUDIO_LOUDNESS_SIZE,
    SENSOR_TO_WORLD_SIZE, ADDITIONAL_FLAGS_SIZE, PARENT_INFO_SIZE, AVATAR_LOCAL_POSITION_SIZE,
    HAND_CONTROLLERS_SIZE]

/-- With the whole pre-allocated buffer as the budget every wanted leading section is in the
mask. -/
theorem leadingEnc_unlimited (X : Extern) (A : Avatar) (w st : Nat)
    (hst : st ≤ MIN_BULK_PACKET_SIZE) (k : Nat) (hk : k < 12) :
    (leadingEnc X A w (byteArraySize A) st).includedFlags.testBit k = w.testBit k := by
  obtain ⟨_, _, h3⟩ := leadingEnc_spec X A w (byteArraySize A) st
  have hle := sectionsOffset_getD_le (leadingEnc X A w (byteArraySize A) st).includedFlags
    ((leadingSections X A).map (fun s => s.2.1)) 0 k
  rw [leadingSizes_sum] at hle
  have hroom : st + sectionsOffset (leadingEnc X A w (byteArraySize A) st).includedFlags
      ((leadingSections X A).map (fun s => s.2.1)) 0 k +
      ((leadingSections X A).map (fun s => s.2.1)).getD k 0 ≤ byteArraySize A := by
    simp only [byteArraySize, MAX_CONSTANT_HEADER_SIZE, maxFaceTrackerInfoSize, faceTrackerSpace,
      MIN_BULK_PACKET_SIZE, NUM_BYTES_RFC4122_UUID, HEADER_SIZE, AVATAR_GLOBAL_POSITION_SIZE,
      AVATAR_BOUNDING_BOX_SIZE, AVATAR_ORIENTATION_SIZE, AVATAR_SCALE_SIZE, LOOK_AT_POSITION_SIZE,
      AUDIO_LOUDNESS_SIZE, SENSOR_TO_WORLD_SIZE, ADDITIONAL_FLAGS_SIZE, PARENT_INFO_SIZE,
      AVATAR_LOCAL_POSITION_SIZE, HAND_CONTROLLERS_SIZE, FAR_GRAB_JOINTS_SIZE] at *
    omega
  cases hw : w.testBit k
  · by_contra hc
    have hc2 : (leadingEnc X A w (byteArraySize A) st).includedFlags.testBit k = true := by
      simpa using hc
    have := ((h3 k hk).1 hc2).1
    rw [hw] at this
    exact absurd this (by decide)
  · exact (h3 k hk).2 ⟨hw, hroom⟩

theorem leadingEnc_body_le (X : Extern) (A : Avatar) (w pe st : Nat) :
    (leadingEnc X A w pe st).body.length ≤ 133 + faceTrackerSpace A := by
  have h2 : (leadingEnc X A w pe st).body.length ≤ _ :=
    encodeSections_length_le w pe st (leadingSections X A) { body := [], includedFlags := 0 }
  rw [leadingSections_sum] at h2
  simpa using h2

/-- With the whole pre-allocated buffer as the budget, a wanted set of the bits 0 to 14 that has
PACKET_HAS_GRAB_JOINTS only together with PACKET_HAS_JOINT_DATA, and cursors that do not exceed
the joint count: the mask is the wanted set, no flag is returned for incomplete joint data, and
when the joint data is wanted both cursors end at the joint count. -/
theorem encodeBlocks_unlimited (X : Extern) (A : Avatar) (last : List JointData) (r t : Nat)
    (sa cull da : Bool) (v : Vec3) (w st : Nat)
    (hst : st ≤ MIN_BULK_PACKET_SIZE) (hw : w < 2 ^ 15)
    (hgrab : w.testBit 14 = true → w.testBit 12 = true)
    (hr : r ≤ A.getJointDataSizeOut) (ht : t ≤ A.getJointDataSizeOut) :
    (encodeBlocks X A last r t sa cull da v w (byteArraySize A) st).enc.includedFlags = w ∧
    (encodeBlocks X A last r t sa cull da v w (byteArraySize A) st).extraReturnedFlags = 0 ∧
    (w.testBit 12 = true →
      (encodeBlocks X A last r t sa cull da v w (byteArraySize A) st).rotationsSent
        = A.getJointDataSizeOut ∧
      (encodeBlocks X A last r t sa cull da v w (byteArraySize A) st).translationsSent
        = A.getJointDataSizeOut) := by
  have hlead := leadingEnc_body_le X A w (byteArraySize A) st
  have hnj := numJointsFor_le A w
  have hmono := maxJointDataSize_mono hnj
  have hbv := calcBitVectorSize_mono hnj
  -- the joint data block is entered when it is wanted
  have hent : w.testBit 12 = true →
      jointEntered w (byteArraySize A) st (numJointsFor A w)
        (leadingEnc X A w (byteArraySize A) st) := by
    intro h12
    refine ⟨h12, ?_⟩
    rw [hasSpace_iff, numJointsFor_of_joint A w h12]
    simp only [byteArraySize, MAX_CONSTANT_HEADER_SIZE, maxFaceTrackerInfoSize, faceTrackerSpace,
      maxJointDataSize, minJointDataSize, maxJointDefaultPoseFlagsSize,
      MIN_BULK_PACKET_SIZE, NUM_BYTES_RFC4122_UUID, HEADER_SIZE, AVATAR_GLOBAL_POSITION_SIZE,
      AVATAR_BOUNDING_BOX_SIZE, AVATAR_ORIENTATION_SIZE, AVATAR_SCALE_SIZE, LOOK_AT_POSITION_SIZE,
      AUDIO_LOUDNESS_SIZE, SENSOR_TO_WORLD_SIZE, ADDITIONAL_FLAGS_SIZE, PARENT_INFO_SIZE,
      AVATAR_LOCAL_POSITION_SIZE, HAND_CONTROLLERS_SIZE, FAR_GRAB_JOINTS_SIZE] at *
    omega
  have h12 : (encodeBlocks X A last r t sa cull da v w (byteArraySize A) st
      ).enc.includedFlags.testBit 12 = w.testBit 12 := by
    rw [encodeBlocks_testBit_joint]
    cases hw12 : w.testBit 12
    · simp only [decide_eq_false_iff_not]
      intro hc
      rw [hc.1] at hw12
      exact absurd hw12 (by decide)
    · simp only [decide_eq_true_eq]
      exact hent hw12
  have hjs := jointDataSection_length_le X A last r t sa cull da v (byteArraySize A)
    (numJointsFor A w) (st + (leadingEnc X A w (byteArraySize A) st).body.length)
  -- the far-grab block
  have h14 : (encodeBlocks X A last r t sa cull da v w (byteArraySize A) st
      ).enc.includedFlags.testBit 14 = w.testBit 14 := by
    rw [encodeBlocks_testBit]
    have hl : (leadingEnc X A w (byteArraySize A) st).includedFlags.testBit 14 = false :=
      testBit_false_of_lt (leadingEnc_spec X A w (byteArraySize A) st).1 (by decide)
    rw [hl]
    cases hw14 : w.testBit 14
    · simp
    · have he := hent (hgrab hw14)
      have hsp : hasSpace (byteArraySize A)
          (st + ((leadingEnc X A w (byteArraySize A) st).body ++
            (jointDataSection X A last r t sa cull da v (byteArraySize A) (numJointsFor A w)
              (st + (leadingEnc X A w (byteArraySize A) st).body.length)).bytes).length)
          FAR_GRAB_JOINTS_SIZE = true := by
        rw [hasSpace_iff, List.length_append]
        simp only [byteArraySize, MAX_CONSTANT_HEADER_SIZE, maxFaceTrackerInfoSize,
          faceTrackerSpace, maxJointDefaultPoseFlagsSize,
          MIN_BULK_PACKET_SIZE, NUM_BYTES_RFC4122_UUID, HEADER_SIZE, AVATAR_GLOBAL_POSITION_SIZE,
          AVATAR_BOUNDING_BOX_SIZE, AVATAR_ORIENTATION_SIZE, AVATAR_SCALE_SIZE,
          LOOK_AT_POSITION_SIZE, AUDIO_LOUDNESS_SIZE, SENSOR_TO_WORLD_SIZE, ADDITIONAL_FLAGS_SIZE,
          PARENT_INFO_SIZE, AVATAR_LOCAL_POSITION_SIZE, HAND_CONTROLLERS_SIZE,
          FAR_GRAB_JOINTS_SIZE] at *
        omega
      rw [hsp]
      simp [he]
  -- the default pose flags block
  have h13 : (encodeBlocks X A last r t sa cull da v w (byteArraySize A) st
      ).enc.includedFlags.testBit 13 = w.testBit 13 := by
    rw [encodeBlocks_testBit]
    have hl : (leadingEnc X A w (byteArraySize A) st).includedFlags.testBit 13 = false :=
      testBit_false_of_lt (leadingEnc_spec X A w (byteArraySize A) st).1 (by decide)
    rw [hl]
    cases hw13 : w.testBit 13
    · simp
    · have hstep := jointDataStep_length_le X A last r t sa cull da v w (byteArraySize A) st
        (numJointsFor A w) (leadingEnc X A w (byteArraySize A) st)
      have hsp : hasSpace (byteArraySize A)
          (st + (jointDataStep X A last r t sa cull da v w (byteArraySize A) st
            (numJointsFor A w) (leadingEnc X A w (byteArraySize A) st)).enc.body.length)
          (1 + 2 * calcBitVectorSize (numJointsFor A w)) = true := by
        rw [hasSpace_iff]
        simp only [byteArraySize, MAX_CONSTANT_HEADER_SIZE, maxFaceTrackerInfoSize,
          faceTrackerSpace, maxJointDefaultPoseFlagsSize,
          MIN_BULK_PACKET_SIZE, NUM_BYTES_RFC4122_UUID, HEADER_SIZE, AVATAR_GLOBAL_POSITION_SIZE,
          AVATAR_BOUNDING_BOX_SIZE, AVATAR_ORIENTATION_SIZE, AVATAR_SCALE_SIZE,
          LOOK_AT_POSITION_SIZE, AUDIO_LOUDNESS_SIZE, SENSOR_TO_WORLD_SIZE, ADDITIONAL_FLAGS_SIZE,
          PARENT_INFO_SIZE, AVATAR_LOCAL_POSITION_SIZE, HAND_CONTROLLERS_SIZE,
          FAR_GRAB_JOINTS_SIZE] at *
        omega
      simp [hsp]
  have hmask : (encodeBlocks X A last r t sa cull da v w (byteArraySize A) st
      ).enc.includedFlags = w := by
    apply Nat.eq_of_testBit_eq
    intro k
    by_cases hk : k < 12
    · rw [encodeBlocks_testBit_low _ _ _ _ _ _ _ _ _ _ _ _ k hk]
      exact leadingEnc_unlimited X A w st hst k hk
    · by_cases hk15 : 15 ≤ k
      · rw [testBit_false_of_lt (encodeBlocks_lt X A last r t sa cull da v w (byteArraySize A) st)
          hk15, testBit_false_of_lt hw hk15]
      · have : k = 12 ∨ k = 13 ∨ k = 14 := by omega
        rcases this with h | h | h <;> subst h
        · exact h12
        · exact h13
        · exact h14
  -- the joint loops run to the end
  have hcomplete : w.testBit 12 = true →
      (encodeBlocks X A last r t sa cull da v w (byteArraySize A) st).rotationsSent
        = A.getJointDataSizeOut ∧
      (encodeBlocks X A last r t sa cull da v w (byteArraySize A) st).translationsSent
        = A.getJointDataSizeOut := by
    intro hw12
    have hinc : (encodeBlocks X A last r t sa cull da v w (byteArraySize A) st
        ).enc.includedFlags.testBit 12 = true := by rw [h12, hw12]
    rw [encodeBlocks_rotationsSent, encodeBlocks_translationsSent, if_pos hinc, if_pos hinc]
    rw [numJointsFor_of_joint A w hw12] at hjs
    obtain ⟨r1, r2, _, _, _, _, _, _, r9⟩ := rotationPass_spec X A last r sa cull da v
      (byteArraySize A) A.getJointDataSizeOut
      (st + (leadingEnc X A w (byteArraySize A) st).body.length)
    obtain ⟨t1, t2, _, _, _, _, _, _, t9⟩ := translationPass_spec X A last t sa cull da v
      (byteArraySize A) A.getJointDataSizeOut
      (st + (leadingEnc X A w (byteArraySize A) st).body.length + 1 +
        calcBitVectorSize A.getJointDataSizeOut +
        (rotationPass X A last r sa cull da v (byteArraySize A) A.getJointDataSizeOut
          (st + (leadingEnc X A w (byteArraySize A) st).body.length)).out.length)
    rw [jointDataSection_length] at hjs
    simp only [jointDataSection] at hjs ⊢
    generalize hL : (rotationPass X A last r sa cull da v (byteArraySize A)
      A.getJointDataSizeOut (st + (leadingEnc X A w (byteArraySize A) st).body.length)
        ).out.length = L at *
    generalize hT : (translationPass X A last t sa cull da v (byteArraySize A)
      A.getJointDataSizeOut (st + (leadingEnc X A w (byteArraySize A) st).body.length + 1 +
        calcBitVectorSize A.getJointDataSizeOut + L)).out.length = T at *
    constructor
    · rcases r9 with h | h
      · omega
      · have hs : hasSpace (byteArraySize A)
            (st + (leadingEnc X A w (byteArraySize A) st).body.length + 1 +
              calcBitVectorSize A.getJointDataSizeOut + L)
            (minSizeForJoint A.getJointDataSizeOut) = true := by
          rw [hasSpace_iff]
          simp only [byteArraySize, MAX_CONSTANT_HEADER_SIZE, maxFaceTrackerInfoSize,
            faceTrackerSpace, maxJointDataSize, maxJointDefaultPoseFlagsSize, minSizeForJoint,
            SIX_BYTE_QUAT_SIZE,
            MIN_BULK_PACKET_SIZE, NUM_BYTES_RFC4122_UUID, HEADER_SIZE, AVATAR_GLOBAL_POSITION_SIZE,
            AVATAR_BOUNDING_BOX_SIZE, AVATAR_ORIENTATION_SIZE, AVATAR_SCALE_SIZE,
            LOOK_AT_POSITION_SIZE, AUDIO_LOUDNESS_SIZE, SENSOR_TO_WORLD_SIZE,
            ADDITIONAL_FLAGS_SIZE, PARENT_INFO_SIZE, AVATAR_LOCAL_POSITION_SIZE,
            HAND_CONTROLLERS_SIZE, FAR_GRAB_JOINTS_SIZE] at *
          omega
        rw [hs] at h
        exact absurd h (by decide)
    · rcases t9 with h | h
      · omega
      · have hs : hasSpace (byteArraySize A)
            (st + (leadingEnc X A w (byteArraySize A) st).body.length + 1 +
              calcBitVectorSize A.getJointDataSizeOut + L +
              calcBitVectorSize A.getJointDataSizeOut + 4 + T)
            (minSizeForJoint A.getJointDataSizeOut) = true := by
          rw [hasSpace_iff]
          simp only [byteArraySize, MAX_CONSTANT_HEADER_SIZE, maxFaceTrackerInfoSize,
            faceTrackerSpace, maxJointDataSize, maxJointDefaultPoseFlagsSize, minSizeForJoint,
            SIX_BYTE_QUAT_SIZE,
            MIN_BULK_PACKET_SIZE, NUM_BYTES_RFC4122_UUID, HEADER_SIZE, AVATAR_GLOBAL_POSITION_SIZE,
            AVATAR_BOUNDING_BOX_SIZE, AVATAR_ORIENTATION_SIZE, AVATAR_SCALE_SIZE,
            LOOK_AT_POSITION_SIZE, AUDIO_LOUDNESS_SIZE, SENSOR_TO_WORLD_SIZE,
            ADDITIONAL_FLAGS_SIZE, PARENT_INFO_SIZE, AVATAR_LOCAL_POSITION_SIZE,
            HAND_CONTROLLERS_SIZE, FAR_GRAB_JOINTS_SIZE] at *
          omega
        rw [hs] at h
        exact absurd h (by decide)
  refine ⟨hmask, ?_, hcomplete⟩
  rw [encodeBlocks_extra, if_neg]
  rintro ⟨hinc, hne⟩
  rw [h12] at hinc
  obtain ⟨e1, e2⟩ := hcomplete hinc
  rcases hne with h | h
  · exact h e1
  · exact h e2

/-- C36, amended. With `maxDataSize = 0` the budget is the pre-allocated size. If the wanted set
(the initial flags of a new encode, the flags left over of a continuing one) holds only the bits
0 to 14 and has PACKET_HAS_GRAB_JOINTS only together with PACKET_HAS_JOINT_DATA, and the cursors
that the call starts from do not exceed the joint count (a new encode starts from 0), then one
call returns a packet whose mask is the wanted set, the returned flags are 0, and when the joint
data is wanted both cursors are returned equal to the joint count: no joint loop stops for lack
of space. -/
theorem C36_unlimited_encode_amended (X : Extern) (A : Avatar) (itemFlagsInit : Nat)
    (dataDetail : AvatarDataDetail) (lastSentJointData : List JointData)
    (sendStatus : SendStatus) (distanceAdjust : Bool) (viewerPosition : Vec3)
    (hw : wantedFlagsFor itemFlagsInit sendStatus < 2 ^ 15)
    (hgrab : (wantedFlagsFor itemFlagsInit sendStatus).testBit 14 = true →
      (wantedFlagsFor itemFlagsInit sendStatus).testBit 12 = true)
    (hrot : rotationsSentFor sendStatus ≤ A.getJointDataSizeOut)
    (htr : translationsSentFor sendStatus ≤ A.getJointDataSizeOut) :
    ∃ r, toByteArray X A itemFlagsInit dataDetail lastSentJointData sendStatus distanceAdjust
        viewerPosition 0 = some r ∧
      r.includedFlags = r.wantedFlags ∧
      (dataDetail ≠ AvatarDataDetail.NoData →
        r.wantedFlags = wantedFlagsFor itemFlagsInit sendStatus ∧
        r.packetEnd = byteArraySize A) ∧
      r.sendStatus.itemFlags = 0 ∧
      (r.wantedFlags.testBit 12 = true →
        r.sendStatus.rotationsSent = A.getJointDataSizeOut ∧
        r.sendStatus.translationsSent = A.getJointDataSizeOut) := by
  by_cases hd : dataDetail = AvatarDataDetail.NoData
  · subst hd
    refine ⟨_, toByteArray_noData X A itemFlagsInit lastSentJointData sendStatus distanceAdjust
      viewerPosition 0 (Or.inl rfl), rfl, fun h => absurd rfl h, rfl, ?_⟩
    intro h
    simp at h
  · obtain ⟨hmask, hextra, hcomplete⟩ := encodeBlocks_unlimited X A lastSentJointData
      (rotationsSentFor sendStatus) (translationsSentFor sendStatus)
      (decide (dataDetail = AvatarDataDetail.SendAllData))
      (decide (dataDetail = AvatarDataDetail.CullSmallData)) distanceAdjust viewerPosition
      (wantedFlagsFor itemFlagsInit sendStatus) (startFor A sendStatus)
      (startFor_le A sendStatus) hw hgrab hrot htr
    have hpe : packetEndFor A 0 = byteArraySize A := by
      unfold packetEndFor
      rw [if_pos rfl]
    have hfor : encodeBlocksFor X A itemFlagsInit dataDetail lastSentJointData sendStatus
        distanceAdjust viewerPosition 0 =
        encodeBlocks X A lastSentJointData (rotationsSentFor sendStatus)
          (translationsSentFor sendStatus) (decide (dataDetail = AvatarDataDetail.SendAllData))
          (decide (dataDetail = AvatarDataDetail.CullSmallData)) distanceAdjust viewerPosition
          (wantedFlagsFor itemFlagsInit sendStatus) (byteArraySize A)
          (startFor A sendStatus) := by
      unfold encodeBlocksFor
      rw [hpe]
    refine ⟨_, toByteArray_eq X A itemFlagsInit dataDetail lastSentJointData sendStatus
      distanceAdjust viewerPosition 0 (Or.inl rfl) hd, ?_, fun _ => ⟨rfl, hpe⟩, ?_, ?_⟩
    · show (encodeBlocksFor X A itemFlagsInit dataDetail lastSentJointData sendStatus
        distanceAdjust viewerPosition 0).enc.includedFlags = wantedFlagsFor itemFlagsInit sendStatus
      rw [hfor, hmask]
    · show ((wantedFlagsFor itemFlagsInit sendStatus &&&
        ((encodeBlocksFor X A itemFlagsInit dataDetail lastSentJointData sendStatus distanceAdjust
          viewerPosition 0).enc.includedFlags ^^^ 65535)) |||
        (encodeBlocksFor X A itemFlagsInit dataDetail lastSentJointData sendStatus distanceAdjust
          viewerPosition 0).extraReturnedFlags) % 65536 = 0
      rw [hfor, hmask, hextra]
      apply eq_zero_of_testBit_false
      intro k
      rw [residual_testBit]
      cases (wantedFlagsFor itemFlagsInit sendStatus).testBit k <;> simp
    · intro h12
      show (encodeBlocksFor X A itemFlagsInit dataDetail lastSentJointData sendStatus
          distanceAdjust viewerPosition 0).rotationsSent = A.getJointDataSizeOut ∧
        (encodeBlocksFor X A itemFlagsInit dataDetail lastSentJointData sendStatus
          distanceAdjust viewerPosition 0).translationsSent = A.getJointDataSizeOut
      rw [hfor]
      exact hcomplete h12

/-- C36 amended at a concrete input: a new encode of an avatar with three joints, every section
wanted and no size limit. -/
theorem C36_amended_witness :
    wantedFlagsFor 0x7FFF freshStatus < 2 ^ 15 ∧
    ((wantedFlagsFor 0x7FFF freshStatus).testBit 14 = true →
      (wantedFlagsFor 0x7FFF freshStatus).testBit 12 = true) ∧
    rotationsSentFor freshStatus ≤ (sampleAvatar 3).getJointDataSizeOut ∧
    translationsSentFor freshStatus ≤ (sampleAvatar 3).getJointDataSizeOut ∧
    ∃ r, toByteArray sampleExtern (sampleAvatar 3) 0x7FFF AvatarDataDetail.SendAllData []
        freshStatus false default 0 = some r ∧
      r.includedFlags = r.wantedFlags ∧
      (AvatarDataDetail.SendAllData ≠ AvatarDataDetail.NoData →
        r.wantedFlags = wantedFlagsFor 0x7FFF freshStatus ∧
        r.packetEnd = byteArraySize (sampleAvatar 3)) ∧
      r.sendStatus.itemFlags = 0 ∧
      (r.wantedFlags.testBit 12 = true →
        r.sendStatus.rotationsSent = (sampleAvatar 3).getJointDataSizeOut ∧
        r.sendStatus.translationsSent = (sampleAvatar 3).getJointDataSizeOut) :=
  ⟨by decide, by decide, by decide, by decide,
    C36_unlimited_encode_amended sampleExtern (sampleAvatar 3) 0x7FFF
      AvatarDataDetail.SendAllData [] freshStatus false default (by decide) (by decide)
      (by decide) (by decide)⟩

/-- C36 as stated fails, at an avatar with one joint and no size limit. A new encode whose
initial flags are the bit 15, which no section has, returns the flags `0x8000`, not 0. And an
encode with a send status that continues the joint data and the far-grab joints with both
cursors at 5 puts both in the mask but returns the cursors at 5, not at the joint count 1, and
the flags `0x1000`, not 0. -/
theorem C36_counterexample :
    (sampleAvatar 1).getJointDataSizeOut = 1 ∧
    (toByteArray sampleExtern (sampleAvatar 1) 0x8000 AvatarDataDetail.SendAllData []
        freshStatus false default 0).map
      (fun r => (r.wantedFlags, r.includedFlags, r.sendStatus.itemFlags))
      = some (0x8000, 0, 0x8000) ∧
    (toByteArray sampleExtern (sampleAvatar 1) 0 AvatarDataDetail.SendAllData []
        beyondStatus false default 0).map
      (fun r => (r.wantedFlags, r.includedFlags, r.sendStatus.rotationsSent,
        r.sendStatus.translationsSent, r.sendStatus.itemFlags))
      = some (0x5000, 0x5000, 5, 5, 0x1000) := by
  decide!



/-! ## C32, C37 and C38: the skeleton -/

theorem getD_map_range' {α : Type} (f : Nat → α) (s n i : Nat) (d : α) (h : i < n) :
    ((List.range' s n).map f).getD i d = f (s + i) := by
  rw [List.getD_eq_getElem?_getD, List.getElem?_map, List.getElem?_range' _ _ h]
  simp

theorem skeletonHeader_bytes_length (h : SkeletonHeader) :
    h.bytes.length = SKELETON_HEADER_SIZE := by
  simp [SkeletonHeader.bytes, leBytes_length, SKELETON_HEADER_SIZE]

theorem skeletonJoint_bytes_length (r : SkeletonJointRecord) :
    r.bytes.length = SKELETON_JOINT_SIZE := by
  simp [SkeletonJointRecord.bytes, leBytes_length, SKELETON_JOINT_SIZE]

theorem packSkeletonRecords_length (X : Extern) (header : SkeletonHeader) (i : Nat)
    (sk : List UnpackedJointData) :
    (packSkeletonRecords X header i sk).length = sk.length * SKELETON_JOINT_SIZE := by
  induction sk generalizing i with
  | nil => simp [packSkeletonRecords]
  | cons j rest ih =>
    simp only [packSkeletonRecords, List.length_append, skeletonJoint_bytes_length, ih,
      List.length_cons]
    ring

/-- The header that is read back from the bytes of a header: the joint count and the length of
the string table as a byte and a 16-bit number. -/
theorem readSkeletonHeader_bytes (h : SkeletonHeader) (rest : List Nat) :
    (readSkeletonHeader (readBytes (h.bytes ++ rest) 0 SKELETON_HEADER_SIZE)).numJoints
      = h.numJoints % 256 ∧
    (readSkeletonHeader (readBytes (h.bytes ++ rest) 0 SKELETON_HEADER_SIZE)).stringTableLength
      = h.stringTableLength % 65536 := by
  simp only [readSkeletonHeader, SkeletonHeader.bytes, leBytes, readBytes, SKELETON_HEADER_SIZE,
    List.cons_append, List.nil_append, List.drop, List.take, fromLE, List.drop_zero,
    Nat.reduceAdd, List.take_succ_cons, List.take_zero, List.drop_succ_cons]
  constructor <;> omega

/-- The bone type and the parent index that are read back from the bytes of a joint record. -/
theorem readSkeletonJoint_bytes (r : SkeletonJointRecord) :
    (readSkeletonJoint r.bytes).boneType = r.boneType % 256 ∧
    (readSkeletonJoint r.bytes).parentIndex = r.parentIndex % 256 := by
  simp only [readSkeletonJoint, SkeletonJointRecord.bytes, leBytes, readBytes,
    List.cons_append, List.nil_append, List.drop, List.take, fromLE, List.drop_zero,
    Nat.reduceAdd, List.take_succ_cons, List.take_zero, List.drop_succ_cons]
  constructor <;> omega

/-- The record of the joint `i` in the bytes that `packSkeletonRecords` writes. -/
theorem readBytes_packSkeletonRecords (X : Extern) (header : SkeletonHeader)
    (sk : List UnpackedJointData) (pre post : List Nat) (start i : Nat) (hi : i < sk.length) :
    readBytes (pre ++ packSkeletonRecords X header start sk ++ post)
        (pre.length + i * SKELETON_JOINT_SIZE) SKELETON_JOINT_SIZE
      = (packSkeletonJoint X header (start + i) (sk.getD i default)).bytes := by
  induction sk generalizing pre start i with
  | nil => simp at hi
  | cons j rest ih =>
    cases i with
    | zero =>
      simp only [packSkeletonRecords, Nat.zero_mul, Nat.add_zero, List.getD_cons_zero]
      have h := readBytes_append_mid pre (packSkeletonJoint X header start j).bytes
        (packSkeletonRecords X header (start + 1) rest ++ post)
      rw [skeletonJoint_bytes_length] at h
      simp only [List.append_assoc] at h ⊢
      exact h
    | succ i =>
      have hi2 : i < rest.length := by simpa using hi
      have h := ih (pre ++ (packSkeletonJoint X header start j).bytes) (start + 1) i hi2
      simp only [packSkeletonRecords, List.getD_cons_succ]
      rw [show start + (i + 1) = start + 1 + i by omega]
      rw [← h]
      simp only [List.length_append, skeletonJoint_bytes_length, List.append_assoc]
      congr 1
      ring

/-- The first loop of `unpackSkeletonData` when every record lies inside the received bytes. -/
theorem unpackSkeletonJoints_inside (X : Extern) (S : SkeletonExtern) (header : SkeletonHeader)
    (data : List Nat) (fuel i : Nat) (joints : List UnpackedJointData)
    (h : SKELETON_HEADER_SIZE + (i + fuel) * SKELETON_JOINT_SIZE ≤ data.length) :
    unpackSkeletonJoints X S header data fuel i joints =
      Except.ok (joints ++ (List.range' i fuel).map (unpackSkeletonJoint X S header data)) := by
  induction fuel generalizing i joints with
  | zero => simp [unpackSkeletonJoints]
  | succ fuel ih =>
    have hin : readInside data (SKELETON_HEADER_SIZE + i * SKELETON_JOINT_SIZE)
        SKELETON_JOINT_SIZE = Except.ok () := by
      unfold readInside
      rw [if_pos]
      have : (i + (fuel + 1)) * SKELETON_JOINT_SIZE =
          i * SKELETON_JOINT_SIZE + SKELETON_JOINT_SIZE + fuel * SKELETON_JOINT_SIZE := by ring
      omega
    simp only [unpackSkeletonJoints, hin]
    rw [ih (i + 1) _ (by rw [show i + 1 + fuel = i + (fuel + 1) by omega]; exact h)]
    simp [List.range'_succ]

/-- The first loop of `unpackSkeletonData` when it returns: every record lay inside the received
bytes, and the joints are those of the records in wire order. -/
theorem unpackSkeletonJoints_ok (X : Extern) (S : SkeletonExtern) (header : SkeletonHeader)
    (data : List Nat) (fuel i : Nat) (joints res : List UnpackedJointData)
    (h : unpackSkeletonJoints X S header data fuel i joints = Except.ok res) :
    SKELETON_HEADER_SIZE + (i + fuel) * SKELETON_JOINT_SIZE ≤
        max data.length (SKELETON_HEADER_SIZE + i * SKELETON_JOINT_SIZE) ∧
      res = joints ++ (List.range' i fuel).map (unpackSkeletonJoint X S header data) := by
  induction fuel generalizing i joints with
  | zero =>
    simp only [unpackSkeletonJoints, Except.ok.injEq] at h
    simp [h]
  | succ fuel ih =>
    simp only [unpackSkeletonJoints] at h
    by_cases hin : SKELETON_HEADER_SIZE + i * SKELETON_JOINT_SIZE + SKELETON_JOINT_SIZE
        ≤ data.length
    · have hr : readInside data (SKELETON_HEADER_SIZE + i * SKELETON_JOINT_SIZE)
          SKELETON_JOINT_SIZE = Except.ok () := by
        unfold readInside
        rw [if_pos hin]
      rw [hr] at h
      obtain ⟨h1, h2⟩ := ih (i + 1) _ h
      refine ⟨?_, ?_⟩
      · have e1 : (i + 1 + fuel) * SKELETON_JOINT_SIZE
            = (i + (fuel + 1)) * SKELETON_JOINT_SIZE := by ring_nf
        have e2 : (i + 1) * SKELETON_JOINT_SIZE
            = i * SKELETON_JOINT_SIZE + SKELETON_JOINT_SIZE := by ring
        rw [e1, e2] at h1
        have : max data.length (SKELETON_HEADER_SIZE +
            (i * SKELETON_JOINT_SIZE + SKELETON_JOINT_SIZE)) = data.length := by
          apply max_eq_left
          omega
        rw [this] at h1
        exact le_trans h1 (le_max_left _ _)
      · rw [h2]
        simp [List.range'_succ]
    · have hr : readInside data (SKELETON_HEADER_SIZE + i * SKELETON_JOINT_SIZE)
          SKELETON_JOINT_SIZE = Except.error (SkeletonFault.readOutside
            (SKELETON_HEADER_SIZE + i * SKELETON_JOINT_SIZE) SKELETON_JOINT_SIZE
            data.length) := by
        unfold readInside
        rw [if_neg hin]
      rw [hr] at h
      exact absurd h (by simp)

theorem packSkeletonHeader_foldl (sk : List UnpackedJointData) (h0 : SkeletonHeader) :
    (sk.foldl packSkeletonHeaderStep h0).numJoints = h0.numJoints ∧
    (sk.foldl packSkeletonHeaderStep h0).stringTableLength ≤
      h0.stringTableLength + (sk.map (fun joint => joint.jointName.length)).sum ∧
    (h0.stringTableLength < 65536 →
      (sk.foldl packSkeletonHeaderStep h0).stringTableLength < 65536) := by
  induction sk generalizing h0 with
  | nil => simp
  | cons j rest ih =>
    obtain ⟨h1, h2, h3⟩ := ih (packSkeletonHeaderStep h0 j)
    simp only [List.foldl_cons, List.map_cons, List.sum_cons]
    refine ⟨h1, ?_, ?_⟩
    · refine le_trans h2 ?_
      simp only [packSkeletonHeaderStep]
      omega
    · intro _
      apply h3
      simp only [packSkeletonHeaderStep]
      omega

/-- The header of a skeleton: the joint count as a byte, and a string table length that is at
most the length of the string table and fits 16 bits. -/
theorem packSkeletonHeader_spec (sk : List UnpackedJointData) :
    (packSkeletonHeader sk).numJoints = sk.length % 256 ∧
    (packSkeletonHeader sk).stringTableLength ≤ (skeletonStringTable sk).length ∧
    (packSkeletonHeader sk).stringTableLength < 65536 := by
  obtain ⟨h1, h2, h3⟩ := packSkeletonHeader_foldl sk
    { maxScaleDimension := 0, maxTranslationDimension := 0, numJoints := sk.length % 256,
      stringTableLength := 0 }
  refine ⟨h1, ?_, h3 (by simp)⟩
  have hl : (skeletonStringTable sk).length =
      (sk.map (fun joint => joint.jointName.length)).sum := by
    simp only [skeletonStringTable, List.length_flatten, List.map_map]
    rfl
  rw [hl]
  simpa using h2

/-- When `unpackSkeletonData` returns, the header, the records and the string table that the
header announces lay inside the received bytes, and the joints are those of the records in wire
order, with the names cut from the string table. -/
theorem unpackSkeletonData_ok (X : Extern) (S : SkeletonExtern) (data : List Nat)
    (joints : List UnpackedJointData) (h : unpackSkeletonData X S data = Except.ok joints) :
    SKELETON_HEADER_SIZE +
        (readSkeletonHeader (readBytes data 0 SKELETON_HEADER_SIZE)).numJoints
          * SKELETON_JOINT_SIZE +
        (readSkeletonHeader (readBytes data 0 SKELETON_HEADER_SIZE)).stringTableLength
          ≤ data.length ∧
    joints =
      (List.range' 0 (readSkeletonHeader (readBytes data 0 SKELETON_HEADER_SIZE)).numJoints).map
        (fun i =>
          { unpackSkeletonJoint X S (readSkeletonHeader (readBytes data 0 SKELETON_HEADER_SIZE))
              data i with
            jointName := S.subString
              (S.fromUtf8 (readBytes data (SKELETON_HEADER_SIZE +
                (readSkeletonHeader (readBytes data 0 SKELETON_HEADER_SIZE)).numJoints
                  * SKELETON_JOINT_SIZE)
                (readSkeletonHeader (readBytes data 0 SKELETON_HEADER_SIZE)).stringTableLength))
              (unpackSkeletonJoint X S
                (readSkeletonHeader (readBytes data 0 SKELETON_HEADER_SIZE)) data i).stringStart
              (unpackSkeletonJoint X S
                (readSkeletonHeader (readBytes data 0 SKELETON_HEADER_SIZE))
                data i).stringLength }) := by
  unfold unpackSkeletonData at h
  by_cases h0 : 0 + SKELETON_HEADER_SIZE ≤ data.length
  · have hr0 : readInside data 0 SKELETON_HEADER_SIZE = Except.ok () := by
      unfold readInside
      rw [if_pos h0]
    simp only [hr0] at h
    generalize hhd : readSkeletonHeader (readBytes data 0 SKELETON_HEADER_SIZE) = header at *
    cases hj : unpackSkeletonJoints X S header data header.numJoints 0 [] with
    | error f =>
      rw [hj] at h
      exact absurd h (by simp)
    | ok js =>
      rw [hj] at h
      obtain ⟨hlen, hjs⟩ := unpackSkeletonJoints_ok X S header data _ _ _ _ hj
      by_cases h1 : SKELETON_HEADER_SIZE + header.numJoints * SKELETON_JOINT_SIZE +
          header.stringTableLength ≤ data.length
      · have hr1 : readInside data
            (SKELETON_HEADER_SIZE + header.numJoints * SKELETON_JOINT_SIZE)
            header.stringTableLength = Except.ok () := by
          unfold readInside
          rw [if_pos h1]
        simp only [hr1, Except.ok.injEq] at h
        refine ⟨h1, ?_⟩
        rw [← h, hjs, List.nil_append, List.map_map]
        rfl
      · have hr1 : readInside data
            (SKELETON_HEADER_SIZE + header.numJoints * SKELETON_JOINT_SIZE)
            header.stringTableLength = Except.error (SkeletonFault.readOutside
              (SKELETON_HEADER_SIZE + header.numJoints * SKELETON_JOINT_SIZE)
              header.stringTableLength data.length) := by
          unfold readInside
          rw [if_neg h1]
        simp only [hr1] at h
        exact absurd h (by simp)
  · have hr0 : readInside data 0 SKELETON_HEADER_SIZE = Except.error
        (SkeletonFault.readOutside 0 SKELETON_HEADER_SIZE data.length) := by
      unfold readInside
      rw [if_neg h0]
    simp only [hr0] at h
    exact absurd h (by simp)

/-- When the header, the records and the string table that the header announces lie inside the
received bytes, `unpackSkeletonData` returns. -/
theorem unpackSkeletonData_inside (X : Extern) (S : SkeletonExtern) (data : List Nat)
    (h0 : SKELETON_HEADER_SIZE ≤ data.length)
    (h1 : SKELETON_HEADER_SIZE +
        (readSkeletonHeader (readBytes data 0 SKELETON_HEADER_SIZE)).numJoints
          * SKELETON_JOINT_SIZE +
        (readSkeletonHeader (readBytes data 0 SKELETON_HEADER_SIZE)).stringTableLength
          ≤ data.length) :
    ∃ joints, unpackSkeletonData X S data = Except.ok joints := by
  unfold unpackSkeletonData
  have hr0 : readInside data 0 SKELETON_HEADER_SIZE = Except.ok () := by
    unfold readInside
    rw [if_pos (by omega)]
  simp only [hr0]
  generalize hhd : readSkeletonHeader (readBytes data 0 SKELETON_HEADER_SIZE) = header at *
  rw [unpackSkeletonJoints_inside X S header data header.numJoints 0 []
    (by rw [Nat.zero_add]; omega)]
  have hr1 : readInside data (SKELETON_HEADER_SIZE + header.numJoints * SKELETON_JOINT_SIZE)
      header.stringTableLength = Except.ok () := by
    unfold readInside
    rw [if_pos h1]
  simp only [hr1]
  exact ⟨_, rfl⟩

/-- What `unpackSkeletonData` makes of the bytes that `packSkeletonData` writes for a skeleton of
at most 255 joints: the joint `i` has the bone type and the parent index of the skeleton reduced
to a byte, the parent index -1 when that bone type is a root, and the joint index `i`. -/
theorem unpack_packSkeletonBytes (X : Extern) (S : SkeletonExtern)
    (sk : List UnpackedJointData)
    (hutf : ∀ s, s.length ≤ (S.toUtf8 s).length) (hJ : sk.length ≤ 255) :
    packSkeletonData X S sk = some (packSkeletonBytes X S sk) ∧
    ∃ joints, unpackSkeletonData X S (packSkeletonBytes X S sk) = Except.ok joints ∧
      joints.length = sk.length ∧
      ∀ i, i < sk.length →
        (joints.getD i default).jointIndex = i ∧
        (joints.getD i default).boneType
          = (((sk.getD i default).boneType % 256).toNat % 256 : Nat) ∧
        (joints.getD i default).parentIndex =
          if (joints.getD i default).boneType = S.SkeletonRoot ∨
              (joints.getD i default).boneType = S.NonSkeletonRoot then -1
          else ((((sk.getD i default).parentIndex % 256).toNat % 256 : Nat) : Int) := by
  obtain ⟨hn, hs1, hs2⟩ := packSkeletonHeader_spec sk
  have hn2 : (packSkeletonHeader sk).numJoints = sk.length := by
    rw [hn]
    omega
  have hs3 : (packSkeletonHeader sk).stringTableLength ≤
      (S.toUtf8 (skeletonStringTable sk)).length := le_trans hs1 (hutf _)
  have hpack : packSkeletonData X S sk = some (packSkeletonBytes X S sk) := by
    unfold packSkeletonData
    simp only [hn2]
    rw [if_neg (by omega), if_neg (by omega)]
  have hlen : (packSkeletonBytes X S sk).length =
      SKELETON_HEADER_SIZE + sk.length * SKELETON_JOINT_SIZE +
        (packSkeletonHeader sk).stringTableLength := by
    simp only [packSkeletonBytes, List.length_append, skeletonHeader_bytes_length,
      packSkeletonRecords_length, List.length_take]
    omega
  have hhead := readSkeletonHeader_bytes (packSkeletonHeader sk)
    (packSkeletonRecords X (packSkeletonHeader sk) 0 sk ++
      (S.toUtf8 (skeletonStringTable sk)).take (packSkeletonHeader sk).stringTableLength)
  rw [← List.append_assoc] at hhead
  have hdata : (packSkeletonHeader sk).bytes ++
      packSkeletonRecords X (packSkeletonHeader sk) 0 sk ++
      (S.toUtf8 (skeletonStringTable sk)).take (packSkeletonHeader sk).stringTableLength
      = packSkeletonBytes X S sk := rfl
  rw [hdata] at hhead
  obtain ⟨hh1, hh2⟩ := hhead
  rw [hn2] at hh1
  have hh1b : (readSkeletonHeader (readBytes (packSkeletonBytes X S sk) 0
      SKELETON_HEADER_SIZE)).numJoints = sk.length := by
    rw [hh1]
    omega
  have hh2b : (readSkeletonHeader (readBytes (packSkeletonBytes X S sk) 0
      SKELETON_HEADER_SIZE)).stringTableLength = (packSkeletonHeader sk).stringTableLength := by
    rw [hh2]
    omega
  obtain ⟨joints, hjoints⟩ := unpackSkeletonData_inside X S (packSkeletonBytes X S sk)
    (by omega) (by rw [hh1b, hh2b]; omega)
  obtain ⟨-, hshape⟩ := unpackSkeletonData_ok X S _ _ hjoints
  rw [hh1b] at hshape
  refine ⟨hpack, joints, hjoints, ?_, ?_⟩
  · rw [hshape, List.length_map, List.length_range']
  · intro i hi
    have hrec := readBytes_packSkeletonRecords X (packSkeletonHeader sk) sk
      (packSkeletonHeader sk).bytes
      ((S.toUtf8 (skeletonStringTable sk)).take (packSkeletonHeader sk).stringTableLength)
      0 i hi
    rw [skeletonHeader_bytes_length, hdata, Nat.zero_add] at hrec
    obtain ⟨hb, hp⟩ := readSkeletonJoint_bytes
      (packSkeletonJoint X (packSkeletonHeader sk) i (sk.getD i default))
    rw [hshape, getD_map_range' _ _ _ _ _ hi, Nat.zero_add]
    simp only [unpackSkeletonJoint, hrec, hb, hp]
    exact ⟨trivial, rfl, rfl⟩

/-- C32, amended. For every buffer that `unpackSkeletonData` unpacks, the joints are numbered
0, 1, ... in wire order, keep the bone type of their record, and have the parent index -1
exactly when that bone type is `SkeletonRoot` or `NonSkeletonRoot`, and the stored parent index
otherwise. And for a skeleton of at most 255 joints whose bone types fit the one-byte field
(0 to 255), whose root joints have the parent -1 and whose other joints have a parent index in
0..254, `packSkeletonData` returns and unpacking its bytes restores the joint count and, for
every joint, the bone type, the joint index (its place in the skeleton) and the parent index. -/
theorem C32_skeleton_round_trip_amended (X : Extern) (S : SkeletonExtern)
    (sk : List UnpackedJointData)
    (hutf : ∀ s, s.length ≤ (S.toUtf8 s).length)
    (hJ : sk.length ≤ 255)
    (hbone : ∀ j ∈ sk, 0 ≤ j.boneType ∧ j.boneType < 256)
    (hroot : ∀ j ∈ sk, (j.boneType = S.SkeletonRoot ∨ j.boneType = S.NonSkeletonRoot) →
      j.parentIndex = -1)
    (hchild : ∀ j ∈ sk, ¬ (j.boneType = S.SkeletonRoot ∨ j.boneType = S.NonSkeletonRoot) →
      0 ≤ j.parentIndex ∧ j.parentIndex ≤ 254) :
    (∀ data joints, unpackSkeletonData X S data = Except.ok joints →
      joints.length = (readSkeletonHeader (readBytes data 0 SKELETON_HEADER_SIZE)).numJoints ∧
      ∀ i, i < joints.length →
        (joints.getD i default).jointIndex = i ∧
        (joints.getD i default).boneType =
          (readSkeletonJoint (readBytes data (SKELETON_HEADER_SIZE + i * SKELETON_JOINT_SIZE)
            SKELETON_JOINT_SIZE)).boneType ∧
        ((joints.getD i default).parentIndex = -1 ↔
          ((joints.getD i default).boneType = S.SkeletonRoot ∨
            (joints.getD i default).boneType = S.NonSkeletonRoot)) ∧
        (¬ ((joints.getD i default).boneType = S.SkeletonRoot ∨
            (joints.getD i default).boneType = S.NonSkeletonRoot) →
          (joints.getD i default).parentIndex =
            (readSkeletonJoint (readBytes data (SKELETON_HEADER_SIZE + i * SKELETON_JOINT_SIZE)
              SKELETON_JOINT_SIZE)).parentIndex)) ∧
    ∃ data joints, packSkeletonData X S sk = some data ∧
      unpackSkeletonData X S data = Except.ok joints ∧
      joints.length = sk.length ∧
      ∀ i, i < sk.length →
        (joints.getD i default).boneType = (sk.getD i default).boneType ∧
        (joints.getD i default).jointIndex = i ∧
        (joints.getD i default).parentIndex = (sk.getD i default).parentIndex := by
  constructor
  · intro data joints h
    obtain ⟨-, hshape⟩ := unpackSkeletonData_ok X S data joints h
    have hlen : joints.length =
        (readSkeletonHeader (readBytes data 0 SKELETON_HEADER_SIZE)).numJoints := by
      rw [hshape, List.length_map, List.length_range']
    refine ⟨hlen, ?_⟩
    intro i hi
    rw [hlen] at hi
    rw [hshape, getD_map_range' _ _ _ _ _ hi, Nat.zero_add]
    simp only [unpackSkeletonJoint]
    refine ⟨trivial, trivial, ?_, ?_⟩
    · constructor
      · intro hp
        by_contra hc
        rw [if_neg hc] at hp
        omega
      · intro hr
        rw [if_pos hr]
    · intro hr
      rw [if_neg hr]
  · obtain ⟨hpack, joints, hjoints, hlen, hall⟩ := unpack_packSkeletonBytes X S sk hutf hJ
    refine ⟨_, joints, hpack, hjoints, hlen, ?_⟩
    intro i hi
    obtain ⟨h1, h2, h3⟩ := hall i hi
    have hmem : sk.getD i default ∈ sk := by
      rw [List.getD_eq_getElem _ _ hi]
      exact List.getElem_mem hi
    obtain ⟨hb0, hb1⟩ := hbone _ hmem
    have hbt : (joints.getD i default).boneType = (sk.getD i default).boneType := by
      rw [h2]
      omega
    refine ⟨hbt, h1, ?_⟩
    rw [h3, hbt]
    by_cases hr : (sk.getD i default).boneType = S.SkeletonRoot ∨
        (sk.getD i default).boneType = S.NonSkeletonRoot
    · rw [if_pos hr, hroot _ hmem hr]
    · rw [if_neg hr]
      obtain ⟨hp0, hp1⟩ := hchild _ hmem hr
      omega

/-- C32 amended at a concrete input: the skeleton of the root `Hips` and its child `Head`, with
names of one byte per code unit. -/
theorem C32_amended_witness :
    sampleSkeleton.length ≤ 255 ∧
    (∀ j ∈ sampleSkeleton, 0 ≤ j.boneType ∧ j.boneType < 256) ∧
    ∃ data joints, packSkeletonData sampleExtern sampleSkeletonExtern sampleSkeleton = some data ∧
      unpackSkeletonData sampleExtern sampleSkeletonExtern data = Except.ok joints ∧
      joints.length = sampleSkeleton.length ∧
      ∀ i, i < sampleSkeleton.length →
        (joints.getD i default).boneType = (sampleSkeleton.getD i default).boneType ∧
        (joints.getD i default).jointIndex = i ∧
        (joints.getD i default).parentIndex = (sampleSkeleton.getD i default).parentIndex :=
  ⟨by decide, by decide,
    (C32_skeleton_round_trip_amended sampleExtern sampleSkeletonExtern sampleSkeleton
      (fun _ => le_refl _) (by decide) (by decide) (by decide) (by decide)).2⟩

/-- C32 as stated fails. A skeleton of 256 joints, a root with the parent -1 and 255 children of
the joint 0, gets a header that announces 0 joints, and `packSkeletonData` writes its 256 records
past the end of the array that it sized for 0. And a skeleton of one joint whose bone type is 256
and whose parent index is 0 comes back with the bone type 0 and the parent index -1. -/
theorem C32_counterexample :
    bigSkeleton.length = 256 ∧
    (∀ j ∈ bigSkeleton, (j.boneType = sampleSkeletonExtern.SkeletonRoot ∨
      j.boneType = sampleSkeletonExtern.NonSkeletonRoot) → j.parentIndex = -1) ∧
    (∀ j ∈ bigSkeleton, ¬ (j.boneType = sampleSkeletonExtern.SkeletonRoot ∨
      j.boneType = sampleSkeletonExtern.NonSkeletonRoot) →
        0 ≤ j.parentIndex ∧ j.parentIndex ≤ 254) ∧
    (packSkeletonHeader bigSkeleton).numJoints = 0 ∧
    packSkeletonData sampleExtern sampleSkeletonExtern bigSkeleton = none ∧
    ((packSkeletonData sampleExtern sampleSkeletonExtern oddSkeleton).map
      (fun data => (unpackSkeletonData sampleExtern sampleSkeletonExtern data).toOption.map
        (fun joints => joints.map (fun j => (j.boneType, j.parentIndex)))))
      = some (some [((0 : Int), (-1 : Int))]) := by
  decide!

/-- C37, the code at the failing inputs. For the skeleton of one root joint at the origin the
header's `maxTranslationDimension` is `0.0`, not strictly positive, and the default translation
is divided by it: `0.0 / 0.0` in each component. For the skeleton of one joint with the default
translation (1.0, -3.0, 0.0) the header's `maxTranslationDimension` is `1.0`, less than the
magnitude `3.0` of the second component. The joint data section of `toByteArray` takes
`fabsf` of each component and starts from `0.001f`: it gets `3.0` and `0.001` for the same
translations. -/
theorem C37_skeleton_maxima :
    (packSkeletonHeader rootOnlySkeleton).maxTranslationDimension = 0 ∧
    floatLess 0 (packSkeletonHeader rootOnlySkeleton).maxTranslationDimension = false ∧
    (∀ X : Extern,
      (packSkeletonJoint X (packSkeletonHeader rootOnlySkeleton) 0
        (rootOnlySkeleton.getD 0 default)).defaultTranslation =
      X.packFloatVec3ToSignedTwoByteFixed
        { x := X.fdiv 0 0, y := X.fdiv 0 0, z := X.fdiv 0 0 } TRANSLATION_COMPRESSION_RADIX) ∧
    (packSkeletonHeader lopsidedSkeleton).maxTranslationDimension = 0x3F800000 ∧
    floatLess (packSkeletonHeader lopsidedSkeleton).maxTranslationDimension
      (fabsf (lopsidedSkeleton.getD 0 default).defaultTranslation.y) = true ∧
    maxTranslationDimensionFor lopsidedAvatar 0 1 = 0x40400000 ∧
    maxTranslationDimensionFor originAvatar 0 1 = FLOAT_0_001 := by
  refine ⟨by decide, by decide, fun _ => rfl, by decide, by decide, by decide, by decide⟩

/-- C38, the code at the failing inputs. `unpackSkeletonData` returns exactly when the header,
the records and the string table that the header announces lie inside the received bytes, and
nothing tests that before the reads: on the empty buffer it reads the header at the offsets 0
to 10; on a header alone that announces one joint it reads the record at the offsets from 11 on;
on a header alone that announces a string table of 5 bytes it reads these at the offsets 11 to
15. -/
theorem C38_unchecked_reads (X : Extern) (S : SkeletonExtern) :
    (∀ data, (∃ joints, unpackSkeletonData X S data = Except.ok joints) ↔
      (SKELETON_HEADER_SIZE ≤ data.length ∧
        SKELETON_HEADER_SIZE +
          (readSkeletonHeader (readBytes data 0 SKELETON_HEADER_SIZE)).numJoints
            * SKELETON_JOINT_SIZE +
          (readSkeletonHeader (readBytes data 0 SKELETON_HEADER_SIZE)).stringTableLength
            ≤ data.length)) ∧
    unpackSkeletonData X S [] =
      Except.error (SkeletonFault.readOutside 0 SKELETON_HEADER_SIZE 0) ∧
    headerOnlyBuffer.length = SKELETON_HEADER_SIZE ∧
    unpackSkeletonData X S headerOnlyBuffer =
      Except.error (SkeletonFault.readOutside SKELETON_HEADER_SIZE SKELETON_JOINT_SIZE
        headerOnlyBuffer.length) ∧
    unpackSkeletonData X S tableMissingBuffer =
      Except.error (SkeletonFault.readOutside SKELETON_HEADER_SIZE 5
        tableMissingBuffer.length) := by
  refine ⟨?_, rfl, rfl, rfl, rfl⟩
  intro data
  constructor
  · rintro ⟨joints, h⟩
    have h1 := (unpackSkeletonData_ok X S data joints h).1
    exact ⟨by omega, h1⟩
  · rintro ⟨h0, h1⟩
    exact unpackSkeletonData_inside X S data h0 h1

/-! ## C39: the outbound driver -/

end AvatarDataStream
